import Mathlib

/-!
The warp WebAssembly interpreter: executor handlers, opcode dispatch, validator
handlers and the life cycle of the container.

A shallow embedding of the executor of `src/src/warp-execution.c` together with
the value encoding of `src/src/warp-encode.c`, the opcodes of
`src/src/warp-wasm.h`, the dispatch table and the handlers of
`src/src/warp-type-check.c` and the host functions of `src/src/warp.c`.

Conventions of the embedding.

* C unsigned integers are natural numbers reduced explicitly modulo `2^w`;
  C signed integers are integers in the two's-complement range, produced by
  the casts `to_i8`, `to_i32`, `to_i64`.
* The host is little-endian with a 64-bit `size_t`: byte `i` of a 64-bit
  payload `v` is `(v / 256^i) % 256`.
* A handler `wrp_err_t f(wrp_vm_t *vm)` is a function from the container state
  to a result and the container state it leaves behind; `Except.ok ()` is the
  return of `WRP_SUCCESS`, and `WRP_CHECK` is the bind of `Exec`.
* The headers `warp.h`, `warp-buf.h`, `warp-error.h`, `warp-config.h` and the
  file `warp-stack-ops.c` are not among the sources. What the handlers use of
  them is modelled from the specification and from the way the sources use it;
  each such definition says so.
* Signed addition, subtraction, multiplication and in-range shifts wrap in
  two's complement. A shift whose count is outside `0 .. w - 1` has no value
  in C; the shift handlers take the value of such a shift as a parameter.
* Loops are total recursive functions; a loop that is not structurally
  recursive carries its decreasing measure.
* A validator handler `wrp_err_t f(wrp_vm_t *vm, wrp_wasm_mdle_t *out_mdle)`
  that only reads the module record takes the record as an argument. The
  module record has the fields that `warp-type-check.c` reads.
* A function of a file that is not among the sources and that the embedded
  code calls without the specification describing it (`wrp_exec`,
  `wrp_scan_mdle`, `wrp_stk_exec_pop_block`, `wrp_stk_check_block_sig`, ...)
  is a parameter of the definition that calls it.
-/

namespace Warp

/-! ## Machine integers -/

/-- The cast `(uint32_t)x`. -/
def to_u32 (x : Int) : Nat := (x % 4294967296).toNat

/-- The cast `(uint64_t)x`. -/
def to_u64 (x : Int) : Nat := (x % 18446744073709551616).toNat

/-- The cast `(int8_t)x`, wrapping to two's complement. -/
def to_i8 (x : Int) : Int := (x + 128) % 256 - 128

/-- The cast `(int32_t)x`, wrapping to two's complement. -/
def to_i32 (x : Int) : Int := (x + 2147483648) % 4294967296 - 2147483648

/-- The cast `(int64_t)x`, wrapping to two's complement. -/
def to_i64 (x : Int) : Int :=
  (x + 9223372036854775808) % 18446744073709551616 - 9223372036854775808

def INT32_MIN : Int := -2147483648

def INT64_MIN : Int := -9223372036854775808

/-- Byte `i` of the object representation of `v`: `((uint8_t *)&v)[i]`. -/
def byte_at (v i : Nat) : Nat := (v / 256 ^ i) % 256

/-- The assignment `((uint8_t *)&v)[i] = b`. -/
def set_byte (v i b : Nat) : Nat := v - byte_at v i * 256 ^ i + (b % 256) * 256 ^ i

/-! ## Type encodings and error codes (`warp-wasm.h`, `warp-error.h`) -/

def UNKNOWN : Int := 0x00
def I32 : Int := 0x7f
def I64 : Int := 0x7e
def F32 : Int := 0x7d
def F64 : Int := 0x7c
def VOID : Int := 0x40

def GLOBAL_IMMUTABLE : Nat := 0x00
def GLOBAL_MUTABLE : Nat := 0x01

def BLOCK : Nat := 0x00
def BLOCK_FUNC : Nat := 0x01
def BLOCK_IF : Nat := 0x02
def BLOCK_LOOP : Nat := 0x03
def BLOCK_EXPR : Nat := 0x04

/-- Modelled from the spec: the flat error enumeration of `warp-error.h`, which is
not among the sources. The constructors are the codes the sources name, plus
`WRP_ERR_READ_OVERFLOW` for the `read-overflow` failure of the byte stream
reader (section 4.1 of the specification) and `WRP_ERR_STK_TYPE_MISMATCH` for
the `stk-type-mismatch` failure of the validator (section 7). -/
inductive wrp_err_t where
  | WRP_SUCCESS
  | WRP_ERR_UNKNOWN
  | WRP_ERR_READ_OVERFLOW
  | WRP_ERR_INVALID_OPCODE
  | WRP_ERR_INVALID_STK_OPERATION
  | WRP_ERR_UNREACHABLE_CODE_EXECUTED
  | WRP_ERR_I32_DIVIDE_BY_ZERO
  | WRP_ERR_I64_DIVIDE_BY_ZERO
  | WRP_ERR_I32_OVERFLOW
  | WRP_ERR_I64_OVERFLOW
  | WRP_ERR_INVALID_INTEGER_CONVERSION
  | WRP_ERR_INVALID_MEMORY_ACCESS
  | WRP_ERR_MEMORY_ALLOCATION_FAILED
  | WRP_ERR_INSTRUCTION_OVERFLOW
  | WRP_ERR_INVALID_INSTRUCTION_STREAM
  | WRP_ERR_INVALID_BLOCK_SIGNATURE
  | WRP_ERR_INVALID_BRANCH_TABLE
  | WRP_ERR_INVALID_FUNC_IDX
  | WRP_ERR_INVALID_GLOBAL_IDX
  | WRP_ERR_INVALID_LOCAL_IDX
  | WRP_ERR_INVALID_TYPE_IDX
  | WRP_ERR_INVALID_RESERVED
  | WRP_ERR_INVALID_INITIALZER_EXPRESSION
  | WRP_ERR_MDLE_BRANCH_TABLE_OVERFLOW
  | WRP_ERR_MDLE_IF_ELSE_MISMATCH
  | WRP_ERR_MDLE_INVALID_BYTES
  | WRP_ERR_MDLE_INVALID_END_OPCODE
  | WRP_ERR_VALUEFUL_IF_WITH_NO_ELSE
  | WRP_ERR_STK_TYPE_MISMATCH
  deriving DecidableEq, Repr

/-! ## Value encoding (`warp-encode.c`) -/

/-- The byte-copy loop shared by the encoders and decoders: bytes `0 .. n-1` of
`src` are written over the same bytes of a zero-initialised `out`. -/
def copy_bytes (n src : Nat) : Nat :=
  (List.range n).foldl (fun out i => set_byte out i (byte_at src i)) 0

def wrp_encode_i32 (value : Int) : Nat := copy_bytes 4 (to_u32 value)

def wrp_encode_i64 (value : Int) : Nat := copy_bytes 8 (to_u64 value)

def wrp_decode_i32 (value : Nat) : Int := to_i32 (copy_bytes 4 value)

def wrp_decode_i64 (value : Nat) : Int := to_i64 (copy_bytes 8 value)

/-- The encoder `wrp_encode_f32`. A `float` is carried as its 32-bit object
representation `value`, of which the loop copies the four bytes. -/
def wrp_encode_f32 (value : Nat) : Nat := copy_bytes 4 value

/-- The encoder `wrp_encode_f64`, on the 64-bit object representation of a `double`. -/
def wrp_encode_f64 (value : Nat) : Nat := copy_bytes 8 value

/-- The decoder `wrp_decode_f32`: the object representation of the `float` it returns. -/
def wrp_decode_f32 (value : Nat) : Nat := copy_bytes 4 value

/-- The decoder `wrp_decode_f64`: the object representation of the `double` it
returns. -/
def wrp_decode_f64 (value : Nat) : Nat := copy_bytes 8 value

/-! ## Container state -/

/-- Modelled from the spec: one operand stack cell, a 64-bit payload and a one-byte
type tag (the sources read `vm->oprd_stk[i].value` and `vm->oprd_stk[i].type`; the
declaration is in `warp.h`, which is not among the sources). -/
structure wrp_oprd_t where
  value : Nat
  type : Int
  deriving DecidableEq, Repr

/-- Modelled from the spec: a byte stream with a cursor, `(bytes, size, pos)`
(`wrp_buf_t` of `warp-buf.h`, which is not among the sources; the sources use
the fields `bytes`, `sz` and `pos`). -/
structure wrp_buf_t where
  bytes : List Nat
  sz : Nat
  pos : Nat
  deriving DecidableEq, Repr

/-- A linear memory (`wrp_memory_t` of `warp-wasm.h`). The buffer behind the pointer
`bytes` is a map from byte index to byte; its extent is
`num_pages * PAGE_SIZE`. `num_pages` and `max_pages` are `uint32_t`. -/
structure wrp_memory_t where
  bytes : Nat → Fin 256
  num_pages : Nat
  max_pages : Nat

/-- Modelled from the spec: `PAGE_SIZE` of `warp-config.h`, which is not among the
sources; a page is 65536 bytes, and the byte size of a memory is the product
`num_pages * 65536` as the specification writes it. -/
def PAGE_SIZE : Nat := 65536

/-- Modelled from the spec: a control frame, `(block kind, signature, operand stack
height at entry, unreachable flag, address)` (the sources use the fields `type`,
`signature`, `oprd_stk_ptr`, `unreachable` and `address` of `vm->ctrl_stk[i]`;
the declaration is in `warp.h`, which is not among the sources). -/
structure wrp_ctrl_frame_t where
  type : Nat
  signature : Int
  oprd_stk_ptr : Int
  unreachable : Bool
  address : Nat
  deriving DecidableEq, Repr

/-- Modelled from the spec: a call frame (the sources use the fields `func_idx` and
`oprd_stk_ptr` of `vm->call_stk[i]`; the declaration is in `warp.h`, which is
not among the sources). -/
structure wrp_call_frame_t where
  func_idx : Nat
  oprd_stk_ptr : Int
  deriving DecidableEq, Repr

/-- A function of a module (`wrp_func_t` of `warp-wasm.h`), as the executor handlers
read it through `vm->mdle->funcs[func_idx]`. An array behind a pointer is the
list of its elements, and an element past the end reads as `0`. -/
structure wrp_func_t where
  type_idx : Nat := 0
  local_types : List Int := []
  num_locals : Nat := 0
  code : List Nat := []
  code_sz : Nat := 0
  block_addrs : List Nat := []
  block_labels : List Nat := []
  num_blocks : Nat := 0
  if_addrs : List Nat := []
  if_labels : List Nat := []
  else_addrs : List Nat := []
  num_ifs : Nat := 0
  deriving DecidableEq, Repr

/-- A global of a module (`wrp_global_t` of `warp-wasm.h`); `value` is the content
of the 64-bit cell behind the pointer of that name. -/
structure wrp_global_t where
  value : Nat := 0
  type : Int := 0
  mutability : Nat := 0
  deriving DecidableEq, Repr

/-- The part of the module record that the validator handlers and `wrp_call` read,
under the field names of `warp-type-check.c` and `warp.c`
(`out_mdle->func_type_idxs[func_idx]`, `out_mdle->local_types[...]`,
`vm->mdle->num_funcs`, and so on). An array is the list of its elements and an
element past the end reads as `0`. The counts and indices are `uint32_t`, the
types `int8_t` tags. `global_mutability` is the declared mutability of each
global (`mutability` of `wrp_global_t` in `warp-wasm.h`, `GLOBAL_IMMUTABLE` or
`GLOBAL_MUTABLE`), which no handler of `warp-type-check.c` reads.

`code_bodies[i]` and `code_bodies_sz[i]` are the code of function `i` and its
size. The jump tables that the validator fills are flat arrays over all
functions: `block_offsets[i]` and `block_counts[i]` give the first slot and the
number of slots of function `i` in `block_addresses` and `block_labels`, and
`if_offsets`, `if_counts` do so for `if_addresses`, `else_addresses` and
`if_labels`; offsets and counts are `uint32_t`, addresses and labels `size_t`.

`funcs` and `globals` are the arrays of that name of `warp-wasm.h`, which the
handlers of `warp-execution.c` read through `vm->mdle`: that file follows the
layout of the header, the validator the flat one. -/
structure wrp_wasm_mdle_t where
  num_funcs : Nat := 0
  func_type_idxs : List Nat := []
  param_counts : List Nat := []
  param_type_offsets : List Nat := []
  param_types : List Int := []
  result_counts : List Nat := []
  result_type_offsets : List Nat := []
  result_types : List Int := []
  local_counts : List Nat := []
  local_type_offsets : List Nat := []
  local_types : List Int := []
  num_globals : Nat := 0
  global_types : List Int := []
  global_mutability : List Nat := []
  code_bodies : List (List Nat) := []
  code_bodies_sz : List Nat := []
  block_offsets : List Nat := []
  block_counts : List Nat := []
  block_addresses : List Nat := []
  block_labels : List Nat := []
  if_offsets : List Nat := []
  if_counts : List Nat := []
  if_addresses : List Nat := []
  else_addresses : List Nat := []
  if_labels : List Nat := []
  funcs : List wrp_func_t := []
  globals : List wrp_global_t := []
  deriving DecidableEq, Repr

/-- The summary of a module that the scanner fills in (`wrp_wasm_meta_t` of
`warp-wasm.h`); the initialiser `{0}` of `wrp_instantiate_mdle` is the default
value. -/
structure wrp_wasm_meta_t where
  num_types : Nat := 0
  num_type_params : Nat := 0
  num_type_returns : Nat := 0
  num_imports : Nat := 0
  import_name_buf_sz : Nat := 0
  import_field_buf_sz : Nat := 0
  num_funcs : Nat := 0
  num_tables : Nat := 0
  num_memories : Nat := 0
  num_globals : Nat := 0
  num_exports : Nat := 0
  export_name_buf_sz : Nat := 0
  num_elem_segments : Nat := 0
  num_elem : Nat := 0
  elem_expr_buf_sz : Nat := 0
  num_code_locals : Nat := 0
  code_buf_sz : Nat := 0
  num_block_ops : Nat := 0
  num_if_ops : Nat := 0
  num_data_segments : Nat := 0
  data_buf_sz : Nat := 0
  data_expr_buf_sz : Nat := 0
  deriving DecidableEq, Repr

/-- Modelled from the spec: the part of the VM container (`wrp_vm_t` of `warp.h`, which
is not among the sources) that the executor handlers below act on.

* `alloc_fn size align` is the host allocator callback; `none` is the null
  pointer, `some buf` a fresh buffer with indeterminate contents `buf`.
* `memory` is `vm->mdle->memories[0]` of the attached module.
* `oprd_stk` is the live part of the operand stack, top first;
  `oprd_stk_max` is the capacity of the array that holds it.
* `opcode_stream` is the current opcode cursor.
* `ctrl_stk` and `call_stk` are the live parts of the control and call stacks,
  top first; `err` is the last error.
* `mdle` is the pointer `vm->mdle`: `none` is the null pointer, `some m` an
  attached module record `m`, whose linear memory is the field `memory`.
* `ctrl_stk_max` and `call_stk_max` are the capacities of the arrays that hold
  the control and call stacks. -/
structure wrp_vm_t where
  alloc_fn : Nat → Nat → Option (Nat → Fin 256)
  memory : wrp_memory_t
  oprd_stk : List wrp_oprd_t
  oprd_stk_max : Nat
  opcode_stream : wrp_buf_t
  ctrl_stk : List wrp_ctrl_frame_t := []
  call_stk : List wrp_call_frame_t := []
  err : wrp_err_t := wrp_err_t.WRP_SUCCESS
  mdle : Option wrp_wasm_mdle_t := none
  ctrl_stk_max : Nat := 16
  call_stk_max : Nat := 16

/-- A fallible step on the container: the result, and the state left behind
(also when the step fails). -/
def Exec (α : Type) : Type := wrp_vm_t → Except wrp_err_t α × wrp_vm_t

/-- Returning a value without touching the state. -/
def Exec.pure {α : Type} (a : α) : Exec α := fun vm => (Except.ok a, vm)

/-- The step `WRP_CHECK(m); f`: a failure of `m` is returned at once. -/
def Exec.bind {α β : Type} (m : Exec α) (f : α → Exec β) : Exec β := fun vm =>
  match m vm with
  | (Except.ok a, vm1) => f a vm1
  | (Except.error e, vm1) => (Except.error e, vm1)

/-- The statement `return e;` for an error code `e`. -/
def Exec.fail {α : Type} (e : wrp_err_t) : Exec α := fun vm => (Except.error e, vm)

instance : Monad Exec where
  pure := Exec.pure
  bind := Exec.bind

/-- Reading the container state. -/
def Exec.get : Exec wrp_vm_t := fun vm => (Except.ok vm, vm)

/-- Updating the container state. -/
def Exec.modify (f : wrp_vm_t → wrp_vm_t) : Exec Unit := fun vm => (Except.ok (), f vm)

/-! ## Operand stack operations (`warp-stack-ops.c`) -/

/-- Modelled from the spec: `wrp_stk_exec_push_op` of `warp-stack-ops.c`, which is
not among the sources. The operand stack has a fixed configured maximum and
overflow is a failure (`invalid-stk-operation`); otherwise the cell
`(value, type)` becomes the new top. -/
def wrp_stk_exec_push_op (value : Nat) (type : Int) : Exec Unit := fun vm =>
  if vm.oprd_stk_max ≤ vm.oprd_stk.length then
    (Except.error wrp_err_t.WRP_ERR_INVALID_STK_OPERATION, vm)
  else
    (Except.ok (), { vm with oprd_stk := ⟨value, type⟩ :: vm.oprd_stk })

/-- Modelled from the spec: `wrp_stk_exec_pop_op` of `warp-stack-ops.c`, which is
not among the sources. Underflow is a failure (`invalid-stk-operation`);
otherwise the top cell is removed and its payload and tag are handed back. -/
def wrp_stk_exec_pop_op : Exec wrp_oprd_t := fun vm =>
  match vm.oprd_stk with
  | [] => (Except.error wrp_err_t.WRP_ERR_INVALID_STK_OPERATION, vm)
  | c :: rest => (Except.ok c, { vm with oprd_stk := rest })

/-- Modelled from the spec: `wrp_stk_exec_push_i32` of `warp-stack-ops.c`: the value
is carried as its encoded 64-bit payload with the tag `I32`. -/
def wrp_stk_exec_push_i32 (value : Int) : Exec Unit :=
  wrp_stk_exec_push_op (wrp_encode_i32 value) I32

/-- Modelled from the spec: `wrp_stk_exec_push_i64` of `warp-stack-ops.c`. -/
def wrp_stk_exec_push_i64 (value : Int) : Exec Unit :=
  wrp_stk_exec_push_op (wrp_encode_i64 value) I64

/-- Modelled from the spec: `wrp_stk_exec_pop_i32` of `warp-stack-ops.c`: the top
cell is removed and its payload decoded as an `int32_t`. -/
def wrp_stk_exec_pop_i32 : Exec Int := do
  let c ← wrp_stk_exec_pop_op
  pure (wrp_decode_i32 c.value)

/-- Modelled from the spec: `wrp_stk_exec_pop_i64` of `warp-stack-ops.c`. -/
def wrp_stk_exec_pop_i64 : Exec Int := do
  let c ← wrp_stk_exec_pop_op
  pure (wrp_decode_i64 c.value)

/-! ## Integer division and remainder handlers

`warp-execution.c`, lines 1147-1227 and 1453-1534. C division and remainder of
signed integers truncate toward zero: `Int.tdiv` and `Int.tmod`. -/

def exec_i32_div_s_op : Exec Unit := do
  let y ← wrp_stk_exec_pop_i32
  let x ← wrp_stk_exec_pop_i32
  if y = 0 then
    Exec.fail wrp_err_t.WRP_ERR_I32_DIVIDE_BY_ZERO
  else if x = INT32_MIN ∧ y = -1 then
    Exec.fail wrp_err_t.WRP_ERR_I32_OVERFLOW
  else
    wrp_stk_exec_push_i32 (to_i32 (Int.tdiv x y))

def exec_i32_div_u_op : Exec Unit := do
  let y ← wrp_stk_exec_pop_i32
  let x ← wrp_stk_exec_pop_i32
  if y = 0 then
    Exec.fail wrp_err_t.WRP_ERR_I32_DIVIDE_BY_ZERO
  else
    wrp_stk_exec_push_i32 (to_i32 (to_u32 x / to_u32 y : Nat))

def exec_i32_rem_s_op : Exec Unit := do
  let y ← wrp_stk_exec_pop_i32
  let x ← wrp_stk_exec_pop_i32
  if y = 0 then
    Exec.fail wrp_err_t.WRP_ERR_I32_DIVIDE_BY_ZERO
  else
    wrp_stk_exec_push_i32 (if x ≠ INT32_MIN ∧ y ≠ -1 then to_i32 (Int.tmod x y) else 0)

def exec_i32_rem_u_op : Exec Unit := do
  let y ← wrp_stk_exec_pop_i32
  let x ← wrp_stk_exec_pop_i32
  if y = 0 then
    Exec.fail wrp_err_t.WRP_ERR_I32_DIVIDE_BY_ZERO
  else
    wrp_stk_exec_push_i32 (to_i32 (to_u32 x % to_u32 y : Nat))

def exec_i64_div_s_op : Exec Unit := do
  let y ← wrp_stk_exec_pop_i64
  let x ← wrp_stk_exec_pop_i64
  if y = 0 then
    Exec.fail wrp_err_t.WRP_ERR_I64_DIVIDE_BY_ZERO
  else if x = INT64_MIN ∧ y = -1 then
    Exec.fail wrp_err_t.WRP_ERR_I64_OVERFLOW
  else
    wrp_stk_exec_push_i64 (to_i64 (Int.tdiv x y))

def exec_i64_div_u_op : Exec Unit := do
  let y ← wrp_stk_exec_pop_i64
  let x ← wrp_stk_exec_pop_i64
  if y = 0 then
    Exec.fail wrp_err_t.WRP_ERR_I64_DIVIDE_BY_ZERO
  else
    wrp_stk_exec_push_i64 (to_i64 (to_u64 x / to_u64 y : Nat))

def exec_i64_rem_s_op : Exec Unit := do
  let y ← wrp_stk_exec_pop_i64
  let x ← wrp_stk_exec_pop_i64
  if y = 0 then
    Exec.fail wrp_err_t.WRP_ERR_I64_DIVIDE_BY_ZERO
  else
    wrp_stk_exec_push_i64 (if x ≠ INT64_MIN ∧ y ≠ -1 then to_i64 (Int.tmod x y) else 0)

def exec_i64_rem_u_op : Exec Unit := do
  let y ← wrp_stk_exec_pop_i64
  let x ← wrp_stk_exec_pop_i64
  if y = 0 then
    Exec.fail wrp_err_t.WRP_ERR_I64_DIVIDE_BY_ZERO
  else
    wrp_stk_exec_push_i64 (to_i64 (to_u64 x % to_u64 y : Nat))

/-! ## Byte stream reader (`warp-buf.c`) -/

/-- Modelled from the spec: the unsigned LEB128 loop of the byte stream reader of
`warp-buf.c`, which is not among the sources. Each byte gives seven payload
bits, least significant group first; a byte below `0x80` ends the number. The
read fails when more than `fuel` bytes would be needed or when the cursor would
pass the end of the buffer. The result is the value, the number of payload bits
read, the last byte, and the advanced cursor. -/
def read_leb : Nat → wrp_buf_t → Nat → Nat → Option (Nat × Nat × Nat × wrp_buf_t)
  | 0, _, _, _ => none
  | fuel + 1, buf, shift, acc =>
    if buf.pos < buf.sz then
      let b := buf.bytes.getD buf.pos 0 % 256
      let acc1 := acc + (b % 128) * 2 ^ shift
      let buf1 : wrp_buf_t := { buf with pos := buf.pos + 1 }
      if b < 128 then some (acc1, shift + 7, b, buf1)
      else read_leb fuel buf1 (shift + 7) acc1
    else none

/-- Modelled from the spec: `wrp_read_varui32` of `warp-buf.c`: an unsigned LEB128
number of at most 5 bytes, delivered as a `uint32_t`; a failed read leaves the
cursor where it was. -/
def wrp_read_varui32 (buf : wrp_buf_t) : Except wrp_err_t (Nat × wrp_buf_t) :=
  match read_leb 5 buf 0 0 with
  | some (v, _, _, buf1) => Except.ok (v % 4294967296, buf1)
  | none => Except.error wrp_err_t.WRP_ERR_READ_OVERFLOW

/-- Modelled from the spec: `wrp_read_vari32` of `warp-buf.c`: a signed LEB128 number
of at most 5 bytes with sign extension from bit 6 of the last byte, delivered
as an `int32_t`. -/
def wrp_read_vari32 (buf : wrp_buf_t) : Except wrp_err_t (Int × wrp_buf_t) :=
  match read_leb 5 buf 0 0 with
  | some (v, bits, last, buf1) =>
    Except.ok (to_i32 (if 64 ≤ last then (v : Int) - 2 ^ bits else (v : Int)), buf1)
  | none => Except.error wrp_err_t.WRP_ERR_READ_OVERFLOW

/-- A read from `vm->opcode_stream`: the cursor advances on success. -/
def read_stream {α : Type} (r : wrp_buf_t → Except wrp_err_t (α × wrp_buf_t)) : Exec α :=
  fun vm =>
    match r vm.opcode_stream with
    | Except.ok (a, buf) => (Except.ok a, { vm with opcode_stream := buf })
    | Except.error e => (Except.error e, vm)

/-! ## Parametric handlers -/

/-- The handler of `select` (`warp-execution.c`, lines 196-216). `y` is the operand
pushed second, `x` the operand pushed first. On the false branch the source
calls `wrp_stk_exec_push_op(vm, x_type, x_value)`: the `int8_t` tag is converted
to the `uint64_t` payload parameter, and the `uint64_t` payload to the `int8_t`
tag parameter. -/
def exec_select_op : Exec Unit := do
  let condition ← wrp_stk_exec_pop_i32
  let y ← wrp_stk_exec_pop_op
  let x ← wrp_stk_exec_pop_op
  if condition ≠ 0 then
    wrp_stk_exec_push_op y.value y.type
  else
    wrp_stk_exec_push_op (to_u64 x.type) (to_i8 x.value)

/-! ## Memory access handlers -/

/-- The value built by `uint64_t value = 0; memcpy(&value, bytes + addr, n)`. -/
def memcpy_from (bytes : Nat → Fin 256) (addr n : Nat) : Nat :=
  (List.range n).foldl (fun out i => set_byte out i (bytes (addr + i)).val) 0

/-- The buffer after `memcpy(bytes + addr, &value, n)`. -/
def memcpy_to (bytes : Nat → Fin 256) (addr value n : Nat) : Nat → Fin 256 :=
  fun j => if addr ≤ j ∧ j < addr + n then Fin.ofNat (byte_at value (j - addr)) else bytes j

/-- The sign-extension loop of `load`: bytes `n .. 7` of `value` are set to `0xFF`. -/
def fill_ff (value n : Nat) : Nat :=
  (List.range' n (8 - n)).foldl (fun out i => set_byte out i 255) value

/-- The test `value & (1U << ((CHAR_BIT * num_bytes) - 1))` of `load`. The mask is a
32-bit `unsigned`; the shift is defined for counts below 32, which are the only
ones the sign-extending handlers (widths 1, 2 and 4) produce. -/
def sign_bit_set (value num_bytes : Nat) : Bool :=
  decide (8 * num_bytes - 1 < 32) && decide (value / 2 ^ (8 * num_bytes - 1) % 2 = 1)

/-- The function `load` of `warp-execution.c` (lines 300-345). `flags` is read and
ignored. The sum `effective_address + num_bytes` is a `size_t` sum. -/
def load (type : Int) (_natural_alignment num_bytes : Nat) (sign_extend : Bool) : Exec Unit := do
  let _flags ← read_stream wrp_read_varui32
  let offset ← read_stream wrp_read_varui32
  let address ← wrp_stk_exec_pop_i32
  let vm ← Exec.get
  let effective_address := (to_u32 address + offset) % 4294967296
  if effective_address < to_u32 address ∨ effective_address < offset then
    Exec.fail wrp_err_t.WRP_ERR_I32_OVERFLOW
  else if (effective_address + num_bytes) % 18446744073709551616 < effective_address then
    Exec.fail wrp_err_t.WRP_ERR_I32_OVERFLOW
  else if (effective_address + num_bytes) % 18446744073709551616
      > vm.memory.num_pages * PAGE_SIZE then
    Exec.fail wrp_err_t.WRP_ERR_INVALID_MEMORY_ACCESS
  else
    let value := memcpy_from vm.memory.bytes effective_address num_bytes
    wrp_stk_exec_push_op
      (if sign_extend && sign_bit_set value num_bytes then fill_ff value num_bytes else value)
      type

/-- The function `store` of `warp-execution.c` (lines 417-451). -/
def store (_natural_alignment num_bytes : Nat) : Exec Unit := do
  let _flags ← read_stream wrp_read_varui32
  let offset ← read_stream wrp_read_varui32
  let c ← wrp_stk_exec_pop_op
  let address ← wrp_stk_exec_pop_i32
  let vm ← Exec.get
  let effective_address := (to_u32 address + offset) % 4294967296
  if effective_address < to_u32 address ∨ effective_address < offset then
    Exec.fail wrp_err_t.WRP_ERR_I32_OVERFLOW
  else if (effective_address + num_bytes) % 18446744073709551616 < effective_address then
    Exec.fail wrp_err_t.WRP_ERR_I32_OVERFLOW
  else if (effective_address + num_bytes) % 18446744073709551616
      > vm.memory.num_pages * PAGE_SIZE then
    Exec.fail wrp_err_t.WRP_ERR_INVALID_MEMORY_ACCESS
  else
    Exec.modify fun vm1 =>
      { vm1 with memory :=
          { vm1.memory with
            bytes := memcpy_to vm1.memory.bytes effective_address c.value num_bytes } }

/-! The load and store handlers (`warp-execution.c`, lines 347-415 and 453-496) pass
`alignof` and `sizeof` of the accessed C type. -/

def exec_i32_load_op : Exec Unit := load I32 4 4 false
def exec_i64_load_op : Exec Unit := load I64 8 8 false
def exec_f32_load_op : Exec Unit := load F32 4 4 false
def exec_f64_load_op : Exec Unit := load F64 8 8 false
def exec_i32_load_8_s_op : Exec Unit := load I32 4 1 true
def exec_i32_load_8_u_op : Exec Unit := load I32 4 1 false
def exec_i32_load_16_s_op : Exec Unit := load I32 4 2 true
def exec_i32_load_16_u_op : Exec Unit := load I32 4 2 false
def exec_i64_load_8_s_op : Exec Unit := load I64 8 1 true
def exec_i64_load_8_u_op : Exec Unit := load I64 8 1 false
def exec_i64_load_16_s_op : Exec Unit := load I64 8 2 true
def exec_i64_load_16_u_op : Exec Unit := load I64 8 2 false
def exec_i64_load_32_s_op : Exec Unit := load I64 8 4 true
def exec_i64_load_32_u_op : Exec Unit := load I64 8 4 false

def exec_i32_store_op : Exec Unit := store 4 4
def exec_i64_store_op : Exec Unit := store 8 8
def exec_f32_store_op : Exec Unit := store 4 4
def exec_f64_store_op : Exec Unit := store 8 8
def exec_i32_store_8_op : Exec Unit := store 1 1
def exec_i32_store_16_op : Exec Unit := store 2 2
def exec_i64_store_8_op : Exec Unit := store 1 1
def exec_i64_store_16_op : Exec Unit := store 2 2
def exec_i64_store_32_op : Exec Unit := store 4 4

/-- The handler of `grow_memory` (`warp-execution.c`, lines 507-540). The reserved
immediate is read and ignored. `total_pages` is a `uint32_t` sum. The copy
`memcpy(bytes, old, num_pages * PAGE_SIZE)` is taken on the unbounded index
space of the buffers: the first `num_pages * PAGE_SIZE` bytes come from the old
buffer, the others from the fresh one. `free_fn` has no effect on the state. -/
def exec_grow_memory_op : Exec Unit := do
  let _reserved ← read_stream wrp_read_vari32
  let delta ← wrp_stk_exec_pop_i32
  let vm ← Exec.get
  if delta = 0 then
    wrp_stk_exec_push_i32 (to_i32 vm.memory.num_pages)
  else
    let total_pages := (vm.memory.num_pages + to_u32 delta) % 4294967296
    if total_pages > vm.memory.max_pages then
      wrp_stk_exec_push_i32 (-1)
    else
      match vm.alloc_fn (total_pages * PAGE_SIZE) 64 with
      | none => wrp_stk_exec_push_i32 (-1)
      | some bytes => do
        Exec.modify fun vm1 =>
          { vm1 with memory :=
              { vm1.memory with
                bytes := fun j =>
                  if j < vm.memory.num_pages * PAGE_SIZE then vm.memory.bytes j else bytes j
                num_pages := total_pages } }
        wrp_stk_exec_push_i32 (to_i32 vm.memory.num_pages)

/-! ## Integer addition, subtraction and multiplication

`warp-execution.c`, lines 1105-1145 and 1411-1451. The result of the signed C
operation is taken in two's complement (the cast `to_i32`, `to_i64`). -/

def exec_i32_add_op : Exec Unit := do
  let y ← wrp_stk_exec_pop_i32
  let x ← wrp_stk_exec_pop_i32
  wrp_stk_exec_push_i32 (to_i32 (x + y))

def exec_i32_sub_op : Exec Unit := do
  let y ← wrp_stk_exec_pop_i32
  let x ← wrp_stk_exec_pop_i32
  wrp_stk_exec_push_i32 (to_i32 (x - y))

def exec_i32_mul_op : Exec Unit := do
  let y ← wrp_stk_exec_pop_i32
  let x ← wrp_stk_exec_pop_i32
  wrp_stk_exec_push_i32 (to_i32 (x * y))

def exec_i64_add_op : Exec Unit := do
  let y ← wrp_stk_exec_pop_i64
  let x ← wrp_stk_exec_pop_i64
  wrp_stk_exec_push_i64 (to_i64 (x + y))

def exec_i64_sub_op : Exec Unit := do
  let y ← wrp_stk_exec_pop_i64
  let x ← wrp_stk_exec_pop_i64
  wrp_stk_exec_push_i64 (to_i64 (x - y))

def exec_i64_mul_op : Exec Unit := do
  let y ← wrp_stk_exec_pop_i64
  let x ← wrp_stk_exec_pop_i64
  wrp_stk_exec_push_i64 (to_i64 (x * y))

/-! ## Handlers that only fail, extension and reinterpretation

`warp-execution.c`, lines 30-43, 183-186, 262-265, 2235-2242 and 2429-2463. -/

def exec_invalid_op : Exec Unit := Exec.fail wrp_err_t.WRP_ERR_INVALID_OPCODE

def exec_unreachable_op : Exec Unit := Exec.fail wrp_err_t.WRP_ERR_UNREACHABLE_CODE_EXECUTED

def exec_no_op : Exec Unit := pure ()

def exec_call_indirect_op : Exec Unit := Exec.fail wrp_err_t.WRP_ERR_UNKNOWN

def exec_tee_local_op : Exec Unit := Exec.fail wrp_err_t.WRP_ERR_UNKNOWN

def exec_drop_op : Exec Unit := do
  let _c ← wrp_stk_exec_pop_op
  pure ()

def exec_i64_extend_u_i32_op : Exec Unit := do
  let c ← wrp_stk_exec_pop_op
  wrp_stk_exec_push_op c.value I64

def exec_i32_reinterpret_f32_op : Exec Unit := do
  let c ← wrp_stk_exec_pop_op
  wrp_stk_exec_push_op c.value I32

def exec_i64_reinterpret_f64_op : Exec Unit := do
  let c ← wrp_stk_exec_pop_op
  wrp_stk_exec_push_op c.value I64

def exec_f32_reinterpret_i32_op : Exec Unit := do
  let c ← wrp_stk_exec_pop_op
  wrp_stk_exec_push_op c.value F32

def exec_f64_reinterpret_i64_op : Exec Unit := do
  let c ← wrp_stk_exec_pop_op
  wrp_stk_exec_push_op c.value F64

/-! ## Shifts and rotations

`warp-execution.c`, lines 1271-1347 and 1581-1660. -/

/-- The C expression `x << y` on operands of `w` bits: for a count from `0` to
`w - 1` the bits of `x` moved up by `y` places (the handler reduces the result to
the width). The C standard gives the expression no value for any other count;
`ub x y` stands for what the compiled program produces then. -/
def c_shl (w : Nat) (ub : Int → Int → Int) (x y : Int) : Int :=
  if 0 ≤ y ∧ y < w then x * 2 ^ y.toNat else ub x y

/-- The C expression `x >> y` on operands of `w` bits: for a count from `0` to
`w - 1` the quotient of `x` by `2 ^ y` rounded down, which on a negative `x` is the
arithmetic shift; `ub x y` stands for the value at any other count. -/
def c_shr (w : Nat) (ub : Int → Int → Int) (x y : Int) : Int :=
  if 0 ≤ y ∧ y < w then x / 2 ^ y.toNat else ub x y

/-- Not in the source: the value of `x << y` at a count outside `0 .. w - 1` on the
machines the interpreter is compiled for. The shift instructions of x86-64 and
AArch64 use the low bits of the count, `y mod w`, for operands of `w = 32` and
`w = 64` bits. -/
def masked_shl (w : Nat) (x y : Int) : Int := x * 2 ^ (y % (w : Int)).toNat

/-- Not in the source: the value of `x >> y` at a count outside `0 .. w - 1` on those
machines: the shift by `y mod w`. -/
def masked_shr (w : Nat) (x y : Int) : Int := x / 2 ^ (y % (w : Int)).toNat

def exec_i32_shl_op (ub : Int → Int → Int) : Exec Unit := do
  let y ← wrp_stk_exec_pop_i32
  let x ← wrp_stk_exec_pop_i32
  wrp_stk_exec_push_i32 (to_i32 (c_shl 32 ub x y))

def exec_i32_shr_s_op (ub : Int → Int → Int) : Exec Unit := do
  let y ← wrp_stk_exec_pop_i32
  let x ← wrp_stk_exec_pop_i32
  wrp_stk_exec_push_i32 (to_i32 (c_shr 32 ub x y))

def exec_i32_shr_u_op (ub : Int → Int → Int) : Exec Unit := do
  let y ← wrp_stk_exec_pop_i32
  let x ← wrp_stk_exec_pop_i32
  wrp_stk_exec_push_i32 (to_i32 (c_shr 32 ub (to_u32 x) (to_u32 y)))

def exec_i64_shl_op (ub : Int → Int → Int) : Exec Unit := do
  let y ← wrp_stk_exec_pop_i64
  let x ← wrp_stk_exec_pop_i64
  wrp_stk_exec_push_i64 (to_i64 (c_shl 64 ub x y))

def exec_i64_shr_s_op (ub : Int → Int → Int) : Exec Unit := do
  let y ← wrp_stk_exec_pop_i64
  let x ← wrp_stk_exec_pop_i64
  wrp_stk_exec_push_i64 (to_i64 (c_shr 64 ub x y))

def exec_i64_shr_u_op (ub : Int → Int → Int) : Exec Unit := do
  let y ← wrp_stk_exec_pop_i64
  let x ← wrp_stk_exec_pop_i64
  wrp_stk_exec_push_i64 (to_i64 (c_shr 64 ub (to_u64 x) (to_u64 y)))

/-- The expression `(x << count) | (x >> (-count & 31))` of `exec_i32_rotl_op` on
`uint32_t` operands; `-count` is taken modulo 2^32. -/
def rotl32 (x count : Nat) : Nat :=
  ((x <<< count) % 4294967296) ||| (x >>> (((4294967296 - count) % 4294967296) &&& 31))

/-- The expression `(x >> count) | (x << (-count & 31))` of `exec_i32_rotr_op`. -/
def rotr32 (x count : Nat) : Nat :=
  (x >>> count) ||| ((x <<< (((4294967296 - count) % 4294967296) &&& 31)) % 4294967296)

/-- The expression `(x << count) | (x >> (-count & 63))` of `exec_i64_rotl_op` on
`uint64_t` operands; `-count` is taken modulo 2^64. -/
def rotl64 (x count : Nat) : Nat :=
  ((x <<< count) % 18446744073709551616) |||
    (x >>> (((18446744073709551616 - count) % 18446744073709551616) &&& 63))

/-- The expression `(x >> count) | (x << (-count & 63))` of `exec_i64_rotr_op`. -/
def rotr64 (x count : Nat) : Nat :=
  (x >>> count) |||
    ((x <<< (((18446744073709551616 - count) % 18446744073709551616) &&& 63))
      % 18446744073709551616)

def exec_i32_rotl_op : Exec Unit := do
  let y ← wrp_stk_exec_pop_i32
  let x ← wrp_stk_exec_pop_i32
  let count := to_u32 y % 32
  wrp_stk_exec_push_i32 (to_i32 (rotl32 (to_u32 x) count : Nat))

def exec_i32_rotr_op : Exec Unit := do
  let y ← wrp_stk_exec_pop_i32
  let x ← wrp_stk_exec_pop_i32
  let count := to_u32 y % 32
  wrp_stk_exec_push_i32 (to_i32 (rotr32 (to_u32 x) count : Nat))

def exec_i64_rotl_op : Exec Unit := do
  let y ← wrp_stk_exec_pop_i64
  let x ← wrp_stk_exec_pop_i64
  let count := to_u64 y % 64
  wrp_stk_exec_push_i64 (to_i64 (rotl64 (to_u64 x) count : Nat))

def exec_i64_rotr_op : Exec Unit := do
  let y ← wrp_stk_exec_pop_i64
  let x ← wrp_stk_exec_pop_i64
  let count := to_u64 y % 64
  wrp_stk_exec_push_i64 (to_i64 (rotr64 (to_u64 x) count : Nat))

/-! ## Bit counting

`warp-execution.c`, lines 1043-1103 and 1349-1409. The loops are total functions:
each carries the measure that decreases at every turn. -/

/-- The loop `while (x != 0 && (x & (1 << 31)) == 0) { num_zeros++; x <<= 1; }` of
`exec_i32_clz_op` on a `uint32_t x`. -/
def clz32_loop (x num_zeros : Nat) : Nat :=
  if x ≠ 0 ∧ x &&& 2147483648 = 0 then
    clz32_loop ((x <<< 1) % 4294967296) (num_zeros + 1)
  else num_zeros
termination_by (if x < 4294967296 then 4294967296 - x else 4294967297)
decreasing_by
  rename_i h
  have hb : x / 2147483648 % 2 = 0 := by
    have h2 := Nat.and_two_pow x 31
    have h3 : x &&& 2 ^ 31 = 0 := h.2
    rw [h3, Nat.testBit_to_div_mod] at h2
    by_cases hc : x / 2147483648 % 2 = 1
    · have hd : decide (x / 2 ^ 31 % 2 = 1) = true := decide_eq_true (by norm_num; exact hc)
      rw [hd] at h2
      norm_num at h2
    · omega
  have h0 : x ≠ 0 := h.1
  rw [Nat.shiftLeft_eq]
  have hm : x * 2 ^ 1 % 4294967296 < 4294967296 := Nat.mod_lt _ (by norm_num)
  rw [if_pos hm]
  split_ifs with hx
  · omega
  · omega

/-- The loop `while (x != 0 && (x & (1 << 63)) == 0) { num_zeros++; x <<= 1; }` of
`exec_i64_clz_op` on a `uint64_t x`. -/
def clz64_loop (x num_zeros : Nat) : Nat :=
  if x ≠ 0 ∧ x &&& 9223372036854775808 = 0 then
    clz64_loop ((x <<< 1) % 18446744073709551616) (num_zeros + 1)
  else num_zeros
termination_by (if x < 18446744073709551616 then 18446744073709551616 - x
  else 18446744073709551617)
decreasing_by
  rename_i h
  have hb : x / 9223372036854775808 % 2 = 0 := by
    have h2 := Nat.and_two_pow x 63
    have h3 : x &&& 2 ^ 63 = 0 := h.2
    rw [h3, Nat.testBit_to_div_mod] at h2
    by_cases hc : x / 9223372036854775808 % 2 = 1
    · have hd : decide (x / 2 ^ 63 % 2 = 1) = true := decide_eq_true (by norm_num; exact hc)
      rw [hd] at h2
      norm_num at h2
    · omega
  have h0 : x ≠ 0 := h.1
  rw [Nat.shiftLeft_eq]
  have hm : x * 2 ^ 1 % 18446744073709551616 < 18446744073709551616 :=
    Nat.mod_lt _ (by norm_num)
  rw [if_pos hm]
  split_ifs with hx
  · omega
  · omega

/-- The loop `while (x != 0 && (x & 1u) == 0) { num_zeros++; x >>= 1; }` of
`exec_i32_ctz_op` and `exec_i64_ctz_op`. -/
def ctz_loop (x num_zeros : Nat) : Nat :=
  if x ≠ 0 ∧ x &&& 1 = 0 then ctz_loop (x >>> 1) (num_zeros + 1) else num_zeros
termination_by x
decreasing_by
  rename_i h
  have h0 : x ≠ 0 := h.1
  rw [Nat.shiftRight_eq_div_pow]
  omega

/-- The loop `while (x != 0) { if (x & 1u) num_ones++; x >>= 1; }` of
`exec_i32_popcnt_op` and `exec_i64_popcnt_op`. -/
def popcnt_loop (x num_ones : Nat) : Nat :=
  if x ≠ 0 then popcnt_loop (x >>> 1) (if x &&& 1 ≠ 0 then num_ones + 1 else num_ones)
  else num_ones
termination_by x
decreasing_by
  rename_i h
  rw [Nat.shiftRight_eq_div_pow]
  omega

def exec_i32_clz_op : Exec Unit := do
  let operand ← wrp_stk_exec_pop_i32
  let x := to_u32 operand
  let num_zeros : Int := if x ≠ 0 then to_i32 (clz32_loop x 0 : Nat) else 32
  wrp_stk_exec_push_i32 num_zeros

def exec_i32_ctz_op : Exec Unit := do
  let operand ← wrp_stk_exec_pop_i32
  let x := to_u32 operand
  let num_zeros : Nat := if x ≠ 0 then ctz_loop x 0 % 4294967296 else 32
  wrp_stk_exec_push_i32 (to_i32 (num_zeros : Nat))

def exec_i32_popcnt_op : Exec Unit := do
  let operand ← wrp_stk_exec_pop_i32
  let x := to_u32 operand
  let num_ones : Nat := popcnt_loop x 0 % 4294967296
  wrp_stk_exec_push_i32 (to_i32 (num_ones : Nat))

def exec_i64_clz_op : Exec Unit := do
  let operand ← wrp_stk_exec_pop_i64
  let x := to_u64 operand
  let num_zeros : Int := if x ≠ 0 then to_i64 (clz64_loop x 0 : Nat) else 64
  wrp_stk_exec_push_i64 num_zeros

def exec_i64_ctz_op : Exec Unit := do
  let operand ← wrp_stk_exec_pop_i64
  let x := to_u64 operand
  let num_zeros : Nat := if x ≠ 0 then ctz_loop x 0 % 18446744073709551616 else 64
  wrp_stk_exec_push_i64 (to_i64 (num_zeros : Nat))

def exec_i64_popcnt_op : Exec Unit := do
  let operand ← wrp_stk_exec_pop_i64
  let x := to_u64 operand
  let num_ones : Nat := popcnt_loop x 0 % 18446744073709551616
  wrp_stk_exec_push_i64 (to_i64 (num_ones : Nat))

/-! ## Branch table

`warp-execution.c`, lines 137-167. -/

/-- The loop of `exec_br_table_op` that reads `target_count` entries with
`wrp_read_varui32` into `branch_table`: the entries in the order read. -/
def read_branch_table : Nat → Exec (List Nat)
  | 0 => pure []
  | n + 1 => do
    let target ← read_stream wrp_read_varui32
    let targets ← read_branch_table n
    pure (target :: targets)

/-- The handler `exec_br_table_op`. The bound `MAX_BRANCH_TABLE_SIZE` of
`warp-config.h` and the helper `wrp_stk_exec_pop_block` of `warp-stack-ops.c` are
not among the sources and are parameters; the helper receives the `int32_t`
value `depth` as the handler passes it. An entry of `branch_table` that was not
read is `0`. -/
def exec_br_table_op (MAX_BRANCH_TABLE_SIZE : Nat)
    (wrp_stk_exec_pop_block : Int → Bool → Exec Unit) : Exec Unit := do
  let target_count ← read_stream wrp_read_varui32
  if target_count > MAX_BRANCH_TABLE_SIZE then
    Exec.fail wrp_err_t.WRP_ERR_MDLE_BRANCH_TABLE_OVERFLOW
  else
    let branch_table ← read_branch_table target_count
    let default_target ← read_stream wrp_read_varui32
    let target_idx ← wrp_stk_exec_pop_i32
    let depth : Int :=
      if target_idx ≥ 0 ∧ to_u32 target_idx < target_count then
        to_i32 (branch_table.getD (to_u32 target_idx) 0 : Nat)
      else to_i32 (default_target : Nat)
    wrp_stk_exec_pop_block depth true

/-! ## Opcodes and dispatch tables

`warp-wasm.h`, lines 72-264; `warp-execution.c`, lines 2465-2688;
`warp-type-check.c`, lines 717-955. -/

def OP_UNREACHABLE : Nat := 0x00
def OP_NOOP : Nat := 0x01
def OP_BLOCK : Nat := 0x02
def OP_LOOP : Nat := 0x03
def OP_IF : Nat := 0x04
def OP_ELSE : Nat := 0x05
def OP_RES_01 : Nat := 0x06
def OP_RES_02 : Nat := 0x07
def OP_RES_03 : Nat := 0x08
def OP_RES_04 : Nat := 0x09
def OP_RES_05 : Nat := 0x0A
def OP_END : Nat := 0x0B
def OP_BR : Nat := 0x0C
def OP_BR_IF : Nat := 0x0D
def OP_BR_TABLE : Nat := 0x0E
def OP_RETURN : Nat := 0x0F
def OP_CALL : Nat := 0x10
def OP_CALL_INDIRECT : Nat := 0x11
def OP_RES_06 : Nat := 0x12
def OP_RES_07 : Nat := 0x13
def OP_RES_08 : Nat := 0x14
def OP_RES_09 : Nat := 0x15
def OP_RES_0A : Nat := 0x16
def OP_RES_0B : Nat := 0x17
def OP_RES_0C : Nat := 0x18
def OP_RES_0D : Nat := 0x19
def OP_DROP : Nat := 0x1A
def OP_SELECT : Nat := 0x1B
def OP_RES_0E : Nat := 0x1C
def OP_RES_0F : Nat := 0x1D
def OP_RES_10 : Nat := 0x1E
def OP_RES_11 : Nat := 0x1F
def OP_GET_LOCAL : Nat := 0x20
def OP_SET_LOCAL : Nat := 0x21
def OP_TEE_LOCAL : Nat := 0x22
def OP_GET_GLOBAL : Nat := 0x23
def OP_SET_GLOBAL : Nat := 0x24
def OP_RES_12 : Nat := 0x25
def OP_RES_13 : Nat := 0x26
def OP_RES_14 : Nat := 0x27
def OP_I32_LOAD : Nat := 0x28
def OP_I64_LOAD : Nat := 0x29
def OP_F32_LOAD : Nat := 0x2A
def OP_F64_LOAD : Nat := 0x2B
def OP_I32_LOAD_8_S : Nat := 0x2C
def OP_I32_LOAD_8_U : Nat := 0x2D
def OP_I32_LOAD_16_S : Nat := 0x2E
def OP_I32_LOAD_16_U : Nat := 0x2F
def OP_I64_LOAD_8_S : Nat := 0x30
def OP_I64_LOAD_8_U : Nat := 0x31
def OP_I64_LOAD_16_S : Nat := 0x32
def OP_I64_LOAD_16_U : Nat := 0x33
def OP_I64_LOAD_32_S : Nat := 0x34
def OP_I64_LOAD_32_U : Nat := 0x35
def OP_I32_STORE : Nat := 0x36
def OP_I64_STORE : Nat := 0x37
def OP_F32_STORE : Nat := 0x38
def OP_F64_STORE : Nat := 0x39
def OP_I32_STORE_8 : Nat := 0x3A
def OP_I32_STORE_16 : Nat := 0x3B
def OP_I64_STORE_8 : Nat := 0x3C
def OP_I64_STORE_16 : Nat := 0x3D
def OP_I64_STORE_32 : Nat := 0x3E
def OP_CURRENT_MEMORY : Nat := 0x3F
def OP_GROW_MEMORY : Nat := 0x40
def OP_I32_CONST : Nat := 0x41
def OP_I64_CONST : Nat := 0x42
def OP_F32_CONST : Nat := 0x43
def OP_F64_CONST : Nat := 0x44
def OP_I32_EQZ : Nat := 0x45
def OP_I32_EQ : Nat := 0x46
def OP_I32_NE : Nat := 0x47
def OP_I32_LT_S : Nat := 0x48
def OP_I32_LT_U : Nat := 0x49
def OP_I32_GT_S : Nat := 0x4A
def OP_I32_GT_U : Nat := 0x4B
def OP_I32_LE_S : Nat := 0x4C
def OP_I32_LE_U : Nat := 0x4D
def OP_I32_GE_S : Nat := 0x4E
def OP_I32_GE_U : Nat := 0x4F
def OP_I64_EQZ : Nat := 0x50
def OP_I64_EQ : Nat := 0x51
def OP_I64_NE : Nat := 0x52
def OP_I64_LT_S : Nat := 0x53
def OP_I64_LT_U : Nat := 0x54
def OP_I64_GT_S : Nat := 0x55
def OP_I64_GT_U : Nat := 0x56
def OP_I64_LE_S : Nat := 0x57
def OP_I64_LE_U : Nat := 0x58
def OP_I64_GE_S : Nat := 0x59
def OP_I64_GE_U : Nat := 0x5A
def OP_F32_EQ : Nat := 0x5B
def OP_F32_NE : Nat := 0x5C
def OP_F32_LT : Nat := 0x5D
def OP_F32_GT : Nat := 0x5E
def OP_F32_LE : Nat := 0x5F
def OP_F32_GE : Nat := 0x60
def OP_F64_EQ : Nat := 0x61
def OP_F64_NE : Nat := 0x62
def OP_F64_LT : Nat := 0x63
def OP_F64_GT : Nat := 0x64
def OP_F64_LE : Nat := 0x65
def OP_F64_GE : Nat := 0x66
def OP_I32_CLZ : Nat := 0x67
def OP_I32_CTZ : Nat := 0x68
def OP_I32_POPCNT : Nat := 0x69
def OP_I32_ADD : Nat := 0x6A
def OP_I32_SUB : Nat := 0x6B
def OP_I32_MUL : Nat := 0x6C
def OP_I32_DIV_S : Nat := 0x6D
def OP_I32_DIV_U : Nat := 0x6E
def OP_I32_REM_S : Nat := 0x6F
def OP_I32_REM_U : Nat := 0x70
def OP_I32_AND : Nat := 0x71
def OP_I32_OR : Nat := 0x72
def OP_I32_XOR : Nat := 0x73
def OP_I32_SHL : Nat := 0x74
def OP_I32_SHR_S : Nat := 0x75
def OP_I32_SHR_U : Nat := 0x76
def OP_I32_ROTL : Nat := 0x77
def OP_I32_ROTR : Nat := 0x78
def OP_I64_CLZ : Nat := 0x79
def OP_I64_CTZ : Nat := 0x7A
def OP_I64_POPCNT : Nat := 0x7B
def OP_I64_ADD : Nat := 0x7C
def OP_I64_SUB : Nat := 0x7D
def OP_I64_MUL : Nat := 0x7E
def OP_I64_DIV_S : Nat := 0x7F
def OP_I64_DIV_U : Nat := 0x80
def OP_I64_REM_S : Nat := 0x81
def OP_I64_REM_U : Nat := 0x82
def OP_I64_AND : Nat := 0x83
def OP_I64_OR : Nat := 0x84
def OP_I64_XOR : Nat := 0x85
def OP_I64_SHL : Nat := 0x86
def OP_I64_SHR_S : Nat := 0x87
def OP_I64_SHR_U : Nat := 0x88
def OP_I64_ROTL : Nat := 0x89
def OP_I64_ROTR : Nat := 0x8A
def OP_F32_ABS : Nat := 0x8B
def OP_F32_NEG : Nat := 0x8C
def OP_F32_CEIL : Nat := 0x8D
def OP_F32_FLOOR : Nat := 0x8E
def OP_F32_TRUNC : Nat := 0x8F
def OP_F32_NEAREST : Nat := 0x90
def OP_F32_SQRT : Nat := 0x91
def OP_F32_ADD : Nat := 0x92
def OP_F32_SUB : Nat := 0x93
def OP_F32_MUL : Nat := 0x94
def OP_F32_DIV : Nat := 0x95
def OP_F32_MIN : Nat := 0x96
def OP_F32_MAX : Nat := 0x97
def OP_F32_COPY_SIGN : Nat := 0x98
def OP_F64_ABS : Nat := 0x99
def OP_F64_NEG : Nat := 0x9A
def OP_F64_CEIL : Nat := 0x9B
def OP_F64_FLOOR : Nat := 0x9C
def OP_F64_TRUNC : Nat := 0x9D
def OP_F64_NEAREST : Nat := 0x9E
def OP_F64_SQRT : Nat := 0x9F
def OP_F64_ADD : Nat := 0xA0
def OP_F64_SUB : Nat := 0xA1
def OP_F64_MUL : Nat := 0xA2
def OP_F64_DIV : Nat := 0xA3
def OP_F64_MIN : Nat := 0xA4
def OP_F64_MAX : Nat := 0xA5
def OP_F64_COPY_SIGN : Nat := 0xA6
def OP_I32_WRAP_I64 : Nat := 0xA7
def OP_I32_TRUNC_S_F32 : Nat := 0xA8
def OP_I32_TRUNC_U_F32 : Nat := 0xA9
def OP_I32_TRUNC_S_F64 : Nat := 0xAA
def OP_I32_TRUNC_U_F64 : Nat := 0xAB
def OP_I64_EXTEND_S_I32 : Nat := 0xAC
def OP_I64_EXTEND_U_I32 : Nat := 0xAD
def OP_I64_TRUNC_S_F32 : Nat := 0xAE
def OP_I64_TRUNC_U_F32 : Nat := 0xAF
def OP_I64_TRUNC_S_F64 : Nat := 0xB0
def OP_I64_TRUNC_U_F64 : Nat := 0xB1
def OP_F32_CONVERT_S_I32 : Nat := 0xB2
def OP_F32_CONVERT_U_I32 : Nat := 0xB3
def OP_F32_CONVERT_S_I64 : Nat := 0xB4
def OP_F32_CONVERT_U_I64 : Nat := 0xB5
def OP_F32_DEMOTE_F64 : Nat := 0xB6
def OP_F64_CONVERT_S_I32 : Nat := 0xB7
def OP_F64_CONVERT_U_I32 : Nat := 0xB8
def OP_F64_CONVERT_S_I64 : Nat := 0xB9
def OP_F64_CONVERT_U_I64 : Nat := 0xBA
def OP_F64_PROMOTE_F32 : Nat := 0xBB
def OP_I32_REINTERPRET_F32 : Nat := 0xBC
def OP_I64_REINTERPRET_F64 : Nat := 0xBD
def OP_F32_REINTERPRET_I32 : Nat := 0xBE
def OP_F64_REINTERPRET_I64 : Nat := 0xBF
def NUM_OPCODES : Nat := 0xC0

/-- The functions that `exec_jump_table` names. -/
inductive exec_fn where
  | exec_unreachable_op
  | exec_no_op
  | exec_block_op
  | exec_loop_op
  | exec_if_op
  | exec_else_op
  | exec_invalid_op
  | exec_end_op
  | exec_br_op
  | exec_br_if_op
  | exec_br_table_op
  | exec_return_op
  | exec_call_op
  | exec_call_indirect_op
  | exec_drop_op
  | exec_select_op
  | exec_get_local_op
  | exec_set_local_op
  | exec_tee_local_op
  | exec_get_global_op
  | exec_set_global_op
  | exec_i32_load_op
  | exec_i64_load_op
  | exec_f32_load_op
  | exec_f64_load_op
  | exec_i32_load_8_s_op
  | exec_i32_load_8_u_op
  | exec_i32_load_16_s_op
  | exec_i32_load_16_u_op
  | exec_i64_load_8_s_op
  | exec_i64_load_8_u_op
  | exec_i64_load_16_s_op
  | exec_i64_load_16_u_op
  | exec_i64_load_32_s_op
  | exec_i64_load_32_u_op
  | exec_i32_store_op
  | exec_i64_store_op
  | exec_f32_store_op
  | exec_f64_store_op
  | exec_i32_store_8_op
  | exec_i32_store_16_op
  | exec_i64_store_8_op
  | exec_i64_store_16_op
  | exec_i64_store_32_op
  | exec_current_memory_op
  | exec_grow_memory_op
  | exec_i32_const_op
  | exec_i64_const_op
  | exec_f32_const_op
  | exec_f64_const_op
  | exec_i32_eqz_op
  | exec_i32_eq_op
  | exec_i32_ne_op
  | exec_i32_lt_s_op
  | exec_i32_lt_u_op
  | exec_i32_gt_s_op
  | exec_i32_gt_u_op
  | exec_i32_le_s_op
  | exec_i32_le_u_op
  | exec_i32_ge_s_op
  | exec_i32_ge_u_op
  | exec_i64_eqz_op
  | exec_i64_eq_op
  | exec_i64_ne_op
  | exec_i64_lt_s_op
  | exec_i64_lt_u_op
  | exec_i64_gt_s_op
  | exec_i64_gt_u_op
  | exec_i64_le_s_op
  | exec_i64_le_u_op
  | exec_i64_ge_s_op
  | exec_i64_ge_u_op
  | exec_f32_eq_op
  | exec_f32_ne_op
  | exec_f32_lt_op
  | exec_f32_gt_op
  | exec_f32_le_op
  | exec_f32_ge_op
  | exec_f64_eq_op
  | exec_f64_ne_op
  | exec_f64_lt_op
  | exec_f64_gt_op
  | exec_f64_le_op
  | exec_f64_ge_op
  | exec_i32_clz_op
  | exec_i32_ctz_op
  | exec_i32_popcnt_op
  | exec_i32_add_op
  | exec_i32_sub_op
  | exec_i32_mul_op
  | exec_i32_div_s_op
  | exec_i32_div_u_op
  | exec_i32_rem_s_op
  | exec_i32_rem_u_op
  | exec_i32_and_op
  | exec_i32_or_op
  | exec_i32_xor_op
  | exec_i32_shl_op
  | exec_i32_shr_s_op
  | exec_i32_shr_u_op
  | exec_i32_rotl_op
  | exec_i32_rotr_op
  | exec_i64_clz_op
  | exec_i64_ctz_op
  | exec_i64_popcnt_op
  | exec_i64_add_op
  | exec_i64_sub_op
  | exec_i64_mul_op
  | exec_i64_div_s_op
  | exec_i64_div_u_op
  | exec_i64_rem_s_op
  | exec_i64_rem_u_op
  | exec_i64_and_op
  | exec_i64_or_op
  | exec_i64_xor_op
  | exec_i64_shl_op
  | exec_i64_shr_s_op
  | exec_i64_shr_u_op
  | exec_i64_rotl_op
  | exec_i64_rotr_op
  | exec_f32_abs_op
  | exec_f32_neg_op
  | exec_f32_ceil_op
  | exec_f32_floor_op
  | exec_f32_trunc_op
  | exec_f32_nearest_op
  | exec_f32_sqrt_op
  | exec_f32_add_op
  | exec_f32_sub_op
  | exec_f32_mul_op
  | exec_f32_div_op
  | exec_f32_min_op
  | exec_f32_max_op
  | exec_f32_copy_sign_op
  | exec_f64_abs_op
  | exec_f64_neg_op
  | exec_f64_ceil_op
  | exec_f64_floor_op
  | exec_f64_trunc_op
  | exec_f64_nearest_op
  | exec_f64_sqrt_op
  | exec_f64_add_op
  | exec_f64_sub_op
  | exec_f64_mul_op
  | exec_f64_div_op
  | exec_f64_min_op
  | exec_f64_max_op
  | exec_f64_copy_sign_op
  | exec_i32_wrap_i64_op
  | exec_i32_trunc_s_f32_op
  | exec_i32_trunc_u_f32_op
  | exec_i32_trunc_s_f64_op
  | exec_i32_trunc_u_f64_op
  | exec_i64_extend_s_i32_op
  | exec_i64_extend_u_i32_op
  | exec_i64_trunc_s_f32_op
  | exec_i64_trunc_u_f32_op
  | exec_i64_trunc_s_f64_op
  | exec_i64_trunc_u_f64_op
  | exec_f32_convert_s_i32_op
  | exec_f32_convert_u_i32_op
  | exec_f32_convert_s_i64_op
  | exec_f32_convert_u_i64_op
  | exec_f32_demote_f64_op
  | exec_f64_convert_s_i32_op
  | exec_f64_convert_u_i32_op
  | exec_f64_convert_s_i64_op
  | exec_f64_convert_u_i64_op
  | exec_f64_promote_f32_op
  | exec_i32_reinterpret_f32_op
  | exec_i64_reinterpret_f64_op
  | exec_f32_reinterpret_i32_op
  | exec_f64_reinterpret_i64_op
  deriving DecidableEq, Repr

/-- The functions that `check_jump_table` names. -/
inductive check_fn where
  | check_unreachable
  | check_noop
  | check_block
  | check_loop
  | check_if
  | check_else
  | check_invalid_op
  | check_end
  | check_br
  | check_br_if
  | check_br_table
  | check_return
  | check_call
  | check_call_indirect
  | check_drop
  | check_select
  | check_get_local
  | check_set_local
  | check_tee_local
  | check_get_global
  | check_set_global
  | check_load
  | check_store
  | check_current_memory
  | check_grow_memory
  | check_i32_const
  | check_i64_const
  | check_f32_const
  | check_f64_const
  | check_i32_cmp_unary
  | check_i32_cmp_binary
  | check_i64_cmp_unary
  | check_i64_cmp_binary
  | check_f32_cmp
  | check_f64_cmp
  | check_i32_unary
  | check_i32_binary
  | check_i64_unary
  | check_i64_binary
  | check_f32_unary
  | check_f32_binary
  | check_f64_unary
  | check_f64_binary
  | check_convert_i32_i64
  | check_convert_i32_f32
  | check_convert_i32_f64
  | check_convert_i64_i32
  | check_convert_i64_f32
  | check_convert_i64_f64
  | check_convert_f32_i32
  | check_convert_f32_i64
  | check_convert_f32_f64
  | check_convert_f64_i32
  | check_convert_f64_i64
  | check_convert_f64_f32
  | check_reinterpret_i32_f32
  | check_reinterpret_i64_f64
  | check_reinterpret_f32_i32
  | check_reinterpret_f64_i64
  deriving DecidableEq, Repr

/-- The initialiser of `exec_jump_table`: each designator with the function it is
given, in the order of the source. -/
def exec_jump_table : List (Nat × exec_fn) :=
  [(OP_UNREACHABLE, exec_fn.exec_unreachable_op),
   (OP_NOOP, exec_fn.exec_no_op),
   (OP_BLOCK, exec_fn.exec_block_op),
   (OP_LOOP, exec_fn.exec_loop_op),
   (OP_IF, exec_fn.exec_if_op),
   (OP_ELSE, exec_fn.exec_else_op),
   (OP_RES_01, exec_fn.exec_invalid_op),
   (OP_RES_02, exec_fn.exec_invalid_op),
   (OP_RES_03, exec_fn.exec_invalid_op),
   (OP_RES_04, exec_fn.exec_invalid_op),
   (OP_RES_05, exec_fn.exec_invalid_op),
   (OP_END, exec_fn.exec_end_op),
   (OP_BR, exec_fn.exec_br_op),
   (OP_BR_IF, exec_fn.exec_br_if_op),
   (OP_BR_TABLE, exec_fn.exec_br_table_op),
   (OP_RETURN, exec_fn.exec_return_op),
   (OP_CALL, exec_fn.exec_call_op),
   (OP_CALL_INDIRECT, exec_fn.exec_call_indirect_op),
   (OP_RES_06, exec_fn.exec_invalid_op),
   (OP_RES_07, exec_fn.exec_invalid_op),
   (OP_RES_08, exec_fn.exec_invalid_op),
   (OP_RES_09, exec_fn.exec_invalid_op),
   (OP_RES_0A, exec_fn.exec_invalid_op),
   (OP_RES_0B, exec_fn.exec_invalid_op),
   (OP_RES_0C, exec_fn.exec_invalid_op),
   (OP_RES_0D, exec_fn.exec_invalid_op),
   (OP_DROP, exec_fn.exec_drop_op),
   (OP_SELECT, exec_fn.exec_select_op),
   (OP_RES_0E, exec_fn.exec_invalid_op),
   (OP_RES_0F, exec_fn.exec_invalid_op),
   (OP_RES_10, exec_fn.exec_invalid_op),
   (OP_RES_11, exec_fn.exec_invalid_op),
   (OP_GET_LOCAL, exec_fn.exec_get_local_op),
   (OP_SET_LOCAL, exec_fn.exec_set_local_op),
   (OP_TEE_LOCAL, exec_fn.exec_tee_local_op),
   (OP_GET_GLOBAL, exec_fn.exec_get_global_op),
   (OP_SET_GLOBAL, exec_fn.exec_set_global_op),
   (OP_RES_12, exec_fn.exec_invalid_op),
   (OP_RES_13, exec_fn.exec_invalid_op),
   (OP_RES_14, exec_fn.exec_invalid_op),
   (OP_I32_LOAD, exec_fn.exec_i32_load_op),
   (OP_I64_LOAD, exec_fn.exec_i64_load_op),
   (OP_F32_LOAD, exec_fn.exec_f32_load_op),
   (OP_F64_LOAD, exec_fn.exec_f64_load_op),
   (OP_I32_LOAD_8_S, exec_fn.exec_i32_load_8_s_op),
   (OP_I32_LOAD_8_U, exec_fn.exec_i32_load_8_u_op),
   (OP_I32_LOAD_16_S, exec_fn.exec_i32_load_16_s_op),
   (OP_I32_LOAD_16_U, exec_fn.exec_i32_load_16_u_op),
   (OP_I64_LOAD_8_S, exec_fn.exec_i64_load_8_s_op),
   (OP_I64_LOAD_8_U, exec_fn.exec_i64_load_8_u_op),
   (OP_I64_LOAD_16_S, exec_fn.exec_i64_load_16_s_op),
   (OP_I64_LOAD_16_U, exec_fn.exec_i64_load_16_u_op),
   (OP_I64_LOAD_32_S, exec_fn.exec_i64_load_32_s_op),
   (OP_I64_LOAD_32_U, exec_fn.exec_i64_load_32_u_op),
   (OP_I32_STORE, exec_fn.exec_i32_store_op),
   (OP_I64_STORE, exec_fn.exec_i64_store_op),
   (OP_F32_STORE, exec_fn.exec_f32_store_op),
   (OP_F64_STORE, exec_fn.exec_f64_store_op),
   (OP_I32_STORE_8, exec_fn.exec_i32_store_8_op),
   (OP_I32_STORE_16, exec_fn.exec_i32_store_16_op),
   (OP_I64_STORE_8, exec_fn.exec_i64_store_8_op),
   (OP_I64_STORE_16, exec_fn.exec_i64_store_16_op),
   (OP_I64_STORE_32, exec_fn.exec_i64_store_32_op),
   (OP_CURRENT_MEMORY, exec_fn.exec_current_memory_op),
   (OP_GROW_MEMORY, exec_fn.exec_grow_memory_op),
   (OP_I32_CONST, exec_fn.exec_i32_const_op),
   (OP_I64_CONST, exec_fn.exec_i64_const_op),
   (OP_F32_CONST, exec_fn.exec_f32_const_op),
   (OP_F64_CONST, exec_fn.exec_f64_const_op),
   (OP_I32_EQZ, exec_fn.exec_i32_eqz_op),
   (OP_I32_EQ, exec_fn.exec_i32_eq_op),
   (OP_I32_NE, exec_fn.exec_i32_ne_op),
   (OP_I32_LT_S, exec_fn.exec_i32_lt_s_op),
   (OP_I32_LT_U, exec_fn.exec_i32_lt_u_op),
   (OP_I32_GT_S, exec_fn.exec_i32_gt_s_op),
   (OP_I32_GT_U, exec_fn.exec_i32_gt_u_op),
   (OP_I32_LE_S, exec_fn.exec_i32_le_s_op),
   (OP_I32_LE_U, exec_fn.exec_i32_le_u_op),
   (OP_I32_GE_S, exec_fn.exec_i32_ge_s_op),
   (OP_I32_GE_U, exec_fn.exec_i32_ge_u_op),
   (OP_I64_EQZ, exec_fn.exec_i64_eqz_op),
   (OP_I64_EQ, exec_fn.exec_i64_eq_op),
   (OP_I64_NE, exec_fn.exec_i64_ne_op),
   (OP_I64_LT_S, exec_fn.exec_i64_lt_s_op),
   (OP_I64_LT_U, exec_fn.exec_i64_lt_u_op),
   (OP_I64_GT_S, exec_fn.exec_i64_gt_s_op),
   (OP_I64_GT_U, exec_fn.exec_i64_gt_u_op),
   (OP_I64_LE_S, exec_fn.exec_i64_le_s_op),
   (OP_I64_LE_U, exec_fn.exec_i64_le_u_op),
   (OP_I64_GE_S, exec_fn.exec_i64_ge_s_op),
   (OP_I64_GE_U, exec_fn.exec_i64_ge_u_op),
   (OP_F32_EQ, exec_fn.exec_f32_eq_op),
   (OP_F32_NE, exec_fn.exec_f32_ne_op),
   (OP_F32_LT, exec_fn.exec_f32_lt_op),
   (OP_F32_GT, exec_fn.exec_f32_gt_op),
   (OP_F32_LE, exec_fn.exec_f32_le_op),
   (OP_F32_GE, exec_fn.exec_f32_ge_op),
   (OP_F64_EQ, exec_fn.exec_f64_eq_op),
   (OP_F64_NE, exec_fn.exec_f64_ne_op),
   (OP_F64_LT, exec_fn.exec_f64_lt_op),
   (OP_F64_GT, exec_fn.exec_f64_gt_op),
   (OP_F64_LE, exec_fn.exec_f64_le_op),
   (OP_F64_GE, exec_fn.exec_f64_ge_op),
   (OP_I32_CLZ, exec_fn.exec_i32_clz_op),
   (OP_I32_CTZ, exec_fn.exec_i32_ctz_op),
   (OP_I32_POPCNT, exec_fn.exec_i32_popcnt_op),
   (OP_I32_ADD, exec_fn.exec_i32_add_op),
   (OP_I32_SUB, exec_fn.exec_i32_sub_op),
   (OP_I32_MUL, exec_fn.exec_i32_mul_op),
   (OP_I32_DIV_S, exec_fn.exec_i32_div_s_op),
   (OP_I32_DIV_U, exec_fn.exec_i32_div_u_op),
   (OP_I32_REM_S, exec_fn.exec_i32_rem_s_op),
   (OP_I32_REM_U, exec_fn.exec_i32_rem_u_op),
   (OP_I32_AND, exec_fn.exec_i32_and_op),
   (OP_I32_OR, exec_fn.exec_i32_or_op),
   (OP_I32_XOR, exec_fn.exec_i32_xor_op),
   (OP_I32_SHL, exec_fn.exec_i32_shl_op),
   (OP_I32_SHR_S, exec_fn.exec_i32_shr_s_op),
   (OP_I32_SHR_U, exec_fn.exec_i32_shr_u_op),
   (OP_I32_ROTL, exec_fn.exec_i32_rotl_op),
   (OP_I32_ROTR, exec_fn.exec_i32_rotr_op),
   (OP_I64_CLZ, exec_fn.exec_i64_clz_op),
   (OP_I64_CTZ, exec_fn.exec_i64_ctz_op),
   (OP_I64_POPCNT, exec_fn.exec_i64_popcnt_op),
   (OP_I64_ADD, exec_fn.exec_i64_add_op),
   (OP_I64_SUB, exec_fn.exec_i64_sub_op),
   (OP_I64_MUL, exec_fn.exec_i64_mul_op),
   (OP_I64_DIV_S, exec_fn.exec_i64_div_s_op),
   (OP_I64_DIV_U, exec_fn.exec_i64_div_u_op),
   (OP_I64_REM_S, exec_fn.exec_i64_rem_s_op),
   (OP_I64_REM_U, exec_fn.exec_i64_rem_u_op),
   (OP_I64_AND, exec_fn.exec_i64_and_op),
   (OP_I64_OR, exec_fn.exec_i64_or_op),
   (OP_I64_XOR, exec_fn.exec_i64_xor_op),
   (OP_I64_SHL, exec_fn.exec_i64_shl_op),
   (OP_I64_SHR_S, exec_fn.exec_i64_shr_s_op),
   (OP_I64_SHR_U, exec_fn.exec_i64_shr_u_op),
   (OP_I64_ROTL, exec_fn.exec_i64_rotl_op),
   (OP_I64_ROTR, exec_fn.exec_i64_rotr_op),
   (OP_F32_ABS, exec_fn.exec_f32_abs_op),
   (OP_F32_NEG, exec_fn.exec_f32_neg_op),
   (OP_F32_CEIL, exec_fn.exec_f32_ceil_op),
   (OP_F32_FLOOR, exec_fn.exec_f32_floor_op),
   (OP_F32_TRUNC, exec_fn.exec_f32_trunc_op),
   (OP_F32_NEAREST, exec_fn.exec_f32_nearest_op),
   (OP_F32_SQRT, exec_fn.exec_f32_sqrt_op),
   (OP_F32_ADD, exec_fn.exec_f32_add_op),
   (OP_F32_SUB, exec_fn.exec_f32_sub_op),
   (OP_F32_MUL, exec_fn.exec_f32_mul_op),
   (OP_F32_DIV, exec_fn.exec_f32_div_op),
   (OP_F32_MIN, exec_fn.exec_f32_min_op),
   (OP_F32_MAX, exec_fn.exec_f32_max_op),
   (OP_F32_COPY_SIGN, exec_fn.exec_f32_copy_sign_op),
   (OP_F64_ABS, exec_fn.exec_f64_abs_op),
   (OP_F64_NEG, exec_fn.exec_f64_neg_op),
   (OP_F64_CEIL, exec_fn.exec_f64_ceil_op),
   (OP_F64_FLOOR, exec_fn.exec_f64_floor_op),
   (OP_F64_TRUNC, exec_fn.exec_f64_trunc_op),
   (OP_F64_NEAREST, exec_fn.exec_f64_nearest_op),
   (OP_F64_SQRT, exec_fn.exec_f64_sqrt_op),
   (OP_F64_ADD, exec_fn.exec_f64_add_op),
   (OP_F64_SUB, exec_fn.exec_f64_sub_op),
   (OP_F64_MUL, exec_fn.exec_f64_mul_op),
   (OP_F64_DIV, exec_fn.exec_f64_div_op),
   (OP_F64_MIN, exec_fn.exec_f64_min_op),
   (OP_F64_MAX, exec_fn.exec_f64_max_op),
   (OP_F64_COPY_SIGN, exec_fn.exec_f64_copy_sign_op),
   (OP_I32_WRAP_I64, exec_fn.exec_i32_wrap_i64_op),
   (OP_I32_TRUNC_S_F32, exec_fn.exec_i32_trunc_s_f32_op),
   (OP_I32_TRUNC_U_F32, exec_fn.exec_i32_trunc_u_f32_op),
   (OP_I32_TRUNC_S_F64, exec_fn.exec_i32_trunc_s_f64_op),
   (OP_I32_TRUNC_U_F64, exec_fn.exec_i32_trunc_u_f64_op),
   (OP_I64_EXTEND_S_I32, exec_fn.exec_i64_extend_s_i32_op),
   (OP_I64_EXTEND_U_I32, exec_fn.exec_i64_extend_u_i32_op),
   (OP_I64_TRUNC_S_F32, exec_fn.exec_i64_trunc_s_f32_op),
   (OP_I64_TRUNC_U_F32, exec_fn.exec_i64_trunc_u_f32_op),
   (OP_I64_TRUNC_S_F64, exec_fn.exec_i64_trunc_s_f64_op),
   (OP_I64_TRUNC_U_F64, exec_fn.exec_i64_trunc_u_f64_op),
   (OP_F32_CONVERT_S_I32, exec_fn.exec_f32_convert_s_i32_op),
   (OP_F32_CONVERT_U_I32, exec_fn.exec_f32_convert_u_i32_op),
   (OP_F32_CONVERT_S_I64, exec_fn.exec_f32_convert_s_i64_op),
   (OP_F32_CONVERT_U_I64, exec_fn.exec_f32_convert_u_i64_op),
   (OP_F32_DEMOTE_F64, exec_fn.exec_f32_demote_f64_op),
   (OP_F64_CONVERT_S_I32, exec_fn.exec_f64_convert_s_i32_op),
   (OP_F64_CONVERT_U_I32, exec_fn.exec_f64_convert_u_i32_op),
   (OP_F64_CONVERT_S_I64, exec_fn.exec_f64_convert_s_i64_op),
   (OP_F64_CONVERT_U_I64, exec_fn.exec_f64_convert_u_i64_op),
   (OP_F64_PROMOTE_F32, exec_fn.exec_f64_promote_f32_op),
   (OP_I32_REINTERPRET_F32, exec_fn.exec_i32_reinterpret_f32_op),
   (OP_I64_REINTERPRET_F64, exec_fn.exec_i64_reinterpret_f64_op),
   (OP_F32_REINTERPRET_I32, exec_fn.exec_f32_reinterpret_i32_op),
   (OP_F64_REINTERPRET_I64, exec_fn.exec_f64_reinterpret_i64_op)]

/-- The initialiser of `check_jump_table`: each designator with the function it is
given, in the order of the source. -/
def check_jump_table : List (Nat × check_fn) :=
  [(OP_UNREACHABLE, check_fn.check_unreachable),
   (OP_NOOP, check_fn.check_noop),
   (OP_BLOCK, check_fn.check_block),
   (OP_LOOP, check_fn.check_loop),
   (OP_IF, check_fn.check_if),
   (OP_ELSE, check_fn.check_else),
   (OP_RES_01, check_fn.check_invalid_op),
   (OP_RES_02, check_fn.check_invalid_op),
   (OP_RES_03, check_fn.check_invalid_op),
   (OP_RES_04, check_fn.check_invalid_op),
   (OP_RES_05, check_fn.check_invalid_op),
   (OP_END, check_fn.check_end),
   (OP_BR, check_fn.check_br),
   (OP_BR_IF, check_fn.check_br_if),
   (OP_BR_TABLE, check_fn.check_br_table),
   (OP_RETURN, check_fn.check_return),
   (OP_CALL, check_fn.check_call),
   (OP_CALL_INDIRECT, check_fn.check_call_indirect),
   (OP_RES_06, check_fn.check_invalid_op),
   (OP_RES_07, check_fn.check_invalid_op),
   (OP_RES_08, check_fn.check_invalid_op),
   (OP_RES_09, check_fn.check_invalid_op),
   (OP_RES_0A, check_fn.check_invalid_op),
   (OP_RES_0B, check_fn.check_invalid_op),
   (OP_RES_0C, check_fn.check_invalid_op),
   (OP_RES_0D, check_fn.check_invalid_op),
   (OP_DROP, check_fn.check_drop),
   (OP_SELECT, check_fn.check_select),
   (OP_RES_0E, check_fn.check_invalid_op),
   (OP_RES_0F, check_fn.check_invalid_op),
   (OP_RES_10, check_fn.check_invalid_op),
   (OP_RES_11, check_fn.check_invalid_op),
   (OP_GET_LOCAL, check_fn.check_get_local),
   (OP_SET_LOCAL, check_fn.check_set_local),
   (OP_TEE_LOCAL, check_fn.check_tee_local),
   (OP_GET_GLOBAL, check_fn.check_get_global),
   (OP_SET_GLOBAL, check_fn.check_set_global),
   (OP_RES_12, check_fn.check_invalid_op),
   (OP_RES_13, check_fn.check_invalid_op),
   (OP_RES_14, check_fn.check_invalid_op),
   (OP_I32_LOAD, check_fn.check_load),
   (OP_I64_LOAD, check_fn.check_load),
   (OP_F32_LOAD, check_fn.check_load),
   (OP_F64_LOAD, check_fn.check_load),
   (OP_I32_LOAD_8_S, check_fn.check_load),
   (OP_I32_LOAD_8_U, check_fn.check_load),
   (OP_I32_LOAD_16_S, check_fn.check_load),
   (OP_I32_LOAD_16_U, check_fn.check_load),
   (OP_I64_LOAD_8_S, check_fn.check_load),
   (OP_I64_LOAD_8_U, check_fn.check_load),
   (OP_I64_LOAD_16_S, check_fn.check_load),
   (OP_I64_LOAD_16_U, check_fn.check_load),
   (OP_I64_LOAD_32_S, check_fn.check_load),
   (OP_I64_LOAD_32_U, check_fn.check_load),
   (OP_I32_STORE, check_fn.check_store),
   (OP_I64_STORE, check_fn.check_store),
   (OP_F32_STORE, check_fn.check_store),
   (OP_F64_STORE, check_fn.check_store),
   (OP_I32_STORE_8, check_fn.check_store),
   (OP_I32_STORE_16, check_fn.check_store),
   (OP_I64_STORE_8, check_fn.check_store),
   (OP_I64_STORE_16, check_fn.check_store),
   (OP_I64_STORE_32, check_fn.check_store),
   (OP_CURRENT_MEMORY, check_fn.check_current_memory),
   (OP_GROW_MEMORY, check_fn.check_grow_memory),
   (OP_I32_CONST, check_fn.check_i32_const),
   (OP_I64_CONST, check_fn.check_i64_const),
   (OP_F32_CONST, check_fn.check_f32_const),
   (OP_F64_CONST, check_fn.check_f64_const),
   (OP_I32_EQZ, check_fn.check_i32_cmp_unary),
   (OP_I32_EQ, check_fn.check_i32_cmp_binary),
   (OP_I32_NE, check_fn.check_i32_cmp_binary),
   (OP_I32_LT_S, check_fn.check_i32_cmp_binary),
   (OP_I32_LT_U, check_fn.check_i32_cmp_binary),
   (OP_I32_GT_S, check_fn.check_i32_cmp_binary),
   (OP_I32_GT_U, check_fn.check_i32_cmp_binary),
   (OP_I32_LE_S, check_fn.check_i32_cmp_binary),
   (OP_I32_LE_U, check_fn.check_i32_cmp_binary),
   (OP_I32_GE_S, check_fn.check_i32_cmp_binary),
   (OP_I32_GE_U, check_fn.check_i32_cmp_binary),
   (OP_I64_EQZ, check_fn.check_i64_cmp_unary),
   (OP_I64_EQ, check_fn.check_i64_cmp_binary),
   (OP_I64_NE, check_fn.check_i64_cmp_binary),
   (OP_I64_LT_S, check_fn.check_i64_cmp_binary),
   (OP_I64_LT_U, check_fn.check_i64_cmp_binary),
   (OP_I64_GT_S, check_fn.check_i64_cmp_binary),
   (OP_I64_GT_U, check_fn.check_i64_cmp_binary),
   (OP_I64_LE_S, check_fn.check_i64_cmp_binary),
   (OP_I64_LE_U, check_fn.check_i64_cmp_binary),
   (OP_I64_GE_S, check_fn.check_i64_cmp_binary),
   (OP_I64_GE_U, check_fn.check_i64_cmp_binary),
   (OP_F32_EQ, check_fn.check_f32_cmp),
   (OP_F32_NE, check_fn.check_f32_cmp),
   (OP_F32_LT, check_fn.check_f32_cmp),
   (OP_F32_GT, check_fn.check_f32_cmp),
   (OP_F32_LE, check_fn.check_f32_cmp),
   (OP_F32_GE, check_fn.check_f32_cmp),
   (OP_F64_EQ, check_fn.check_f64_cmp),
   (OP_F64_NE, check_fn.check_f64_cmp),
   (OP_F64_LT, check_fn.check_f64_cmp),
   (OP_F64_GT, check_fn.check_f64_cmp),
   (OP_F64_LE, check_fn.check_f64_cmp),
   (OP_F64_GE, check_fn.check_f64_cmp),
   (OP_I32_CLZ, check_fn.check_i32_unary),
   (OP_I32_CTZ, check_fn.check_i32_unary),
   (OP_I32_POPCNT, check_fn.check_i32_unary),
   (OP_I32_ADD, check_fn.check_i32_binary),
   (OP_I32_SUB, check_fn.check_i32_binary),
   (OP_I32_MUL, check_fn.check_i32_binary),
   (OP_I32_DIV_S, check_fn.check_i32_binary),
   (OP_I32_DIV_U, check_fn.check_i32_binary),
   (OP_I32_REM_S, check_fn.check_i32_binary),
   (OP_I32_REM_U, check_fn.check_i32_binary),
   (OP_I32_AND, check_fn.check_i32_binary),
   (OP_I32_OR, check_fn.check_i32_binary),
   (OP_I32_XOR, check_fn.check_i32_binary),
   (OP_I32_SHL, check_fn.check_i32_binary),
   (OP_I32_SHR_S, check_fn.check_i32_binary),
   (OP_I32_SHR_U, check_fn.check_i32_binary),
   (OP_I32_ROTL, check_fn.check_i32_binary),
   (OP_I32_ROTR, check_fn.check_i32_binary),
   (OP_I64_CLZ, check_fn.check_i64_unary),
   (OP_I64_CTZ, check_fn.check_i64_unary),
   (OP_I64_POPCNT, check_fn.check_i64_unary),
   (OP_I64_ADD, check_fn.check_i64_binary),
   (OP_I64_SUB, check_fn.check_i64_binary),
   (OP_I64_MUL, check_fn.check_i64_binary),
   (OP_I64_DIV_S, check_fn.check_i64_binary),
   (OP_I64_DIV_U, check_fn.check_i64_binary),
   (OP_I64_REM_S, check_fn.check_i64_binary),
   (OP_I64_REM_U, check_fn.check_i64_binary),
   (OP_I64_AND, check_fn.check_i64_binary),
   (OP_I64_OR, check_fn.check_i64_binary),
   (OP_I64_XOR, check_fn.check_i64_binary),
   (OP_I64_SHL, check_fn.check_i64_binary),
   (OP_I64_SHR_S, check_fn.check_i64_binary),
   (OP_I64_SHR_U, check_fn.check_i64_binary),
   (OP_I64_ROTL, check_fn.check_i64_binary),
   (OP_I64_ROTR, check_fn.check_i64_binary),
   (OP_F32_ABS, check_fn.check_f32_unary),
   (OP_F32_NEG, check_fn.check_f32_unary),
   (OP_F32_CEIL, check_fn.check_f32_unary),
   (OP_F32_FLOOR, check_fn.check_f32_unary),
   (OP_F32_TRUNC, check_fn.check_f32_unary),
   (OP_F32_NEAREST, check_fn.check_f32_unary),
   (OP_F32_SQRT, check_fn.check_f32_unary),
   (OP_F32_ADD, check_fn.check_f32_binary),
   (OP_F32_SUB, check_fn.check_f32_binary),
   (OP_F32_MUL, check_fn.check_f32_binary),
   (OP_F32_DIV, check_fn.check_f32_binary),
   (OP_F32_MIN, check_fn.check_f32_binary),
   (OP_F32_MAX, check_fn.check_f32_binary),
   (OP_F32_COPY_SIGN, check_fn.check_f32_binary),
   (OP_F64_ABS, check_fn.check_f64_unary),
   (OP_F64_NEG, check_fn.check_f64_unary),
   (OP_F64_CEIL, check_fn.check_f64_unary),
   (OP_F64_FLOOR, check_fn.check_f64_unary),
   (OP_F64_TRUNC, check_fn.check_f64_unary),
   (OP_F64_NEAREST, check_fn.check_f64_unary),
   (OP_F64_SQRT, check_fn.check_f64_unary),
   (OP_F64_ADD, check_fn.check_f64_binary),
   (OP_F64_SUB, check_fn.check_f64_binary),
   (OP_F64_MUL, check_fn.check_f64_binary),
   (OP_F64_DIV, check_fn.check_f64_binary),
   (OP_F64_MIN, check_fn.check_f64_binary),
   (OP_F64_MAX, check_fn.check_f64_binary),
   (OP_F64_COPY_SIGN, check_fn.check_f64_binary),
   (OP_I32_WRAP_I64, check_fn.check_convert_i32_i64),
   (OP_I32_TRUNC_S_F32, check_fn.check_convert_i32_f32),
   (OP_I32_TRUNC_U_F32, check_fn.check_convert_i32_f32),
   (OP_I32_TRUNC_S_F64, check_fn.check_convert_i32_f64),
   (OP_I32_TRUNC_U_F64, check_fn.check_convert_i32_f64),
   (OP_I64_EXTEND_S_I32, check_fn.check_convert_i64_i32),
   (OP_I64_EXTEND_U_I32, check_fn.check_convert_i64_i32),
   (OP_I64_TRUNC_S_F32, check_fn.check_convert_i64_f32),
   (OP_I64_TRUNC_U_F32, check_fn.check_convert_i64_f32),
   (OP_I64_TRUNC_S_F64, check_fn.check_convert_i64_f64),
   (OP_I64_TRUNC_U_F64, check_fn.check_convert_i64_f64),
   (OP_F32_CONVERT_S_I32, check_fn.check_convert_f32_i32),
   (OP_F32_CONVERT_U_I32, check_fn.check_convert_f32_i32),
   (OP_F32_CONVERT_S_I64, check_fn.check_convert_f32_i64),
   (OP_F32_CONVERT_U_I64, check_fn.check_convert_f32_i64),
   (OP_F32_DEMOTE_F64, check_fn.check_convert_f32_f64),
   (OP_F64_CONVERT_S_I32, check_fn.check_convert_f64_i32),
   (OP_F64_CONVERT_U_I32, check_fn.check_convert_f64_i32),
   (OP_F64_CONVERT_S_I64, check_fn.check_convert_f64_i64),
   (OP_F64_CONVERT_U_I64, check_fn.check_convert_f64_i64),
   (OP_F64_PROMOTE_F32, check_fn.check_convert_f64_f32),
   (OP_I32_REINTERPRET_F32, check_fn.check_reinterpret_i32_f32),
   (OP_I64_REINTERPRET_F64, check_fn.check_reinterpret_i64_f64),
   (OP_F32_REINTERPRET_I32, check_fn.check_reinterpret_f32_i32),
   (OP_F64_REINTERPRET_I64, check_fn.check_reinterpret_f64_i64)]

/-- The number of elements of an array declared `[]` with designated initialisers:
one more than the largest designator. -/
def jump_table_size {α : Type} (table : List (Nat × α)) : Nat :=
  table.foldl (fun size entry => max size (entry.1 + 1)) 0

/-- The element `i` of an array with designated initialisers: the function of the
last initialiser that designates `i`, and `none`, the null pointer, when no
initialiser designates `i`. -/
def jump_table_entry {α : Type} (table : List (Nat × α)) (i : Nat) : Option α :=
  table.foldl (fun found entry => if entry.1 = i then some entry.2 else found) none

/-- The function that the call `table[i](...)` reaches; `none` when `i` is outside
the array or the element is the null pointer, where the call has no defined
behaviour. -/
def jump_table_call {α : Type} (table : List (Nat × α)) (i : Nat) : Option α :=
  if i < jump_table_size table then jump_table_entry table i else none

/-- The code that a handler returns: `WRP_SUCCESS` when it succeeds. -/
def err_code : Except wrp_err_t Unit → wrp_err_t
  | Except.ok _ => wrp_err_t.WRP_SUCCESS
  | Except.error e => e

/-- The function behind each name of `exec_jump_table`, for the handlers defined
above; `others` gives the remaining ones. The undefined shifts `ub`, the bound
`MAX_BRANCH_TABLE_SIZE` and the helper `wrp_stk_exec_pop_block` are handed to
the handlers that take them. -/
def exec_handler (ub : Int → Int → Int) (MAX_BRANCH_TABLE_SIZE : Nat)
    (wrp_stk_exec_pop_block : Int → Bool → Exec Unit) (others : exec_fn → Exec Unit) :
    exec_fn → Exec Unit
  | exec_fn.exec_unreachable_op => exec_unreachable_op
  | exec_fn.exec_no_op => exec_no_op
  | exec_fn.exec_invalid_op => exec_invalid_op
  | exec_fn.exec_br_table_op => exec_br_table_op MAX_BRANCH_TABLE_SIZE wrp_stk_exec_pop_block
  | exec_fn.exec_call_indirect_op => exec_call_indirect_op
  | exec_fn.exec_drop_op => exec_drop_op
  | exec_fn.exec_select_op => exec_select_op
  | exec_fn.exec_tee_local_op => exec_tee_local_op
  | exec_fn.exec_i32_load_op => exec_i32_load_op
  | exec_fn.exec_i64_load_op => exec_i64_load_op
  | exec_fn.exec_f32_load_op => exec_f32_load_op
  | exec_fn.exec_f64_load_op => exec_f64_load_op
  | exec_fn.exec_i32_load_8_s_op => exec_i32_load_8_s_op
  | exec_fn.exec_i32_load_8_u_op => exec_i32_load_8_u_op
  | exec_fn.exec_i32_load_16_s_op => exec_i32_load_16_s_op
  | exec_fn.exec_i32_load_16_u_op => exec_i32_load_16_u_op
  | exec_fn.exec_i64_load_8_s_op => exec_i64_load_8_s_op
  | exec_fn.exec_i64_load_8_u_op => exec_i64_load_8_u_op
  | exec_fn.exec_i64_load_16_s_op => exec_i64_load_16_s_op
  | exec_fn.exec_i64_load_16_u_op => exec_i64_load_16_u_op
  | exec_fn.exec_i64_load_32_s_op => exec_i64_load_32_s_op
  | exec_fn.exec_i64_load_32_u_op => exec_i64_load_32_u_op
  | exec_fn.exec_i32_store_op => exec_i32_store_op
  | exec_fn.exec_i64_store_op => exec_i64_store_op
  | exec_fn.exec_f32_store_op => exec_f32_store_op
  | exec_fn.exec_f64_store_op => exec_f64_store_op
  | exec_fn.exec_i32_store_8_op => exec_i32_store_8_op
  | exec_fn.exec_i32_store_16_op => exec_i32_store_16_op
  | exec_fn.exec_i64_store_8_op => exec_i64_store_8_op
  | exec_fn.exec_i64_store_16_op => exec_i64_store_16_op
  | exec_fn.exec_i64_store_32_op => exec_i64_store_32_op
  | exec_fn.exec_grow_memory_op => exec_grow_memory_op
  | exec_fn.exec_i32_clz_op => exec_i32_clz_op
  | exec_fn.exec_i32_ctz_op => exec_i32_ctz_op
  | exec_fn.exec_i32_popcnt_op => exec_i32_popcnt_op
  | exec_fn.exec_i32_add_op => exec_i32_add_op
  | exec_fn.exec_i32_sub_op => exec_i32_sub_op
  | exec_fn.exec_i32_mul_op => exec_i32_mul_op
  | exec_fn.exec_i32_div_s_op => exec_i32_div_s_op
  | exec_fn.exec_i32_div_u_op => exec_i32_div_u_op
  | exec_fn.exec_i32_rem_s_op => exec_i32_rem_s_op
  | exec_fn.exec_i32_rem_u_op => exec_i32_rem_u_op
  | exec_fn.exec_i32_shl_op => exec_i32_shl_op ub
  | exec_fn.exec_i32_shr_s_op => exec_i32_shr_s_op ub
  | exec_fn.exec_i32_shr_u_op => exec_i32_shr_u_op ub
  | exec_fn.exec_i32_rotl_op => exec_i32_rotl_op
  | exec_fn.exec_i32_rotr_op => exec_i32_rotr_op
  | exec_fn.exec_i64_clz_op => exec_i64_clz_op
  | exec_fn.exec_i64_ctz_op => exec_i64_ctz_op
  | exec_fn.exec_i64_popcnt_op => exec_i64_popcnt_op
  | exec_fn.exec_i64_add_op => exec_i64_add_op
  | exec_fn.exec_i64_sub_op => exec_i64_sub_op
  | exec_fn.exec_i64_mul_op => exec_i64_mul_op
  | exec_fn.exec_i64_div_s_op => exec_i64_div_s_op
  | exec_fn.exec_i64_div_u_op => exec_i64_div_u_op
  | exec_fn.exec_i64_rem_s_op => exec_i64_rem_s_op
  | exec_fn.exec_i64_rem_u_op => exec_i64_rem_u_op
  | exec_fn.exec_i64_shl_op => exec_i64_shl_op ub
  | exec_fn.exec_i64_shr_s_op => exec_i64_shr_s_op ub
  | exec_fn.exec_i64_shr_u_op => exec_i64_shr_u_op ub
  | exec_fn.exec_i64_rotl_op => exec_i64_rotl_op
  | exec_fn.exec_i64_rotr_op => exec_i64_rotr_op
  | exec_fn.exec_i64_extend_u_i32_op => exec_i64_extend_u_i32_op
  | exec_fn.exec_i32_reinterpret_f32_op => exec_i32_reinterpret_f32_op
  | exec_fn.exec_i64_reinterpret_f64_op => exec_i64_reinterpret_f64_op
  | exec_fn.exec_f32_reinterpret_i32_op => exec_f32_reinterpret_i32_op
  | exec_fn.exec_f64_reinterpret_i64_op => exec_f64_reinterpret_i64_op
  | f => others f

/-- The handler `check_invalid_op` of `warp-type-check.c`, on any state of the
validator. -/
def check_invalid_op {σ : Type} : σ → Except wrp_err_t Unit × σ :=
  fun s => (Except.error wrp_err_t.WRP_ERR_INVALID_OPCODE, s)

/-- The function behind each name of `check_jump_table`: `check_invalid_op` as
defined above, `others` for the remaining ones. -/
def check_handler {σ : Type} (others : check_fn → σ → Except wrp_err_t Unit × σ) :
    check_fn → σ → Except wrp_err_t Unit × σ
  | check_fn.check_invalid_op => check_invalid_op
  | f => others f

/-- The body of the `while` loop of `wrp_exec_func`: the check of the cursor, the
fetch of the opcode byte with `wrp_read_uint8`, the check against `NUM_OPCODES`
and the call through `exec_jump_table`, whose result is stored in `vm->err`. The
result is `none` when the call has no defined behaviour. The byte buffer of the
model is never the null pointer. -/
def wrp_exec_func_body (handler : exec_fn → Exec Unit) (vm : wrp_vm_t) :
    Option (Except wrp_err_t Unit × wrp_vm_t) :=
  if vm.opcode_stream.pos ≥ vm.opcode_stream.sz then
    some (Except.error wrp_err_t.WRP_ERR_INSTRUCTION_OVERFLOW, vm)
  else
    let opcode := vm.opcode_stream.bytes.getD vm.opcode_stream.pos 0 % 256
    let vm1 : wrp_vm_t :=
      { vm with opcode_stream := { vm.opcode_stream with pos := vm.opcode_stream.pos + 1 } }
    if opcode ≥ NUM_OPCODES then some (Except.error wrp_err_t.WRP_ERR_INVALID_OPCODE, vm1)
    else
      match jump_table_call exec_jump_table opcode with
      | none => none
      | some f =>
        let r := handler f vm1
        some (r.1, { r.2 with err := err_code r.1 })

/-- The body of the `while` loop of `wrp_type_check_mdle`, entered with the cursor
before the end of the code: the fetch `bytes[pos++]`, the check against
`NUM_OPCODES` and the call through `check_jump_table`. The state is the
container with the module record `μ`. -/
def wrp_type_check_mdle_body {μ : Type}
    (handler : check_fn → wrp_vm_t × μ → Except wrp_err_t Unit × (wrp_vm_t × μ))
    (s : wrp_vm_t × μ) : Option (Except wrp_err_t Unit × (wrp_vm_t × μ)) :=
  let opcode := s.1.opcode_stream.bytes.getD s.1.opcode_stream.pos 0 % 256
  let s1 : wrp_vm_t × μ :=
    ({ s.1 with opcode_stream :=
        { s.1.opcode_stream with pos := s.1.opcode_stream.pos + 1 } }, s.2)
  if opcode ≥ NUM_OPCODES then some (Except.error wrp_err_t.WRP_ERR_INVALID_OPCODE, s1)
  else
    match jump_table_call check_jump_table opcode with
    | none => none
    | some f => some (handler f s1)

/-! ## Container life cycle (`warp.c`) -/

/-- The function `wrp_reset_vm`: the three stack heads are set to `-1`, so the
stacks are empty, the cursor is cleared and the last error is `WRP_SUCCESS`. -/
def wrp_reset_vm (vm : wrp_vm_t) : wrp_vm_t :=
  { vm with
    oprd_stk := [],
    ctrl_stk := [],
    call_stk := [],
    opcode_stream := { bytes := [], sz := 0, pos := 0 },
    err := wrp_err_t.WRP_SUCCESS }

/-- The function `wrp_attach_mdle`; the argument `mdle` is a pointer, `none` the
null pointer. -/
def wrp_attach_mdle (vm : wrp_vm_t) (mdle : Option wrp_wasm_mdle_t) : Bool × wrp_vm_t :=
  if vm.mdle ≠ none then (false, vm)
  else (true, wrp_reset_vm { vm with mdle := mdle })

/-- The function `wrp_detach_mdle`. -/
def wrp_detach_mdle (vm : wrp_vm_t) : Bool × wrp_vm_t :=
  if vm.mdle = none then (false, vm)
  else (true, { vm with mdle := none })

/-- The function `wrp_call`. The function `wrp_exec` that it calls is declared in
`warp-execution.h`, which is not among the sources, and is a parameter. -/
def wrp_call (wrp_exec : Nat → Exec Unit) (vm : wrp_vm_t) (func_idx : Nat) :
    Bool × wrp_vm_t :=
  match vm.mdle with
  | none => (false, vm)
  | some mdle =>
    if func_idx ≥ mdle.num_funcs then (false, vm)
    else
      let r := wrp_exec func_idx vm
      if err_code r.1 ≠ wrp_err_t.WRP_SUCCESS then (false, { r.2 with err := err_code r.1 })
      else (true, { r.2 with err := err_code r.1 })

/-- The function `wrp_instantiate_mdle`: the module pointer it returns (`none` is
the null pointer), the container and the byte buffer it leaves. The stages
`wrp_scan_mdle`, `wrp_check_meta`, `wrp_mdle_sz`, `wrp_mdle_init` and
`wrp_load_mdle` are not among the sources and are parameters, and so is
`wrp_type_check_mdle`, of which only the loop body is embedded. A stage gives
back the code it returns and the objects behind its pointer arguments.

The statement `vm->err = wrp_check_meta(&meta) != WRP_SUCCESS` stores the
truth value of the comparison, `1` or `0`, in the field; `err_of_int` gives the
enumerator of `warp-error.h` that has a given integer value. The block returned
by `alloc_fn` holds the record and `free_fn` has no effect on the model. -/
def wrp_instantiate_mdle (err_of_int : Int → wrp_err_t)
    (wrp_scan_mdle : wrp_buf_t → wrp_wasm_meta_t → wrp_err_t × wrp_buf_t × wrp_wasm_meta_t)
    (wrp_check_meta : wrp_wasm_meta_t → wrp_err_t)
    (wrp_mdle_sz : wrp_wasm_meta_t → Nat)
    (wrp_mdle_init : wrp_wasm_meta_t → wrp_wasm_mdle_t)
    (wrp_load_mdle : wrp_buf_t → wrp_wasm_mdle_t → wrp_err_t × wrp_buf_t × wrp_wasm_mdle_t)
    (wrp_type_check_mdle :
      wrp_vm_t → wrp_wasm_mdle_t → wrp_err_t × wrp_vm_t × wrp_wasm_mdle_t)
    (vm : wrp_vm_t) (buf : wrp_buf_t) : Option wrp_wasm_mdle_t × wrp_vm_t × wrp_buf_t :=
  if vm.mdle ≠ none then (none, vm, buf)
  else
    let summary : wrp_wasm_meta_t := {}
    let vm1 : wrp_vm_t := { vm with err := wrp_err_t.WRP_ERR_UNKNOWN }
    let scanned := wrp_scan_mdle buf summary
    let vm2 : wrp_vm_t := { vm1 with err := scanned.1 }
    if scanned.1 ≠ wrp_err_t.WRP_SUCCESS then (none, vm2, scanned.2.1)
    else
      let rejected : Int :=
        if wrp_check_meta scanned.2.2 ≠ wrp_err_t.WRP_SUCCESS then 1 else 0
      let vm3 : wrp_vm_t := { vm2 with err := err_of_int rejected }
      if rejected ≠ 0 then (none, vm3, scanned.2.1)
      else
        match vm.alloc_fn (wrp_mdle_sz scanned.2.2) 64 with
        | none =>
          (none, { vm3 with err := wrp_err_t.WRP_ERR_MEMORY_ALLOCATION_FAILED }, scanned.2.1)
        | some _ =>
          let loaded := wrp_load_mdle scanned.2.1 (wrp_mdle_init scanned.2.2)
          let vm4 : wrp_vm_t := { vm3 with err := loaded.1 }
          if loaded.1 ≠ wrp_err_t.WRP_SUCCESS then (none, vm4, loaded.2.1)
          else
            let checked := wrp_type_check_mdle vm4 loaded.2.2
            let vm5 : wrp_vm_t := { checked.2.1 with err := checked.1 }
            if checked.1 ≠ wrp_err_t.WRP_SUCCESS then
              (none, { vm5 with mdle := none }, loaded.2.1)
            else (some checked.2.2, vm5, loaded.2.1)

/-! ## Validator stack operations (`warp-stack-ops.c`) -/

/-- Modelled from the spec: `wrp_stk_check_push_op` of `warp-stack-ops.c`, which is
not among the sources. The type tag becomes the new top of the operand-type
stack, as a cell with payload `0`; overflow of the configured maximum is a
failure (`invalid-stk-operation`). -/
def wrp_stk_check_push_op (type : Int) : Exec Unit := fun vm =>
  if vm.oprd_stk_max ≤ vm.oprd_stk.length then
    (Except.error wrp_err_t.WRP_ERR_INVALID_STK_OPERATION, vm)
  else
    (Except.ok (), { vm with oprd_stk := ⟨0, type⟩ :: vm.oprd_stk })

/-- Modelled from the spec: `wrp_stk_check_pop_op` of `warp-stack-ops.c`, which is
not among the sources; the result is the type handed back through the second
pointer argument. When the operand-type stack is at the entry height of the
current control frame the pop is an underflow: `unknown` is returned when the
frame is marked unreachable and the pop fails (`invalid-stk-operation`)
otherwise. Otherwise the top tag is removed: a pop that expects any type
(`UNKNOWN`) accepts it and returns it, and a pop that expects `T` accepts `T` or
`unknown` and fails on any other tag (`stk-type-mismatch`). -/
def wrp_stk_check_pop_op (expected_type : Int) : Exec Int := fun vm =>
  let entry : Int := match vm.ctrl_stk with
    | [] => -1
    | frame :: _ => frame.oprd_stk_ptr
  let unreachable : Bool := match vm.ctrl_stk with
    | [] => false
    | frame :: _ => frame.unreachable
  if (vm.oprd_stk.length : Int) - 1 ≤ entry then
    if unreachable then (Except.ok UNKNOWN, vm)
    else (Except.error wrp_err_t.WRP_ERR_INVALID_STK_OPERATION, vm)
  else
    match vm.oprd_stk with
    | [] => (Except.error wrp_err_t.WRP_ERR_INVALID_STK_OPERATION, vm)
    | cell :: rest =>
      if cell.type = UNKNOWN then (Except.ok expected_type, { vm with oprd_stk := rest })
      else if expected_type = UNKNOWN then (Except.ok cell.type, { vm with oprd_stk := rest })
      else if cell.type ≠ expected_type then
        (Except.error wrp_err_t.WRP_ERR_STK_TYPE_MISMATCH, vm)
      else (Except.ok cell.type, { vm with oprd_stk := rest })

/-- The element `vm->ctrl_stk[i]` of the control stack array, index `0` being the
bottom frame. The model holds the live frames only. The source reads the array
without a test of `i` against its length: above the head the element is stale
or lies outside the array, where the read has no defined behaviour. The model
gives the zero frame there, and no theorem depends on the value at such an
index. -/
def ctrl_stk_at (vm : wrp_vm_t) (i : Nat) : wrp_ctrl_frame_t :=
  vm.ctrl_stk.reverse.getD i ⟨0, 0, 0, false, 0⟩

/-- The index `vm->ctrl_stk_head` of the top control frame, `-1` when the stack is
empty. -/
def ctrl_stk_head (vm : wrp_vm_t) : Int := (vm.ctrl_stk.length : Int) - 1

/-- The function index `vm->call_stk[vm->call_stk_head].func_idx` of the current
call frame (`0` when the model holds no frame). -/
def current_func_idx (vm : wrp_vm_t) : Nat :=
  match vm.call_stk with
  | [] => 0
  | frame :: _ => frame.func_idx

/-! ## Validator handlers (`warp-type-check.c`)

A handler `wrp_err_t f(wrp_vm_t *vm, wrp_wasm_mdle_t *out_mdle)` that only reads
the module record takes the record as an argument and acts on the container. -/

def check_noop (_out_mdle : wrp_wasm_mdle_t) : Exec Unit := pure ()

/-- The handler `check_br` (lines 146-153). The helpers `wrp_stk_check_block_sig`
and `wrp_stk_check_unreachable` of `warp-stack-ops.c` are not among the sources
and are parameters. -/
def check_br (wrp_stk_check_block_sig : Nat → Bool → Exec Unit)
    (wrp_stk_check_unreachable : Exec Unit) (_out_mdle : wrp_wasm_mdle_t) : Exec Unit := do
  let depth ← read_stream wrp_read_varui32
  wrp_stk_check_block_sig depth true
  wrp_stk_check_unreachable

/-- The handler `check_br_if` (lines 155-164). -/
def check_br_if (_out_mdle : wrp_wasm_mdle_t) : Exec Unit := do
  let _depth ← read_stream wrp_read_varui32
  let _condition_type ← wrp_stk_check_pop_op I32
  pure ()

/-- The second loop of `check_br_table`: the code it returns at the first entry
that fails one of its two tests, `none` when the loop runs to its end. -/
def check_branch_table (vm : wrp_vm_t) (default_target : Nat) : List Nat → Option wrp_err_t
  | [] => none
  | target :: targets =>
    if to_i32 (target : Nat) > ctrl_stk_head vm then
      some wrp_err_t.WRP_ERR_INVALID_BRANCH_TABLE
    else if (ctrl_stk_at vm target).signature ≠ (ctrl_stk_at vm default_target).signature then
      some wrp_err_t.WRP_ERR_INVALID_BRANCH_TABLE
    else check_branch_table vm default_target targets

/-- The handler `check_br_table` (lines 166-205). The bound `MAX_BRANCH_TABLE_SIZE`
of `warp-config.h` and the helpers `wrp_stk_check_block_sig` and
`wrp_stk_check_unreachable` of `warp-stack-ops.c` are not among the sources and
are parameters. -/
def check_br_table (MAX_BRANCH_TABLE_SIZE : Nat)
    (wrp_stk_check_block_sig : Nat → Bool → Exec Unit)
    (wrp_stk_check_unreachable : Exec Unit) (_out_mdle : wrp_wasm_mdle_t) : Exec Unit := do
  let _target_idx_type ← wrp_stk_check_pop_op I32
  let target_count ← read_stream wrp_read_varui32
  if target_count > MAX_BRANCH_TABLE_SIZE then
    Exec.fail wrp_err_t.WRP_ERR_MDLE_BRANCH_TABLE_OVERFLOW
  else
    let branch_table ← read_branch_table target_count
    let default_target ← read_stream wrp_read_varui32
    let vm ← Exec.get
    if to_i32 (default_target : Nat) > ctrl_stk_head vm then
      Exec.fail wrp_err_t.WRP_ERR_INVALID_BRANCH_TABLE
    else
      match check_branch_table vm default_target branch_table with
      | some e => Exec.fail e
      | none => do
        wrp_stk_check_block_sig default_target true
        wrp_stk_check_unreachable

/-- The handler `check_call_indirect` (lines 246-263). -/
def check_call_indirect (_out_mdle : wrp_wasm_mdle_t) : Exec Unit :=
  Exec.fail wrp_err_t.WRP_ERR_UNKNOWN

/-- The handler `check_drop` (lines 265-270). -/
def check_drop (_out_mdle : wrp_wasm_mdle_t) : Exec Unit := do
  let _type ← wrp_stk_check_pop_op UNKNOWN
  pure ()

/-- The handler `check_select` (lines 272-284). -/
def check_select (_out_mdle : wrp_wasm_mdle_t) : Exec Unit := do
  let _condition_type ← wrp_stk_check_pop_op I32
  let type_1 ← wrp_stk_check_pop_op UNKNOWN
  let _type_2 ← wrp_stk_check_pop_op type_1
  pure ()

/-- The handler `check_get_local` (lines 286-303). -/
def check_get_local (out_mdle : wrp_wasm_mdle_t) : Exec Unit := do
  let vm ← Exec.get
  let func_idx := current_func_idx vm
  let type_idx := out_mdle.func_type_idxs.getD func_idx 0
  let param_count := out_mdle.param_counts.getD type_idx 0
  let total_locals := (out_mdle.local_counts.getD func_idx 0 + param_count) % 4294967296
  let local_idx ← read_stream wrp_read_varui32
  if local_idx ≥ total_locals then
    Exec.fail wrp_err_t.WRP_ERR_INVALID_LOCAL_IDX
  else
    let local_type_offset := out_mdle.local_type_offsets.getD func_idx 0
    let local_type := out_mdle.local_types.getD local_type_offset 0
    wrp_stk_check_push_op local_type

/-- The handler `check_set_local` (lines 305-323). -/
def check_set_local (out_mdle : wrp_wasm_mdle_t) : Exec Unit := do
  let vm ← Exec.get
  let func_idx := current_func_idx vm
  let type_idx := out_mdle.func_type_idxs.getD func_idx 0
  let param_count := out_mdle.param_counts.getD type_idx 0
  let total_locals := (out_mdle.local_counts.getD func_idx 0 + param_count) % 4294967296
  let local_idx ← read_stream wrp_read_varui32
  if local_idx ≥ total_locals then
    Exec.fail wrp_err_t.WRP_ERR_INVALID_LOCAL_IDX
  else
    let local_type_offset := out_mdle.local_type_offsets.getD func_idx 0
    let local_type := out_mdle.local_types.getD local_type_offset 0
    let _actual_type ← wrp_stk_check_pop_op local_type
    pure ()

/-- The handler `check_tee_local` (lines 325-344). -/
def check_tee_local (out_mdle : wrp_wasm_mdle_t) : Exec Unit := do
  let vm ← Exec.get
  let func_idx := current_func_idx vm
  let type_idx := out_mdle.func_type_idxs.getD func_idx 0
  let param_count := out_mdle.param_counts.getD type_idx 0
  let total_locals := (out_mdle.local_counts.getD func_idx 0 + param_count) % 4294967296
  let local_idx ← read_stream wrp_read_varui32
  if local_idx ≥ total_locals then
    Exec.fail wrp_err_t.WRP_ERR_INVALID_LOCAL_IDX
  else
    let local_type_offset := out_mdle.local_type_offsets.getD func_idx 0
    let local_type := out_mdle.local_types.getD local_type_offset 0
    let _actual_type ← wrp_stk_check_pop_op local_type
    wrp_stk_check_push_op local_type

/-- The handler `check_get_global` (lines 346-358). -/
def check_get_global (out_mdle : wrp_wasm_mdle_t) : Exec Unit := do
  let global_idx ← read_stream wrp_read_varui32
  if global_idx ≥ out_mdle.num_globals then
    Exec.fail wrp_err_t.WRP_ERR_INVALID_GLOBAL_IDX
  else
    let global_type := out_mdle.global_types.getD global_idx 0
    wrp_stk_check_push_op global_type

/-- The handler `check_set_global` (lines 360-373). -/
def check_set_global (out_mdle : wrp_wasm_mdle_t) : Exec Unit := do
  let global_idx ← read_stream wrp_read_varui32
  if global_idx ≥ out_mdle.num_globals then
    Exec.fail wrp_err_t.WRP_ERR_INVALID_GLOBAL_IDX
  else
    let global_type := out_mdle.global_types.getD global_idx 0
    let _actual_type ← wrp_stk_check_pop_op global_type
    pure ()

/-- The handler `check_load` (lines 375-378). -/
def check_load (_out_mdle : wrp_wasm_mdle_t) : Exec Unit :=
  Exec.fail wrp_err_t.WRP_ERR_UNKNOWN

/-- The handler `check_store` (lines 380-383). -/
def check_store (_out_mdle : wrp_wasm_mdle_t) : Exec Unit :=
  Exec.fail wrp_err_t.WRP_ERR_UNKNOWN

/-! The conversion handlers (lines 591-715): each pops with the first type as the
expected one and pushes the second. -/

def check_convert_i32_i64 (_out_mdle : wrp_wasm_mdle_t) : Exec Unit := do
  let _x_type ← wrp_stk_check_pop_op I64
  wrp_stk_check_push_op I32

def check_convert_i32_f32 (_out_mdle : wrp_wasm_mdle_t) : Exec Unit := do
  let _x_type ← wrp_stk_check_pop_op F32
  wrp_stk_check_push_op I32

def check_convert_i32_f64 (_out_mdle : wrp_wasm_mdle_t) : Exec Unit := do
  let _x_type ← wrp_stk_check_pop_op F64
  wrp_stk_check_push_op I32

def check_convert_i64_i32 (_out_mdle : wrp_wasm_mdle_t) : Exec Unit := do
  let _x_type ← wrp_stk_check_pop_op I32
  wrp_stk_check_push_op I64

def check_convert_i64_f32 (_out_mdle : wrp_wasm_mdle_t) : Exec Unit := do
  let _x_type ← wrp_stk_check_pop_op F32
  wrp_stk_check_push_op I64

def check_convert_i64_f64 (_out_mdle : wrp_wasm_mdle_t) : Exec Unit := do
  let _x_type ← wrp_stk_check_pop_op F64
  wrp_stk_check_push_op I64

def check_convert_f32_i32 (_out_mdle : wrp_wasm_mdle_t) : Exec Unit := do
  let _x_type ← wrp_stk_check_pop_op I32
  wrp_stk_check_push_op F32

def check_convert_f32_i64 (_out_mdle : wrp_wasm_mdle_t) : Exec Unit := do
  let _x_type ← wrp_stk_check_pop_op I64
  wrp_stk_check_push_op F32

def check_convert_f32_f64 (_out_mdle : wrp_wasm_mdle_t) : Exec Unit := do
  let _x_type ← wrp_stk_check_pop_op F64
  wrp_stk_check_push_op F32

def check_convert_f64_i32 (_out_mdle : wrp_wasm_mdle_t) : Exec Unit := do
  let _x_type ← wrp_stk_check_pop_op I32
  wrp_stk_check_push_op F64

def check_convert_f64_i64 (_out_mdle : wrp_wasm_mdle_t) : Exec Unit := do
  let _x_type ← wrp_stk_check_pop_op I64
  wrp_stk_check_push_op F64

def check_convert_f64_f32 (_out_mdle : wrp_wasm_mdle_t) : Exec Unit := do
  let _x_type ← wrp_stk_check_pop_op F32
  wrp_stk_check_push_op F64

def check_reinterpret_i32_f32 (_out_mdle : wrp_wasm_mdle_t) : Exec Unit := do
  let _x_type ← wrp_stk_check_pop_op F32
  wrp_stk_check_push_op I32

def check_reinterpret_i64_f64 (_out_mdle : wrp_wasm_mdle_t) : Exec Unit := do
  let _x_type ← wrp_stk_check_pop_op F64
  wrp_stk_check_push_op I64

def check_reinterpret_f32_i32 (_out_mdle : wrp_wasm_mdle_t) : Exec Unit := do
  let _x_type ← wrp_stk_check_pop_op F32
  wrp_stk_check_push_op I32

def check_reinterpret_f64_i64 (_out_mdle : wrp_wasm_mdle_t) : Exec Unit := do
  let _x_type ← wrp_stk_check_pop_op F64
  wrp_stk_check_push_op I64

/-- A handler that only reads the module record, on the state `(vm, out_mdle)` of
the validator. -/
def on_mdle (handler : wrp_wasm_mdle_t → Exec Unit) :
    wrp_vm_t × wrp_wasm_mdle_t → Except wrp_err_t Unit × (wrp_vm_t × wrp_wasm_mdle_t) :=
  fun s => ((handler s.2 s.1).1, ((handler s.2 s.1).2, s.2))

/-- The function behind each name of `check_jump_table`, for the validator handlers
defined above; `others` gives the remaining ones. The bound
`MAX_BRANCH_TABLE_SIZE` and the helpers `wrp_stk_check_block_sig` and
`wrp_stk_check_unreachable` are handed to the handlers that take them. -/
def check_handler_mdle (MAX_BRANCH_TABLE_SIZE : Nat)
    (wrp_stk_check_block_sig : Nat → Bool → Exec Unit)
    (wrp_stk_check_unreachable : Exec Unit)
    (others : check_fn → wrp_vm_t × wrp_wasm_mdle_t →
      Except wrp_err_t Unit × (wrp_vm_t × wrp_wasm_mdle_t)) :
    check_fn → wrp_vm_t × wrp_wasm_mdle_t →
      Except wrp_err_t Unit × (wrp_vm_t × wrp_wasm_mdle_t)
  | check_fn.check_invalid_op => check_invalid_op
  | check_fn.check_noop => on_mdle check_noop
  | check_fn.check_br => on_mdle (check_br wrp_stk_check_block_sig wrp_stk_check_unreachable)
  | check_fn.check_br_if => on_mdle check_br_if
  | check_fn.check_br_table =>
    on_mdle (check_br_table MAX_BRANCH_TABLE_SIZE wrp_stk_check_block_sig
      wrp_stk_check_unreachable)
  | check_fn.check_call_indirect => on_mdle check_call_indirect
  | check_fn.check_drop => on_mdle check_drop
  | check_fn.check_select => on_mdle check_select
  | check_fn.check_get_local => on_mdle check_get_local
  | check_fn.check_set_local => on_mdle check_set_local
  | check_fn.check_tee_local => on_mdle check_tee_local
  | check_fn.check_get_global => on_mdle check_get_global
  | check_fn.check_set_global => on_mdle check_set_global
  | check_fn.check_load => on_mdle check_load
  | check_fn.check_store => on_mdle check_store
  | check_fn.check_convert_i32_i64 => on_mdle check_convert_i32_i64
  | check_fn.check_convert_i32_f32 => on_mdle check_convert_i32_f32
  | check_fn.check_convert_i32_f64 => on_mdle check_convert_i32_f64
  | check_fn.check_convert_i64_i32 => on_mdle check_convert_i64_i32
  | check_fn.check_convert_i64_f32 => on_mdle check_convert_i64_f32
  | check_fn.check_convert_i64_f64 => on_mdle check_convert_i64_f64
  | check_fn.check_convert_f32_i32 => on_mdle check_convert_f32_i32
  | check_fn.check_convert_f32_i64 => on_mdle check_convert_f32_i64
  | check_fn.check_convert_f32_f64 => on_mdle check_convert_f32_f64
  | check_fn.check_convert_f64_i32 => on_mdle check_convert_f64_i32
  | check_fn.check_convert_f64_i64 => on_mdle check_convert_f64_i64
  | check_fn.check_convert_f64_f32 => on_mdle check_convert_f64_f32
  | check_fn.check_reinterpret_i32_f32 => on_mdle check_reinterpret_i32_f32
  | check_fn.check_reinterpret_i64_f64 => on_mdle check_reinterpret_i64_f64
  | check_fn.check_reinterpret_f32_i32 => on_mdle check_reinterpret_f32_i32
  | check_fn.check_reinterpret_f64_i64 => on_mdle check_reinterpret_f64_i64
  | f => others f

/-! ## Floating-point minimum and maximum

A `float` or `double` is carried as its object representation, the IEEE-754
binary32 or binary64 bit pattern as a `uint32_t` or `uint64_t`; the handlers
below only classify, compare and copy their operands, and the casts
`*((uint32_t *)(&x))` give that pattern. -/

/-- Modelled from the spec: `wrp_stk_exec_pop_f32` of `warp-stack-ops.c`: the top
cell is removed and its payload decoded as a `float`. -/
def wrp_stk_exec_pop_f32 : Exec Nat := do
  let c ← wrp_stk_exec_pop_op
  pure (wrp_decode_f32 c.value)

/-- Modelled from the spec: `wrp_stk_exec_pop_f64` of `warp-stack-ops.c`. -/
def wrp_stk_exec_pop_f64 : Exec Nat := do
  let c ← wrp_stk_exec_pop_op
  pure (wrp_decode_f64 c.value)

/-- Modelled from the spec: `wrp_stk_exec_push_f32` of `warp-stack-ops.c`: the value
is carried as its encoded 64-bit payload with the tag `F32`. -/
def wrp_stk_exec_push_f32 (value : Nat) : Exec Unit :=
  wrp_stk_exec_push_op (wrp_encode_f32 value) F32

/-- Modelled from the spec: `wrp_stk_exec_push_f64` of `warp-stack-ops.c`. -/
def wrp_stk_exec_push_f64 (value : Nat) : Exec Unit :=
  wrp_stk_exec_push_op (wrp_encode_f64 value) F64

/-- The macro `isnan` of `<math.h>` on a `float`: the eight exponent bits are all
ones and the 23 fraction bits are not all zero. -/
def isnan_f32 (x : Nat) : Bool := decide (x / 8388608 % 256 = 255 ∧ x % 8388608 ≠ 0)

/-- The macro `isnan` on a `double`: eleven exponent bits, 52 fraction bits. -/
def isnan_f64 (x : Nat) : Bool :=
  decide (x / 4503599627370496 % 2048 = 2047 ∧ x % 4503599627370496 ≠ 0)

/-- The macro `signbit` of `<math.h>` on a `float`: bit 31. -/
def signbit_f32 (x : Nat) : Bool := decide (x / 2147483648 % 2 = 1)

/-- The macro `signbit` on a `double`: bit 63. -/
def signbit_f64 (x : Nat) : Bool := decide (x / 9223372036854775808 % 2 = 1)

/-- The place of a `float` that is not a NaN in the order of the reals: the
magnitude bits, negated when the sign bit is set. Both zeros have the place `0`,
and the infinities are the two ends. -/
def f32_order (x : Nat) : Int :=
  if signbit_f32 x then -((x % 2147483648 : Nat) : Int) else ((x % 2147483648 : Nat) : Int)

/-- The place of a `double` that is not a NaN in the order of the reals. -/
def f64_order (x : Nat) : Int :=
  if signbit_f64 x then -((x % 9223372036854775808 : Nat) : Int)
  else ((x % 9223372036854775808 : Nat) : Int)

/-- The handler `exec_f32_min_op` (`warp-execution.c`, lines 1819-1849). The
comparisons `x == y` and `x < y` are reached only when neither operand is a
NaN. -/
def exec_f32_min_op : Exec Unit := do
  let y ← wrp_stk_exec_pop_f32
  let x ← wrp_stk_exec_pop_f32
  let result : Nat :=
    if isnan_f32 x then x ||| 0x400000
    else if isnan_f32 y then y ||| 0x400000
    else if f32_order x = f32_order y ∧ ¬ signbit_f32 x ∧ signbit_f32 y then x
    else if f32_order x = f32_order y ∧ signbit_f32 x ∧ ¬ signbit_f32 y then y
    else if f32_order x < f32_order y then x else y
  wrp_stk_exec_push_f32 result

/-- The handler `exec_f32_max_op` (lines 1851-1881). -/
def exec_f32_max_op : Exec Unit := do
  let y ← wrp_stk_exec_pop_f32
  let x ← wrp_stk_exec_pop_f32
  let result : Nat :=
    if isnan_f32 x then x ||| 0x400000
    else if isnan_f32 y then y ||| 0x400000
    else if f32_order x = f32_order y ∧ ¬ signbit_f32 x ∧ signbit_f32 y then y
    else if f32_order x = f32_order y ∧ signbit_f32 x ∧ ¬ signbit_f32 y then x
    else if f32_order x > f32_order y then x else y
  wrp_stk_exec_push_f32 result

/-- The handler `exec_f64_min_op` (lines 2055-2085): the constant of the two
`|=` statements is `0x400000`, as in the `float` handlers. -/
def exec_f64_min_op : Exec Unit := do
  let y ← wrp_stk_exec_pop_f64
  let x ← wrp_stk_exec_pop_f64
  let result : Nat :=
    if isnan_f64 x then x ||| 0x400000
    else if isnan_f64 y then y ||| 0x400000
    else if f64_order x = f64_order y ∧ ¬ signbit_f64 x ∧ signbit_f64 y then x
    else if f64_order x = f64_order y ∧ signbit_f64 x ∧ ¬ signbit_f64 y then y
    else if f64_order x < f64_order y then x else y
  wrp_stk_exec_push_f64 result

/-- The handler `exec_f64_max_op` (lines 2087-2117). -/
def exec_f64_max_op : Exec Unit := do
  let y ← wrp_stk_exec_pop_f64
  let x ← wrp_stk_exec_pop_f64
  let result : Nat :=
    if isnan_f64 x then x ||| 0x400000
    else if isnan_f64 y then y ||| 0x400000
    else if f64_order x = f64_order y ∧ ¬ signbit_f64 x ∧ signbit_f64 y then y
    else if f64_order x = f64_order y ∧ signbit_f64 x ∧ ¬ signbit_f64 y then x
    else if f64_order x > f64_order y then x else y
  wrp_stk_exec_push_f64 result

/-! ## Further readers of the byte stream (`warp-buf.c`) -/

/-- Modelled from the spec: `wrp_read_vari7` of `warp-buf.c`, which is not among the
sources: a signed LEB128 number of one byte. The handlers compare the result
with the type tags of `warp-wasm.h`, which are defined by their byte (`VOID` is
`0x40`, written `-0x40` as a signed number, `I32` is `0x7f`), so the reader
delivers the seven payload bits of the byte in that encoding. The read fails
when the byte has its continuation bit set or the cursor is at the end. -/
def wrp_read_vari7 (buf : wrp_buf_t) : Except wrp_err_t (Int × wrp_buf_t) :=
  match read_leb 1 buf 0 0 with
  | some (v, _, _, buf1) => Except.ok ((v : Int), buf1)
  | none => Except.error wrp_err_t.WRP_ERR_READ_OVERFLOW

/-- Modelled from the spec: `wrp_read_vari64` of `warp-buf.c`: a signed LEB128 number
of at most 10 bytes with sign extension from bit 6 of the last byte, delivered
as an `int64_t`. -/
def wrp_read_vari64 (buf : wrp_buf_t) : Except wrp_err_t (Int × wrp_buf_t) :=
  match read_leb 10 buf 0 0 with
  | some (v, bits, last, buf1) =>
    Except.ok (to_i64 (if 64 ≤ last then (v : Int) - 2 ^ bits else (v : Int)), buf1)
  | none => Except.error wrp_err_t.WRP_ERR_READ_OVERFLOW

/-- Modelled from the spec: the fixed-width little-endian decode of `n` bytes of the
byte stream reader; the read fails when it would pass the end, and leaves the
cursor where it was. -/
def read_le (n : Nat) (buf : wrp_buf_t) : Except wrp_err_t (Nat × wrp_buf_t) :=
  if buf.pos + n ≤ buf.sz then
    Except.ok
      ((List.range n).foldl
        (fun acc i => acc + (buf.bytes.getD (buf.pos + i) 0 % 256) * 256 ^ i) 0,
       { buf with pos := buf.pos + n })
  else Except.error wrp_err_t.WRP_ERR_READ_OVERFLOW

/-- Modelled from the spec: `wrp_read_f32` of `warp-buf.c`: the object representation
of a `float` from four bytes in little-endian order. -/
def wrp_read_f32 (buf : wrp_buf_t) : Except wrp_err_t (Nat × wrp_buf_t) := read_le 4 buf

/-- Modelled from the spec: `wrp_read_f64` of `warp-buf.c`: the object representation
of a `double` from eight bytes in little-endian order. -/
def wrp_read_f64 (buf : wrp_buf_t) : Except wrp_err_t (Nat × wrp_buf_t) := read_le 8 buf

/-- Modelled from the spec: `wrp_end_of_buf` of `warp-buf.c`: true if and only if
`pos == size`. -/
def wrp_end_of_buf (buf : wrp_buf_t) : Bool := decide (buf.pos = buf.sz)

/-- The value of `x - 1` for a `size_t` `x`: `SIZE_MAX` when `x` is `0`. -/
def size_pred (x : Nat) : Nat := (x + 18446744073709551615) % 18446744073709551616

/-- The value of `x + 1` for a `size_t` `x`. -/
def size_succ (x : Nat) : Nat := (x + 1) % 18446744073709551616

/-! ## Control, variable and constant handlers of the executor (`warp-execution.c`)

The helpers `wrp_stk_exec_push_block`, `wrp_stk_exec_pop_block`,
`wrp_stk_exec_push_call`, `wrp_stk_exec_pop_call` and
`wrp_stk_exec_call_frame_tail` of `warp-stack-ops.c`, and the functions
`wrp_is_valid_block_signature`, `wrp_get_block_idx` and `wrp_get_if_idx` that
`warp-wasm.h` declares, are not among the sources and are parameters of the
handlers that call them. The two index functions give back an error code or the
index they write through their last argument. -/

/-- The record behind the pointer `vm->mdle` of a container that runs code (the empty
record when the model holds no module: `wrp_call` does not start the executor
without one). -/
def attached_mdle (vm : wrp_vm_t) : wrp_wasm_mdle_t := vm.mdle.getD {}

/-- The handler `exec_block_op` (lines 45-59). The pointer `func` is taken before the
signature is read; the helpers do not write the arrays behind it. -/
def exec_block_op (wrp_get_block_idx : wrp_wasm_mdle_t → Nat → Nat → Except wrp_err_t Nat)
    (wrp_stk_exec_push_block : Nat → Nat → Int → Exec Unit) : Exec Unit := do
  let vm ← Exec.get
  let block_address := size_pred vm.opcode_stream.pos
  let func_idx := current_func_idx vm
  let func := (attached_mdle vm).funcs.getD func_idx {}
  let signature ← read_stream wrp_read_vari7
  match wrp_get_block_idx (attached_mdle vm) func_idx block_address with
  | Except.error e => Exec.fail e
  | Except.ok block_idx =>
    wrp_stk_exec_push_block (func.block_labels.getD block_idx 0) BLOCK signature

/-- The handler `exec_loop_op` (lines 61-67): the address handed to
`wrp_stk_exec_push_block` is `vm->opcode_stream.pos - 1`, evaluated after the
signature has been read. -/
def exec_loop_op (wrp_stk_exec_push_block : Nat → Nat → Int → Exec Unit) : Exec Unit := do
  let signature ← read_stream wrp_read_vari7
  let vm ← Exec.get
  wrp_stk_exec_push_block (size_pred vm.opcode_stream.pos) BLOCK_LOOP signature

/-- The handler `exec_if_op` (lines 69-100). -/
def exec_if_op (wrp_is_valid_block_signature : Int → Bool)
    (wrp_get_if_idx : wrp_wasm_mdle_t → Nat → Nat → Except wrp_err_t Nat)
    (wrp_stk_exec_push_block : Nat → Nat → Int → Exec Unit) : Exec Unit := do
  let vm ← Exec.get
  let if_address := size_pred vm.opcode_stream.pos
  let func_idx := current_func_idx vm
  let func := (attached_mdle vm).funcs.getD func_idx {}
  let signature ← read_stream wrp_read_vari7
  if ¬ wrp_is_valid_block_signature signature then
    Exec.fail wrp_err_t.WRP_ERR_INVALID_BLOCK_SIGNATURE
  else
    match wrp_get_if_idx (attached_mdle vm) func_idx if_address with
    | Except.error e => Exec.fail e
    | Except.ok if_idx => do
      let condition ← wrp_stk_exec_pop_i32
      if condition ≠ 0 ∨ func.else_addrs.getD if_idx 0 ≠ 0 then
        wrp_stk_exec_push_block (func.if_labels.getD if_idx 0) BLOCK_IF signature
      if condition = 0 ∧ func.else_addrs.getD if_idx 0 = 0 then
        Exec.modify fun vm1 =>
          { vm1 with opcode_stream :=
              { vm1.opcode_stream with pos := size_succ (func.if_labels.getD if_idx 0) } }
      if condition = 0 ∧ func.else_addrs.getD if_idx 0 ≠ 0 then
        Exec.modify fun vm1 =>
          { vm1 with opcode_stream :=
              { vm1.opcode_stream with pos := size_succ (func.else_addrs.getD if_idx 0) } }

/-- The handler `exec_else_op` (lines 102-106). -/
def exec_else_op (wrp_stk_exec_pop_block : Int → Bool → Exec Unit) : Exec Unit :=
  wrp_stk_exec_pop_block 0 true

/-- The handler `exec_end_op` (lines 108-112). -/
def exec_end_op (wrp_stk_exec_pop_block : Int → Bool → Exec Unit) : Exec Unit :=
  wrp_stk_exec_pop_block 0 false

/-- The handler `exec_br_op` (lines 114-120). -/
def exec_br_op (wrp_stk_exec_pop_block : Int → Bool → Exec Unit) : Exec Unit := do
  let depth ← read_stream wrp_read_varui32
  wrp_stk_exec_pop_block (depth : Nat) true

/-- The handler `exec_br_if_op` (lines 122-135). -/
def exec_br_if_op (wrp_stk_exec_pop_block : Int → Bool → Exec Unit) : Exec Unit := do
  let depth ← read_stream wrp_read_varui32
  let condition ← wrp_stk_exec_pop_i32
  if condition ≠ 0 then
    wrp_stk_exec_pop_block (depth : Nat) true

/-- The handler `exec_return_op` (lines 168-172). -/
def exec_return_op (wrp_stk_exec_pop_call : Exec Unit) : Exec Unit :=
  wrp_stk_exec_pop_call

/-- The handler `exec_call_op` (lines 174-180). -/
def exec_call_op (wrp_stk_exec_push_call : Nat → Exec Unit) : Exec Unit := do
  let target_idx ← read_stream wrp_read_varui32
  wrp_stk_exec_push_call target_idx

/-- The cell `vm->oprd_stk[i]` of the operand stack array, index `0` being the bottom
cell. The model holds the live cells only; a cell above the head reads as the
zero cell. -/
def oprd_stk_at (vm : wrp_vm_t) (i : Nat) : wrp_oprd_t :=
  vm.oprd_stk.reverse.getD i ⟨0, 0⟩

/-- The handler `exec_get_local_op` (lines 218-236). The sum
`frame_tail + local_idx` of an `int32_t` and a `uint32_t` is taken modulo `2^32`
and stored in an `int32_t`; the type tag passes through a `uint8_t`. -/
def exec_get_local_op (wrp_stk_exec_call_frame_tail : Exec Int) : Exec Unit := do
  let local_idx ← read_stream wrp_read_varui32
  let frame_tail ← wrp_stk_exec_call_frame_tail
  let local_stk_ptr := to_i32 (frame_tail + (local_idx : Nat))
  let vm ← Exec.get
  let frame_oprd_stk_ptr : Int := match vm.call_stk with
    | [] => 0
    | frame :: _ => frame.oprd_stk_ptr
  if local_stk_ptr < 0 ∨ local_stk_ptr > frame_oprd_stk_ptr then
    Exec.fail wrp_err_t.WRP_ERR_INVALID_STK_OPERATION
  else
    let local_value := (oprd_stk_at vm local_stk_ptr.toNat).value
    let local_type := (oprd_stk_at vm local_stk_ptr.toNat).type % 256
    wrp_stk_exec_push_op local_value (to_i8 local_type)

/-- The handler `exec_set_local_op` (lines 238-259). A write to a cell above the head
of the stack does not change a live cell. -/
def exec_set_local_op (wrp_stk_exec_call_frame_tail : Exec Int) : Exec Unit := do
  let local_idx ← read_stream wrp_read_varui32
  let frame_tail ← wrp_stk_exec_call_frame_tail
  let local_stk_ptr := to_i32 (frame_tail + (local_idx : Nat))
  let vm ← Exec.get
  let frame_oprd_stk_ptr : Int := match vm.call_stk with
    | [] => 0
    | frame :: _ => frame.oprd_stk_ptr
  if local_stk_ptr < 0 ∨ local_stk_ptr > frame_oprd_stk_ptr then
    Exec.fail wrp_err_t.WRP_ERR_INVALID_STK_OPERATION
  else
    let c ← wrp_stk_exec_pop_op
    Exec.modify fun vm1 =>
      { vm1 with oprd_stk :=
          (vm1.oprd_stk.reverse.modify
            (fun cell => { cell with value := c.value }) local_stk_ptr.toNat).reverse }

/-- The handler `exec_get_global_op` (lines 266-278). -/
def exec_get_global_op : Exec Unit := do
  let global_idx ← read_stream wrp_read_varui32
  let vm ← Exec.get
  if global_idx ≥ (attached_mdle vm).num_globals then
    Exec.fail wrp_err_t.WRP_ERR_INVALID_GLOBAL_IDX
  else
    let global_value := ((attached_mdle vm).globals.getD global_idx {}).value
    let global_type := ((attached_mdle vm).globals.getD global_idx {}).type % 256
    wrp_stk_exec_push_op global_value (to_i8 global_type)

/-- The handler `exec_set_global_op` (lines 280-296). -/
def exec_set_global_op : Exec Unit := do
  let global_idx ← read_stream wrp_read_varui32
  let vm ← Exec.get
  if global_idx ≥ (attached_mdle vm).num_globals then
    Exec.fail wrp_err_t.WRP_ERR_INVALID_GLOBAL_IDX
  else
    let c ← wrp_stk_exec_pop_op
    Exec.modify fun vm1 =>
      { vm1 with mdle := vm1.mdle.map fun m =>
          { m with globals := m.globals.modify (fun g => { g with value := c.value }) global_idx } }

/-- The handler `exec_current_memory_op` (lines 498-505). -/
def exec_current_memory_op : Exec Unit := do
  let _reserved ← read_stream wrp_read_vari32
  let vm ← Exec.get
  wrp_stk_exec_push_i32 (to_i32 vm.memory.num_pages)

/-- The handler `exec_i32_const_op` (lines 542-548). -/
def exec_i32_const_op : Exec Unit := do
  let i32_const ← read_stream wrp_read_vari32
  wrp_stk_exec_push_i32 i32_const

/-- The handler `exec_i64_const_op` (lines 550-556). -/
def exec_i64_const_op : Exec Unit := do
  let i64_const ← read_stream wrp_read_vari64
  wrp_stk_exec_push_i64 i64_const

/-- The handler `exec_f32_const_op` (lines 558-564). -/
def exec_f32_const_op : Exec Unit := do
  let f32_const ← read_stream wrp_read_f32
  wrp_stk_exec_push_f32 f32_const

/-- The handler `exec_f64_const_op` (lines 566-572). -/
def exec_f64_const_op : Exec Unit := do
  let f64_const ← read_stream wrp_read_f64
  wrp_stk_exec_push_f64 f64_const

/-! ## Control and call stack operations of the validator (`warp-stack-ops.c`) -/

/-- Modelled from the spec: the block kind `BLOCK_TYPE` that `check_block` hands to
`wrp_stk_check_push_block`. No source file defines the name; it is the kind
`block` of a control frame, which `check_end` tests as `BLOCK` of
`warp-wasm.h`. -/
def BLOCK_TYPE : Nat := BLOCK

/-- Modelled from the spec: the block kind `LOOP_TYPE` that `check_loop` hands to
`wrp_stk_check_push_block`: the kind `loop` of a control frame, `BLOCK_LOOP` of
`warp-wasm.h`. -/
def LOOP_TYPE : Nat := BLOCK_LOOP

/-- Modelled from the spec: the block kind `IF_TYPE` that `check_if` hands to
`wrp_stk_check_push_block` and `check_else` tests: the kind `if` of a control
frame, which `check_end` tests as `BLOCK_IF` of `warp-wasm.h`. -/
def IF_TYPE : Nat := BLOCK_IF

/-- Modelled from the spec: `wrp_stk_check_push_call` of `warp-stack-ops.c`, which is
not among the sources: a call frame that remembers the function index becomes
the new top of the call stack; overflow of the configured maximum is a failure
(`invalid-stk-operation`). -/
def wrp_stk_check_push_call (func_idx : Nat) : Exec Unit := fun vm =>
  if vm.call_stk_max ≤ vm.call_stk.length then
    (Except.error wrp_err_t.WRP_ERR_INVALID_STK_OPERATION, vm)
  else
    (Except.ok (),
      { vm with call_stk := ⟨func_idx, (vm.oprd_stk.length : Int) - 1⟩ :: vm.call_stk })

/-- Modelled from the spec: `wrp_stk_check_push_block` of `warp-stack-ops.c`: a
control frame `(block kind, signature, operand stack height at entry, unreachable
flag clear, address)` becomes the new top of the control stack; overflow of the
configured maximum is a failure (`invalid-stk-operation`). -/
def wrp_stk_check_push_block (address type : Nat) (signature : Int) : Exec Unit := fun vm =>
  if vm.ctrl_stk_max ≤ vm.ctrl_stk.length then
    (Except.error wrp_err_t.WRP_ERR_INVALID_STK_OPERATION, vm)
  else
    (Except.ok (),
      { vm with ctrl_stk :=
          ⟨type, signature, (vm.oprd_stk.length : Int) - 1, false, address⟩ :: vm.ctrl_stk })

/-- Modelled from the spec: `wrp_stk_check_pop_block` of `warp-stack-ops.c`: the top
control frame is removed; underflow is a failure (`invalid-stk-operation`). The
operand-type stack keeps the result of the block. -/
def wrp_stk_check_pop_block : Exec Unit := fun vm =>
  match vm.ctrl_stk with
  | [] => (Except.error wrp_err_t.WRP_ERR_INVALID_STK_OPERATION, vm)
  | _ :: rest => (Except.ok (), { vm with ctrl_stk := rest })

/-- Modelled from the spec: `wrp_stk_check_block_sig` of `warp-stack-ops.c`: the test
that the operand-type stack matches the signature of the control frame at depth
`depth`, counted from the top; the state is left as it was. A depth outside the
control stack is a failure (`invalid-stk-operation`). A branch to a `loop` frame
targets the start of the loop and carries no value. For a valueful signature the
top of the stack must pop as that type; at an `end` (`branch` false) the stack
below the result must be at the entry height of the frame
(`stk-type-mismatch`). -/
def wrp_stk_check_block_sig (depth : Nat) (branch : Bool) : Exec Unit := fun vm =>
  match vm.ctrl_stk.get? depth with
  | none => (Except.error wrp_err_t.WRP_ERR_INVALID_STK_OPERATION, vm)
  | some frame =>
    let signature : Int :=
      if branch = true ∧ frame.type = BLOCK_LOOP then VOID else frame.signature
    if signature = I32 ∨ signature = I64 ∨ signature = F32 ∨ signature = F64 then
      match wrp_stk_check_pop_op signature vm with
      | (Except.error e, _) => (Except.error e, vm)
      | (Except.ok _, vm1) =>
        if branch = false ∧ (vm1.oprd_stk.length : Int) - 1 ≠ frame.oprd_stk_ptr then
          (Except.error wrp_err_t.WRP_ERR_STK_TYPE_MISMATCH, vm)
        else (Except.ok (), vm)
    else if branch = false ∧ (vm.oprd_stk.length : Int) - 1 ≠ frame.oprd_stk_ptr then
      (Except.error wrp_err_t.WRP_ERR_STK_TYPE_MISMATCH, vm)
    else (Except.ok (), vm)

/-- Modelled from the spec: `wrp_stk_check_func_sig` of `warp-stack-ops.c`: the test
that the operand-type stack matches the result signature of the current
function (at most one result); the state is left as it was. The function reads
the type tables through `vm->mdle`, which validation does not write. -/
def wrp_stk_check_func_sig : Exec Unit := fun vm =>
  let type_idx := (attached_mdle vm).func_type_idxs.getD (current_func_idx vm) 0
  if (attached_mdle vm).result_counts.getD type_idx 0 > 0 then
    match wrp_stk_check_pop_op
        ((attached_mdle vm).result_types.getD
          ((attached_mdle vm).result_type_offsets.getD type_idx 0) 0) vm with
    | (Except.error e, _) => (Except.error e, vm)
    | (Except.ok _, _) => (Except.ok (), vm)
  else (Except.ok (), vm)

/-- Modelled from the spec: `wrp_stk_check_unreachable` of `warp-stack-ops.c`: the
current control frame is marked unreachable and the operand-type stack is cut
back to the entry height of that frame, after which pops return `unknown`. -/
def wrp_stk_check_unreachable : Exec Unit := fun vm =>
  match vm.ctrl_stk with
  | [] => (Except.error wrp_err_t.WRP_ERR_INVALID_STK_OPERATION, vm)
  | frame :: rest =>
    (Except.ok (),
      { vm with
        oprd_stk := vm.oprd_stk.drop (vm.oprd_stk.length - (frame.oprd_stk_ptr + 1).toNat),
        ctrl_stk := { frame with unreachable := true } :: rest })

/-- Modelled from the spec: the search behind `wrp_get_block_idx` and
`wrp_get_if_idx`: the slot, among the `count` slots of a function that start at
`offset`, whose recorded start address is `address`. -/
def find_address_idx (addresses : List Nat) (offset count address : Nat) : Option Nat :=
  ((List.range count).find? fun k => addresses.getD (offset + k) 0 = address).map
    fun k => offset + k

/-- Modelled from the spec: `wrp_get_block_idx` (declared in `warp-wasm.h`, defined
in no source file) on the flat tables of the validator: the index of the block
of function `func_idx` that starts at `block_address`; the call fails when the
function has no such block. -/
def wrp_get_block_idx (mdle : wrp_wasm_mdle_t) (func_idx block_address : Nat) :
    Except wrp_err_t Nat :=
  match find_address_idx mdle.block_addresses (mdle.block_offsets.getD func_idx 0)
      (mdle.block_counts.getD func_idx 0) block_address with
  | some block_idx => Except.ok block_idx
  | none => Except.error wrp_err_t.WRP_ERR_UNKNOWN

/-- Modelled from the spec: `wrp_get_if_idx` (declared in `warp-wasm.h`, defined in no
source file) on the flat tables of the validator: the index of the `if` of
function `func_idx` that starts at `if_address`. -/
def wrp_get_if_idx (mdle : wrp_wasm_mdle_t) (func_idx if_address : Nat) :
    Except wrp_err_t Nat :=
  match find_address_idx mdle.if_addresses (mdle.if_offsets.getD func_idx 0)
      (mdle.if_counts.getD func_idx 0) if_address with
  | some if_idx => Except.ok if_idx
  | none => Except.error wrp_err_t.WRP_ERR_UNKNOWN

/-! ## Control handlers of the validator (`warp-type-check.c`)

The handlers `check_block`, `check_if`, `check_else` and `check_end` write the
module record and act on the pair of the container and the record. A write
through an index past the end of an array has no effect on the model. -/

/-- The control frame `vm->ctrl_stk[vm->ctrl_stk_head]`; the zero frame when the
model holds no frame. -/
def ctrl_stk_top (vm : wrp_vm_t) : wrp_ctrl_frame_t :=
  vm.ctrl_stk.headD ⟨0, 0, 0, false, 0⟩

/-- The handler `check_unreachable` (lines 31-35). -/
def check_unreachable (_out_mdle : wrp_wasm_mdle_t) : Exec Unit :=
  wrp_stk_check_unreachable

/-- The handler `check_block` (lines 42-58). The two writes to the record come before
the read of the signature, so they stay when the handler fails. The index
`block_offset + block_idx` and the increment are `uint32_t` arithmetic. -/
def check_block (s : wrp_vm_t × wrp_wasm_mdle_t) :
    Except wrp_err_t Unit × (wrp_vm_t × wrp_wasm_mdle_t) :=
  let address := size_pred s.1.opcode_stream.pos
  let func_idx := current_func_idx s.1
  let block_offset := s.2.block_offsets.getD func_idx 0
  let block_idx := s.2.block_counts.getD func_idx 0
  let out_mdle : wrp_wasm_mdle_t :=
    { s.2 with
      block_addresses :=
        s.2.block_addresses.set ((block_offset + block_idx) % 4294967296) address,
      block_counts :=
        s.2.block_counts.set func_idx ((s.2.block_counts.getD func_idx 0 + 1) % 4294967296) }
  let r := (do
    let signature ← read_stream wrp_read_vari7
    wrp_stk_check_push_block address BLOCK_TYPE signature : Exec Unit) s.1
  (r.1, (r.2, out_mdle))

/-- The handler `check_loop` (lines 60-68): the address is `pos - 1`, taken before
the signature is read. -/
def check_loop (_out_mdle : wrp_wasm_mdle_t) : Exec Unit := do
  let vm ← Exec.get
  let address := size_pred vm.opcode_stream.pos
  let signature ← read_stream wrp_read_vari7
  wrp_stk_check_push_block address LOOP_TYPE signature

/-- The handler `check_if` (lines 70-86). -/
def check_if (s : wrp_vm_t × wrp_wasm_mdle_t) :
    Except wrp_err_t Unit × (wrp_vm_t × wrp_wasm_mdle_t) :=
  let address := size_pred s.1.opcode_stream.pos
  let func_idx := current_func_idx s.1
  let if_offset := s.2.if_offsets.getD func_idx 0
  let if_idx := s.2.if_counts.getD func_idx 0
  let out_mdle : wrp_wasm_mdle_t :=
    { s.2 with
      if_addresses := s.2.if_addresses.set ((if_offset + if_idx) % 4294967296) address,
      if_counts :=
        s.2.if_counts.set func_idx ((s.2.if_counts.getD func_idx 0 + 1) % 4294967296) }
  let r := (do
    let signature ← read_stream wrp_read_vari7
    let _condition_type ← wrp_stk_check_pop_op I32
    wrp_stk_check_push_block address IF_TYPE signature : Exec Unit) s.1
  (r.1, (r.2, out_mdle))

/-- The two statements that end `check_else`: the head of the operand-type stack is
set to the entry height of the top control frame (which is not above the head)
and the unreachable flag of that frame is cleared. -/
def check_else_reset (vm : wrp_vm_t) : wrp_vm_t :=
  match vm.ctrl_stk with
  | [] => vm
  | frame :: rest =>
    { vm with
      oprd_stk := vm.oprd_stk.drop (vm.oprd_stk.length - (frame.oprd_stk_ptr + 1).toNat),
      ctrl_stk := { frame with unreachable := false } :: rest }

/-- The handler `check_else` (lines 88-110). -/
def check_else (s : wrp_vm_t × wrp_wasm_mdle_t) :
    Except wrp_err_t Unit × (wrp_vm_t × wrp_wasm_mdle_t) :=
  if ctrl_stk_head s.1 = -1 ∨ (ctrl_stk_top s.1).type ≠ IF_TYPE then
    (Except.error wrp_err_t.WRP_ERR_MDLE_IF_ELSE_MISMATCH, s)
  else
    let func_idx := current_func_idx s.1
    let if_address := (ctrl_stk_top s.1).address
    let else_address := size_pred s.1.opcode_stream.pos
    match wrp_get_if_idx s.2 func_idx if_address with
    | Except.error e => (Except.error e, s)
    | Except.ok if_idx =>
      let out_mdle : wrp_wasm_mdle_t :=
        { s.2 with else_addresses := s.2.else_addresses.set if_idx else_address }
      match wrp_stk_check_block_sig 0 false s.1 with
      | (Except.error e, vm1) => (Except.error e, (vm1, out_mdle))
      | (Except.ok _, vm1) => (Except.ok (), (check_else_reset vm1, out_mdle))

/-- The second `if` statement of `check_end` (lines 119-126), for a frame of kind
`BLOCK`: the code it returns and the record it leaves. -/
def check_end_block (vm : wrp_vm_t) (out_mdle : wrp_wasm_mdle_t) :
    Except wrp_err_t Unit × wrp_wasm_mdle_t :=
  if (ctrl_stk_top vm).type = BLOCK then
    match wrp_get_block_idx out_mdle (current_func_idx vm) (ctrl_stk_top vm).address with
    | Except.error e => (Except.error e, out_mdle)
    | Except.ok block_idx =>
      (Except.ok (),
        { out_mdle with
          block_labels := out_mdle.block_labels.set block_idx (size_pred vm.opcode_stream.pos) })
  else (Except.ok (), out_mdle)

/-- The third `if` statement of `check_end` (lines 128-139), for a frame of kind
`BLOCK_IF`: the label is written before the test of the else address and of the
signature. -/
def check_end_if (vm : wrp_vm_t) (out_mdle : wrp_wasm_mdle_t) :
    Except wrp_err_t Unit × wrp_wasm_mdle_t :=
  if (ctrl_stk_top vm).type = BLOCK_IF then
    match wrp_get_if_idx out_mdle (current_func_idx vm) (ctrl_stk_top vm).address with
    | Except.error e => (Except.error e, out_mdle)
    | Except.ok if_idx =>
      if out_mdle.else_addresses.getD if_idx 0 = 0 ∧ (ctrl_stk_top vm).signature ≠ VOID then
        (Except.error wrp_err_t.WRP_ERR_VALUEFUL_IF_WITH_NO_ELSE,
          { out_mdle with
            if_labels := out_mdle.if_labels.set if_idx (size_pred vm.opcode_stream.pos) })
      else
        (Except.ok (),
          { out_mdle with
            if_labels := out_mdle.if_labels.set if_idx (size_pred vm.opcode_stream.pos) })
  else (Except.ok (), out_mdle)

/-- The handler `check_end` (lines 112-144). For the function frame only
`wrp_stk_check_func_sig` is called: the frame is not popped. -/
def check_end (s : wrp_vm_t × wrp_wasm_mdle_t) :
    Except wrp_err_t Unit × (wrp_vm_t × wrp_wasm_mdle_t) :=
  if (ctrl_stk_top s.1).type = BLOCK_FUNC then
    ((wrp_stk_check_func_sig s.1).1, ((wrp_stk_check_func_sig s.1).2, s.2))
  else
    match check_end_block s.1 s.2 with
    | (Except.error e, mdle1) => (Except.error e, (s.1, mdle1))
    | (Except.ok _, mdle1) =>
      match check_end_if s.1 mdle1 with
      | (Except.error e, mdle2) => (Except.error e, (s.1, mdle2))
      | (Except.ok _, mdle2) =>
        let r := (do
          wrp_stk_check_block_sig 0 false
          wrp_stk_check_pop_block : Exec Unit) s.1
        (r.1, (r.2, mdle2))

/-- The handler `check_return` (lines 207-212). -/
def check_return (_out_mdle : wrp_wasm_mdle_t) : Exec Unit := do
  wrp_stk_check_func_sig
  wrp_stk_check_unreachable

/-- The loop of `check_call` over the parameters, in reverse order; the index into
`param_types` is `uint32_t` arithmetic. -/
def check_call_params (out_mdle : wrp_wasm_mdle_t) (param_type_offset param_count : Nat) :
    List Nat → Exec Unit
  | [] => pure ()
  | i :: rest => do
    let param_type :=
      out_mdle.param_types.getD ((param_type_offset + (param_count - i - 1)) % 4294967296) 0
    let _actual_type ← wrp_stk_check_pop_op param_type
    check_call_params out_mdle param_type_offset param_count rest

/-- The handler `check_call` (lines 214-244). -/
def check_call (out_mdle : wrp_wasm_mdle_t) : Exec Unit := do
  let func_idx ← read_stream wrp_read_varui32
  if func_idx ≥ out_mdle.num_funcs then
    Exec.fail wrp_err_t.WRP_ERR_INVALID_FUNC_IDX
  else
    let type_idx := out_mdle.func_type_idxs.getD func_idx 0
    let param_count := out_mdle.param_counts.getD type_idx 0
    let param_type_offset := out_mdle.param_type_offsets.getD type_idx 0
    check_call_params out_mdle param_type_offset param_count (List.range param_count)
    let result_count := out_mdle.result_counts.getD type_idx 0
    let result_type_offset := out_mdle.result_type_offsets.getD type_idx 0
    if result_count > 0 then
      wrp_stk_check_push_op (out_mdle.result_types.getD result_type_offset 0)

/-- The handler `check_current_memory` (lines 388-399). -/
def check_current_memory (_out_mdle : wrp_wasm_mdle_t) : Exec Unit := do
  let reserved ← read_stream wrp_read_vari32
  if reserved ≠ 0 then
    Exec.fail wrp_err_t.WRP_ERR_INVALID_RESERVED
  else
    wrp_stk_check_push_op I32

/-- The handler `check_grow_memory` (lines 401-415). -/
def check_grow_memory (_out_mdle : wrp_wasm_mdle_t) : Exec Unit := do
  let reserved ← read_stream wrp_read_vari32
  if reserved ≠ 0 then
    Exec.fail wrp_err_t.WRP_ERR_INVALID_RESERVED
  else
    let _delta ← wrp_stk_check_pop_op I32
    wrp_stk_check_push_op I32

/-- The handler `check_i32_const` (lines 417-423). -/
def check_i32_const (_out_mdle : wrp_wasm_mdle_t) : Exec Unit := do
  let _value ← read_stream wrp_read_vari32
  wrp_stk_check_push_op I32

/-- The handler `check_i64_const` (lines 425-431). -/
def check_i64_const (_out_mdle : wrp_wasm_mdle_t) : Exec Unit := do
  let _value ← read_stream wrp_read_vari64
  wrp_stk_check_push_op I64

/-- The handler `check_f32_const` (lines 433-439). -/
def check_f32_const (_out_mdle : wrp_wasm_mdle_t) : Exec Unit := do
  let _value ← read_stream wrp_read_f32
  wrp_stk_check_push_op F32

/-- The handler `check_f64_const` (lines 441-447). -/
def check_f64_const (_out_mdle : wrp_wasm_mdle_t) : Exec Unit := do
  let _value ← read_stream wrp_read_f64
  wrp_stk_check_push_op F64

/-! The numeric handlers (lines 449-589): each pops its operands with the operand
type and pushes the result type. -/

def check_i32_cmp_unary (_out_mdle : wrp_wasm_mdle_t) : Exec Unit := do
  let _x_type ← wrp_stk_check_pop_op I32
  wrp_stk_check_push_op I32

def check_i32_cmp_binary (_out_mdle : wrp_wasm_mdle_t) : Exec Unit := do
  let _y_type ← wrp_stk_check_pop_op I32
  let _x_type ← wrp_stk_check_pop_op I32
  wrp_stk_check_push_op I32

def check_i64_cmp_unary (_out_mdle : wrp_wasm_mdle_t) : Exec Unit := do
  let _x_type ← wrp_stk_check_pop_op I64
  wrp_stk_check_push_op I32

def check_i64_cmp_binary (_out_mdle : wrp_wasm_mdle_t) : Exec Unit := do
  let _y_type ← wrp_stk_check_pop_op I64
  let _x_type ← wrp_stk_check_pop_op I64
  wrp_stk_check_push_op I32

def check_f32_cmp (_out_mdle : wrp_wasm_mdle_t) : Exec Unit := do
  let _y_type ← wrp_stk_check_pop_op F32
  let _x_type ← wrp_stk_check_pop_op F32
  wrp_stk_check_push_op I32

def check_f64_cmp (_out_mdle : wrp_wasm_mdle_t) : Exec Unit := do
  let _y_type ← wrp_stk_check_pop_op F64
  let _x_type ← wrp_stk_check_pop_op F64
  wrp_stk_check_push_op I32

def check_i32_unary (_out_mdle : wrp_wasm_mdle_t) : Exec Unit := do
  let _x_type ← wrp_stk_check_pop_op I32
  wrp_stk_check_push_op I32

def check_i32_binary (_out_mdle : wrp_wasm_mdle_t) : Exec Unit := do
  let _y_type ← wrp_stk_check_pop_op I32
  let _x_type ← wrp_stk_check_pop_op I32
  wrp_stk_check_push_op I32

def check_i64_unary (_out_mdle : wrp_wasm_mdle_t) : Exec Unit := do
  let _x_type ← wrp_stk_check_pop_op I64
  wrp_stk_check_push_op I64

def check_i64_binary (_out_mdle : wrp_wasm_mdle_t) : Exec Unit := do
  let _y_type ← wrp_stk_check_pop_op I64
  let _x_type ← wrp_stk_check_pop_op I64
  wrp_stk_check_push_op I64

def check_f32_unary (_out_mdle : wrp_wasm_mdle_t) : Exec Unit := do
  let _x_type ← wrp_stk_check_pop_op F32
  wrp_stk_check_push_op F32

def check_f32_binary (_out_mdle : wrp_wasm_mdle_t) : Exec Unit := do
  let _y_type ← wrp_stk_check_pop_op F32
  let _x_type ← wrp_stk_check_pop_op F32
  wrp_stk_check_push_op F32

def check_f64_unary (_out_mdle : wrp_wasm_mdle_t) : Exec Unit := do
  let _x_type ← wrp_stk_check_pop_op F64
  wrp_stk_check_push_op F64

def check_f64_binary (_out_mdle : wrp_wasm_mdle_t) : Exec Unit := do
  let _y_type ← wrp_stk_check_pop_op F64
  let _x_type ← wrp_stk_check_pop_op F64
  wrp_stk_check_push_op F64

/-! ## The validator (`wrp_type_check_mdle`) -/

/-- The function behind each name of `check_jump_table`. The bound
`MAX_BRANCH_TABLE_SIZE` of `warp-config.h` is not among the sources and is a
parameter. -/
def check_jump_table_handler (MAX_BRANCH_TABLE_SIZE : Nat) :
    check_fn → wrp_vm_t × wrp_wasm_mdle_t →
      Except wrp_err_t Unit × (wrp_vm_t × wrp_wasm_mdle_t)
  | check_fn.check_unreachable => on_mdle check_unreachable
  | check_fn.check_noop => on_mdle check_noop
  | check_fn.check_block => check_block
  | check_fn.check_loop => on_mdle check_loop
  | check_fn.check_if => check_if
  | check_fn.check_else => check_else
  | check_fn.check_invalid_op => check_invalid_op
  | check_fn.check_end => check_end
  | check_fn.check_br => on_mdle (check_br wrp_stk_check_block_sig wrp_stk_check_unreachable)
  | check_fn.check_br_if => on_mdle check_br_if
  | check_fn.check_br_table =>
    on_mdle (check_br_table MAX_BRANCH_TABLE_SIZE wrp_stk_check_block_sig
      wrp_stk_check_unreachable)
  | check_fn.check_return => on_mdle check_return
  | check_fn.check_call => on_mdle check_call
  | check_fn.check_call_indirect => on_mdle check_call_indirect
  | check_fn.check_drop => on_mdle check_drop
  | check_fn.check_select => on_mdle check_select
  | check_fn.check_get_local => on_mdle check_get_local
  | check_fn.check_set_local => on_mdle check_set_local
  | check_fn.check_tee_local => on_mdle check_tee_local
  | check_fn.check_get_global => on_mdle check_get_global
  | check_fn.check_set_global => on_mdle check_set_global
  | check_fn.check_load => on_mdle check_load
  | check_fn.check_store => on_mdle check_store
  | check_fn.check_current_memory => on_mdle check_current_memory
  | check_fn.check_grow_memory => on_mdle check_grow_memory
  | check_fn.check_i32_const => on_mdle check_i32_const
  | check_fn.check_i64_const => on_mdle check_i64_const
  | check_fn.check_f32_const => on_mdle check_f32_const
  | check_fn.check_f64_const => on_mdle check_f64_const
  | check_fn.check_i32_cmp_unary => on_mdle check_i32_cmp_unary
  | check_fn.check_i32_cmp_binary => on_mdle check_i32_cmp_binary
  | check_fn.check_i64_cmp_unary => on_mdle check_i64_cmp_unary
  | check_fn.check_i64_cmp_binary => on_mdle check_i64_cmp_binary
  | check_fn.check_f32_cmp => on_mdle check_f32_cmp
  | check_fn.check_f64_cmp => on_mdle check_f64_cmp
  | check_fn.check_i32_unary => on_mdle check_i32_unary
  | check_fn.check_i32_binary => on_mdle check_i32_binary
  | check_fn.check_i64_unary => on_mdle check_i64_unary
  | check_fn.check_i64_binary => on_mdle check_i64_binary
  | check_fn.check_f32_unary => on_mdle check_f32_unary
  | check_fn.check_f32_binary => on_mdle check_f32_binary
  | check_fn.check_f64_unary => on_mdle check_f64_unary
  | check_fn.check_f64_binary => on_mdle check_f64_binary
  | check_fn.check_convert_i32_i64 => on_mdle check_convert_i32_i64
  | check_fn.check_convert_i32_f32 => on_mdle check_convert_i32_f32
  | check_fn.check_convert_i32_f64 => on_mdle check_convert_i32_f64
  | check_fn.check_convert_i64_i32 => on_mdle check_convert_i64_i32
  | check_fn.check_convert_i64_f32 => on_mdle check_convert_i64_f32
  | check_fn.check_convert_i64_f64 => on_mdle check_convert_i64_f64
  | check_fn.check_convert_f32_i32 => on_mdle check_convert_f32_i32
  | check_fn.check_convert_f32_i64 => on_mdle check_convert_f32_i64
  | check_fn.check_convert_f32_f64 => on_mdle check_convert_f32_f64
  | check_fn.check_convert_f64_i32 => on_mdle check_convert_f64_i32
  | check_fn.check_convert_f64_i64 => on_mdle check_convert_f64_i64
  | check_fn.check_convert_f64_f32 => on_mdle check_convert_f64_f32
  | check_fn.check_reinterpret_i32_f32 => on_mdle check_reinterpret_i32_f32
  | check_fn.check_reinterpret_i64_f64 => on_mdle check_reinterpret_i64_f64
  | check_fn.check_reinterpret_f32_i32 => on_mdle check_reinterpret_f32_i32
  | check_fn.check_reinterpret_f64_i64 => on_mdle check_reinterpret_f64_i64

/-- The `while` loop of `wrp_type_check_mdle`, run for at most `fuel` opcodes, with
the code it returns (`WRP_SUCCESS` when the loop ends): the statement
`WRP_CHECK(x)` returns the code of `x` from the function if it is not
`WRP_SUCCESS`, so a step that gives the code `WRP_SUCCESS` lets the loop go on.
The result is `none` when the fuel runs out or when a call through the table has
no defined behaviour. -/
def check_code_loop
    (handler : check_fn → wrp_vm_t × wrp_wasm_mdle_t →
      Except wrp_err_t Unit × (wrp_vm_t × wrp_wasm_mdle_t)) :
    Nat → wrp_vm_t × wrp_wasm_mdle_t → Option (wrp_err_t × (wrp_vm_t × wrp_wasm_mdle_t))
  | 0, _ => none
  | fuel + 1, s =>
    if s.1.opcode_stream.pos < s.1.opcode_stream.sz then
      match wrp_type_check_mdle_body handler s with
      | none => none
      | some (Except.ok _, s1) => check_code_loop handler fuel s1
      | some (Except.error wrp_err_t.WRP_SUCCESS, s1) => check_code_loop handler fuel s1
      | some (Except.error e, s1) => some (e, s1)
    else some (wrp_err_t.WRP_SUCCESS, s)

/-- The two assignments to `if_offsets[i]` and the two to `block_offsets[i]` that
the body of the `for` loop makes when `i > 0` (lines 927-932), in `uint32_t`
arithmetic. -/
def set_offsets (i : Nat) (out_mdle : wrp_wasm_mdle_t) : wrp_wasm_mdle_t :=
  let if_offsets1 := out_mdle.if_offsets.set i (out_mdle.if_offsets.getD (i - 1) 0)
  let if_offsets2 :=
    if_offsets1.set i ((if_offsets1.getD i 0 + out_mdle.if_counts.getD (i - 1) 0) % 4294967296)
  let block_offsets1 := out_mdle.block_offsets.set i (out_mdle.block_offsets.getD (i - 1) 0)
  let block_offsets2 :=
    block_offsets1.set i
      ((block_offsets1.getD i 0 + out_mdle.block_counts.getD (i - 1) 0) % 4294967296)
  { out_mdle with if_offsets := if_offsets2, block_offsets := block_offsets2 }

/-- The two tests that follow the `while` loop (lines 944-950), with the code they
return (`WRP_SUCCESS` when both pass). The second reads `bytes[pos - 1]`; the
result is `none` when that index is not below the size of the code body, where
the read is outside the body. -/
def check_code_end (s : wrp_vm_t × wrp_wasm_mdle_t) :
    Option (wrp_err_t × (wrp_vm_t × wrp_wasm_mdle_t)) :=
  if ¬ wrp_end_of_buf s.1.opcode_stream then
    some (wrp_err_t.WRP_ERR_MDLE_INVALID_BYTES, s)
  else if size_pred s.1.opcode_stream.pos < s.1.opcode_stream.sz then
    if s.1.opcode_stream.bytes.getD (size_pred s.1.opcode_stream.pos) 0 % 256 ≠ OP_END then
      some (wrp_err_t.WRP_ERR_MDLE_INVALID_END_OPCODE, s)
    else some (wrp_err_t.WRP_SUCCESS, s)
  else none

/-- The start of the body of the `for` loop for the function `i` (lines 918-932):
the reset of the container, the pushes of the call frame and of the function
frame, the cursor on the code of the function and the assignments to the
offsets. The code is that of the two pushes. -/
def check_func_init (i : Nat) (s : wrp_vm_t × wrp_wasm_mdle_t) :
    wrp_err_t × (wrp_vm_t × wrp_wasm_mdle_t) :=
  let r := (do
    wrp_stk_check_push_call i
    wrp_stk_check_push_block 0 BLOCK_FUNC VOID : Exec Unit) (wrp_reset_vm s.1)
  match err_code r.1 with
  | wrp_err_t.WRP_SUCCESS =>
    (wrp_err_t.WRP_SUCCESS,
      ({ r.2 with opcode_stream :=
          { bytes := s.2.code_bodies.getD i [], sz := s.2.code_bodies_sz.getD i 0, pos := 0 } },
        if i > 0 then set_offsets i s.2 else s.2))
  | e => (e, (r.2, s.2))

/-- The body of the `for` loop of `wrp_type_check_mdle` for the function `i`
(lines 918-950), with the code it returns from the function, or `WRP_SUCCESS`
when it runs to its end. -/
def check_func
    (handler : check_fn → wrp_vm_t × wrp_wasm_mdle_t →
      Except wrp_err_t Unit × (wrp_vm_t × wrp_wasm_mdle_t))
    (fuel i : Nat) (s : wrp_vm_t × wrp_wasm_mdle_t) :
    Option (wrp_err_t × (wrp_vm_t × wrp_wasm_mdle_t)) :=
  match check_func_init i s with
  | (wrp_err_t.WRP_SUCCESS, s1) =>
    match check_code_loop handler fuel s1 with
    | none => none
    | some (wrp_err_t.WRP_SUCCESS, s2) => check_code_end s2
    | some (e, s2) => some (e, s2)
  | (e, s1) => some (e, s1)

/-- The `for` loop of `wrp_type_check_mdle` from the function `i` on, for at most `n`
functions; the bound `out_mdle->num_funcs` is read at each turn. -/
def check_funcs
    (handler : check_fn → wrp_vm_t × wrp_wasm_mdle_t →
      Except wrp_err_t Unit × (wrp_vm_t × wrp_wasm_mdle_t))
    (fuel : Nat) : Nat → Nat → wrp_vm_t × wrp_wasm_mdle_t →
      Option (wrp_err_t × (wrp_vm_t × wrp_wasm_mdle_t))
  | 0, i, s => if i < s.2.num_funcs then none else some (wrp_err_t.WRP_SUCCESS, s)
  | n + 1, i, s =>
    if i < s.2.num_funcs then
      match check_func handler fuel i s with
      | none => none
      | some (wrp_err_t.WRP_SUCCESS, s1) => check_funcs handler fuel n (i + 1) s1
      | some (e, s1) => some (e, s1)
    else some (wrp_err_t.WRP_SUCCESS, s)

/-- The function `wrp_type_check_mdle` (lines 913-955): the code it returns, the
container and the module record it leaves. Each `while` loop runs for at most
`fuel` opcodes; the result is `none` when that is not enough or when a step has
no defined behaviour. The pointer `vm->mdle` is set to the record at entry and
to the null pointer before the function returns `WRP_SUCCESS`, and on no other
path. -/
def wrp_type_check_mdle
    (handler : check_fn → wrp_vm_t × wrp_wasm_mdle_t →
      Except wrp_err_t Unit × (wrp_vm_t × wrp_wasm_mdle_t))
    (fuel : Nat) (vm : wrp_vm_t) (out_mdle : wrp_wasm_mdle_t) :
    Option (wrp_err_t × wrp_vm_t × wrp_wasm_mdle_t) :=
  match check_funcs handler fuel out_mdle.num_funcs 0
      ({ vm with mdle := some out_mdle }, out_mdle) with
  | none => none
  | some (wrp_err_t.WRP_SUCCESS, s) => some (wrp_err_t.WRP_SUCCESS, { s.1 with mdle := none }, s.2)
  | some (e, s) => some (e, s.1, s.2)

/-- The function `wrp_type_check_mdle` as a stage of `wrp_instantiate_mdle`, with the
handlers of `check_jump_table` and `fuel` opcodes for each function: the code,
the container and the record of `wrp_type_check_mdle` when it has a result, and
the code `WRP_ERR_UNKNOWN` with the state as it was otherwise. -/
def wrp_type_check_mdle_stage (MAX_BRANCH_TABLE_SIZE fuel : Nat) (vm : wrp_vm_t)
    (out_mdle : wrp_wasm_mdle_t) : wrp_err_t × wrp_vm_t × wrp_wasm_mdle_t :=
  (wrp_type_check_mdle (check_jump_table_handler MAX_BRANCH_TABLE_SIZE) fuel vm out_mdle).getD
    (wrp_err_t.WRP_ERR_UNKNOWN, vm, out_mdle)

/-! ## Frame conditions of the validator handlers -/

/-- A step on the container that leaves the call stack as it was. -/
def keeps_call_stk {α : Type} (h : Exec α) : Prop := ∀ vm, (h vm).2.call_stk = vm.call_stk

/-- A step on the container that leaves the opcode stream, with its cursor, as it
was. -/
def keeps_stream {α : Type} (h : Exec α) : Prop :=
  ∀ vm, (h vm).2.opcode_stream = vm.opcode_stream

/-- The part of the validator state that a handler leaves alone: the number of
functions, the offset tables, the counts of the functions other than the current
one, and the index of the current function. -/
def jump_tables_frame (s s1 : wrp_vm_t × wrp_wasm_mdle_t) : Prop :=
  s1.2.num_funcs = s.2.num_funcs ∧
  s1.2.block_offsets = s.2.block_offsets ∧
  s1.2.if_offsets = s.2.if_offsets ∧
  (∀ j, j ≠ current_func_idx s.1 →
    s1.2.block_counts.getD j 0 = s.2.block_counts.getD j 0 ∧
    s1.2.if_counts.getD j 0 = s.2.if_counts.getD j 0) ∧
  current_func_idx s1.1 = current_func_idx s.1

/-- The offset tables are prefix sums for the functions below `n`: for `i + 1 < n`
the offset of function `i + 1` is the offset of function `i` plus its count, in
`uint32_t` arithmetic, for the blocks and for the ifs. -/
def offsets_are_prefix_sums (n : Nat) (mdle : wrp_wasm_mdle_t) : Prop :=
  ∀ i, i + 1 < n →
    mdle.block_offsets.getD (i + 1) 0 =
      (mdle.block_offsets.getD i 0 + mdle.block_counts.getD i 0) % 4294967296 ∧
    mdle.if_offsets.getD (i + 1) 0 =
      (mdle.if_offsets.getD i 0 + mdle.if_counts.getD i 0) % 4294967296

/-! ## The immediates of the handlers -/

/-- The stream that a reader leaves: the advanced stream when the read succeeds, the
stream as it was when it fails. -/
def stream_after {α : Type} (r : wrp_buf_t → Except wrp_err_t (α × wrp_buf_t))
    (buf : wrp_buf_t) : wrp_buf_t :=
  match r buf with
  | Except.ok (_, buf1) => buf1
  | Except.error _ => buf

/-- A handler that, whenever it succeeds, leaves the opcode stream where the reader
`r` leaves it: `r` reads all its immediates. -/
def reads_with {α : Type} (r : wrp_buf_t → Except wrp_err_t (α × wrp_buf_t))
    (h : Exec Unit) : Prop :=
  ∀ vm, (h vm).1 = Except.ok () → (h vm).2.opcode_stream = stream_after r vm.opcode_stream

/-- The calls that the `while` loop of `wrp_type_check_mdle` makes through the table
from the state `s`, in order and for at most `fuel` opcodes: each handler with
the state it is called on. The loop ends at the end of the code, at an opcode
without a handler and behind a call that returns an error code. -/
def check_code_calls
    (handler : check_fn → wrp_vm_t × wrp_wasm_mdle_t →
      Except wrp_err_t Unit × (wrp_vm_t × wrp_wasm_mdle_t)) :
    Nat → wrp_vm_t × wrp_wasm_mdle_t → List (check_fn × (wrp_vm_t × wrp_wasm_mdle_t))
  | 0, _ => []
  | fuel + 1, s =>
    if s.1.opcode_stream.pos < s.1.opcode_stream.sz then
      if s.1.opcode_stream.bytes.getD s.1.opcode_stream.pos 0 % 256 ≥ NUM_OPCODES then []
      else
        match jump_table_call check_jump_table
            (s.1.opcode_stream.bytes.getD s.1.opcode_stream.pos 0 % 256) with
        | none => []
        | some f =>
          match handler f ({ s.1 with opcode_stream :=
              { s.1.opcode_stream with pos := s.1.opcode_stream.pos + 1 } }, s.2) with
          | (Except.ok _, s2) =>
            (f, ({ s.1 with opcode_stream :=
              { s.1.opcode_stream with pos := s.1.opcode_stream.pos + 1 } }, s.2)) ::
              check_code_calls handler fuel s2
          | (Except.error wrp_err_t.WRP_SUCCESS, s2) =>
            (f, ({ s.1 with opcode_stream :=
              { s.1.opcode_stream with pos := s.1.opcode_stream.pos + 1 } }, s.2)) ::
              check_code_calls handler fuel s2
          | (Except.error _, _) =>
            [(f, ({ s.1 with opcode_stream :=
              { s.1.opcode_stream with pos := s.1.opcode_stream.pos + 1 } }, s.2))]
    else []

/-- The calls of the `while` loop for the function `i`, entered from the state `s`
of the `for` loop. -/
def check_func_calls
    (handler : check_fn → wrp_vm_t × wrp_wasm_mdle_t →
      Except wrp_err_t Unit × (wrp_vm_t × wrp_wasm_mdle_t))
    (fuel i : Nat) (s : wrp_vm_t × wrp_wasm_mdle_t) :
    List (check_fn × (wrp_vm_t × wrp_wasm_mdle_t)) :=
  match check_func_init i s with
  | (wrp_err_t.WRP_SUCCESS, s1) => check_code_calls handler fuel s1
  | _ => []

/-- The calls made for the function `t` when the `for` loop of
`wrp_type_check_mdle` runs from the function `i` on, for at most `n`
functions. -/
def check_funcs_calls
    (handler : check_fn → wrp_vm_t × wrp_wasm_mdle_t →
      Except wrp_err_t Unit × (wrp_vm_t × wrp_wasm_mdle_t))
    (fuel : Nat) : Nat → Nat → wrp_vm_t × wrp_wasm_mdle_t → Nat →
      List (check_fn × (wrp_vm_t × wrp_wasm_mdle_t))
  | 0, _, _, _ => []
  | n + 1, i, s, t =>
    if i < s.2.num_funcs then
      if i = t then check_func_calls handler fuel i s
      else
        match check_func handler fuel i s with
        | some (wrp_err_t.WRP_SUCCESS, s1) => check_funcs_calls handler fuel n (i + 1) s1 t
        | _ => []
    else []

/-- The calls that `wrp_type_check_mdle` makes through the table while it validates
the function `t`. -/
def wrp_type_check_mdle_calls
    (handler : check_fn → wrp_vm_t × wrp_wasm_mdle_t →
      Except wrp_err_t Unit × (wrp_vm_t × wrp_wasm_mdle_t))
    (fuel : Nat) (vm : wrp_vm_t) (out_mdle : wrp_wasm_mdle_t) (t : Nat) :
    List (check_fn × (wrp_vm_t × wrp_wasm_mdle_t)) :=
  check_funcs_calls handler fuel out_mdle.num_funcs 0
    ({ vm with mdle := some out_mdle }, out_mdle) t

/-- The number of calls of the handler `g` in a trace. -/
def count_calls (g : check_fn) (calls : List (check_fn × (wrp_vm_t × wrp_wasm_mdle_t))) : Nat :=
  calls.countP fun c => decide (c.1 = g)

/-! ## The remaining handlers of the executor (`warp-execution.c`)

The comparisons, the bitwise operations, the floating-point arithmetic and the
conversions. A `float` or `double` is carried as its bit pattern. The
comparisons of the source are made on the bit patterns; the arithmetic, the
functions of `<math.h>` and the casts between the arithmetic types belong to the
C implementation and are taken from `c_float_ops`. -/

/-- Not in the source: the floating-point arithmetic of the C implementation on the
bit patterns of `float` and `double`: the operators `-x`, `x + y`, `x - y`,
`x * y`, `x / y`, the functions of `<math.h>` under their names, the casts of an
integer value to `float` and `double`, the casts of a `float` or `double` to an
integer type (the value truncated toward zero) and the casts between `float` and
`double`. -/
structure c_float_ops where
  f32_neg : Nat → Nat
  f32_add : Nat → Nat → Nat
  f32_sub : Nat → Nat → Nat
  f32_mul : Nat → Nat → Nat
  f32_div : Nat → Nat → Nat
  fabsf : Nat → Nat
  ceilf : Nat → Nat
  floorf : Nat → Nat
  truncf : Nat → Nat
  nearbyintf : Nat → Nat
  sqrtf : Nat → Nat
  copysignf : Nat → Nat → Nat
  f64_neg : Nat → Nat
  f64_add : Nat → Nat → Nat
  f64_sub : Nat → Nat → Nat
  f64_mul : Nat → Nat → Nat
  f64_div : Nat → Nat → Nat
  fabs : Nat → Nat
  ceil : Nat → Nat
  floor : Nat → Nat
  trunc : Nat → Nat
  nearbyint : Nat → Nat
  sqrt : Nat → Nat
  copysign : Nat → Nat → Nat
  f32_of_int : Int → Nat
  f64_of_int : Int → Nat
  f32_to_int : Nat → Int
  f64_to_int : Nat → Int
  f32_of_f64 : Nat → Nat
  f64_of_f32 : Nat → Nat

def INT32_MAX : Int := 2147483647

def UINT32_MAX : Int := 4294967295

def INT64_MAX : Int := 9223372036854775807

def UINT64_MAX : Int := 18446744073709551615

/-- The constant `-0.0f`: the sign bit alone. -/
def NEG_ZERO_F32 : Nat := 0x80000000

/-- The constant `-0.0f` converted to `double`. -/
def NEG_ZERO_F64 : Nat := 0x8000000000000000

/-- The macro `NAN` of `<math.h>`, a quiet NaN of type `float`: the exponent bits
and the first fraction bit. -/
def NAN_F32 : Nat := 0x7FC00000

/-- The macro `NAN` converted to `double`. -/
def NAN_F64 : Nat := 0x7FF8000000000000

/-- The comparison `x == y` of two `float`s: false when one is a NaN; the two zeros
are equal. -/
def f32_eq (x y : Nat) : Bool :=
  !isnan_f32 x && !isnan_f32 y && decide (f32_order x = f32_order y)

/-- The comparison `x < y` of two `float`s: false when one is a NaN. -/
def f32_lt (x y : Nat) : Bool :=
  !isnan_f32 x && !isnan_f32 y && decide (f32_order x < f32_order y)

/-- The comparison `x <= y` of two `float`s: false when one is a NaN. -/
def f32_le (x y : Nat) : Bool :=
  !isnan_f32 x && !isnan_f32 y && decide (f32_order x ≤ f32_order y)

/-- The comparison `x == y` of two `double`s. -/
def f64_eq (x y : Nat) : Bool :=
  !isnan_f64 x && !isnan_f64 y && decide (f64_order x = f64_order y)

/-- The comparison `x < y` of two `double`s. -/
def f64_lt (x y : Nat) : Bool :=
  !isnan_f64 x && !isnan_f64 y && decide (f64_order x < f64_order y)

/-- The comparison `x <= y` of two `double`s. -/
def f64_le (x y : Nat) : Bool :=
  !isnan_f64 x && !isnan_f64 y && decide (f64_order x ≤ f64_order y)

/-- The handler `exec_i32_eqz_op` (lines 574-583). -/
def exec_i32_eqz_op : Exec Unit := do
  let x ← wrp_stk_exec_pop_i32
  let result : Int := if x = 0 then 1 else 0
  wrp_stk_exec_push_i32 result

/-- The handler `exec_i32_eq_op` (lines 585-597). -/
def exec_i32_eq_op : Exec Unit := do
  let y ← wrp_stk_exec_pop_i32
  let x ← wrp_stk_exec_pop_i32
  let result : Int := if x = y then 1 else 0
  wrp_stk_exec_push_i32 result

/-- The handler `exec_i32_ne_op` (lines 599-611). -/
def exec_i32_ne_op : Exec Unit := do
  let y ← wrp_stk_exec_pop_i32
  let x ← wrp_stk_exec_pop_i32
  let result : Int := if x ≠ y then 1 else 0
  wrp_stk_exec_push_i32 result

/-- The handler `exec_i32_lt_s_op` (lines 613-625). -/
def exec_i32_lt_s_op : Exec Unit := do
  let y ← wrp_stk_exec_pop_i32
  let x ← wrp_stk_exec_pop_i32
  let result : Int := if x < y then 1 else 0
  wrp_stk_exec_push_i32 result

/-- The handler `exec_i32_lt_u_op` (lines 627-639). -/
def exec_i32_lt_u_op : Exec Unit := do
  let y ← wrp_stk_exec_pop_i32
  let x ← wrp_stk_exec_pop_i32
  let result : Int := if to_u32 x < to_u32 y then 1 else 0
  wrp_stk_exec_push_i32 result

/-- The handler `exec_i32_gt_s_op` (lines 641-653). -/
def exec_i32_gt_s_op : Exec Unit := do
  let y ← wrp_stk_exec_pop_i32
  let x ← wrp_stk_exec_pop_i32
  let result : Int := if x > y then 1 else 0
  wrp_stk_exec_push_i32 result

/-- The handler `exec_i32_gt_u_op` (lines 655-667). -/
def exec_i32_gt_u_op : Exec Unit := do
  let y ← wrp_stk_exec_pop_i32
  let x ← wrp_stk_exec_pop_i32
  let result : Int := if to_u32 x > to_u32 y then 1 else 0
  wrp_stk_exec_push_i32 result

/-- The handler `exec_i32_le_s_op` (lines 669-681). -/
def exec_i32_le_s_op : Exec Unit := do
  let y ← wrp_stk_exec_pop_i32
  let x ← wrp_stk_exec_pop_i32
  let result : Int := if x ≤ y then 1 else 0
  wrp_stk_exec_push_i32 result

/-- The handler `exec_i32_le_u_op` (lines 683-695). -/
def exec_i32_le_u_op : Exec Unit := do
  let y ← wrp_stk_exec_pop_i32
  let x ← wrp_stk_exec_pop_i32
  let result : Int := if to_u32 x ≤ to_u32 y then 1 else 0
  wrp_stk_exec_push_i32 result

/-- The handler `exec_i32_ge_s_op` (lines 697-709). -/
def exec_i32_ge_s_op : Exec Unit := do
  let y ← wrp_stk_exec_pop_i32
  let x ← wrp_stk_exec_pop_i32
  let result : Int := if x ≥ y then 1 else 0
  wrp_stk_exec_push_i32 result

/-- The handler `exec_i32_ge_u_op` (lines 711-723). -/
def exec_i32_ge_u_op : Exec Unit := do
  let y ← wrp_stk_exec_pop_i32
  let x ← wrp_stk_exec_pop_i32
  let result : Int := if to_u32 x ≥ to_u32 y then 1 else 0
  wrp_stk_exec_push_i32 result

/-- The handler `exec_i64_eqz_op` (lines 725-734). -/
def exec_i64_eqz_op : Exec Unit := do
  let x ← wrp_stk_exec_pop_i64
  let result : Int := if x = 0 then 1 else 0
  wrp_stk_exec_push_i32 result

/-- The handler `exec_i64_eq_op` (lines 736-748). -/
def exec_i64_eq_op : Exec Unit := do
  let y ← wrp_stk_exec_pop_i64
  let x ← wrp_stk_exec_pop_i64
  let result : Int := if x = y then 1 else 0
  wrp_stk_exec_push_i32 result

/-- The handler `exec_i64_ne_op` (lines 750-762). -/
def exec_i64_ne_op : Exec Unit := do
  let y ← wrp_stk_exec_pop_i64
  let x ← wrp_stk_exec_pop_i64
  let result : Int := if x ≠ y then 1 else 0
  wrp_stk_exec_push_i32 result

/-- The handler `exec_i64_lt_s_op` (lines 764-776). -/
def exec_i64_lt_s_op : Exec Unit := do
  let y ← wrp_stk_exec_pop_i64
  let x ← wrp_stk_exec_pop_i64
  let result : Int := if x < y then 1 else 0
  wrp_stk_exec_push_i32 result

/-- The handler `exec_i64_lt_u_op` (lines 778-790). -/
def exec_i64_lt_u_op : Exec Unit := do
  let y ← wrp_stk_exec_pop_i64
  let x ← wrp_stk_exec_pop_i64
  let result : Int := if to_u64 x < to_u64 y then 1 else 0
  wrp_stk_exec_push_i32 result

/-- The handler `exec_i64_gt_s_op` (lines 792-804). -/
def exec_i64_gt_s_op : Exec Unit := do
  let y ← wrp_stk_exec_pop_i64
  let x ← wrp_stk_exec_pop_i64
  let result : Int := if x > y then 1 else 0
  wrp_stk_exec_push_i32 result

/-- The handler `exec_i64_gt_u_op` (lines 806-818). -/
def exec_i64_gt_u_op : Exec Unit := do
  let y ← wrp_stk_exec_pop_i64
  let x ← wrp_stk_exec_pop_i64
  let result : Int := if to_u64 x > to_u64 y then 1 else 0
  wrp_stk_exec_push_i32 result

/-- The handler `exec_i64_le_s_op` (lines 820-832). -/
def exec_i64_le_s_op : Exec Unit := do
  let y ← wrp_stk_exec_pop_i64
  let x ← wrp_stk_exec_pop_i64
  let result : Int := if x ≤ y then 1 else 0
  wrp_stk_exec_push_i32 result

/-- The handler `exec_i64_le_u_op` (lines 834-846). -/
def exec_i64_le_u_op : Exec Unit := do
  let y ← wrp_stk_exec_pop_i64
  let x ← wrp_stk_exec_pop_i64
  let result : Int := if to_u64 x ≤ to_u64 y then 1 else 0
  wrp_stk_exec_push_i32 result

/-- The handler `exec_i64_ge_s_op` (lines 848-860). -/
def exec_i64_ge_s_op : Exec Unit := do
  let y ← wrp_stk_exec_pop_i64
  let x ← wrp_stk_exec_pop_i64
  let result : Int := if x ≥ y then 1 else 0
  wrp_stk_exec_push_i32 result

/-- The handler `exec_i64_ge_u_op` (lines 862-874). -/
def exec_i64_ge_u_op : Exec Unit := do
  let y ← wrp_stk_exec_pop_i64
  let x ← wrp_stk_exec_pop_i64
  let result : Int := if to_u64 x ≥ to_u64 y then 1 else 0
  wrp_stk_exec_push_i32 result

/-- The handler `exec_f32_eq_op` (lines 876-888). -/
def exec_f32_eq_op : Exec Unit := do
  let y ← wrp_stk_exec_pop_f32
  let x ← wrp_stk_exec_pop_f32
  let result : Int := if f32_eq x y then 1 else 0
  wrp_stk_exec_push_i32 result

/-- The handler `exec_f32_ne_op` (lines 889-901). -/
def exec_f32_ne_op : Exec Unit := do
  let y ← wrp_stk_exec_pop_f32
  let x ← wrp_stk_exec_pop_f32
  let result : Int := if ¬ f32_eq x y then 1 else 0
  wrp_stk_exec_push_i32 result

/-- The handler `exec_f32_lt_op` (lines 903-915). -/
def exec_f32_lt_op : Exec Unit := do
  let y ← wrp_stk_exec_pop_f32
  let x ← wrp_stk_exec_pop_f32
  let result : Int := if f32_lt x y then 1 else 0
  wrp_stk_exec_push_i32 result

/-- The handler `exec_f32_gt_op` (lines 917-929). -/
def exec_f32_gt_op : Exec Unit := do
  let y ← wrp_stk_exec_pop_f32
  let x ← wrp_stk_exec_pop_f32
  let result : Int := if f32_lt y x then 1 else 0
  wrp_stk_exec_push_i32 result

/-- The handler `exec_f32_le_op` (lines 931-943). -/
def exec_f32_le_op : Exec Unit := do
  let y ← wrp_stk_exec_pop_f32
  let x ← wrp_stk_exec_pop_f32
  let result : Int := if f32_le x y then 1 else 0
  wrp_stk_exec_push_i32 result

/-- The handler `exec_f32_ge_op` (lines 945-957). -/
def exec_f32_ge_op : Exec Unit := do
  let y ← wrp_stk_exec_pop_f32
  let x ← wrp_stk_exec_pop_f32
  let result : Int := if f32_le y x then 1 else 0
  wrp_stk_exec_push_i32 result

/-- The handler `exec_f64_eq_op` (lines 959-971). -/
def exec_f64_eq_op : Exec Unit := do
  let y ← wrp_stk_exec_pop_f64
  let x ← wrp_stk_exec_pop_f64
  let result : Int := if f64_eq x y then 1 else 0
  wrp_stk_exec_push_i32 result

/-- The handler `exec_f64_ne_op` (lines 973-985). -/
def exec_f64_ne_op : Exec Unit := do
  let y ← wrp_stk_exec_pop_f64
  let x ← wrp_stk_exec_pop_f64
  let result : Int := if ¬ f64_eq x y then 1 else 0
  wrp_stk_exec_push_i32 result

/-- The handler `exec_f64_lt_op` (lines 987-999). -/
def exec_f64_lt_op : Exec Unit := do
  let y ← wrp_stk_exec_pop_f64
  let x ← wrp_stk_exec_pop_f64
  let result : Int := if f64_lt x y then 1 else 0
  wrp_stk_exec_push_i32 result

/-- The handler `exec_f64_gt_op` (lines 1001-1013). -/
def exec_f64_gt_op : Exec Unit := do
  let y ← wrp_stk_exec_pop_f64
  let x ← wrp_stk_exec_pop_f64
  let result : Int := if f64_lt y x then 1 else 0
  wrp_stk_exec_push_i32 result

/-- The handler `exec_f64_le_op` (lines 1015-1027). -/
def exec_f64_le_op : Exec Unit := do
  let y ← wrp_stk_exec_pop_f64
  let x ← wrp_stk_exec_pop_f64
  let result : Int := if f64_le x y then 1 else 0
  wrp_stk_exec_push_i32 result

/-- The handler `exec_f64_ge_op` (lines 1029-1041). -/
def exec_f64_ge_op : Exec Unit := do
  let y ← wrp_stk_exec_pop_f64
  let x ← wrp_stk_exec_pop_f64
  let result : Int := if f64_le y x then 1 else 0
  wrp_stk_exec_push_i32 result

/-- The handler `exec_i32_and_op` (lines 1229-1241). -/
def exec_i32_and_op : Exec Unit := do
  let y ← wrp_stk_exec_pop_i32
  let x ← wrp_stk_exec_pop_i32
  let result : Int := to_i32 ((to_u32 x &&& to_u32 y : Nat) : Int)
  wrp_stk_exec_push_i32 result

/-- The handler `exec_i32_or_op` (lines 1243-1255). -/
def exec_i32_or_op : Exec Unit := do
  let y ← wrp_stk_exec_pop_i32
  let x ← wrp_stk_exec_pop_i32
  let result : Int := to_i32 ((to_u32 x ||| to_u32 y : Nat) : Int)
  wrp_stk_exec_push_i32 result

/-- The handler `exec_i32_xor_op` (lines 1257-1269). -/
def exec_i32_xor_op : Exec Unit := do
  let y ← wrp_stk_exec_pop_i32
  let x ← wrp_stk_exec_pop_i32
  let result : Int := to_i32 ((to_u32 x ^^^ to_u32 y : Nat) : Int)
  wrp_stk_exec_push_i32 result

/-- The handler `exec_i64_and_op` (lines 1536-1549). -/
def exec_i64_and_op : Exec Unit := do
  let y ← wrp_stk_exec_pop_i64
  let x ← wrp_stk_exec_pop_i64
  let result : Int := to_i64 ((to_u64 x &&& to_u64 y : Nat) : Int)
  wrp_stk_exec_push_i64 result

/-- The handler `exec_i64_or_op` (lines 1551-1564). -/
def exec_i64_or_op : Exec Unit := do
  let y ← wrp_stk_exec_pop_i64
  let x ← wrp_stk_exec_pop_i64
  let result : Int := to_i64 ((to_u64 x ||| to_u64 y : Nat) : Int)
  wrp_stk_exec_push_i64 result

/-- The handler `exec_i64_xor_op` (lines 1566-1579). -/
def exec_i64_xor_op : Exec Unit := do
  let y ← wrp_stk_exec_pop_i64
  let x ← wrp_stk_exec_pop_i64
  let result : Int := to_i64 ((to_u64 x ^^^ to_u64 y : Nat) : Int)
  wrp_stk_exec_push_i64 result

/-- The handler `exec_f32_abs_op` (lines 1662-1672). -/
def exec_f32_abs_op (fl : c_float_ops) : Exec Unit := do
  let x ← wrp_stk_exec_pop_f32
  let result : Nat := fl.fabsf x
  wrp_stk_exec_push_f32 result

/-- The handler `exec_f32_neg_op` (lines 1674-1684). -/
def exec_f32_neg_op (fl : c_float_ops) : Exec Unit := do
  let x ← wrp_stk_exec_pop_f32
  let result : Nat := fl.f32_neg x
  wrp_stk_exec_push_f32 result

/-- The handler `exec_f32_ceil_op` (lines 1686-1696). -/
def exec_f32_ceil_op (fl : c_float_ops) : Exec Unit := do
  let x ← wrp_stk_exec_pop_f32
  let result : Nat := fl.ceilf x
  wrp_stk_exec_push_f32 result

/-- The handler `exec_f32_floor_op` (lines 1698-1708). -/
def exec_f32_floor_op (fl : c_float_ops) : Exec Unit := do
  let x ← wrp_stk_exec_pop_f32
  let result : Nat := fl.floorf x
  wrp_stk_exec_push_f32 result

/-- The handler `exec_f32_trunc_op` (lines 1710-1720). -/
def exec_f32_trunc_op (fl : c_float_ops) : Exec Unit := do
  let x ← wrp_stk_exec_pop_f32
  let result : Nat := fl.truncf x
  wrp_stk_exec_push_f32 result

/-- The handler `exec_f32_nearest_op` (lines 1722-1732). -/
def exec_f32_nearest_op (fl : c_float_ops) : Exec Unit := do
  let x ← wrp_stk_exec_pop_f32
  let result : Nat := fl.nearbyintf x
  wrp_stk_exec_push_f32 result

/-- The handler `exec_f32_sqrt_op` (lines 1734-1757). -/
def exec_f32_sqrt_op (fl : c_float_ops) : Exec Unit := do
  let x ← wrp_stk_exec_pop_f32
  let result : Nat :=
    if isnan_f32 x then x ||| 0x400000
    else if f32_eq x NEG_ZERO_F32 ∧ signbit_f32 x then NEG_ZERO_F32
    else if signbit_f32 x then NAN_F32
    else fl.sqrtf x
  wrp_stk_exec_push_f32 result

/-- The handler `exec_f32_add_op` (lines 1759-1772). -/
def exec_f32_add_op (fl : c_float_ops) : Exec Unit := do
  let y ← wrp_stk_exec_pop_f32
  let x ← wrp_stk_exec_pop_f32
  let result : Nat := fl.f32_add x y
  wrp_stk_exec_push_f32 result

/-- The handler `exec_f32_sub_op` (lines 1774-1787). -/
def exec_f32_sub_op (fl : c_float_ops) : Exec Unit := do
  let y ← wrp_stk_exec_pop_f32
  let x ← wrp_stk_exec_pop_f32
  let result : Nat := fl.f32_sub x y
  wrp_stk_exec_push_f32 result

/-- The handler `exec_f32_mul_op` (lines 1789-1802). -/
def exec_f32_mul_op (fl : c_float_ops) : Exec Unit := do
  let y ← wrp_stk_exec_pop_f32
  let x ← wrp_stk_exec_pop_f32
  let result : Nat := fl.f32_mul x y
  wrp_stk_exec_push_f32 result

/-- The handler `exec_f32_div_op` (lines 1804-1817). -/
def exec_f32_div_op (fl : c_float_ops) : Exec Unit := do
  let y ← wrp_stk_exec_pop_f32
  let x ← wrp_stk_exec_pop_f32
  let result : Nat := fl.f32_div x y
  wrp_stk_exec_push_f32 result

/-- The handler `exec_f32_copy_sign_op` (lines 1883-1896). -/
def exec_f32_copy_sign_op (fl : c_float_ops) : Exec Unit := do
  let y ← wrp_stk_exec_pop_f32
  let x ← wrp_stk_exec_pop_f32
  let result : Nat := fl.copysignf x y
  wrp_stk_exec_push_f32 result

/-- The handler `exec_f64_abs_op` (lines 1898-1908). -/
def exec_f64_abs_op (fl : c_float_ops) : Exec Unit := do
  let x ← wrp_stk_exec_pop_f64
  let result : Nat := fl.fabs x
  wrp_stk_exec_push_f64 result

/-- The handler `exec_f64_neg_op` (lines 1910-1920). -/
def exec_f64_neg_op (fl : c_float_ops) : Exec Unit := do
  let x ← wrp_stk_exec_pop_f64
  let result : Nat := fl.f64_neg x
  wrp_stk_exec_push_f64 result

/-- The handler `exec_f64_ceil_op` (lines 1922-1932). -/
def exec_f64_ceil_op (fl : c_float_ops) : Exec Unit := do
  let x ← wrp_stk_exec_pop_f64
  let result : Nat := fl.ceil x
  wrp_stk_exec_push_f64 result

/-- The handler `exec_f64_floor_op` (lines 1934-1944). -/
def exec_f64_floor_op (fl : c_float_ops) : Exec Unit := do
  let x ← wrp_stk_exec_pop_f64
  let result : Nat := fl.floor x
  wrp_stk_exec_push_f64 result

/-- The handler `exec_f64_trunc_op` (lines 1946-1956). -/
def exec_f64_trunc_op (fl : c_float_ops) : Exec Unit := do
  let x ← wrp_stk_exec_pop_f64
  let result : Nat := fl.trunc x
  wrp_stk_exec_push_f64 result

/-- The handler `exec_f64_nearest_op` (lines 1958-1968). -/
def exec_f64_nearest_op (fl : c_float_ops) : Exec Unit := do
  let x ← wrp_stk_exec_pop_f64
  let result : Nat := fl.nearbyint x
  wrp_stk_exec_push_f64 result

/-- The handler `exec_f64_sqrt_op` (lines 1970-1993). The constants `-0.0f` and `NAN` are of type `float`; the second handler
converts them to `double`. -/
def exec_f64_sqrt_op (fl : c_float_ops) : Exec Unit := do
  let x ← wrp_stk_exec_pop_f64
  let result : Nat :=
    if isnan_f64 x then x ||| 0x8000000000000
    else if f64_eq x NEG_ZERO_F64 ∧ signbit_f64 x then NEG_ZERO_F64
    else if signbit_f64 x then NAN_F64
    else fl.sqrt x
  wrp_stk_exec_push_f64 result

/-- The handler `exec_f64_add_op` (lines 1995-2008). -/
def exec_f64_add_op (fl : c_float_ops) : Exec Unit := do
  let y ← wrp_stk_exec_pop_f64
  let x ← wrp_stk_exec_pop_f64
  let result : Nat := fl.f64_add x y
  wrp_stk_exec_push_f64 result

/-- The handler `exec_f64_sub_op` (lines 2010-2023). -/
def exec_f64_sub_op (fl : c_float_ops) : Exec Unit := do
  let y ← wrp_stk_exec_pop_f64
  let x ← wrp_stk_exec_pop_f64
  let result : Nat := fl.f64_sub x y
  wrp_stk_exec_push_f64 result

/-- The handler `exec_f64_mul_op` (lines 2025-2038). -/
def exec_f64_mul_op (fl : c_float_ops) : Exec Unit := do
  let y ← wrp_stk_exec_pop_f64
  let x ← wrp_stk_exec_pop_f64
  let result : Nat := fl.f64_mul x y
  wrp_stk_exec_push_f64 result

/-- The handler `exec_f64_div_op` (lines 2040-2053). -/
def exec_f64_div_op (fl : c_float_ops) : Exec Unit := do
  let y ← wrp_stk_exec_pop_f64
  let x ← wrp_stk_exec_pop_f64
  let result : Nat := fl.f64_div x y
  wrp_stk_exec_push_f64 result

/-- The handler `exec_f64_copy_sign_op` (lines 2119-2132). -/
def exec_f64_copy_sign_op (fl : c_float_ops) : Exec Unit := do
  let y ← wrp_stk_exec_pop_f64
  let x ← wrp_stk_exec_pop_f64
  let result : Nat := fl.copysign x y
  wrp_stk_exec_push_f64 result

/-- The handler `exec_i32_wrap_i64_op` (lines 2134-2143). -/
def exec_i32_wrap_i64_op : Exec Unit := do
  let value ← wrp_stk_exec_pop_i64
  let result : Int := to_i32 ((to_u64 value &&& 0xffffffff : Nat) : Int)
  wrp_stk_exec_push_i32 result

/-- The handler `exec_i32_trunc_s_f32_op` (lines 2145-2162). -/
def exec_i32_trunc_s_f32_op (fl : c_float_ops) : Exec Unit := do
  let value ← wrp_stk_exec_pop_f32
  if isnan_f32 value then
    Exec.fail wrp_err_t.WRP_ERR_INVALID_INTEGER_CONVERSION
  else if f32_lt value (fl.f32_of_int (INT32_MIN)) ∨ f32_le (fl.f32_of_int INT32_MAX) value then
    Exec.fail wrp_err_t.WRP_ERR_I32_OVERFLOW
  else
    wrp_stk_exec_push_i32 (to_i32 (fl.f32_to_int value))

/-- The handler `exec_i32_trunc_u_f32_op` (lines 2164-2181). -/
def exec_i32_trunc_u_f32_op (fl : c_float_ops) : Exec Unit := do
  let value ← wrp_stk_exec_pop_f32
  if isnan_f32 value then
    Exec.fail wrp_err_t.WRP_ERR_INVALID_INTEGER_CONVERSION
  else if f32_le value (fl.f32_of_int (-1)) ∨ f32_le (fl.f32_of_int UINT32_MAX) value then
    Exec.fail wrp_err_t.WRP_ERR_I32_OVERFLOW
  else
    wrp_stk_exec_push_i32 (to_i32 ((to_u32 (fl.f32_to_int value) : Nat) : Int))

/-- The handler `exec_i32_trunc_s_f64_op` (lines 2183-2200). -/
def exec_i32_trunc_s_f64_op (fl : c_float_ops) : Exec Unit := do
  let value ← wrp_stk_exec_pop_f64
  if isnan_f64 value then
    Exec.fail wrp_err_t.WRP_ERR_INVALID_INTEGER_CONVERSION
  else if f64_lt value (fl.f64_of_int (INT32_MIN)) ∨ f64_lt (fl.f64_of_int INT32_MAX) value then
    Exec.fail wrp_err_t.WRP_ERR_I32_OVERFLOW
  else
    wrp_stk_exec_push_i32 (to_i32 (fl.f64_to_int value))

/-- The handler `exec_i32_trunc_u_f64_op` (lines 2202-2219). -/
def exec_i32_trunc_u_f64_op (fl : c_float_ops) : Exec Unit := do
  let value ← wrp_stk_exec_pop_f64
  if isnan_f64 value then
    Exec.fail wrp_err_t.WRP_ERR_INVALID_INTEGER_CONVERSION
  else if f64_le value (fl.f64_of_int (-1)) ∨ f64_le (fl.f64_of_int UINT32_MAX) value then
    Exec.fail wrp_err_t.WRP_ERR_I32_OVERFLOW
  else
    wrp_stk_exec_push_i32 (to_i32 ((to_u32 (fl.f64_to_int value) : Nat) : Int))

/-- The handler `exec_i64_extend_s_i32_op` (lines 2221-2233). -/
def exec_i64_extend_s_i32_op : Exec Unit := do
  let c ← wrp_stk_exec_pop_op
  let value : Nat :=
    if c.value &&& 2147483648 ≠ 0 then c.value ||| 0xffffffff00000000 else c.value
  wrp_stk_exec_push_op value I64

/-- The handler `exec_i64_trunc_s_f32_op` (lines 2244-2261). -/
def exec_i64_trunc_s_f32_op (fl : c_float_ops) : Exec Unit := do
  let value ← wrp_stk_exec_pop_f32
  if isnan_f32 value then
    Exec.fail wrp_err_t.WRP_ERR_INVALID_INTEGER_CONVERSION
  else if f32_lt value (fl.f32_of_int (INT64_MIN)) ∨ f32_le (fl.f32_of_int INT64_MAX) value then
    Exec.fail wrp_err_t.WRP_ERR_I64_OVERFLOW
  else
    wrp_stk_exec_push_i64 (to_i64 (fl.f32_to_int value))

/-- The handler `exec_i64_trunc_u_f32_op` (lines 2263-2280). -/
def exec_i64_trunc_u_f32_op (fl : c_float_ops) : Exec Unit := do
  let value ← wrp_stk_exec_pop_f32
  if isnan_f32 value then
    Exec.fail wrp_err_t.WRP_ERR_INVALID_INTEGER_CONVERSION
  else if f32_le value (fl.f32_of_int (-1)) ∨ f32_le (fl.f32_of_int UINT64_MAX) value then
    Exec.fail wrp_err_t.WRP_ERR_I64_OVERFLOW
  else
    wrp_stk_exec_push_i64 (to_i64 ((to_u64 (fl.f32_to_int value) : Nat) : Int))

/-- The handler `exec_i64_trunc_s_f64_op` (lines 2282-2299). -/
def exec_i64_trunc_s_f64_op (fl : c_float_ops) : Exec Unit := do
  let value ← wrp_stk_exec_pop_f64
  if isnan_f64 value then
    Exec.fail wrp_err_t.WRP_ERR_INVALID_INTEGER_CONVERSION
  else if f64_lt value (fl.f64_of_int (INT64_MIN)) ∨ f64_le (fl.f64_of_int INT64_MAX) value then
    Exec.fail wrp_err_t.WRP_ERR_I64_OVERFLOW
  else
    wrp_stk_exec_push_i64 (to_i64 (fl.f64_to_int value))

/-- The handler `exec_i64_trunc_u_f64_op` (lines 2301-2318). -/
def exec_i64_trunc_u_f64_op (fl : c_float_ops) : Exec Unit := do
  let value ← wrp_stk_exec_pop_f64
  if isnan_f64 value then
    Exec.fail wrp_err_t.WRP_ERR_INVALID_INTEGER_CONVERSION
  else if f64_le value (fl.f64_of_int (-1)) ∨ f64_le (fl.f64_of_int UINT64_MAX) value then
    Exec.fail wrp_err_t.WRP_ERR_I64_OVERFLOW
  else
    wrp_stk_exec_push_i64 (to_i64 ((to_u64 (fl.f64_to_int value) : Nat) : Int))

/-- The handler `exec_f32_convert_s_i32_op` (lines 2320-2329). -/
def exec_f32_convert_s_i32_op (fl : c_float_ops) : Exec Unit := do
  let value ← wrp_stk_exec_pop_i32
  let result : Nat := fl.f32_of_int value
  wrp_stk_exec_push_f32 result

/-- The handler `exec_f32_convert_u_i32_op` (lines 2331-2340). -/
def exec_f32_convert_u_i32_op (fl : c_float_ops) : Exec Unit := do
  let value ← wrp_stk_exec_pop_i32
  let result : Nat := fl.f32_of_int value
  wrp_stk_exec_push_f32 result

/-- The handler `exec_f32_convert_s_i64_op` (lines 2342-2351). -/
def exec_f32_convert_s_i64_op (fl : c_float_ops) : Exec Unit := do
  let value ← wrp_stk_exec_pop_i64
  let result : Nat := fl.f32_of_int value
  wrp_stk_exec_push_f32 result

/-- The handler `exec_f32_convert_u_i64_op` (lines 2353-2362). -/
def exec_f32_convert_u_i64_op (fl : c_float_ops) : Exec Unit := do
  let value ← wrp_stk_exec_pop_i64
  let result : Nat := fl.f32_of_int value
  wrp_stk_exec_push_f32 result

/-- The handler `exec_f32_demote_f64_op` (lines 2363-2372). -/
def exec_f32_demote_f64_op (fl : c_float_ops) : Exec Unit := do
  let value ← wrp_stk_exec_pop_f64
  let result : Nat := fl.f32_of_f64 value
  wrp_stk_exec_push_f32 result

/-- The handler `exec_f64_convert_s_i32_op` (lines 2374-2383). -/
def exec_f64_convert_s_i32_op (fl : c_float_ops) : Exec Unit := do
  let value ← wrp_stk_exec_pop_i32
  let result : Nat := fl.f64_of_int value
  wrp_stk_exec_push_f64 result

/-- The handler `exec_f64_convert_u_i32_op` (lines 2385-2394). -/
def exec_f64_convert_u_i32_op (fl : c_float_ops) : Exec Unit := do
  let value ← wrp_stk_exec_pop_i32
  let result : Nat := fl.f64_of_int value
  wrp_stk_exec_push_f64 result

/-- The handler `exec_f64_convert_s_i64_op` (lines 2396-2405). -/
def exec_f64_convert_s_i64_op (fl : c_float_ops) : Exec Unit := do
  let value ← wrp_stk_exec_pop_i64
  let result : Nat := fl.f64_of_int value
  wrp_stk_exec_push_f64 result

/-- The handler `exec_f64_convert_u_i64_op` (lines 2407-2416). -/
def exec_f64_convert_u_i64_op (fl : c_float_ops) : Exec Unit := do
  let value ← wrp_stk_exec_pop_i64
  let result : Nat := fl.f64_of_int value
  wrp_stk_exec_push_f64 result

/-- The handler `exec_f64_promote_f32_op` (lines 2418-2427). -/
def exec_f64_promote_f32_op (fl : c_float_ops) : Exec Unit := do
  let value ← wrp_stk_exec_pop_f32
  let result : Nat := fl.f64_of_f32 value
  wrp_stk_exec_push_f64 result

/-- A small container used to run the handlers on concrete stacks: one page of
zeroed memory, an allocator that always fails, room for 16 operands. -/
def vm_example : wrp_vm_t :=
  { alloc_fn := fun _ _ => none
    memory := { bytes := fun _ => 0, num_pages := 1, max_pages := 1 }
    oprd_stk := []
    oprd_stk_max := 16
    opcode_stream := { bytes := [], sz := 0, pos := 0 } }

/-- A container whose opcode stream holds the immediates `flags = 2`, `offset = 0`
of a memory access, with one page of zeroed memory. -/
def vm_access_example : wrp_vm_t :=
  { vm_example with opcode_stream := { bytes := [2, 0], sz := 2, pos := 0 } }

/-- A container about to run a load whose address `0xFFFFFFFF` plus immediate offset
`1` wraps past `2^32`: the stack holds the address, the opcode stream the
immediates `flags = 2`, `offset = 1`. -/
def vm_wrap_example : wrp_vm_t :=
  { vm_example with
    oprd_stk := [⟨4294967295, I32⟩]
    opcode_stream := { bytes := [2, 1], sz := 2, pos := 0 } }

/-- A container about to run `grow_memory`: two pages of zeroed memory with a declared
maximum of ten pages, an allocator that always returns a zeroed buffer, and an
opcode stream holding the reserved byte `0`. -/
def vm_grow_example : wrp_vm_t :=
  { alloc_fn := fun _ _ => some (fun _ => 0)
    memory := { bytes := fun _ => 0, num_pages := 2, max_pages := 10 }
    oprd_stk := []
    oprd_stk_max := 16
    opcode_stream := { bytes := [0], sz := 1, pos := 0 } }

/-- A container whose memory holds the byte `0x80` at address 0 and the halfword
`0x8000` at address 2, with the address 0 on the stack and the immediates
`flags = 0`, `offset = 0` in the stream. -/
def vm_sign_example : wrp_vm_t :=
  { vm_example with
    memory := { bytes := fun j => if j = 0 then 128 else if j = 3 then 128 else 0,
                num_pages := 1, max_pages := 1 },
    oprd_stk := [⟨0, I32⟩],
    opcode_stream := { bytes := [0, 0], sz := 2, pos := 0 } }

/-- A container whose stream holds a branch table of the two targets `5` and `7`
with the default target `9`. -/
def vm_br_table_example : wrp_vm_t :=
  { vm_example with opcode_stream := { bytes := [2, 5, 7, 9], sz := 4, pos := 0 } }

/-- A container whose cursor stands before the reserved opcode byte `0x06`. -/
def vm_reserved_example : wrp_vm_t :=
  { vm_example with opcode_stream := { bytes := [6], sz := 1, pos := 0 } }

/-- A container during validation of function `0`: the function frame on the control
stack, entered with an empty operand-type stack. -/
def vm_check_example : wrp_vm_t :=
  { vm_example with
    ctrl_stk := [⟨BLOCK_FUNC, VOID, -1, false, 0⟩],
    call_stk := [⟨0, -1⟩] }

/-- A module record with one function of type `0`, which has no parameters, and the
two declared locals `i32`, `i64`. -/
def mdle_locals_example : wrp_wasm_mdle_t :=
  { num_funcs := 1,
    func_type_idxs := [0],
    param_counts := [0],
    param_type_offsets := [0],
    result_counts := [0],
    result_type_offsets := [0],
    local_counts := [2],
    local_type_offsets := [0],
    local_types := [I32, I64] }

/-- A module record with the single global `0`, declared `i32` and immutable. -/
def mdle_global_example : wrp_wasm_mdle_t :=
  { num_globals := 1,
    global_types := [I32],
    global_mutability := [GLOBAL_IMMUTABLE] }

/-- A container during validation with three control frames: the function frame at
the bottom (index 0), a block without result above it (index 1, depth 1) and a
block with result `i32` on top (index 2, depth 0); the operand-type stack holds
one `i32`. -/
def vm_br_check_example : wrp_vm_t :=
  { vm_example with
    oprd_stk := [⟨0, I32⟩],
    ctrl_stk := [⟨BLOCK, I32, -1, false, 9⟩, ⟨BLOCK, VOID, -1, false, 4⟩,
      ⟨BLOCK_FUNC, VOID, -1, false, 0⟩],
    call_stk := [⟨0, -1⟩] }

/-- A container whose operand stack holds the two `double` operands `x` (pushed
first) and `y` (on top). -/
def vm_f64_example (x y : Nat) : wrp_vm_t :=
  { vm_example with oprd_stk := [⟨y, F64⟩, ⟨x, F64⟩] }

/-- A container whose operand stack holds the two `float` operands `x` (pushed
first) and `y` (on top). -/
def vm_f32_example (x y : Nat) : wrp_vm_t :=
  { vm_example with oprd_stk := [⟨y, F32⟩, ⟨x, F32⟩] }

/-- A module record with one function of type `0` (no parameters, no result) whose
code body is the three bytes `block`, `void`, `end`; the jump tables have one
slot each. -/
def mdle_block_example : wrp_wasm_mdle_t :=
  { num_funcs := 1,
    func_type_idxs := [0],
    param_counts := [0],
    param_type_offsets := [0],
    result_counts := [0],
    result_type_offsets := [0],
    local_counts := [0],
    local_type_offsets := [0],
    code_bodies := [[0x02, 0x40, 0x0B]],
    code_bodies_sz := [3],
    block_offsets := [0],
    block_counts := [0],
    block_addresses := [0],
    block_labels := [0],
    if_offsets := [0],
    if_counts := [0],
    if_addresses := [0],
    else_addresses := [0],
    if_labels := [0] }

/-- The module record of `mdle_block_example` with another code body. -/
def mdle_body_example (body : List Nat) : wrp_wasm_mdle_t :=
  { mdle_block_example with code_bodies := [body], code_bodies_sz := [body.length] }

/-- A container whose cursor stands behind a `loop` opcode at byte offset `0`, before
its signature byte `void`. -/
def vm_loop_example : wrp_vm_t :=
  { vm_check_example with opcode_stream := { bytes := [0x03, 0x40, 0x0B, 0x0B], sz := 4, pos := 1 } }

/-- A container whose cursor stands behind a `loop` opcode at byte offset `2` (after
two `nop` opcodes), before its signature byte `void`. -/
def vm_loop_later_example : wrp_vm_t :=
  { vm_check_example with
    opcode_stream := { bytes := [0x01, 0x01, 0x03, 0x40, 0x0B, 0x0B], sz := 6, pos := 3 } }

/-- A container that runs function `0` of a module whose one `if` has the end label
`7` and the else address `else_addr`: the cursor stands behind the `if` opcode at
byte offset `0`, before the signature byte `void`, and the operand stack holds
the condition `condition`. -/
def vm_if_example (else_addr condition : Nat) : wrp_vm_t :=
  { vm_example with
    oprd_stk := [⟨condition, I32⟩],
    opcode_stream := { bytes := [0x04, 0x40, 0x01, 0x05, 0x01, 0x01, 0x01, 0x0B, 0x0B], sz := 9, pos := 1 },
    ctrl_stk := [⟨BLOCK_FUNC, VOID, -1, false, 0⟩],
    call_stk := [⟨0, -1⟩],
    mdle := some { num_funcs := 1,
                   funcs := [{ if_addrs := [0], if_labels := [7], else_addrs := [else_addr],
                               num_ifs := 1 }] } }

/-- A container during validation, at the `end` (byte offset `3`) of an `if` frame
that starts at byte offset `0`, has the signature `signature` and an empty
operand-type stack; the cursor stands behind the `end` opcode. -/
def vm_if_check_example (signature : Int) : wrp_vm_t :=
  { vm_example with
    opcode_stream := { bytes := [0x04, signature.toNat, 0x01, 0x0B, 0x0B], sz := 5, pos := 4 },
    ctrl_stk := [⟨BLOCK_IF, signature, -1, false, 0⟩, ⟨BLOCK_FUNC, VOID, -1, false, 0⟩],
    call_stk := [⟨0, -1⟩] }

/-- The module record of `mdle_block_example` in which function `0` has one recorded
`if` at the address `0`, with the else address `else_address`. -/
def mdle_if_example (else_address : Nat) : wrp_wasm_mdle_t :=
  { mdle_block_example with if_counts := [1], else_addresses := [else_address] }

/-- A module record with two functions of type `0` (no parameters, no result).
Function `0` has the body `block void end, i32.const 0, if void end, end`,
function `1` the body `block void end, end`. The jump tables have two slots each
and the offsets and counts are zero before validation. -/
def mdle_two_funcs_example : wrp_wasm_mdle_t :=
  { num_funcs := 2,
    func_type_idxs := [0, 0],
    param_counts := [0],
    param_type_offsets := [0],
    result_counts := [0],
    result_type_offsets := [0],
    local_counts := [0, 0],
    local_type_offsets := [0, 0],
    code_bodies := [[0x02, 0x40, 0x0B, 0x41, 0x00, 0x04, 0x40, 0x0B, 0x0B],
                    [0x02, 0x40, 0x0B, 0x0B]],
    code_bodies_sz := [9, 4],
    block_offsets := [0, 0],
    block_counts := [0, 0],
    block_addresses := [0, 0],
    block_labels := [0, 0],
    if_offsets := [0, 0],
    if_counts := [0, 0],
    if_addresses := [0, 0],
    else_addresses := [0, 0],
    if_labels := [0, 0] }

/-! ## Facts about the encoding -/

theorem copy_bytes_eq_mod (n v : Nat) : copy_bytes n v = v % 256 ^ n := by
  induction n with
  | zero => simp [copy_bytes, Nat.mod_one]
  | succ k ih =>
    have hstep : copy_bytes (k + 1) v = set_byte (copy_bytes k v) k (byte_at v k) := by
      simp [copy_bytes, List.range_succ]
    have hlt : v % 256 ^ k < 256 ^ k := Nat.mod_lt _ (Nat.pow_pos (by decide))
    have hzero : byte_at (v % 256 ^ k) k = 0 := by
      simp [byte_at, Nat.div_eq_of_lt hlt]
    have hb : byte_at v k % 256 = v / 256 ^ k % 256 := by
      simp [byte_at]
    rw [hstep, ih, set_byte, hzero, hb, Nat.mod_pow_succ]
    simp [Nat.mul_comm]

theorem copy_bytes_four (v : Nat) : copy_bytes 4 v = v % 4294967296 := by
  rw [copy_bytes_eq_mod]; norm_num

theorem copy_bytes_eight (v : Nat) : copy_bytes 8 v = v % 18446744073709551616 := by
  rw [copy_bytes_eq_mod]; norm_num

theorem wrp_encode_i32_eq (x : Int) : wrp_encode_i32 x = to_u32 x := by
  rw [wrp_encode_i32, copy_bytes_four, to_u32]; omega

theorem wrp_encode_i64_eq (x : Int) : wrp_encode_i64 x = to_u64 x := by
  rw [wrp_encode_i64, copy_bytes_eight, to_u64]; omega

theorem wrp_decode_i32_eq (v : Nat) :
    wrp_decode_i32 v = to_i32 ((v % 4294967296 : Nat) : Int) := by
  rw [wrp_decode_i32, copy_bytes_four]

theorem wrp_decode_i64_eq (v : Nat) :
    wrp_decode_i64 v = to_i64 ((v % 18446744073709551616 : Nat) : Int) := by
  rw [wrp_decode_i64, copy_bytes_eight]

theorem wrp_decode_i32_range (v : Nat) :
    -2147483648 ≤ wrp_decode_i32 v ∧ wrp_decode_i32 v < 2147483648 := by
  rw [wrp_decode_i32_eq, to_i32]; omega

theorem wrp_decode_i64_range (v : Nat) :
    -9223372036854775808 ≤ wrp_decode_i64 v ∧ wrp_decode_i64 v < 9223372036854775808 := by
  rw [wrp_decode_i64_eq, to_i64]; omega

theorem wrp_decode_encode_i32 (x : Int) (hlo : -2147483648 ≤ x) (hhi : x < 2147483648) :
    wrp_decode_i32 (wrp_encode_i32 x) = x := by
  rw [wrp_decode_i32_eq, wrp_encode_i32_eq, to_i32, to_u32]; omega

theorem wrp_decode_encode_i64 (x : Int) (hlo : -9223372036854775808 ≤ x)
    (hhi : x < 9223372036854775808) : wrp_decode_i64 (wrp_encode_i64 x) = x := by
  rw [wrp_decode_i64_eq, wrp_encode_i64_eq, to_i64, to_u64]; omega

theorem to_u32_decode_i32 (v : Nat) : to_u32 (wrp_decode_i32 v) = v % 4294967296 := by
  rw [wrp_decode_i32_eq, to_i32, to_u32]; omega

theorem to_u64_decode_i64 (v : Nat) :
    to_u64 (wrp_decode_i64 v) = v % 18446744073709551616 := by
  rw [wrp_decode_i64_eq, to_i64, to_u64]; omega

theorem wrp_decode_i32_eq_zero (v : Nat) : wrp_decode_i32 v = 0 ↔ v % 4294967296 = 0 := by
  rw [wrp_decode_i32_eq, to_i32]; omega

theorem wrp_decode_i64_eq_zero (v : Nat) :
    wrp_decode_i64 v = 0 ↔ v % 18446744073709551616 = 0 := by
  rw [wrp_decode_i64_eq, to_i64]; omega

/-! ## Facts about the casts -/

theorem to_u32_lt (x : Int) : to_u32 x < 4294967296 := by
  rw [to_u32]; omega

theorem to_u64_lt (x : Int) : to_u64 x < 18446744073709551616 := by
  rw [to_u64]; omega

theorem to_i32_of_range (t : Int) (hlo : -2147483648 ≤ t) (hhi : t < 2147483648) :
    to_i32 t = t := by
  rw [to_i32]; omega

theorem to_i64_of_range (t : Int) (hlo : -9223372036854775808 ≤ t)
    (hhi : t < 9223372036854775808) : to_i64 t = t := by
  rw [to_i64]; omega

theorem to_u32_to_i32_cast (q : Nat) (h : q < 4294967296) : to_u32 (to_i32 (q : Int)) = q := by
  rw [to_i32, to_u32]; omega

theorem to_u64_to_i64_cast (q : Nat) (h : q < 18446744073709551616) :
    to_u64 (to_i64 (q : Int)) = q := by
  rw [to_i64, to_u64]; omega

theorem wrp_decode_i32_to_u32 (t : Int) (hlo : -2147483648 ≤ t) (hhi : t < 2147483648) :
    wrp_decode_i32 (to_u32 t) = t := by
  rw [wrp_decode_i32_eq, to_u32, to_i32]; omega

theorem wrp_decode_i64_to_u64 (t : Int) (hlo : -9223372036854775808 ≤ t)
    (hhi : t < 9223372036854775808) : wrp_decode_i64 (to_u64 t) = t := by
  rw [wrp_decode_i64_eq, to_u64, to_i64]; omega

/-! ## Running the stack operations -/

theorem bind_run {α β : Type} (m : Exec α) (f : α → Exec β) (vm : wrp_vm_t) :
    (m >>= f) vm = match m vm with
      | (Except.ok a, vm1) => f a vm1
      | (Except.error e, vm1) => (Except.error e, vm1) := rfl

theorem pure_run {α : Type} (a : α) (vm : wrp_vm_t) :
    (Pure.pure a : Exec α) vm = (Except.ok a, vm) := rfl

theorem fail_run {α : Type} (e : wrp_err_t) (vm : wrp_vm_t) :
    (Exec.fail e : Exec α) vm = (Except.error e, vm) := rfl

theorem get_run (vm : wrp_vm_t) : Exec.get vm = (Except.ok vm, vm) := rfl

theorem modify_run (f : wrp_vm_t → wrp_vm_t) (vm : wrp_vm_t) :
    Exec.modify f vm = (Except.ok (), f vm) := rfl

theorem ite_run {α : Type} (c : Prop) [Decidable c] (a b : Exec α) (vm : wrp_vm_t) :
    (if c then a else b) vm = if c then a vm else b vm := by
  split_ifs <;> rfl

theorem bind_run_ok {α β : Type} (m : Exec α) (f : α → Exec β) (vm vm1 : wrp_vm_t) (a : α)
    (h : m vm = (Except.ok a, vm1)) : (m >>= f) vm = f a vm1 := by
  rw [bind_run, h]

theorem bind_run_error {α β : Type} (m : Exec α) (f : α → Exec β) (vm vm1 : wrp_vm_t)
    (e : wrp_err_t) (h : m vm = (Except.error e, vm1)) :
    (m >>= f) vm = (Except.error e, vm1) := by
  rw [bind_run, h]

theorem pop_op_run (vm : wrp_vm_t) (c : wrp_oprd_t) (rest : List wrp_oprd_t) :
    wrp_stk_exec_pop_op { vm with oprd_stk := c :: rest }
      = (Except.ok c, { vm with oprd_stk := rest }) := rfl

theorem pop_i32_run (vm : wrp_vm_t) (p : Nat) (t : Int) (rest : List wrp_oprd_t) :
    wrp_stk_exec_pop_i32 { vm with oprd_stk := ⟨p, t⟩ :: rest }
      = (Except.ok (wrp_decode_i32 p), { vm with oprd_stk := rest }) := rfl

theorem pop_i64_run (vm : wrp_vm_t) (p : Nat) (t : Int) (rest : List wrp_oprd_t) :
    wrp_stk_exec_pop_i64 { vm with oprd_stk := ⟨p, t⟩ :: rest }
      = (Except.ok (wrp_decode_i64 p), { vm with oprd_stk := rest }) := rfl

theorem push_op_run (vm : wrp_vm_t) (stk : List wrp_oprd_t) (value : Nat) (type : Int)
    (h : stk.length < vm.oprd_stk_max) :
    wrp_stk_exec_push_op value type { vm with oprd_stk := stk }
      = (Except.ok (), { vm with oprd_stk := ⟨value, type⟩ :: stk }) := by
  unfold wrp_stk_exec_push_op
  exact if_neg (Nat.not_le.mpr h)

theorem push_i32_run (vm : wrp_vm_t) (stk : List wrp_oprd_t) (v : Int)
    (h : stk.length < vm.oprd_stk_max) :
    wrp_stk_exec_push_i32 v { vm with oprd_stk := stk }
      = (Except.ok (), { vm with oprd_stk := ⟨to_u32 v, I32⟩ :: stk }) := by
  rw [← wrp_encode_i32_eq]
  exact push_op_run vm stk _ _ h

theorem push_i64_run (vm : wrp_vm_t) (stk : List wrp_oprd_t) (v : Int)
    (h : stk.length < vm.oprd_stk_max) :
    wrp_stk_exec_push_i64 v { vm with oprd_stk := stk }
      = (Except.ok (), { vm with oprd_stk := ⟨to_u64 v, I64⟩ :: stk }) := by
  rw [← wrp_encode_i64_eq]
  exact push_op_run vm stk _ _ h

theorem tdiv_range (B x y : Int) (hlo : -B ≤ x) (hhi : x < B) (hy : y ≠ 0)
    (hne : ¬(x = -B ∧ y = -1)) : -B ≤ Int.tdiv x y ∧ Int.tdiv x y < B := by
  have h1 : (Int.tdiv x y).natAbs = x.natAbs / y.natAbs := Int.natAbs_tdiv x y
  by_cases hone : y = 1
  · subst hone
    rw [Int.tdiv_one]
    exact ⟨hlo, hhi⟩
  by_cases hneg : y = -1
  · subst hneg
    have : Int.tdiv x (-1) = -x := by
      rw [Int.tdiv_neg, Int.tdiv_one]
    rw [this]
    have : x ≠ -B := fun h => hne ⟨h, rfl⟩
    omega
  · have hy2 : 2 ≤ y.natAbs := by omega
    have h2 : x.natAbs / y.natAbs ≤ x.natAbs / 2 := Nat.div_le_div_left hy2 (by decide)
    omega

/-! ## Closed forms of the division and remainder handlers -/

theorem exec_i32_div_s_op_run (vm : wrp_vm_t) (py px : Nat) (ty tx : Int)
    (rest : List wrp_oprd_t) :
    exec_i32_div_s_op { vm with oprd_stk := ⟨py, ty⟩ :: ⟨px, tx⟩ :: rest } =
      if wrp_decode_i32 py = 0 then
        (Except.error wrp_err_t.WRP_ERR_I32_DIVIDE_BY_ZERO, { vm with oprd_stk := rest })
      else if wrp_decode_i32 px = INT32_MIN ∧ wrp_decode_i32 py = -1 then
        (Except.error wrp_err_t.WRP_ERR_I32_OVERFLOW, { vm with oprd_stk := rest })
      else
        wrp_stk_exec_push_i32 (to_i32 (Int.tdiv (wrp_decode_i32 px) (wrp_decode_i32 py)))
          { vm with oprd_stk := rest } := by
  unfold exec_i32_div_s_op
  rw [bind_run_ok _ _ _ _ _ (pop_i32_run vm py ty (⟨px, tx⟩ :: rest)),
    bind_run_ok _ _ _ _ _ (pop_i32_run vm px tx rest)]
  simp only [ite_run, fail_run]

theorem exec_i32_div_u_op_run (vm : wrp_vm_t) (py px : Nat) (ty tx : Int)
    (rest : List wrp_oprd_t) :
    exec_i32_div_u_op { vm with oprd_stk := ⟨py, ty⟩ :: ⟨px, tx⟩ :: rest } =
      if wrp_decode_i32 py = 0 then
        (Except.error wrp_err_t.WRP_ERR_I32_DIVIDE_BY_ZERO, { vm with oprd_stk := rest })
      else wrp_stk_exec_push_i32
          (to_i32 (to_u32 (wrp_decode_i32 px) / to_u32 (wrp_decode_i32 py) : Nat))
          { vm with oprd_stk := rest } := by
  unfold exec_i32_div_u_op
  rw [bind_run_ok _ _ _ _ _ (pop_i32_run vm py ty (⟨px, tx⟩ :: rest)),
    bind_run_ok _ _ _ _ _ (pop_i32_run vm px tx rest)]
  simp only [ite_run, fail_run]

theorem exec_i32_rem_s_op_run (vm : wrp_vm_t) (py px : Nat) (ty tx : Int)
    (rest : List wrp_oprd_t) :
    exec_i32_rem_s_op { vm with oprd_stk := ⟨py, ty⟩ :: ⟨px, tx⟩ :: rest } =
      if wrp_decode_i32 py = 0 then
        (Except.error wrp_err_t.WRP_ERR_I32_DIVIDE_BY_ZERO, { vm with oprd_stk := rest })
      else wrp_stk_exec_push_i32
          (if wrp_decode_i32 px ≠ INT32_MIN ∧ wrp_decode_i32 py ≠ -1 then
            to_i32 (Int.tmod (wrp_decode_i32 px) (wrp_decode_i32 py)) else 0)
          { vm with oprd_stk := rest } := by
  unfold exec_i32_rem_s_op
  rw [bind_run_ok _ _ _ _ _ (pop_i32_run vm py ty (⟨px, tx⟩ :: rest)),
    bind_run_ok _ _ _ _ _ (pop_i32_run vm px tx rest)]
  simp only [ite_run, fail_run]

theorem exec_i32_rem_u_op_run (vm : wrp_vm_t) (py px : Nat) (ty tx : Int)
    (rest : List wrp_oprd_t) :
    exec_i32_rem_u_op { vm with oprd_stk := ⟨py, ty⟩ :: ⟨px, tx⟩ :: rest } =
      if wrp_decode_i32 py = 0 then
        (Except.error wrp_err_t.WRP_ERR_I32_DIVIDE_BY_ZERO, { vm with oprd_stk := rest })
      else wrp_stk_exec_push_i32
          (to_i32 (to_u32 (wrp_decode_i32 px) % to_u32 (wrp_decode_i32 py) : Nat))
          { vm with oprd_stk := rest } := by
  unfold exec_i32_rem_u_op
  rw [bind_run_ok _ _ _ _ _ (pop_i32_run vm py ty (⟨px, tx⟩ :: rest)),
    bind_run_ok _ _ _ _ _ (pop_i32_run vm px tx rest)]
  simp only [ite_run, fail_run]

theorem exec_i64_div_s_op_run (vm : wrp_vm_t) (py px : Nat) (ty tx : Int)
    (rest : List wrp_oprd_t) :
    exec_i64_div_s_op { vm with oprd_stk := ⟨py, ty⟩ :: ⟨px, tx⟩ :: rest } =
      if wrp_decode_i64 py = 0 then
        (Except.error wrp_err_t.WRP_ERR_I64_DIVIDE_BY_ZERO, { vm with oprd_stk := rest })
      else if wrp_decode_i64 px = INT64_MIN ∧ wrp_decode_i64 py = -1 then
        (Except.error wrp_err_t.WRP_ERR_I64_OVERFLOW, { vm with oprd_stk := rest })
      else
        wrp_stk_exec_push_i64 (to_i64 (Int.tdiv (wrp_decode_i64 px) (wrp_decode_i64 py)))
          { vm with oprd_stk := rest } := by
  unfold exec_i64_div_s_op
  rw [bind_run_ok _ _ _ _ _ (pop_i64_run vm py ty (⟨px, tx⟩ :: rest)),
    bind_run_ok _ _ _ _ _ (pop_i64_run vm px tx rest)]
  simp only [ite_run, fail_run]

theorem exec_i64_div_u_op_run (vm : wrp_vm_t) (py px : Nat) (ty tx : Int)
    (rest : List wrp_oprd_t) :
    exec_i64_div_u_op { vm with oprd_stk := ⟨py, ty⟩ :: ⟨px, tx⟩ :: rest } =
      if wrp_decode_i64 py = 0 then
        (Except.error wrp_err_t.WRP_ERR_I64_DIVIDE_BY_ZERO, { vm with oprd_stk := rest })
      else wrp_stk_exec_push_i64
          (to_i64 (to_u64 (wrp_decode_i64 px) / to_u64 (wrp_decode_i64 py) : Nat))
          { vm with oprd_stk := rest } := by
  unfold exec_i64_div_u_op
  rw [bind_run_ok _ _ _ _ _ (pop_i64_run vm py ty (⟨px, tx⟩ :: rest)),
    bind_run_ok _ _ _ _ _ (pop_i64_run vm px tx rest)]
  simp only [ite_run, fail_run]

theorem exec_i64_rem_s_op_run (vm : wrp_vm_t) (py px : Nat) (ty tx : Int)
    (rest : List wrp_oprd_t) :
    exec_i64_rem_s_op { vm with oprd_stk := ⟨py, ty⟩ :: ⟨px, tx⟩ :: rest } =
      if wrp_decode_i64 py = 0 then
        (Except.error wrp_err_t.WRP_ERR_I64_DIVIDE_BY_ZERO, { vm with oprd_stk := rest })
      else wrp_stk_exec_push_i64
          (if wrp_decode_i64 px ≠ INT64_MIN ∧ wrp_decode_i64 py ≠ -1 then
            to_i64 (Int.tmod (wrp_decode_i64 px) (wrp_decode_i64 py)) else 0)
          { vm with oprd_stk := rest } := by
  unfold exec_i64_rem_s_op
  rw [bind_run_ok _ _ _ _ _ (pop_i64_run vm py ty (⟨px, tx⟩ :: rest)),
    bind_run_ok _ _ _ _ _ (pop_i64_run vm px tx rest)]
  simp only [ite_run, fail_run]

theorem exec_i64_rem_u_op_run (vm : wrp_vm_t) (py px : Nat) (ty tx : Int)
    (rest : List wrp_oprd_t) :
    exec_i64_rem_u_op { vm with oprd_stk := ⟨py, ty⟩ :: ⟨px, tx⟩ :: rest } =
      if wrp_decode_i64 py = 0 then
        (Except.error wrp_err_t.WRP_ERR_I64_DIVIDE_BY_ZERO, { vm with oprd_stk := rest })
      else wrp_stk_exec_push_i64
          (to_i64 (to_u64 (wrp_decode_i64 px) % to_u64 (wrp_decode_i64 py) : Nat))
          { vm with oprd_stk := rest } := by
  unfold exec_i64_rem_u_op
  rw [bind_run_ok _ _ _ _ _ (pop_i64_run vm py ty (⟨px, tx⟩ :: rest)),
    bind_run_ok _ _ _ _ _ (pop_i64_run vm px tx rest)]
  simp only [ite_run, fail_run]

/-! ## Facts about bytes -/

theorem byte_at_lt (v i : Nat) : byte_at v i < 256 :=
  Nat.mod_lt _ (by decide)

theorem byte_at_add_mul_low (m d n i : Nat) (hi : i < n) :
    byte_at (m + d * 256 ^ n) i = byte_at m i := by
  unfold byte_at
  have hsplit : 256 ^ n = 256 ^ i * (256 * 256 ^ (n - i - 1)) := by
    rw [← Nat.pow_succ', ← Nat.pow_add]
    congr 1
    omega
  have hpos : 0 < 256 ^ i := Nat.pow_pos (by decide)
  have h1 : m + d * 256 ^ n = m + 256 ^ i * (d * (256 * 256 ^ (n - i - 1))) := by
    rw [hsplit, Nat.mul_left_comm]
  have h2 : d * (256 * 256 ^ (n - i - 1)) = 256 * (d * 256 ^ (n - i - 1)) :=
    Nat.mul_left_comm _ _ _
  rw [h1, Nat.add_mul_div_left _ _ hpos, h2, Nat.add_mul_mod_self_left]

theorem byte_at_add_mul_high (m d n i : Nat) (hm : m < 256 ^ n) (hi : n ≤ i) :
    byte_at (m + d * 256 ^ n) i = byte_at d (i - n) := by
  unfold byte_at
  have hsplit : 256 ^ i = 256 ^ n * 256 ^ (i - n) := by
    rw [← Nat.pow_add]
    congr 1
    omega
  have hpos : 0 < 256 ^ n := Nat.pow_pos (by decide)
  rw [hsplit, ← Nat.div_div_eq_div_mul, Nat.add_mul_div_right _ _ hpos,
    Nat.div_eq_of_lt hm, Nat.zero_add]

theorem byte_at_of_lt (v n i : Nat) (hv : v < 256 ^ n) (hi : n ≤ i) : byte_at v i = 0 := by
  unfold byte_at
  have hle : 256 ^ n ≤ 256 ^ i := Nat.pow_le_pow_right (by decide) hi
  rw [Nat.div_eq_of_lt (Nat.lt_of_lt_of_le hv hle)]

theorem set_byte_fresh (v n b : Nat) (hv : v < 256 ^ n) (hb : b < 256) :
    set_byte v n b = v + b * 256 ^ n := by
  unfold set_byte
  rw [byte_at_of_lt v n n hv (Nat.le_refl n), Nat.zero_mul, Nat.sub_zero, Nat.mod_eq_of_lt hb]

theorem add_mul_pow_lt (v b n : Nat) (hv : v < 256 ^ n) (hb : b < 256) :
    v + b * 256 ^ n < 256 ^ (n + 1) := by
  rw [Nat.pow_succ]
  have h1 : b * 256 ^ n ≤ 255 * 256 ^ n := Nat.mul_le_mul_right _ (by omega)
  generalize 256 ^ n = p at hv h1 ⊢
  omega

theorem memcpy_from_succ (bytes : Nat → Fin 256) (addr n : Nat) :
    memcpy_from bytes addr (n + 1)
      = set_byte (memcpy_from bytes addr n) n (bytes (addr + n)).val := by
  simp only [memcpy_from, List.range_succ, List.foldl_append, List.foldl_cons, List.foldl_nil]

theorem memcpy_from_lt (bytes : Nat → Fin 256) (addr n : Nat) :
    memcpy_from bytes addr n < 256 ^ n := by
  induction n with
  | zero => simp [memcpy_from]
  | succ k ih =>
    rw [memcpy_from_succ, set_byte_fresh _ _ _ ih (bytes (addr + k)).isLt]
    exact add_mul_pow_lt _ _ _ ih (bytes (addr + k)).isLt

theorem byte_at_small (b : Nat) (hb : b < 256) : byte_at b 0 = b := by
  unfold byte_at
  rw [Nat.pow_zero, Nat.div_one, Nat.mod_eq_of_lt hb]

theorem byte_at_memcpy_from (bytes : Nat → Fin 256) (addr n i : Nat) (hi : i < n) :
    byte_at (memcpy_from bytes addr n) i = (bytes (addr + i)).val := by
  induction n with
  | zero => omega
  | succ k ih =>
    rw [memcpy_from_succ, set_byte_fresh _ _ _ (memcpy_from_lt bytes addr k)
      (bytes (addr + k)).isLt]
    by_cases hik : i < k
    · rw [byte_at_add_mul_low _ _ _ _ hik]
      exact ih hik
    · have hiek : i = k := by omega
      subst hiek
      rw [byte_at_add_mul_high _ _ _ _ (memcpy_from_lt bytes addr i) (Nat.le_refl i),
        Nat.sub_self]
      exact byte_at_small _ (bytes (addr + i)).isLt

theorem fill_loop (v n k : Nat) (hv : v < 256 ^ n) :
    (List.range' n k).foldl (fun out i => set_byte out i 255) v = v + (256 ^ k - 1) * 256 ^ n
      ∧ v + (256 ^ k - 1) * 256 ^ n < 256 ^ (n + k) := by
  induction k with
  | zero =>
    refine ⟨?_, ?_⟩
    · simp only [List.range'_zero, List.foldl_nil, Nat.pow_zero, Nat.sub_self, Nat.zero_mul,
        Nat.add_zero]
    · simpa using hv
  | succ j ih =>
    obtain ⟨p, hp⟩ : ∃ p, 256 ^ j = p + 1 :=
      ⟨256 ^ j - 1, (Nat.sub_add_cancel (Nat.pow_pos (by decide))).symm⟩
    have hstep : v + (256 ^ j - 1) * 256 ^ n + 255 * 256 ^ (n + j)
        = v + (256 ^ (j + 1) - 1) * 256 ^ n := by
      rw [Nat.pow_succ, Nat.pow_add, hp]
      have e1 : p + 1 - 1 = p := by omega
      have e2 : (p + 1) * 256 - 1 = 256 * p + 255 := by omega
      rw [e1, e2]
      ring
    have hlt : v + (256 ^ (j + 1) - 1) * 256 ^ n < 256 ^ (n + (j + 1)) := by
      rw [← hstep, ← Nat.add_assoc n j 1]
      exact add_mul_pow_lt _ _ _ ih.2 (by decide)
    refine ⟨?_, hlt⟩
    rw [List.range'_1_concat, List.foldl_append, ih.1]
    simp only [List.foldl_cons, List.foldl_nil]
    rw [set_byte_fresh _ _ _ ih.2 (by decide), hstep]

theorem fill_ff_eq (v n : Nat) (hv : v < 256 ^ n) :
    fill_ff v n = v + (256 ^ (8 - n) - 1) * 256 ^ n :=
  (fill_loop v n (8 - n) hv).1

theorem byte_at_ones (k j : Nat) (hj : j < k) : byte_at (256 ^ k - 1) j = 255 := by
  obtain ⟨r, hr⟩ : ∃ r, 256 ^ (k - j - 1) = r + 1 :=
    ⟨256 ^ (k - j - 1) - 1, (Nat.sub_add_cancel (Nat.pow_pos (by decide))).symm⟩
  obtain ⟨q, hq⟩ : ∃ q, 256 ^ j = q + 1 :=
    ⟨256 ^ j - 1, (Nat.sub_add_cancel (Nat.pow_pos (by decide))).symm⟩
  have hk : 256 ^ k = 256 ^ j * (256 * 256 ^ (k - j - 1)) := by
    rw [← Nat.pow_succ', ← Nat.pow_add]
    congr 1
    omega
  have hsplit : 256 ^ k - 1 = (256 ^ j - 1) + (256 * r + 255) * 256 ^ j := by
    rw [hk, hr, hq]
    have e1 : q + 1 - 1 = q := by omega
    rw [e1]
    have e2 : (q + 1) * (256 * (r + 1)) = q + (256 * r + 255) * (q + 1) + 1 := by ring
    rw [e2]
    omega
  have hlt : 256 ^ j - 1 < 256 ^ j := by omega
  rw [hsplit, byte_at_add_mul_high _ _ _ _ hlt (Nat.le_refl j), Nat.sub_self]
  unfold byte_at
  rw [Nat.pow_zero, Nat.div_one]
  omega

theorem byte_at_fill_ff (v n i : Nat) (hv : v < 256 ^ n) (hi : i < 8) :
    byte_at (fill_ff v n) i = if i < n then byte_at v i else 255 := by
  rw [fill_ff_eq v n hv]
  by_cases h : i < n
  · rw [if_pos h, byte_at_add_mul_low _ _ _ _ h]
  · rw [if_neg h, byte_at_add_mul_high _ _ _ _ hv (Nat.le_of_not_lt h)]
    exact byte_at_ones _ _ (by omega)

theorem sign_bit_set_iff (v n : Nat) (hn : 1 ≤ n) :
    sign_bit_set v n = true ↔ (n ≤ 4 ∧ 128 ≤ byte_at v (n - 1)) := by
  have hpow : 2 ^ (8 * n - 1) = 256 ^ (n - 1) * 128 := by
    have e : 8 * n - 1 = 8 * (n - 1) + 7 := by omega
    rw [e, Nat.pow_add, Nat.pow_mul]
  unfold sign_bit_set byte_at
  rw [hpow, ← Nat.div_div_eq_div_mul]
  generalize v / 256 ^ (n - 1) = t
  simp only [Bool.and_eq_true, decide_eq_true_eq]
  omega

/-! ## Closed forms of the memory handlers -/

theorem wrp_read_varui32_lt (buf buf1 : wrp_buf_t) (v : Nat)
    (h : wrp_read_varui32 buf = Except.ok (v, buf1)) : v < 4294967296 := by
  unfold wrp_read_varui32 at h
  split at h
  · injection h with h
    injection h with hv _
    rw [← hv]
    exact Nat.mod_lt _ (by decide)
  · cases h

theorem read_stream_run {α : Type} (r : wrp_buf_t → Except wrp_err_t (α × wrp_buf_t))
    (vm : wrp_vm_t) (mem : wrp_memory_t) (stk : List wrp_oprd_t)
    (str buf : wrp_buf_t) (a : α) (h : r str = Except.ok (a, buf)) :
    read_stream r { vm with memory := mem, oprd_stk := stk, opcode_stream := str }
      = (Except.ok a, { vm with memory := mem, oprd_stk := stk, opcode_stream := buf }) := by
  unfold read_stream
  simp only [h]

theorem pop_op_run_fields (vm : wrp_vm_t) (mem : wrp_memory_t)
    (c : wrp_oprd_t) (rest : List wrp_oprd_t) (str : wrp_buf_t) :
    wrp_stk_exec_pop_op { vm with memory := mem, oprd_stk := c :: rest, opcode_stream := str }
      = (Except.ok c, { vm with memory := mem, oprd_stk := rest, opcode_stream := str }) := rfl

theorem pop_i32_run_fields (vm : wrp_vm_t) (mem : wrp_memory_t)
    (p : Nat) (t : Int) (rest : List wrp_oprd_t) (str : wrp_buf_t) :
    wrp_stk_exec_pop_i32 { vm with memory := mem, oprd_stk := ⟨p, t⟩ :: rest, opcode_stream := str }
      = (Except.ok (wrp_decode_i32 p), { vm with memory := mem, oprd_stk := rest, opcode_stream := str }) := rfl

theorem push_op_run_fields (vm : wrp_vm_t) (mem : wrp_memory_t)
    (stk : List wrp_oprd_t) (str : wrp_buf_t) (value : Nat) (type : Int)
    (h : stk.length < vm.oprd_stk_max) :
    wrp_stk_exec_push_op value type { vm with memory := mem, oprd_stk := stk, opcode_stream := str }
      = (Except.ok (), { vm with memory := mem, oprd_stk := ⟨value, type⟩ :: stk, opcode_stream := str }) := by
  unfold wrp_stk_exec_push_op
  exact if_neg (Nat.not_le.mpr h)

theorem push_i32_run_fields (vm : wrp_vm_t) (mem : wrp_memory_t)
    (stk : List wrp_oprd_t) (str : wrp_buf_t) (v : Int) (h : stk.length < vm.oprd_stk_max) :
    wrp_stk_exec_push_i32 v { vm with memory := mem, oprd_stk := stk, opcode_stream := str }
      = (Except.ok (), { vm with memory := mem, oprd_stk := ⟨to_u32 v, I32⟩ :: stk, opcode_stream := str }) := by
  rw [← wrp_encode_i32_eq]
  exact push_op_run_fields vm mem stk str _ _ h

theorem load_run (type : Int) (align n : Nat) (se : Bool)
    (vm : wrp_vm_t) (mem : wrp_memory_t)
    (pa : Nat) (ta : Int) (rest : List wrp_oprd_t) (str s1 s2 : wrp_buf_t)
    (flags offset : Nat)
    (h1 : wrp_read_varui32 str = Except.ok (flags, s1))
    (h2 : wrp_read_varui32 s1 = Except.ok (offset, s2)) :
    load type align n se { vm with memory := mem, oprd_stk := ⟨pa, ta⟩ :: rest, opcode_stream := str } =
      if (to_u32 (wrp_decode_i32 pa) + offset) % 4294967296 < to_u32 (wrp_decode_i32 pa)
          ∨ (to_u32 (wrp_decode_i32 pa) + offset) % 4294967296 < offset then
        (Except.error wrp_err_t.WRP_ERR_I32_OVERFLOW, { vm with memory := mem, oprd_stk := rest, opcode_stream := s2 })
      else if ((to_u32 (wrp_decode_i32 pa) + offset) % 4294967296 + n) % 18446744073709551616
          < (to_u32 (wrp_decode_i32 pa) + offset) % 4294967296 then
        (Except.error wrp_err_t.WRP_ERR_I32_OVERFLOW, { vm with memory := mem, oprd_stk := rest, opcode_stream := s2 })
      else if ((to_u32 (wrp_decode_i32 pa) + offset) % 4294967296 + n) % 18446744073709551616
          > mem.num_pages * PAGE_SIZE then
        (Except.error wrp_err_t.WRP_ERR_INVALID_MEMORY_ACCESS, { vm with memory := mem, oprd_stk := rest, opcode_stream := s2 })
      else
        wrp_stk_exec_push_op
          (if se && sign_bit_set
                (memcpy_from mem.bytes ((to_u32 (wrp_decode_i32 pa) + offset) % 4294967296) n) n
            then fill_ff
                (memcpy_from mem.bytes ((to_u32 (wrp_decode_i32 pa) + offset) % 4294967296) n) n
            else memcpy_from mem.bytes ((to_u32 (wrp_decode_i32 pa) + offset) % 4294967296) n)
          type { vm with memory := mem, oprd_stk := rest, opcode_stream := s2 } := by
  unfold load
  rw [bind_run_ok _ _ _ _ _ (read_stream_run _ vm mem _ str s1 flags h1),
    bind_run_ok _ _ _ _ _ (read_stream_run _ vm mem _ s1 s2 offset h2),
    bind_run_ok _ _ _ _ _ (pop_i32_run_fields vm mem pa ta rest s2),
    bind_run_ok _ _ _ _ _ (get_run _)]
  simp only [ite_run, fail_run]

theorem store_run (align n : Nat)
    (vm : wrp_vm_t) (mem : wrp_memory_t)
    (c : wrp_oprd_t) (pa : Nat) (ta : Int) (rest : List wrp_oprd_t) 
    (str s1 s2 : wrp_buf_t) (flags offset : Nat)
    (h1 : wrp_read_varui32 str = Except.ok (flags, s1))
    (h2 : wrp_read_varui32 s1 = Except.ok (offset, s2)) :
    store align n { vm with memory := mem, oprd_stk := c :: ⟨pa, ta⟩ :: rest, opcode_stream := str } =
      if (to_u32 (wrp_decode_i32 pa) + offset) % 4294967296 < to_u32 (wrp_decode_i32 pa)
          ∨ (to_u32 (wrp_decode_i32 pa) + offset) % 4294967296 < offset then
        (Except.error wrp_err_t.WRP_ERR_I32_OVERFLOW, { vm with memory := mem, oprd_stk := rest, opcode_stream := s2 })
      else if ((to_u32 (wrp_decode_i32 pa) + offset) % 4294967296 + n) % 18446744073709551616
          < (to_u32 (wrp_decode_i32 pa) + offset) % 4294967296 then
        (Except.error wrp_err_t.WRP_ERR_I32_OVERFLOW, { vm with memory := mem, oprd_stk := rest, opcode_stream := s2 })
      else if ((to_u32 (wrp_decode_i32 pa) + offset) % 4294967296 + n) % 18446744073709551616
          > mem.num_pages * PAGE_SIZE then
        (Except.error wrp_err_t.WRP_ERR_INVALID_MEMORY_ACCESS, { vm with memory := mem, oprd_stk := rest, opcode_stream := s2 })
      else
        (Except.ok (),
          { vm with
            memory :=
              { mem with
                bytes := memcpy_to mem.bytes
                  ((to_u32 (wrp_decode_i32 pa) + offset) % 4294967296) c.value n }
            oprd_stk := rest
            opcode_stream := s2 }) := by
  unfold store
  rw [bind_run_ok _ _ _ _ _ (read_stream_run _ vm mem _ str s1 flags h1),
    bind_run_ok _ _ _ _ _ (read_stream_run _ vm mem _ s1 s2 offset h2),
    bind_run_ok _ _ _ _ _ (pop_op_run_fields vm mem c _ s2),
    bind_run_ok _ _ _ _ _ (pop_i32_run_fields vm mem pa ta rest s2),
    bind_run_ok _ _ _ _ _ (get_run _)]
  simp only [ite_run, fail_run, modify_run]

theorem guard_wrap_iff (a o : Nat) (ha : a < 4294967296) (ho : o < 4294967296) :
    ((a + o) % 4294967296 < a ∨ (a + o) % 4294967296 < o) ↔ 4294967296 ≤ a + o := by
  omega

theorem guard_no_wrap (a o : Nat) (h : a + o < 4294967296) :
    (a + o) % 4294967296 = a + o := by
  omega

theorem guard_size (e n : Nat) (he : e < 4294967296) (hn : n ≤ 8) :
    (e + n) % 18446744073709551616 = e + n := by
  omega

theorem load_value_bytes (bytes : Nat → Fin 256) (ea w : Nat) (se : Bool)
    (hw1 : 1 ≤ w) (hw8 : w ≤ 8) :
    (∀ i, i < w →
      byte_at (if se && sign_bit_set (memcpy_from bytes ea w) w
          then fill_ff (memcpy_from bytes ea w) w else memcpy_from bytes ea w) i
        = (bytes (ea + i)).val) ∧
    (∀ i, w ≤ i → i < 8 →
      byte_at (if se && sign_bit_set (memcpy_from bytes ea w) w
          then fill_ff (memcpy_from bytes ea w) w else memcpy_from bytes ea w) i
        = if se = true ∧ w ≤ 4 ∧ 128 ≤ (bytes (ea + w - 1)).val then 255 else 0) := by
  have hlt := memcpy_from_lt bytes ea w
  have htop : byte_at (memcpy_from bytes ea w) (w - 1) = (bytes (ea + w - 1)).val := by
    rw [byte_at_memcpy_from bytes ea w (w - 1) (by omega), Nat.add_sub_assoc hw1]
  have hcond : (se && sign_bit_set (memcpy_from bytes ea w) w) = true
      ↔ (se = true ∧ w ≤ 4 ∧ 128 ≤ (bytes (ea + w - 1)).val) := by
    rw [Bool.and_eq_true, sign_bit_set_iff _ _ hw1, htop]
  constructor
  · intro i hi
    by_cases hc : (se && sign_bit_set (memcpy_from bytes ea w) w) = true
    · rw [if_pos hc, byte_at_fill_ff _ _ _ hlt (Nat.lt_of_lt_of_le hi hw8), if_pos hi]
      exact byte_at_memcpy_from bytes ea w i hi
    · rw [if_neg hc]
      exact byte_at_memcpy_from bytes ea w i hi
  · intro i hwi hi
    by_cases hc : (se && sign_bit_set (memcpy_from bytes ea w) w) = true
    · rw [if_pos hc, if_pos (hcond.mp hc), byte_at_fill_ff _ _ _ hlt hi,
        if_neg (Nat.not_lt.mpr hwi)]
    · rw [if_neg hc, if_neg (fun h => hc (hcond.mpr h))]
      exact byte_at_of_lt _ _ _ hlt hwi

theorem memcpy_to_bytes (bytes : Nat → Fin 256) (ea value w : Nat) :
    (∀ i, i < w → (memcpy_to bytes ea value w (ea + i)).val = byte_at value i) ∧
    (∀ j, (j < ea ∨ ea + w ≤ j) → memcpy_to bytes ea value w j = bytes j) := by
  constructor
  · intro i hi
    unfold memcpy_to
    rw [if_pos ⟨Nat.le_add_right _ _, Nat.add_lt_add_left hi _⟩, Nat.add_sub_cancel_left]
    exact Nat.mod_eq_of_lt (byte_at_lt value i)
  · intro j hj
    unfold memcpy_to
    rw [if_neg (by omega)]

/-! ## Closed form of `grow_memory` -/

theorem exec_grow_memory_op_run (vm : wrp_vm_t) (mem : wrp_memory_t)
    (pd : Nat) (td : Int) (rest : List wrp_oprd_t) (str s1 : wrp_buf_t)
    (reserved : Int) (h : wrp_read_vari32 str = Except.ok (reserved, s1)) :
    exec_grow_memory_op { vm with memory := mem, oprd_stk := ⟨pd, td⟩ :: rest, opcode_stream := str } =
      if wrp_decode_i32 pd = 0 then
        wrp_stk_exec_push_i32 (to_i32 mem.num_pages) { vm with memory := mem, oprd_stk := rest, opcode_stream := s1 }
      else if (mem.num_pages + to_u32 (wrp_decode_i32 pd)) % 4294967296 > mem.max_pages then
        wrp_stk_exec_push_i32 (-1) { vm with memory := mem, oprd_stk := rest, opcode_stream := s1 }
      else
        match vm.alloc_fn ((mem.num_pages + to_u32 (wrp_decode_i32 pd)) % 4294967296 * PAGE_SIZE) 64 with
        | none => wrp_stk_exec_push_i32 (-1) { vm with memory := mem, oprd_stk := rest, opcode_stream := s1 }
        | some bytes =>
          wrp_stk_exec_push_i32 (to_i32 mem.num_pages)
            { vm with
              memory :=
                { mem with
                  bytes := fun j =>
                    if j < mem.num_pages * PAGE_SIZE then mem.bytes j else bytes j
                  num_pages := (mem.num_pages + to_u32 (wrp_decode_i32 pd)) % 4294967296 }
              oprd_stk := rest
              opcode_stream := s1 } := by
  unfold exec_grow_memory_op
  rw [bind_run_ok _ _ _ _ _ (read_stream_run _ vm mem _ str s1 reserved h),
    bind_run_ok _ _ _ _ _ (pop_i32_run_fields vm mem pd td rest s1),
    bind_run_ok _ _ _ _ _ (get_run _)]
  simp only [ite_run]
  by_cases h0 : wrp_decode_i32 pd = 0
  · rw [if_pos h0, if_pos h0]
  · rw [if_neg h0, if_neg h0]
    by_cases h1 : (mem.num_pages + to_u32 (wrp_decode_i32 pd)) % 4294967296 > mem.max_pages
    · rw [if_pos h1, if_pos h1]
    · rw [if_neg h1, if_neg h1]
      cases vm.alloc_fn ((mem.num_pages + to_u32 (wrp_decode_i32 pd)) % 4294967296 * PAGE_SIZE) 64 with
      | none => rfl
      | some bytes => rfl

/-! ## Signed division (C1) -/

/-- C1: on a stack holding `x` (pushed first) and `y` (top), `exec_i32_div_s_op`
returns i32-divide-by-zero when `y = 0`, returns i32-overflow when
`x = INT32_MIN` and `y = -1`, and in every other case replaces the two operands
by the i32 quotient of `x` by `y` truncated toward zero; `exec_i64_div_s_op` does
the same at 64 bits with the i64 error codes. -/
theorem exec_div_s_op_contract (vm : wrp_vm_t) (px py : Nat) (rest : List wrp_oprd_t)
    (hcap : rest.length + 2 ≤ vm.oprd_stk_max) :
    ((wrp_decode_i32 py = 0 →
        (exec_i32_div_s_op { vm with oprd_stk := ⟨py, I32⟩ :: ⟨px, I32⟩ :: rest }).1
          = Except.error wrp_err_t.WRP_ERR_I32_DIVIDE_BY_ZERO) ∧
      (wrp_decode_i32 px = INT32_MIN ∧ wrp_decode_i32 py = -1 →
        (exec_i32_div_s_op { vm with oprd_stk := ⟨py, I32⟩ :: ⟨px, I32⟩ :: rest }).1
          = Except.error wrp_err_t.WRP_ERR_I32_OVERFLOW) ∧
      (wrp_decode_i32 py ≠ 0 → ¬(wrp_decode_i32 px = INT32_MIN ∧ wrp_decode_i32 py = -1) →
        ∃ q : Nat,
          exec_i32_div_s_op { vm with oprd_stk := ⟨py, I32⟩ :: ⟨px, I32⟩ :: rest }
            = (Except.ok (), { vm with oprd_stk := ⟨q, I32⟩ :: rest }) ∧
          q < 4294967296 ∧
          wrp_decode_i32 q = Int.tdiv (wrp_decode_i32 px) (wrp_decode_i32 py))) ∧
    ((wrp_decode_i64 py = 0 →
        (exec_i64_div_s_op { vm with oprd_stk := ⟨py, I64⟩ :: ⟨px, I64⟩ :: rest }).1
          = Except.error wrp_err_t.WRP_ERR_I64_DIVIDE_BY_ZERO) ∧
      (wrp_decode_i64 px = INT64_MIN ∧ wrp_decode_i64 py = -1 →
        (exec_i64_div_s_op { vm with oprd_stk := ⟨py, I64⟩ :: ⟨px, I64⟩ :: rest }).1
          = Except.error wrp_err_t.WRP_ERR_I64_OVERFLOW) ∧
      (wrp_decode_i64 py ≠ 0 → ¬(wrp_decode_i64 px = INT64_MIN ∧ wrp_decode_i64 py = -1) →
        ∃ q : Nat,
          exec_i64_div_s_op { vm with oprd_stk := ⟨py, I64⟩ :: ⟨px, I64⟩ :: rest }
            = (Except.ok (), { vm with oprd_stk := ⟨q, I64⟩ :: rest }) ∧
          q < 18446744073709551616 ∧
          wrp_decode_i64 q = Int.tdiv (wrp_decode_i64 px) (wrp_decode_i64 py))) := by
  have hlen : rest.length < vm.oprd_stk_max := by omega
  constructor
  · refine ⟨?_, ?_, ?_⟩
    · intro hy
      rw [exec_i32_div_s_op_run, if_pos hy]
    · rintro ⟨hx, hy⟩
      have hy0 : wrp_decode_i32 py ≠ 0 := by rw [hy]; decide
      rw [exec_i32_div_s_op_run, if_neg hy0, if_pos ⟨hx, hy⟩]
    · intro hy hne
      have ht := tdiv_range 2147483648 _ _ (wrp_decode_i32_range px).1 (wrp_decode_i32_range px).2
        hy hne
      refine ⟨to_u32 (to_i32 (Int.tdiv (wrp_decode_i32 px) (wrp_decode_i32 py))), ?_, ?_, ?_⟩
      · rw [exec_i32_div_s_op_run, if_neg hy, if_neg hne, push_i32_run _ _ _ hlen]
      · exact to_u32_lt _
      · rw [to_i32_of_range _ ht.1 ht.2]
        exact wrp_decode_i32_to_u32 _ ht.1 ht.2
  · refine ⟨?_, ?_, ?_⟩
    · intro hy
      rw [exec_i64_div_s_op_run, if_pos hy]
    · rintro ⟨hx, hy⟩
      have hy0 : wrp_decode_i64 py ≠ 0 := by rw [hy]; decide
      rw [exec_i64_div_s_op_run, if_neg hy0, if_pos ⟨hx, hy⟩]
    · intro hy hne
      have ht := tdiv_range 9223372036854775808 _ _ (wrp_decode_i64_range px).1 (wrp_decode_i64_range px).2
        hy hne
      refine ⟨to_u64 (to_i64 (Int.tdiv (wrp_decode_i64 px) (wrp_decode_i64 py))), ?_, ?_, ?_⟩
      · rw [exec_i64_div_s_op_run, if_neg hy, if_neg hne, push_i64_run _ _ _ hlen]
      · exact to_u64_lt _
      · rw [to_i64_of_range _ ht.1 ht.2]
        exact wrp_decode_i64_to_u64 _ ht.1 ht.2

/-- The contract of signed division at the operands `10` and `3` on an empty rest of
the stack. -/
theorem exec_div_s_op_contract_witness :
    ([] : List wrp_oprd_t).length + 2 ≤ vm_example.oprd_stk_max ∧
    (((wrp_decode_i32 3 = 0 →
        (exec_i32_div_s_op { vm_example with oprd_stk := ⟨3, I32⟩ :: ⟨10, I32⟩ :: [] }).1
          = Except.error wrp_err_t.WRP_ERR_I32_DIVIDE_BY_ZERO) ∧
      (wrp_decode_i32 10 = INT32_MIN ∧ wrp_decode_i32 3 = -1 →
        (exec_i32_div_s_op { vm_example with oprd_stk := ⟨3, I32⟩ :: ⟨10, I32⟩ :: [] }).1
          = Except.error wrp_err_t.WRP_ERR_I32_OVERFLOW) ∧
      (wrp_decode_i32 3 ≠ 0 → ¬(wrp_decode_i32 10 = INT32_MIN ∧ wrp_decode_i32 3 = -1) →
        ∃ q : Nat,
          exec_i32_div_s_op { vm_example with oprd_stk := ⟨3, I32⟩ :: ⟨10, I32⟩ :: [] }
            = (Except.ok (), { vm_example with oprd_stk := ⟨q, I32⟩ :: [] }) ∧
          q < 4294967296 ∧
          wrp_decode_i32 q = Int.tdiv (wrp_decode_i32 10) (wrp_decode_i32 3))) ∧
    ((wrp_decode_i64 3 = 0 →
        (exec_i64_div_s_op { vm_example with oprd_stk := ⟨3, I64⟩ :: ⟨10, I64⟩ :: [] }).1
          = Except.error wrp_err_t.WRP_ERR_I64_DIVIDE_BY_ZERO) ∧
      (wrp_decode_i64 10 = INT64_MIN ∧ wrp_decode_i64 3 = -1 →
        (exec_i64_div_s_op { vm_example with oprd_stk := ⟨3, I64⟩ :: ⟨10, I64⟩ :: [] }).1
          = Except.error wrp_err_t.WRP_ERR_I64_OVERFLOW) ∧
      (wrp_decode_i64 3 ≠ 0 → ¬(wrp_decode_i64 10 = INT64_MIN ∧ wrp_decode_i64 3 = -1) →
        ∃ q : Nat,
          exec_i64_div_s_op { vm_example with oprd_stk := ⟨3, I64⟩ :: ⟨10, I64⟩ :: [] }
            = (Except.ok (), { vm_example with oprd_stk := ⟨q, I64⟩ :: [] }) ∧
          q < 18446744073709551616 ∧
          wrp_decode_i64 q = Int.tdiv (wrp_decode_i64 10) (wrp_decode_i64 3)))) :=
  ⟨by decide, exec_div_s_op_contract vm_example 10 3 [] (by decide)⟩

/-- The scenario of the specification: `10 / 3` gives `3`, `10 / 0` traps with
i32-divide-by-zero and `INT32_MIN / -1` traps with i32-overflow. -/
theorem exec_i32_div_s_op_scenario :
    exec_i32_div_s_op { vm_example with oprd_stk := [⟨3, I32⟩, ⟨10, I32⟩] }
      = (Except.ok (), { vm_example with oprd_stk := [⟨3, I32⟩] }) ∧
    (exec_i32_div_s_op { vm_example with oprd_stk := [⟨0, I32⟩, ⟨10, I32⟩] }).1
      = Except.error wrp_err_t.WRP_ERR_I32_DIVIDE_BY_ZERO ∧
    (exec_i32_div_s_op
        { vm_example with oprd_stk := [⟨4294967295, I32⟩, ⟨2147483648, I32⟩] }).1
      = Except.error wrp_err_t.WRP_ERR_I32_OVERFLOW :=
  ⟨rfl, rfl, rfl⟩

/-! ## Select (C2) -/

/-- C2: `exec_select_op` evaluated on the operands `a = (7, i32)` pushed first and
`b = (9, i32)` pushed second. With the condition `1` the handler leaves `b`,
not `a`; with the condition `0` it leaves a cell whose payload is the type tag
of `a` (`0x7f`) and whose tag is the low byte of the payload of `a`, which is
neither operand. -/
theorem exec_select_op_at_failing_input :
    exec_select_op { vm_example with oprd_stk := [⟨1, I32⟩, ⟨9, I32⟩, ⟨7, I32⟩] }
      = (Except.ok (), { vm_example with oprd_stk := [⟨9, I32⟩] }) ∧
    exec_select_op { vm_example with oprd_stk := [⟨0, I32⟩, ⟨9, I32⟩, ⟨7, I32⟩] }
      = (Except.ok (), { vm_example with oprd_stk := [⟨127, 7⟩] }) :=
  ⟨rfl, rfl⟩

/-! ## Signed remainder (C8, C9) -/

/-- C8: `exec_i32_rem_s_op` evaluated on `x = INT32_MIN`, `y = 3` pushes `0`, whereas
the signed remainder is `-2`; `exec_i64_rem_s_op` on `x = INT64_MIN`, `y = 3`
pushes `0` as well, whereas the signed remainder is `-2`. -/
theorem exec_rem_s_op_at_failing_input :
    exec_i32_rem_s_op { vm_example with oprd_stk := [⟨3, I32⟩, ⟨2147483648, I32⟩] }
      = (Except.ok (), { vm_example with oprd_stk := [⟨0, I32⟩] }) ∧
    wrp_decode_i32 2147483648 = INT32_MIN ∧
    Int.tmod INT32_MIN 3 = -2 ∧
    exec_i64_rem_s_op { vm_example with oprd_stk := [⟨3, I64⟩, ⟨9223372036854775808, I64⟩] }
      = (Except.ok (), { vm_example with oprd_stk := [⟨0, I64⟩] }) ∧
    wrp_decode_i64 9223372036854775808 = INT64_MIN ∧
    Int.tmod INT64_MIN 3 = -2 :=
  ⟨rfl, rfl, rfl, rfl, rfl, rfl⟩

/-- C9: `exec_i32_rem_s_op` applied to `x = INT32_MIN` and `y = -1` does not trap and
pushes the i32 value `0`; `exec_i64_rem_s_op` applied to `x = INT64_MIN` and
`y = -1` does not trap and pushes the i64 value `0`. -/
theorem exec_rem_s_op_min_neg_one (vm : wrp_vm_t) (rest : List wrp_oprd_t)
    (hcap : rest.length + 2 ≤ vm.oprd_stk_max) :
    (∀ px py : Nat, wrp_decode_i32 px = INT32_MIN → wrp_decode_i32 py = -1 →
      exec_i32_rem_s_op { vm with oprd_stk := ⟨py, I32⟩ :: ⟨px, I32⟩ :: rest }
        = (Except.ok (), { vm with oprd_stk := ⟨0, I32⟩ :: rest })) ∧
    (∀ px py : Nat, wrp_decode_i64 px = INT64_MIN → wrp_decode_i64 py = -1 →
      exec_i64_rem_s_op { vm with oprd_stk := ⟨py, I64⟩ :: ⟨px, I64⟩ :: rest }
        = (Except.ok (), { vm with oprd_stk := ⟨0, I64⟩ :: rest })) := by
  have hlen : rest.length < vm.oprd_stk_max := by omega
  constructor
  · intro px py hx hy
    have hy0 : wrp_decode_i32 py ≠ 0 := by rw [hy]; decide
    have hc : ¬(wrp_decode_i32 px ≠ INT32_MIN ∧ wrp_decode_i32 py ≠ -1) := fun h => h.1 hx
    rw [exec_i32_rem_s_op_run, if_neg hy0, if_neg hc, push_i32_run _ _ _ hlen]
    rfl
  · intro px py hx hy
    have hy0 : wrp_decode_i64 py ≠ 0 := by rw [hy]; decide
    have hc : ¬(wrp_decode_i64 px ≠ INT64_MIN ∧ wrp_decode_i64 py ≠ -1) := fun h => h.1 hx
    rw [exec_i64_rem_s_op_run, if_neg hy0, if_neg hc, push_i64_run _ _ _ hlen]
    rfl

/-- The corner case run on the payloads `0x80000000`, `0xFFFFFFFF` and their 64-bit
counterparts. -/
theorem exec_rem_s_op_min_neg_one_witness :
    ([] : List wrp_oprd_t).length + 2 ≤ vm_example.oprd_stk_max ∧
    exec_i32_rem_s_op
        { vm_example with oprd_stk := [⟨4294967295, I32⟩, ⟨2147483648, I32⟩] }
      = (Except.ok (), { vm_example with oprd_stk := [⟨0, I32⟩] }) ∧
    exec_i64_rem_s_op
        { vm_example with
          oprd_stk := [⟨18446744073709551615, I64⟩, ⟨9223372036854775808, I64⟩] }
      = (Except.ok (), { vm_example with oprd_stk := [⟨0, I64⟩] }) :=
  ⟨by decide,
    (exec_rem_s_op_min_neg_one vm_example [] (by decide)).1 2147483648 4294967295 rfl rfl,
    (exec_rem_s_op_min_neg_one vm_example [] (by decide)).2
      9223372036854775808 18446744073709551615 rfl rfl⟩

/-! ## Division by zero (C10) -/

/-- C10: each of the eight integer division and remainder handlers, run on a stack
holding two operands of its type, returns the divide-by-zero error of its width
if and only if the divisor on top of the stack is zero; when the divisor is not
zero, `div_u` and `rem_u` replace the operands by the quotient and the remainder
of the two operands read as unsigned integers. -/
theorem exec_div_rem_op_divide_by_zero (vm : wrp_vm_t) (px py : Nat) (rest : List wrp_oprd_t)
    (hcap : rest.length + 2 ≤ vm.oprd_stk_max) :
    (((exec_i32_div_s_op { vm with oprd_stk := ⟨py, I32⟩ :: ⟨px, I32⟩ :: rest }).1
          = Except.error wrp_err_t.WRP_ERR_I32_DIVIDE_BY_ZERO ↔ py % 4294967296 = 0) ∧
      ((exec_i32_div_u_op { vm with oprd_stk := ⟨py, I32⟩ :: ⟨px, I32⟩ :: rest }).1
          = Except.error wrp_err_t.WRP_ERR_I32_DIVIDE_BY_ZERO ↔ py % 4294967296 = 0) ∧
      ((exec_i32_rem_s_op { vm with oprd_stk := ⟨py, I32⟩ :: ⟨px, I32⟩ :: rest }).1
          = Except.error wrp_err_t.WRP_ERR_I32_DIVIDE_BY_ZERO ↔ py % 4294967296 = 0) ∧
      ((exec_i32_rem_u_op { vm with oprd_stk := ⟨py, I32⟩ :: ⟨px, I32⟩ :: rest }).1
          = Except.error wrp_err_t.WRP_ERR_I32_DIVIDE_BY_ZERO ↔ py % 4294967296 = 0) ∧
      (py % 4294967296 ≠ 0 →
        exec_i32_div_u_op { vm with oprd_stk := ⟨py, I32⟩ :: ⟨px, I32⟩ :: rest }
          = (Except.ok (),
              { vm with oprd_stk := ⟨px % 4294967296 / (py % 4294967296), I32⟩ :: rest })) ∧
      (py % 4294967296 ≠ 0 →
        exec_i32_rem_u_op { vm with oprd_stk := ⟨py, I32⟩ :: ⟨px, I32⟩ :: rest }
          = (Except.ok (),
              { vm with oprd_stk := ⟨px % 4294967296 % (py % 4294967296), I32⟩ :: rest }))) ∧
    (((exec_i64_div_s_op { vm with oprd_stk := ⟨py, I64⟩ :: ⟨px, I64⟩ :: rest }).1
          = Except.error wrp_err_t.WRP_ERR_I64_DIVIDE_BY_ZERO ↔ py % 18446744073709551616 = 0) ∧
      ((exec_i64_div_u_op { vm with oprd_stk := ⟨py, I64⟩ :: ⟨px, I64⟩ :: rest }).1
          = Except.error wrp_err_t.WRP_ERR_I64_DIVIDE_BY_ZERO ↔ py % 18446744073709551616 = 0) ∧
      ((exec_i64_rem_s_op { vm with oprd_stk := ⟨py, I64⟩ :: ⟨px, I64⟩ :: rest }).1
          = Except.error wrp_err_t.WRP_ERR_I64_DIVIDE_BY_ZERO ↔ py % 18446744073709551616 = 0) ∧
      ((exec_i64_rem_u_op { vm with oprd_stk := ⟨py, I64⟩ :: ⟨px, I64⟩ :: rest }).1
          = Except.error wrp_err_t.WRP_ERR_I64_DIVIDE_BY_ZERO ↔ py % 18446744073709551616 = 0) ∧
      (py % 18446744073709551616 ≠ 0 →
        exec_i64_div_u_op { vm with oprd_stk := ⟨py, I64⟩ :: ⟨px, I64⟩ :: rest }
          = (Except.ok (),
              { vm with oprd_stk := ⟨px % 18446744073709551616 / (py % 18446744073709551616), I64⟩ :: rest })) ∧
      (py % 18446744073709551616 ≠ 0 →
        exec_i64_rem_u_op { vm with oprd_stk := ⟨py, I64⟩ :: ⟨px, I64⟩ :: rest }
          = (Except.ok (),
              { vm with oprd_stk := ⟨px % 18446744073709551616 % (py % 18446744073709551616), I64⟩ :: rest }))) := by
  have hlen : rest.length < vm.oprd_stk_max := by omega
  constructor
  · have hz := wrp_decode_i32_eq_zero py
    have hux := to_u32_decode_i32 px
    have huy := to_u32_decode_i32 py
    have hxlt : px % 4294967296 < 4294967296 := Nat.mod_lt _ (by decide)
    refine ⟨?_, ?_, ?_, ?_, ?_, ?_⟩
    · rw [exec_i32_div_s_op_run, ← hz]
      split_ifs with h0 h1
      · simp only [h0]
      · simp only [h0, iff_false]; intro h; cases h
      · rw [push_i32_run _ _ _ hlen]; simp only [h0, iff_false]; intro h; cases h
    · rw [exec_i32_div_u_op_run, ← hz]
      split_ifs with h0
      · simp only [h0]
      · rw [push_i32_run _ _ _ hlen]; simp only [h0, iff_false]; intro h; cases h
    · rw [exec_i32_rem_s_op_run, ← hz]
      by_cases h0 : wrp_decode_i32 py = 0
      · rw [if_pos h0]; simp only [h0]
      · rw [if_neg h0, push_i32_run _ _ _ hlen]; simp only [h0, iff_false]; intro h; cases h
    · rw [exec_i32_rem_u_op_run, ← hz]
      split_ifs with h0
      · simp only [h0]
      · rw [push_i32_run _ _ _ hlen]; simp only [h0, iff_false]; intro h; cases h
    · intro hy
      have h0 : wrp_decode_i32 py ≠ 0 := fun h => hy (hz.mp h)
      have hid : to_u32 (to_i32 ((px % 4294967296 / (py % 4294967296) : Nat) : Int))
          = px % 4294967296 / (py % 4294967296) :=
        to_u32_to_i32_cast _ (Nat.lt_of_le_of_lt (Nat.div_le_self _ _) hxlt)
      rw [exec_i32_div_u_op_run, if_neg h0, push_i32_run _ _ _ hlen, hux, huy, hid]
    · intro hy
      have h0 : wrp_decode_i32 py ≠ 0 := fun h => hy (hz.mp h)
      have hid : to_u32 (to_i32 ((px % 4294967296 % (py % 4294967296) : Nat) : Int))
          = px % 4294967296 % (py % 4294967296) :=
        to_u32_to_i32_cast _ (Nat.lt_of_le_of_lt (Nat.mod_le _ _) hxlt)
      rw [exec_i32_rem_u_op_run, if_neg h0, push_i32_run _ _ _ hlen, hux, huy, hid]
  · have hz := wrp_decode_i64_eq_zero py
    have hux := to_u64_decode_i64 px
    have huy := to_u64_decode_i64 py
    have hxlt : px % 18446744073709551616 < 18446744073709551616 := Nat.mod_lt _ (by decide)
    refine ⟨?_, ?_, ?_, ?_, ?_, ?_⟩
    · rw [exec_i64_div_s_op_run, ← hz]
      split_ifs with h0 h1
      · simp only [h0]
      · simp only [h0, iff_false]; intro h; cases h
      · rw [push_i64_run _ _ _ hlen]; simp only [h0, iff_false]; intro h; cases h
    · rw [exec_i64_div_u_op_run, ← hz]
      split_ifs with h0
      · simp only [h0]
      · rw [push_i64_run _ _ _ hlen]; simp only [h0, iff_false]; intro h; cases h
    · rw [exec_i64_rem_s_op_run, ← hz]
      by_cases h0 : wrp_decode_i64 py = 0
      · rw [if_pos h0]; simp only [h0]
      · rw [if_neg h0, push_i64_run _ _ _ hlen]; simp only [h0, iff_false]; intro h; cases h
    · rw [exec_i64_rem_u_op_run, ← hz]
      split_ifs with h0
      · simp only [h0]
      · rw [push_i64_run _ _ _ hlen]; simp only [h0, iff_false]; intro h; cases h
    · intro hy
      have h0 : wrp_decode_i64 py ≠ 0 := fun h => hy (hz.mp h)
      have hid : to_u64 (to_i64 ((px % 18446744073709551616 / (py % 18446744073709551616) : Nat) : Int))
          = px % 18446744073709551616 / (py % 18446744073709551616) :=
        to_u64_to_i64_cast _ (Nat.lt_of_le_of_lt (Nat.div_le_self _ _) hxlt)
      rw [exec_i64_div_u_op_run, if_neg h0, push_i64_run _ _ _ hlen, hux, huy, hid]
    · intro hy
      have h0 : wrp_decode_i64 py ≠ 0 := fun h => hy (hz.mp h)
      have hid : to_u64 (to_i64 ((px % 18446744073709551616 % (py % 18446744073709551616) : Nat) : Int))
          = px % 18446744073709551616 % (py % 18446744073709551616) :=
        to_u64_to_i64_cast _ (Nat.lt_of_le_of_lt (Nat.mod_le _ _) hxlt)
      rw [exec_i64_rem_u_op_run, if_neg h0, push_i64_run _ _ _ hlen, hux, huy, hid]

/-- The eight handlers at the operands `7` and `2`. -/
theorem exec_div_rem_op_divide_by_zero_witness :
    ([] : List wrp_oprd_t).length + 2 ≤ vm_example.oprd_stk_max ∧
    ((((exec_i32_div_s_op { vm_example with oprd_stk := ⟨2, I32⟩ :: ⟨7, I32⟩ :: [] }).1
          = Except.error wrp_err_t.WRP_ERR_I32_DIVIDE_BY_ZERO ↔ 2 % 4294967296 = 0) ∧
      ((exec_i32_div_u_op { vm_example with oprd_stk := ⟨2, I32⟩ :: ⟨7, I32⟩ :: [] }).1
          = Except.error wrp_err_t.WRP_ERR_I32_DIVIDE_BY_ZERO ↔ 2 % 4294967296 = 0) ∧
      ((exec_i32_rem_s_op { vm_example with oprd_stk := ⟨2, I32⟩ :: ⟨7, I32⟩ :: [] }).1
          = Except.error wrp_err_t.WRP_ERR_I32_DIVIDE_BY_ZERO ↔ 2 % 4294967296 = 0) ∧
      ((exec_i32_rem_u_op { vm_example with oprd_stk := ⟨2, I32⟩ :: ⟨7, I32⟩ :: [] }).1
          = Except.error wrp_err_t.WRP_ERR_I32_DIVIDE_BY_ZERO ↔ 2 % 4294967296 = 0) ∧
      (2 % 4294967296 ≠ 0 →
        exec_i32_div_u_op { vm_example with oprd_stk := ⟨2, I32⟩ :: ⟨7, I32⟩ :: [] }
          = (Except.ok (),
              { vm_example with oprd_stk := ⟨7 % 4294967296 / (2 % 4294967296), I32⟩ :: [] })) ∧
      (2 % 4294967296 ≠ 0 →
        exec_i32_rem_u_op { vm_example with oprd_stk := ⟨2, I32⟩ :: ⟨7, I32⟩ :: [] }
          = (Except.ok (),
              { vm_example with oprd_stk := ⟨7 % 4294967296 % (2 % 4294967296), I32⟩ :: [] }))) ∧
    (((exec_i64_div_s_op { vm_example with oprd_stk := ⟨2, I64⟩ :: ⟨7, I64⟩ :: [] }).1
          = Except.error wrp_err_t.WRP_ERR_I64_DIVIDE_BY_ZERO ↔ 2 % 18446744073709551616 = 0) ∧
      ((exec_i64_div_u_op { vm_example with oprd_stk := ⟨2, I64⟩ :: ⟨7, I64⟩ :: [] }).1
          = Except.error wrp_err_t.WRP_ERR_I64_DIVIDE_BY_ZERO ↔ 2 % 18446744073709551616 = 0) ∧
      ((exec_i64_rem_s_op { vm_example with oprd_stk := ⟨2, I64⟩ :: ⟨7, I64⟩ :: [] }).1
          = Except.error wrp_err_t.WRP_ERR_I64_DIVIDE_BY_ZERO ↔ 2 % 18446744073709551616 = 0) ∧
      ((exec_i64_rem_u_op { vm_example with oprd_stk := ⟨2, I64⟩ :: ⟨7, I64⟩ :: [] }).1
          = Except.error wrp_err_t.WRP_ERR_I64_DIVIDE_BY_ZERO ↔ 2 % 18446744073709551616 = 0) ∧
      (2 % 18446744073709551616 ≠ 0 →
        exec_i64_div_u_op { vm_example with oprd_stk := ⟨2, I64⟩ :: ⟨7, I64⟩ :: [] }
          = (Except.ok (),
              { vm_example with oprd_stk := ⟨7 % 18446744073709551616 / (2 % 18446744073709551616), I64⟩ :: [] })) ∧
      (2 % 18446744073709551616 ≠ 0 →
        exec_i64_rem_u_op { vm_example with oprd_stk := ⟨2, I64⟩ :: ⟨7, I64⟩ :: [] }
          = (Except.ok (),
              { vm_example with oprd_stk := ⟨7 % 18446744073709551616 % (2 % 18446744073709551616), I64⟩ :: [] })))) :=
  ⟨by decide, exec_div_rem_op_divide_by_zero vm_example 7 2 [] (by decide)⟩

/-! ## Bounds of memory accesses (C3) -/

/-- C3: for `load` and `store` (of which every load and store handler is an instance)
with access width `w` in 1, 2, 4, 8, popped address `a` and immediate offset `o`
read as unsigned 32-bit numbers: the handler returns an error if and only if
`a + o >= 2^32` or `a + o + w > num_pages * 65536`; otherwise a load pushes a
value whose `w` low bytes are the bytes at `[a + o, a + o + w)` of memory 0 (the
bytes above them being the sign or zero extension) and leaves the memory as it
was, and a store writes the `w` low bytes of the stored value to
`[a + o, a + o + w)` and leaves every other byte of the memory unchanged. -/
theorem load_store_bounds (vm : wrp_vm_t) (type : Int) (align w : Nat) (se : Bool)
    (pa pv : Nat) (tv : Int) (rest : List wrp_oprd_t) (s1 s2 : wrp_buf_t) (flags offset : Nat)
    (hw : w = 1 ∨ w = 2 ∨ w = 4 ∨ w = 8)
    (h1 : wrp_read_varui32 vm.opcode_stream = Except.ok (flags, s1))
    (h2 : wrp_read_varui32 s1 = Except.ok (offset, s2))
    (hcap : rest.length + 1 ≤ vm.oprd_stk_max) :
    ((∃ e, (load type align w se { vm with oprd_stk := ⟨pa, I32⟩ :: rest }).1 = Except.error e)
        ↔ (4294967296 ≤ pa % 4294967296 + offset ∨
          pa % 4294967296 + offset + w > vm.memory.num_pages * 65536)) ∧
    (¬(4294967296 ≤ pa % 4294967296 + offset ∨
          pa % 4294967296 + offset + w > vm.memory.num_pages * 65536) →
      ∃ v : Nat,
        load type align w se { vm with oprd_stk := ⟨pa, I32⟩ :: rest }
          = (Except.ok (), { vm with oprd_stk := ⟨v, type⟩ :: rest, opcode_stream := s2 }) ∧
        (∀ i, i < w → byte_at v i = (vm.memory.bytes (pa % 4294967296 + offset + i)).val) ∧
        (∀ i, w ≤ i → i < 8 →
          byte_at v i
            = if se = true ∧ w ≤ 4
                  ∧ 128 ≤ (vm.memory.bytes (pa % 4294967296 + offset + w - 1)).val
              then 255 else 0)) ∧
    ((∃ e, (store align w { vm with oprd_stk := ⟨pv, tv⟩ :: ⟨pa, I32⟩ :: rest }).1
          = Except.error e)
        ↔ (4294967296 ≤ pa % 4294967296 + offset ∨
          pa % 4294967296 + offset + w > vm.memory.num_pages * 65536)) ∧
    (¬(4294967296 ≤ pa % 4294967296 + offset ∨
          pa % 4294967296 + offset + w > vm.memory.num_pages * 65536) →
      ∃ bytes1 : Nat → Fin 256,
        store align w { vm with oprd_stk := ⟨pv, tv⟩ :: ⟨pa, I32⟩ :: rest }
          = (Except.ok (),
              { vm with
                memory := { vm.memory with bytes := bytes1 }
                oprd_stk := rest
                opcode_stream := s2 }) ∧
        (∀ i, i < w → (bytes1 (pa % 4294967296 + offset + i)).val = byte_at pv i) ∧
        (∀ j, (j < pa % 4294967296 + offset ∨ pa % 4294967296 + offset + w ≤ j) →
          bytes1 j = vm.memory.bytes j)) := by
  have hlen : rest.length < vm.oprd_stk_max := by omega
  have hw1 : 1 ≤ w := by omega
  have hw8 : w ≤ 8 := by omega
  have ha : pa % 4294967296 < 4294967296 := Nat.mod_lt _ (by decide)
  have ho := wrp_read_varui32_lt _ _ _ h2
  have hL := load_run type align w se vm vm.memory pa I32 rest
    vm.opcode_stream s1 s2 flags offset h1 h2
  have hS := store_run align w vm vm.memory ⟨pv, tv⟩ pa I32 rest
    vm.opcode_stream s1 s2 flags offset h1 h2
  rw [to_u32_decode_i32] at hL hS
  unfold PAGE_SIZE at hL hS
  generalize pa % 4294967296 = a at ha hL hS ⊢
  by_cases hov : 4294967296 ≤ a + offset
  · have c1 := (guard_wrap_iff a offset ha ho).mpr hov
    rw [if_pos c1] at hL hS
    exact ⟨⟨fun _ => Or.inl hov, fun _ => ⟨_, congrArg Prod.fst hL⟩⟩,
      fun h => absurd (Or.inl hov) h,
      ⟨fun _ => Or.inl hov, fun _ => ⟨_, congrArg Prod.fst hS⟩⟩,
      fun h => absurd (Or.inl hov) h⟩
  · have hlt : a + offset < 4294967296 := Nat.lt_of_not_le hov
    have c1 : ¬((a + offset) % 4294967296 < a ∨ (a + offset) % 4294967296 < offset) :=
      fun h => hov ((guard_wrap_iff a offset ha ho).mp h)
    rw [if_neg c1, guard_no_wrap a offset hlt, guard_size _ _ hlt hw8,
      if_neg (Nat.not_lt.mpr (Nat.le_add_right _ _))] at hL hS
    by_cases hoob : a + offset + w > vm.memory.num_pages * 65536
    · rw [if_pos hoob] at hL hS
      exact ⟨⟨fun _ => Or.inr hoob, fun _ => ⟨_, congrArg Prod.fst hL⟩⟩,
        fun h => absurd (Or.inr hoob) h,
        ⟨fun _ => Or.inr hoob, fun _ => ⟨_, congrArg Prod.fst hS⟩⟩,
        fun h => absurd (Or.inr hoob) h⟩
    · have hin : ¬(4294967296 ≤ a + offset ∨ a + offset + w > vm.memory.num_pages * 65536) :=
        fun h => h.elim hov hoob
      rw [if_neg hoob] at hL hS
      rw [push_op_run_fields _ _ _ _ _ _ hlen] at hL
      have hV := load_value_bytes vm.memory.bytes (a + offset) w se hw1 hw8
      have hM := memcpy_to_bytes vm.memory.bytes (a + offset) pv w
      refine ⟨⟨?_, fun h => absurd h hin⟩, fun _ => ⟨_, hL, hV.1, hV.2⟩,
        ⟨?_, fun h => absurd h hin⟩, fun _ => ⟨_, hS, hM.1, hM.2⟩⟩
      · rintro ⟨e, he⟩
        rw [hL] at he
        cases he
      · rintro ⟨e, he⟩
        rw [hS] at he
        cases he

/-- A 4-byte access at address `4` with offset `0` in one page of memory. -/
theorem load_store_bounds_witness :
    ((4 : Nat) = 1 ∨ (4 : Nat) = 2 ∨ (4 : Nat) = 4 ∨ (4 : Nat) = 8) ∧
    wrp_read_varui32 vm_access_example.opcode_stream = Except.ok (2, ⟨[2, 0], 2, 1⟩) ∧
    wrp_read_varui32 ⟨[2, 0], 2, 1⟩ = Except.ok (0, ⟨[2, 0], 2, 2⟩) ∧
    ([] : List wrp_oprd_t).length + 1 ≤ vm_access_example.oprd_stk_max ∧
    (((∃ e, (load I32 4 4 false { vm_access_example with oprd_stk := ⟨4, I32⟩ :: [] }).1 = Except.error e)
        ↔ (4294967296 ≤ 4 % 4294967296 + 0 ∨
          4 % 4294967296 + 0 + 4 > vm_access_example.memory.num_pages * 65536)) ∧
    (¬(4294967296 ≤ 4 % 4294967296 + 0 ∨
          4 % 4294967296 + 0 + 4 > vm_access_example.memory.num_pages * 65536) →
      ∃ v : Nat,
        load I32 4 4 false { vm_access_example with oprd_stk := ⟨4, I32⟩ :: [] }
          = (Except.ok (), { vm_access_example with oprd_stk := ⟨v, I32⟩ :: [], opcode_stream := ⟨[2, 0], 2, 2⟩ }) ∧
        (∀ i, i < 4 → byte_at v i = (vm_access_example.memory.bytes (4 % 4294967296 + 0 + i)).val) ∧
        (∀ i, 4 ≤ i → i < 8 →
          byte_at v i
            = if false = true ∧ 4 ≤ 4
                  ∧ 128 ≤ (vm_access_example.memory.bytes (4 % 4294967296 + 0 + 4 - 1)).val
              then 255 else 0)) ∧
    ((∃ e, (store 4 4 { vm_access_example with oprd_stk := ⟨287454020, I32⟩ :: ⟨4, I32⟩ :: [] }).1
          = Except.error e)
        ↔ (4294967296 ≤ 4 % 4294967296 + 0 ∨
          4 % 4294967296 + 0 + 4 > vm_access_example.memory.num_pages * 65536)) ∧
    (¬(4294967296 ≤ 4 % 4294967296 + 0 ∨
          4 % 4294967296 + 0 + 4 > vm_access_example.memory.num_pages * 65536) →
      ∃ bytes1 : Nat → Fin 256,
        store 4 4 { vm_access_example with oprd_stk := ⟨287454020, I32⟩ :: ⟨4, I32⟩ :: [] }
          = (Except.ok (),
              { vm_access_example with
                memory := { vm_access_example.memory with bytes := bytes1 }
                oprd_stk := []
                opcode_stream := ⟨[2, 0], 2, 2⟩ }) ∧
        (∀ i, i < 4 → (bytes1 (4 % 4294967296 + 0 + i)).val = byte_at 287454020 i) ∧
        (∀ j, (j < 4 % 4294967296 + 0 ∨ 4 % 4294967296 + 0 + 4 ≤ j) →
          bytes1 j = vm_access_example.memory.bytes j))) :=
  ⟨by decide, rfl, rfl, by decide,
    load_store_bounds vm_access_example I32 4 4 false 4 287454020 I32 [] ⟨[2, 0], 2, 1⟩
      ⟨[2, 0], 2, 2⟩ 2 0 (by decide) rfl rfl (by decide)⟩

/-! ## Error code of a trapping memory access (C4) -/

/-- C4, as stated, fails: an `i32.load` and an `i32.store` whose address `0xFFFFFFFF`
plus offset `1` wraps past `2^32` trap with i32-overflow, which is not
invalid-memory-access. -/
theorem load_store_wrap_error_code_counterexample :
    4294967296 ≤ 4294967295 % 4294967296 + 1 ∧
    wrp_read_varui32 vm_wrap_example.opcode_stream = Except.ok (2, ⟨[2, 1], 2, 1⟩) ∧
    wrp_read_varui32 ⟨[2, 1], 2, 1⟩ = Except.ok (1, ⟨[2, 1], 2, 2⟩) ∧
    (exec_i32_load_op vm_wrap_example).1 = Except.error wrp_err_t.WRP_ERR_I32_OVERFLOW ∧
    ¬((exec_i32_load_op vm_wrap_example).1
        = Except.error wrp_err_t.WRP_ERR_INVALID_MEMORY_ACCESS) ∧
    (exec_i32_store_op
        { vm_wrap_example with oprd_stk := [⟨7, I32⟩, ⟨4294967295, I32⟩] }).1
      = Except.error wrp_err_t.WRP_ERR_I32_OVERFLOW ∧
    ¬((exec_i32_store_op
        { vm_wrap_example with oprd_stk := [⟨7, I32⟩, ⟨4294967295, I32⟩] }).1
      = Except.error wrp_err_t.WRP_ERR_INVALID_MEMORY_ACCESS) := by
  have hload : (exec_i32_load_op vm_wrap_example).1
      = Except.error wrp_err_t.WRP_ERR_I32_OVERFLOW := rfl
  have hstore : (exec_i32_store_op
      { vm_wrap_example with oprd_stk := [⟨7, I32⟩, ⟨4294967295, I32⟩] }).1
      = Except.error wrp_err_t.WRP_ERR_I32_OVERFLOW := rfl
  refine ⟨by decide, rfl, rfl, hload, ?_, hstore, ?_⟩
  · rw [hload]
    intro h
    cases h
  · rw [hstore]
    intro h
    cases h

/-- C4, amended: for `load` and `store` with access width `w` in 1, 2, 4, 8, address `a`
and offset `o`: when `a + o` wraps past `2^32` the error code is i32-overflow;
when `a + o` does not wrap and `a + o + w` exceeds `num_pages * 65536` the error
code is invalid-memory-access (as for an `i32.load` at address 65535 with one
page of memory). -/
theorem load_store_error_code (vm : wrp_vm_t) (type : Int) (align w : Nat) (se : Bool)
    (pa pv : Nat) (tv : Int) (rest : List wrp_oprd_t) (s1 s2 : wrp_buf_t) (flags offset : Nat)
    (hw : w = 1 ∨ w = 2 ∨ w = 4 ∨ w = 8)
    (h1 : wrp_read_varui32 vm.opcode_stream = Except.ok (flags, s1))
    (h2 : wrp_read_varui32 s1 = Except.ok (offset, s2)) :
    (4294967296 ≤ pa % 4294967296 + offset →
      (load type align w se { vm with oprd_stk := ⟨pa, I32⟩ :: rest }).1
          = Except.error wrp_err_t.WRP_ERR_I32_OVERFLOW ∧
        (store align w { vm with oprd_stk := ⟨pv, tv⟩ :: ⟨pa, I32⟩ :: rest }).1
          = Except.error wrp_err_t.WRP_ERR_I32_OVERFLOW) ∧
    (pa % 4294967296 + offset < 4294967296 →
      pa % 4294967296 + offset + w > vm.memory.num_pages * 65536 →
      (load type align w se { vm with oprd_stk := ⟨pa, I32⟩ :: rest }).1
          = Except.error wrp_err_t.WRP_ERR_INVALID_MEMORY_ACCESS ∧
        (store align w { vm with oprd_stk := ⟨pv, tv⟩ :: ⟨pa, I32⟩ :: rest }).1
          = Except.error wrp_err_t.WRP_ERR_INVALID_MEMORY_ACCESS) := by
  have hw8 : w ≤ 8 := by omega
  have ha : pa % 4294967296 < 4294967296 := Nat.mod_lt _ (by decide)
  have ho := wrp_read_varui32_lt _ _ _ h2
  have hL := load_run type align w se vm vm.memory pa I32 rest
    vm.opcode_stream s1 s2 flags offset h1 h2
  have hS := store_run align w vm vm.memory ⟨pv, tv⟩ pa I32 rest
    vm.opcode_stream s1 s2 flags offset h1 h2
  rw [to_u32_decode_i32] at hL hS
  unfold PAGE_SIZE at hL hS
  generalize pa % 4294967296 = a at ha hL hS ⊢
  constructor
  · intro hov
    have c1 := (guard_wrap_iff a offset ha ho).mpr hov
    rw [if_pos c1] at hL hS
    exact ⟨congrArg Prod.fst hL, congrArg Prod.fst hS⟩
  · intro hlt hoob
    have c1 : ¬((a + offset) % 4294967296 < a ∨ (a + offset) % 4294967296 < offset) :=
      fun h => Nat.not_le.mpr hlt ((guard_wrap_iff a offset ha ho).mp h)
    rw [if_neg c1, guard_no_wrap a offset hlt, guard_size _ _ hlt hw8,
      if_neg (Nat.not_lt.mpr (Nat.le_add_right _ _)), if_pos hoob] at hL hS
    exact ⟨congrArg Prod.fst hL, congrArg Prod.fst hS⟩

/-- A 4-byte access at address `65535` with offset `0` in one page of memory. -/
theorem load_store_error_code_witness :
    ((4 : Nat) = 1 ∨ (4 : Nat) = 2 ∨ (4 : Nat) = 4 ∨ (4 : Nat) = 8) ∧
    wrp_read_varui32 vm_access_example.opcode_stream = Except.ok (2, ⟨[2, 0], 2, 1⟩) ∧
    wrp_read_varui32 ⟨[2, 0], 2, 1⟩ = Except.ok (0, ⟨[2, 0], 2, 2⟩) ∧
    65535 % 4294967296 + 0 + 4 > vm_access_example.memory.num_pages * 65536 ∧
    ((4294967296 ≤ 65535 % 4294967296 + 0 →
      (load I32 4 4 false { vm_access_example with oprd_stk := ⟨65535, I32⟩ :: [] }).1
          = Except.error wrp_err_t.WRP_ERR_I32_OVERFLOW ∧
        (store 4 4 { vm_access_example with oprd_stk := ⟨0, I32⟩ :: ⟨65535, I32⟩ :: [] }).1
          = Except.error wrp_err_t.WRP_ERR_I32_OVERFLOW) ∧
    (65535 % 4294967296 + 0 < 4294967296 →
      65535 % 4294967296 + 0 + 4 > vm_access_example.memory.num_pages * 65536 →
      (load I32 4 4 false { vm_access_example with oprd_stk := ⟨65535, I32⟩ :: [] }).1
          = Except.error wrp_err_t.WRP_ERR_INVALID_MEMORY_ACCESS ∧
        (store 4 4 { vm_access_example with oprd_stk := ⟨0, I32⟩ :: ⟨65535, I32⟩ :: [] }).1
          = Except.error wrp_err_t.WRP_ERR_INVALID_MEMORY_ACCESS)) :=
  ⟨by decide, rfl, rfl, by decide,
    load_store_error_code vm_access_example I32 4 4 false 65535 0 I32 [] ⟨[2, 0], 2, 1⟩
      ⟨[2, 0], 2, 2⟩ 2 0 (by decide) rfl rfl⟩

/-- The scenario of the specification: an `i32.load` at address 65535 with one page of
memory traps with invalid-memory-access. -/
theorem exec_i32_load_op_scenario :
    (exec_i32_load_op { vm_access_example with oprd_stk := [⟨65535, I32⟩] }).1
      = Except.error wrp_err_t.WRP_ERR_INVALID_MEMORY_ACCESS :=
  rfl

/-! ## Store followed by load (C5) -/

theorem memcpy_from_of_bytes (bytes : Nat → Fin 256) (ea p n : Nat)
    (h : ∀ i, i < n → (bytes (ea + i)).val = byte_at p i) :
    memcpy_from bytes ea n = p % 256 ^ n := by
  induction n with
  | zero => simp [memcpy_from, Nat.mod_one]
  | succ k ih =>
    have ihk := ih (fun i hi => h i (Nat.lt_succ_of_lt hi))
    rw [memcpy_from_succ, set_byte_fresh _ _ _ (memcpy_from_lt bytes ea k) (bytes (ea + k)).isLt,
      ihk, h k (Nat.lt_succ_self k), Nat.mod_pow_succ, byte_at, Nat.mul_comm]

theorem store_then_load_value (bytes : Nat → Fin 256) (ea p n : Nat) :
    memcpy_from (memcpy_to bytes ea p n) ea n = p % 256 ^ n :=
  memcpy_from_of_bytes _ ea p n (memcpy_to_bytes bytes ea p n).1

/-- C5: for every memory state, every value `v` and every address and offset whose
4-byte access is in bounds (the sum does not wrap and the access ends within the
memory), `i32.store` of `v` followed (in any later state with
the same memory) by `i32.load` with the same address and offset pushes the i32
whose payload is the low 32 bits of `v`, which decodes to the same `int32_t` as
`v`; the same holds for `i64.store` followed by `i64.load` with 8-byte values. -/
theorem store_load_round_trip (vm : wrp_vm_t) (pv pa : Nat) (rest : List wrp_oprd_t)
    (s1 s2 : wrp_buf_t) (flags offset : Nat)
    (h1 : wrp_read_varui32 vm.opcode_stream = Except.ok (flags, s1))
    (h2 : wrp_read_varui32 s1 = Except.ok (offset, s2))
    (hnw : pa % 4294967296 + offset < 4294967296) :
    (pa % 4294967296 + offset + 4 ≤ vm.memory.num_pages * 65536 →
      (∃ vm1 : wrp_vm_t,
        exec_i32_store_op { vm with oprd_stk := ⟨pv, I32⟩ :: ⟨pa, I32⟩ :: rest }
          = (Except.ok (), vm1) ∧
        vm1.oprd_stk = rest ∧
        ∀ (vm2 : wrp_vm_t) (rest2 : List wrp_oprd_t) (t1 t2 : wrp_buf_t) (flags2 : Nat),
          vm2.memory = vm1.memory →
          wrp_read_varui32 vm2.opcode_stream = Except.ok (flags2, t1) →
          wrp_read_varui32 t1 = Except.ok (offset, t2) →
          rest2.length + 1 ≤ vm2.oprd_stk_max →
          exec_i32_load_op { vm2 with oprd_stk := ⟨pa, I32⟩ :: rest2 }
            = (Except.ok (),
                { vm2 with oprd_stk := ⟨pv % 4294967296, I32⟩ :: rest2, opcode_stream := t2 })) ∧
      wrp_decode_i32 (pv % 4294967296) = wrp_decode_i32 pv) ∧
    (pa % 4294967296 + offset + 8 ≤ vm.memory.num_pages * 65536 →
      (∃ vm1 : wrp_vm_t,
        exec_i64_store_op { vm with oprd_stk := ⟨pv, I64⟩ :: ⟨pa, I32⟩ :: rest }
          = (Except.ok (), vm1) ∧
        vm1.oprd_stk = rest ∧
        ∀ (vm2 : wrp_vm_t) (rest2 : List wrp_oprd_t) (t1 t2 : wrp_buf_t) (flags2 : Nat),
          vm2.memory = vm1.memory →
          wrp_read_varui32 vm2.opcode_stream = Except.ok (flags2, t1) →
          wrp_read_varui32 t1 = Except.ok (offset, t2) →
          rest2.length + 1 ≤ vm2.oprd_stk_max →
          exec_i64_load_op { vm2 with oprd_stk := ⟨pa, I32⟩ :: rest2 }
            = (Except.ok (),
                { vm2 with oprd_stk := ⟨pv % 18446744073709551616, I64⟩ :: rest2, opcode_stream := t2 })) ∧
      wrp_decode_i64 (pv % 18446744073709551616) = wrp_decode_i64 pv) := by
  have ha : pa % 4294967296 < 4294967296 := Nat.mod_lt _ (by decide)
  have ho := wrp_read_varui32_lt _ _ _ h2
  generalize hA : pa % 4294967296 = a at ha hnw ⊢
  have hlt : a + offset < 4294967296 := hnw
  constructor
  · intro hin
    have c1 : ¬((a + offset) % 4294967296 < a ∨ (a + offset) % 4294967296 < offset) :=
      fun h => Nat.not_le.mpr hlt ((guard_wrap_iff a offset ha ho).mp h)
    have hS := store_run 4 4 vm vm.memory ⟨pv, I32⟩ pa I32 rest
      vm.opcode_stream s1 s2 flags offset h1 h2
    rw [to_u32_decode_i32, hA] at hS
    unfold PAGE_SIZE at hS
    rw [if_neg c1, guard_no_wrap a offset hlt, guard_size _ _ hlt (by decide),
      if_neg (Nat.not_lt.mpr (Nat.le_add_right _ _)), if_neg (Nat.not_lt.mpr hin)] at hS
    refine ⟨⟨_, hS, rfl, ?_⟩, ?_⟩
    · intro vm2 rest2 t1 t2 flags2 hmem g1 g2 hcap
      have hL := load_run I32 4 4 false vm2 vm2.memory pa I32 rest2 vm2.opcode_stream t1 t2 flags2 offset g1 g2
      rw [hmem, to_u32_decode_i32, hA] at hL
      unfold PAGE_SIZE at hL
      rw [if_neg c1, guard_no_wrap a offset hlt, guard_size _ _ hlt (by decide),
        if_neg (Nat.not_lt.mpr (Nat.le_add_right _ _)), if_neg (Nat.not_lt.mpr hin),
        Bool.false_and, if_neg Bool.false_ne_true,
        push_op_run_fields _ _ _ _ _ _ (Nat.lt_of_succ_le hcap)] at hL
      rw [store_then_load_value] at hL
      rw [← hmem] at hL
      exact hL
    · rw [wrp_decode_i32_eq, wrp_decode_i32_eq, Nat.mod_mod]
  · intro hin
    have c1 : ¬((a + offset) % 4294967296 < a ∨ (a + offset) % 4294967296 < offset) :=
      fun h => Nat.not_le.mpr hlt ((guard_wrap_iff a offset ha ho).mp h)
    have hS := store_run 8 8 vm vm.memory ⟨pv, I64⟩ pa I32 rest
      vm.opcode_stream s1 s2 flags offset h1 h2
    rw [to_u32_decode_i32, hA] at hS
    unfold PAGE_SIZE at hS
    rw [if_neg c1, guard_no_wrap a offset hlt, guard_size _ _ hlt (by decide),
      if_neg (Nat.not_lt.mpr (Nat.le_add_right _ _)), if_neg (Nat.not_lt.mpr hin)] at hS
    refine ⟨⟨_, hS, rfl, ?_⟩, ?_⟩
    · intro vm2 rest2 t1 t2 flags2 hmem g1 g2 hcap
      have hL := load_run I64 8 8 false vm2 vm2.memory pa I32 rest2 vm2.opcode_stream t1 t2 flags2 offset g1 g2
      rw [hmem, to_u32_decode_i32, hA] at hL
      unfold PAGE_SIZE at hL
      rw [if_neg c1, guard_no_wrap a offset hlt, guard_size _ _ hlt (by decide),
        if_neg (Nat.not_lt.mpr (Nat.le_add_right _ _)), if_neg (Nat.not_lt.mpr hin),
        Bool.false_and, if_neg Bool.false_ne_true,
        push_op_run_fields _ _ _ _ _ _ (Nat.lt_of_succ_le hcap)] at hL
      rw [store_then_load_value] at hL
      rw [← hmem] at hL
      exact hL
    · rw [wrp_decode_i64_eq, wrp_decode_i64_eq, Nat.mod_mod]

/-- The value `0x11223344` stored at address `4` with offset `0` in one page of
memory. -/
theorem store_load_round_trip_witness :
    wrp_read_varui32 vm_access_example.opcode_stream = Except.ok (2, ⟨[2, 0], 2, 1⟩) ∧
    wrp_read_varui32 ⟨[2, 0], 2, 1⟩ = Except.ok (0, ⟨[2, 0], 2, 2⟩) ∧
    4 % 4294967296 + 0 < 4294967296 ∧
    4 % 4294967296 + 0 + 4 ≤ vm_access_example.memory.num_pages * 65536 ∧
    4 % 4294967296 + 0 + 8 ≤ vm_access_example.memory.num_pages * 65536 ∧
    ((4 % 4294967296 + 0 + 4 ≤ vm_access_example.memory.num_pages * 65536 →
      (∃ vm1 : wrp_vm_t,
        exec_i32_store_op { vm_access_example with oprd_stk := ⟨287454020, I32⟩ :: ⟨4, I32⟩ :: [] }
          = (Except.ok (), vm1) ∧
        vm1.oprd_stk = [] ∧
        ∀ (vm2 : wrp_vm_t) (rest2 : List wrp_oprd_t) (t1 t2 : wrp_buf_t) (flags2 : Nat),
          vm2.memory = vm1.memory →
          wrp_read_varui32 vm2.opcode_stream = Except.ok (flags2, t1) →
          wrp_read_varui32 t1 = Except.ok (0, t2) →
          rest2.length + 1 ≤ vm2.oprd_stk_max →
          exec_i32_load_op { vm2 with oprd_stk := ⟨4, I32⟩ :: rest2 }
            = (Except.ok (),
                { vm2 with oprd_stk := ⟨287454020 % 4294967296, I32⟩ :: rest2, opcode_stream := t2 })) ∧
      wrp_decode_i32 (287454020 % 4294967296) = wrp_decode_i32 287454020) ∧
    (4 % 4294967296 + 0 + 8 ≤ vm_access_example.memory.num_pages * 65536 →
      (∃ vm1 : wrp_vm_t,
        exec_i64_store_op { vm_access_example with oprd_stk := ⟨287454020, I64⟩ :: ⟨4, I32⟩ :: [] }
          = (Except.ok (), vm1) ∧
        vm1.oprd_stk = [] ∧
        ∀ (vm2 : wrp_vm_t) (rest2 : List wrp_oprd_t) (t1 t2 : wrp_buf_t) (flags2 : Nat),
          vm2.memory = vm1.memory →
          wrp_read_varui32 vm2.opcode_stream = Except.ok (flags2, t1) →
          wrp_read_varui32 t1 = Except.ok (0, t2) →
          rest2.length + 1 ≤ vm2.oprd_stk_max →
          exec_i64_load_op { vm2 with oprd_stk := ⟨4, I32⟩ :: rest2 }
            = (Except.ok (),
                { vm2 with oprd_stk := ⟨287454020 % 18446744073709551616, I64⟩ :: rest2, opcode_stream := t2 })) ∧
      wrp_decode_i64 (287454020 % 18446744073709551616) = wrp_decode_i64 287454020)) :=
  ⟨rfl, rfl, by decide, by decide, by decide,
    store_load_round_trip vm_access_example 287454020 4 [] ⟨[2, 0], 2, 1⟩ ⟨[2, 0], 2, 2⟩ 2 0
      rfl rfl (by decide)⟩

/-- The scenario of the specification: `0x11223344` stored at address 4 by `i32.store`
is loaded back by `i32.load` as `0x11223344`. -/
theorem store_load_scenario :
    ∃ vm1 : wrp_vm_t,
      exec_i32_store_op
          { vm_access_example with oprd_stk := [⟨0x11223344, I32⟩, ⟨4, I32⟩] }
        = (Except.ok (), vm1) ∧
      (exec_i32_load_op
          { vm1 with
            oprd_stk := [⟨4, I32⟩]
            opcode_stream := vm_access_example.opcode_stream }).1 = Except.ok () ∧
      (exec_i32_load_op
          { vm1 with
            oprd_stk := [⟨4, I32⟩]
            opcode_stream := vm_access_example.opcode_stream }).2.oprd_stk
        = [⟨0x11223344, I32⟩] :=
  ⟨_, rfl, rfl, rfl⟩

/-! ## Growing the memory (C6, C7) -/

/-- C6: `exec_grow_memory_op` evaluated with two pages, a maximum of ten pages, the
delta `0xFFFFFFFF` and an allocator that returns a buffer. As natural numbers
`2 + 0xFFFFFFFF` exceeds the maximum, yet the handler pushes the old page count
`2` instead of `-1` and sets `num_pages` to `1`: the 32-bit sum wraps to `1`,
which passes the comparison with the maximum. -/
theorem exec_grow_memory_op_at_failing_input :
    vm_grow_example.memory.num_pages + 4294967295 % 4294967296
      > vm_grow_example.memory.max_pages ∧
    wrp_read_vari32 vm_grow_example.opcode_stream = Except.ok (0, ⟨[0], 1, 1⟩) ∧
    (exec_grow_memory_op { vm_grow_example with oprd_stk := [⟨4294967295, I32⟩] }).1
      = Except.ok () ∧
    (exec_grow_memory_op { vm_grow_example with oprd_stk := [⟨4294967295, I32⟩] }).2.oprd_stk
      = [⟨2, I32⟩] ∧
    (exec_grow_memory_op
        { vm_grow_example with oprd_stk := [⟨4294967295, I32⟩] }).2.memory.num_pages
      = 1 :=
  ⟨by decide, rfl, rfl, rfl, rfl⟩

/-- C7: `exec_grow_memory_op` with current page count `p` and delta `d`: when `d = 0`
it pushes `p` and changes nothing else; when `d != 0`, `p + d <= max_pages` and
the allocator returns a buffer, it pushes the pre-growth count `p`, sets
`num_pages` to `p + d`, and the first `p * 65536` bytes of the new buffer equal
the old memory contents; when the allocator returns null it pushes `-1` and
leaves the buffer and `num_pages` unchanged. -/
theorem exec_grow_memory_op_contract (vm : wrp_vm_t) (pd : Nat) (rest : List wrp_oprd_t)
    (s1 : wrp_buf_t) (reserved : Int)
    (h : wrp_read_vari32 vm.opcode_stream = Except.ok (reserved, s1))
    (hcap : rest.length + 1 ≤ vm.oprd_stk_max)
    (hp : vm.memory.num_pages < 4294967296)
    (hm : vm.memory.max_pages < 4294967296) :
    (pd % 4294967296 = 0 →
      exec_grow_memory_op { vm with oprd_stk := ⟨pd, I32⟩ :: rest }
        = (Except.ok (),
            { vm with
              oprd_stk := ⟨vm.memory.num_pages, I32⟩ :: rest
              opcode_stream := s1 })) ∧
    (pd % 4294967296 ≠ 0 →
      vm.memory.num_pages + pd % 4294967296 ≤ vm.memory.max_pages →
      ∀ buf : Nat → Fin 256,
        vm.alloc_fn ((vm.memory.num_pages + pd % 4294967296) * 65536) 64 = some buf →
        ∃ bytes1 : Nat → Fin 256,
          exec_grow_memory_op { vm with oprd_stk := ⟨pd, I32⟩ :: rest }
            = (Except.ok (),
                { vm with
                  memory :=
                    { vm.memory with
                      bytes := bytes1
                      num_pages := vm.memory.num_pages + pd % 4294967296 }
                  oprd_stk := ⟨vm.memory.num_pages, I32⟩ :: rest
                  opcode_stream := s1 }) ∧
          ∀ j, j < vm.memory.num_pages * 65536 → bytes1 j = vm.memory.bytes j) ∧
    (pd % 4294967296 ≠ 0 →
      vm.alloc_fn ((vm.memory.num_pages + pd % 4294967296) % 4294967296 * 65536) 64 = none →
      exec_grow_memory_op { vm with oprd_stk := ⟨pd, I32⟩ :: rest }
          = (Except.ok (),
              { vm with oprd_stk := ⟨4294967295, I32⟩ :: rest, opcode_stream := s1 }) ∧
        wrp_decode_i32 4294967295 = -1) := by
  have hlen : rest.length < vm.oprd_stk_max := Nat.lt_of_succ_le hcap
  have hz := wrp_decode_i32_eq_zero pd
  have hG := exec_grow_memory_op_run vm vm.memory pd I32 rest
    vm.opcode_stream s1 reserved h
  rw [to_u32_decode_i32] at hG
  unfold PAGE_SIZE at hG
  have hpush : to_u32 (to_i32 (vm.memory.num_pages : Int)) = vm.memory.num_pages :=
    to_u32_to_i32_cast _ hp
  refine ⟨?_, ?_, ?_⟩
  · intro hd
    rw [if_pos (hz.mpr hd), push_i32_run_fields _ _ _ _ _ hlen, hpush] at hG
    exact hG
  · intro hd hle buf hbuf
    have hsum : (vm.memory.num_pages + pd % 4294967296) % 4294967296
        = vm.memory.num_pages + pd % 4294967296 :=
      Nat.mod_eq_of_lt (Nat.lt_of_le_of_lt hle hm)
    rw [if_neg (fun h0 => hd (hz.mp h0)), hsum, if_neg (Nat.not_lt.mpr hle), hbuf] at hG
    simp only [] at hG
    rw [push_i32_run_fields _ _ _ _ _ hlen, hpush] at hG
    refine ⟨_, hG, ?_⟩
    intro j hj
    exact if_pos hj
  · intro hd hnone
    refine ⟨?_, rfl⟩
    rw [if_neg (fun h0 => hd (hz.mp h0))] at hG
    by_cases hgt : (vm.memory.num_pages + pd % 4294967296) % 4294967296 > vm.memory.max_pages
    · rw [if_pos hgt, push_i32_run_fields _ _ _ _ _ hlen] at hG
      exact hG
    · rw [if_neg hgt, hnone] at hG
      simp only [] at hG
      rw [push_i32_run_fields _ _ _ _ _ hlen] at hG
      exact hG

/-- Growing two pages by three with a maximum of ten. -/
theorem exec_grow_memory_op_contract_witness :
    wrp_read_vari32 vm_grow_example.opcode_stream = Except.ok (0, ⟨[0], 1, 1⟩) ∧
    ([] : List wrp_oprd_t).length + 1 ≤ vm_grow_example.oprd_stk_max ∧
    vm_grow_example.memory.num_pages < 4294967296 ∧
    vm_grow_example.memory.max_pages < 4294967296 ∧
    3 % 4294967296 ≠ 0 ∧
    vm_grow_example.memory.num_pages + 3 % 4294967296 ≤ vm_grow_example.memory.max_pages ∧
    ((3 % 4294967296 = 0 →
      exec_grow_memory_op { vm_grow_example with oprd_stk := ⟨3, I32⟩ :: [] }
        = (Except.ok (),
            { vm_grow_example with
              oprd_stk := ⟨vm_grow_example.memory.num_pages, I32⟩ :: []
              opcode_stream := ⟨[0], 1, 1⟩ })) ∧
    (3 % 4294967296 ≠ 0 →
      vm_grow_example.memory.num_pages + 3 % 4294967296 ≤ vm_grow_example.memory.max_pages →
      ∀ buf : Nat → Fin 256,
        vm_grow_example.alloc_fn ((vm_grow_example.memory.num_pages + 3 % 4294967296) * 65536) 64 = some buf →
        ∃ bytes1 : Nat → Fin 256,
          exec_grow_memory_op { vm_grow_example with oprd_stk := ⟨3, I32⟩ :: [] }
            = (Except.ok (),
                { vm_grow_example with
                  memory :=
                    { vm_grow_example.memory with
                      bytes := bytes1
                      num_pages := vm_grow_example.memory.num_pages + 3 % 4294967296 }
                  oprd_stk := ⟨vm_grow_example.memory.num_pages, I32⟩ :: []
                  opcode_stream := ⟨[0], 1, 1⟩ }) ∧
          ∀ j, j < vm_grow_example.memory.num_pages * 65536 → bytes1 j = vm_grow_example.memory.bytes j) ∧
    (3 % 4294967296 ≠ 0 →
      vm_grow_example.alloc_fn ((vm_grow_example.memory.num_pages + 3 % 4294967296) % 4294967296 * 65536) 64 = none →
      exec_grow_memory_op { vm_grow_example with oprd_stk := ⟨3, I32⟩ :: [] }
          = (Except.ok (),
              { vm_grow_example with oprd_stk := ⟨4294967295, I32⟩ :: [], opcode_stream := ⟨[0], 1, 1⟩ }) ∧
        wrp_decode_i32 4294967295 = -1)) :=
  ⟨rfl, by decide, by decide, by decide, by decide, by decide,
    exec_grow_memory_op_contract vm_grow_example 3 [] ⟨[0], 1, 1⟩ 0 rfl (by decide) (by decide)
      (by decide)⟩

/-! ## The handlers as instances of `load` and `store` -/

/-- Every load handler is `load` at one of the widths 1, 2, 4, 8, and every store
handler is `store` at one of these widths. -/
theorem load_store_handler_widths :
    (exec_i32_load_op = load I32 4 4 false ∧ exec_i64_load_op = load I64 8 8 false ∧
      exec_f32_load_op = load F32 4 4 false ∧ exec_f64_load_op = load F64 8 8 false ∧
      exec_i32_load_8_s_op = load I32 4 1 true ∧ exec_i32_load_8_u_op = load I32 4 1 false ∧
      exec_i32_load_16_s_op = load I32 4 2 true ∧ exec_i32_load_16_u_op = load I32 4 2 false ∧
      exec_i64_load_8_s_op = load I64 8 1 true ∧ exec_i64_load_8_u_op = load I64 8 1 false ∧
      exec_i64_load_16_s_op = load I64 8 2 true ∧ exec_i64_load_16_u_op = load I64 8 2 false ∧
      exec_i64_load_32_s_op = load I64 8 4 true ∧ exec_i64_load_32_u_op = load I64 8 4 false) ∧
    (exec_i32_store_op = store 4 4 ∧ exec_i64_store_op = store 8 8 ∧
      exec_f32_store_op = store 4 4 ∧ exec_f64_store_op = store 8 8 ∧
      exec_i32_store_8_op = store 1 1 ∧ exec_i32_store_16_op = store 2 2 ∧
      exec_i64_store_8_op = store 1 1 ∧ exec_i64_store_16_op = store 2 2 ∧
      exec_i64_store_32_op = store 4 4) :=
  ⟨⟨rfl, rfl, rfl, rfl, rfl, rfl, rfl, rfl, rfl, rfl, rfl, rfl, rfl, rfl⟩,
    ⟨rfl, rfl, rfl, rfl, rfl, rfl, rfl, rfl, rfl⟩⟩
/-! ## Facts about wrapping results -/

theorem to_u32_to_i32 (t : Int) : to_u32 (to_i32 t) = to_u32 t := by
  unfold to_u32 to_i32
  congr 1
  omega

theorem to_u64_to_i64 (t : Int) : to_u64 (to_i64 t) = to_u64 t := by
  unfold to_u64 to_i64
  congr 1
  omega

theorem to_u32_cast (t : Int) : ((to_u32 t : Nat) : Int) = t % 4294967296 := by
  unfold to_u32
  exact Int.toNat_of_nonneg (Int.emod_nonneg _ (by norm_num))

theorem to_u64_cast (t : Int) : ((to_u64 t : Nat) : Int) = t % 18446744073709551616 := by
  unfold to_u64
  exact Int.toNat_of_nonneg (Int.emod_nonneg _ (by norm_num))

theorem wrp_decode_i32_wrap (t : Int) : wrp_decode_i32 (to_u32 t) = to_i32 t := by
  rw [wrp_decode_i32_eq, Nat.mod_eq_of_lt (to_u32_lt t), to_u32_cast]
  unfold to_i32
  omega

theorem wrp_decode_i64_wrap (t : Int) : wrp_decode_i64 (to_u64 t) = to_i64 t := by
  rw [wrp_decode_i64_eq, Nat.mod_eq_of_lt (to_u64_lt t), to_u64_cast]
  unfold to_i64
  omega

/-! ## Addition, subtraction and multiplication (C11) -/

/-- C11: on a stack holding `x` (pushed first) and `y` (top), the handlers
`exec_i32_add_op`, `exec_i32_sub_op` and `exec_i32_mul_op` succeed and replace the
two operands by an i32 cell whose payload is `x + y`, `x - y`, `x * y` reduced
modulo 2^32, which decodes to the two's-complement value of the result; the i64
handlers do the same modulo 2^64. -/
theorem exec_add_sub_mul_op_contract (vm : wrp_vm_t) (px py : Nat) (rest : List wrp_oprd_t)
    (hcap : rest.length + 2 ≤ vm.oprd_stk_max) :
    (∃ r : Nat,
      exec_i32_add_op { vm with oprd_stk := ⟨py, I32⟩ :: ⟨px, I32⟩ :: rest }
        = (Except.ok (), { vm with oprd_stk := ⟨r, I32⟩ :: rest }) ∧
      (r : Int) = (wrp_decode_i32 px + wrp_decode_i32 py) % 4294967296 ∧
      wrp_decode_i32 r = to_i32 (wrp_decode_i32 px + wrp_decode_i32 py)) ∧
    (∃ r : Nat,
      exec_i32_sub_op { vm with oprd_stk := ⟨py, I32⟩ :: ⟨px, I32⟩ :: rest }
        = (Except.ok (), { vm with oprd_stk := ⟨r, I32⟩ :: rest }) ∧
      (r : Int) = (wrp_decode_i32 px - wrp_decode_i32 py) % 4294967296 ∧
      wrp_decode_i32 r = to_i32 (wrp_decode_i32 px - wrp_decode_i32 py)) ∧
    (∃ r : Nat,
      exec_i32_mul_op { vm with oprd_stk := ⟨py, I32⟩ :: ⟨px, I32⟩ :: rest }
        = (Except.ok (), { vm with oprd_stk := ⟨r, I32⟩ :: rest }) ∧
      (r : Int) = (wrp_decode_i32 px * wrp_decode_i32 py) % 4294967296 ∧
      wrp_decode_i32 r = to_i32 (wrp_decode_i32 px * wrp_decode_i32 py)) ∧
    (∃ r : Nat,
      exec_i64_add_op { vm with oprd_stk := ⟨py, I64⟩ :: ⟨px, I64⟩ :: rest }
        = (Except.ok (), { vm with oprd_stk := ⟨r, I64⟩ :: rest }) ∧
      (r : Int) = (wrp_decode_i64 px + wrp_decode_i64 py) % 18446744073709551616 ∧
      wrp_decode_i64 r = to_i64 (wrp_decode_i64 px + wrp_decode_i64 py)) ∧
    (∃ r : Nat,
      exec_i64_sub_op { vm with oprd_stk := ⟨py, I64⟩ :: ⟨px, I64⟩ :: rest }
        = (Except.ok (), { vm with oprd_stk := ⟨r, I64⟩ :: rest }) ∧
      (r : Int) = (wrp_decode_i64 px - wrp_decode_i64 py) % 18446744073709551616 ∧
      wrp_decode_i64 r = to_i64 (wrp_decode_i64 px - wrp_decode_i64 py)) ∧
    (∃ r : Nat,
      exec_i64_mul_op { vm with oprd_stk := ⟨py, I64⟩ :: ⟨px, I64⟩ :: rest }
        = (Except.ok (), { vm with oprd_stk := ⟨r, I64⟩ :: rest }) ∧
      (r : Int) = (wrp_decode_i64 px * wrp_decode_i64 py) % 18446744073709551616 ∧
      wrp_decode_i64 r = to_i64 (wrp_decode_i64 px * wrp_decode_i64 py)) := by
  have hlen : rest.length < vm.oprd_stk_max := by omega
  refine ⟨?_, ?_, ?_, ?_, ?_, ?_⟩
  · refine ⟨to_u32 (wrp_decode_i32 px + wrp_decode_i32 py), ?_, to_u32_cast _, wrp_decode_i32_wrap _⟩
    unfold exec_i32_add_op
    rw [bind_run_ok _ _ _ _ _ (pop_i32_run vm py I32 (⟨px, I32⟩ :: rest)),
      bind_run_ok _ _ _ _ _ (pop_i32_run vm px I32 rest),
      push_i32_run vm rest _ hlen, to_u32_to_i32]
  · refine ⟨to_u32 (wrp_decode_i32 px - wrp_decode_i32 py), ?_, to_u32_cast _, wrp_decode_i32_wrap _⟩
    unfold exec_i32_sub_op
    rw [bind_run_ok _ _ _ _ _ (pop_i32_run vm py I32 (⟨px, I32⟩ :: rest)),
      bind_run_ok _ _ _ _ _ (pop_i32_run vm px I32 rest),
      push_i32_run vm rest _ hlen, to_u32_to_i32]
  · refine ⟨to_u32 (wrp_decode_i32 px * wrp_decode_i32 py), ?_, to_u32_cast _, wrp_decode_i32_wrap _⟩
    unfold exec_i32_mul_op
    rw [bind_run_ok _ _ _ _ _ (pop_i32_run vm py I32 (⟨px, I32⟩ :: rest)),
      bind_run_ok _ _ _ _ _ (pop_i32_run vm px I32 rest),
      push_i32_run vm rest _ hlen, to_u32_to_i32]
  · refine ⟨to_u64 (wrp_decode_i64 px + wrp_decode_i64 py), ?_, to_u64_cast _, wrp_decode_i64_wrap _⟩
    unfold exec_i64_add_op
    rw [bind_run_ok _ _ _ _ _ (pop_i64_run vm py I64 (⟨px, I64⟩ :: rest)),
      bind_run_ok _ _ _ _ _ (pop_i64_run vm px I64 rest),
      push_i64_run vm rest _ hlen, to_u64_to_i64]
  · refine ⟨to_u64 (wrp_decode_i64 px - wrp_decode_i64 py), ?_, to_u64_cast _, wrp_decode_i64_wrap _⟩
    unfold exec_i64_sub_op
    rw [bind_run_ok _ _ _ _ _ (pop_i64_run vm py I64 (⟨px, I64⟩ :: rest)),
      bind_run_ok _ _ _ _ _ (pop_i64_run vm px I64 rest),
      push_i64_run vm rest _ hlen, to_u64_to_i64]
  · refine ⟨to_u64 (wrp_decode_i64 px * wrp_decode_i64 py), ?_, to_u64_cast _, wrp_decode_i64_wrap _⟩
    unfold exec_i64_mul_op
    rw [bind_run_ok _ _ _ _ _ (pop_i64_run vm py I64 (⟨px, I64⟩ :: rest)),
      bind_run_ok _ _ _ _ _ (pop_i64_run vm px I64 rest),
      push_i64_run vm rest _ hlen, to_u64_to_i64]


/-- The contract of addition, subtraction and multiplication at the operands
`2147483647` and `3` on an empty rest of the stack. -/
theorem exec_add_sub_mul_op_contract_witness :
    ([] : List wrp_oprd_t).length + 2 ≤ vm_example.oprd_stk_max ∧
    ((∃ r : Nat,
      exec_i32_add_op { vm_example with oprd_stk := ⟨3, I32⟩ :: ⟨2147483647, I32⟩ :: [] }
        = (Except.ok (), { vm_example with oprd_stk := ⟨r, I32⟩ :: [] }) ∧
      (r : Int) = (wrp_decode_i32 2147483647 + wrp_decode_i32 3) % 4294967296 ∧
      wrp_decode_i32 r = to_i32 (wrp_decode_i32 2147483647 + wrp_decode_i32 3)) ∧
    (∃ r : Nat,
      exec_i32_sub_op { vm_example with oprd_stk := ⟨3, I32⟩ :: ⟨2147483647, I32⟩ :: [] }
        = (Except.ok (), { vm_example with oprd_stk := ⟨r, I32⟩ :: [] }) ∧
      (r : Int) = (wrp_decode_i32 2147483647 - wrp_decode_i32 3) % 4294967296 ∧
      wrp_decode_i32 r = to_i32 (wrp_decode_i32 2147483647 - wrp_decode_i32 3)) ∧
    (∃ r : Nat,
      exec_i32_mul_op { vm_example with oprd_stk := ⟨3, I32⟩ :: ⟨2147483647, I32⟩ :: [] }
        = (Except.ok (), { vm_example with oprd_stk := ⟨r, I32⟩ :: [] }) ∧
      (r : Int) = (wrp_decode_i32 2147483647 * wrp_decode_i32 3) % 4294967296 ∧
      wrp_decode_i32 r = to_i32 (wrp_decode_i32 2147483647 * wrp_decode_i32 3)) ∧
    (∃ r : Nat,
      exec_i64_add_op { vm_example with oprd_stk := ⟨3, I64⟩ :: ⟨2147483647, I64⟩ :: [] }
        = (Except.ok (), { vm_example with oprd_stk := ⟨r, I64⟩ :: [] }) ∧
      (r : Int) = (wrp_decode_i64 2147483647 + wrp_decode_i64 3) % 18446744073709551616 ∧
      wrp_decode_i64 r = to_i64 (wrp_decode_i64 2147483647 + wrp_decode_i64 3)) ∧
    (∃ r : Nat,
      exec_i64_sub_op { vm_example with oprd_stk := ⟨3, I64⟩ :: ⟨2147483647, I64⟩ :: [] }
        = (Except.ok (), { vm_example with oprd_stk := ⟨r, I64⟩ :: [] }) ∧
      (r : Int) = (wrp_decode_i64 2147483647 - wrp_decode_i64 3) % 18446744073709551616 ∧
      wrp_decode_i64 r = to_i64 (wrp_decode_i64 2147483647 - wrp_decode_i64 3)) ∧
    (∃ r : Nat,
      exec_i64_mul_op { vm_example with oprd_stk := ⟨3, I64⟩ :: ⟨2147483647, I64⟩ :: [] }
        = (Except.ok (), { vm_example with oprd_stk := ⟨r, I64⟩ :: [] }) ∧
      (r : Int) = (wrp_decode_i64 2147483647 * wrp_decode_i64 3) % 18446744073709551616 ∧
      wrp_decode_i64 r = to_i64 (wrp_decode_i64 2147483647 * wrp_decode_i64 3))) :=
  ⟨by decide, exec_add_sub_mul_op_contract vm_example 2147483647 3 [] (by decide)⟩

/-- The sum `2147483647 + 1` wraps to `INT32_MIN` and the product `65536 * 65536` wraps
to `0`. -/
theorem exec_i32_add_op_scenario :
    exec_i32_add_op { vm_example with oprd_stk := [⟨1, I32⟩, ⟨2147483647, I32⟩] }
      = (Except.ok (), { vm_example with oprd_stk := [⟨2147483648, I32⟩] }) ∧
    exec_i32_mul_op { vm_example with oprd_stk := [⟨65536, I32⟩, ⟨65536, I32⟩] }
      = (Except.ok (), { vm_example with oprd_stk := [⟨0, I32⟩] }) :=
  ⟨rfl, rfl⟩
/-! ## Handlers that are not implemented (C19) -/

/-- C19: in every state the handlers `exec_call_indirect_op` and `exec_tee_local_op`
return the error unknown and leave the whole state, so the operand, control and
call stacks and the cursor, as it was; the code unknown differs from
invalid-opcode. -/
theorem exec_call_indirect_tee_local_op_unknown (vm : wrp_vm_t) :
    exec_call_indirect_op vm = (Except.error wrp_err_t.WRP_ERR_UNKNOWN, vm) ∧
    exec_tee_local_op vm = (Except.error wrp_err_t.WRP_ERR_UNKNOWN, vm) ∧
    (exec_call_indirect_op vm).2.oprd_stk = vm.oprd_stk ∧
    (exec_call_indirect_op vm).2.ctrl_stk = vm.ctrl_stk ∧
    (exec_call_indirect_op vm).2.call_stk = vm.call_stk ∧
    (exec_call_indirect_op vm).2.opcode_stream = vm.opcode_stream ∧
    (exec_tee_local_op vm).2.oprd_stk = vm.oprd_stk ∧
    (exec_tee_local_op vm).2.ctrl_stk = vm.ctrl_stk ∧
    (exec_tee_local_op vm).2.call_stk = vm.call_stk ∧
    (exec_tee_local_op vm).2.opcode_stream = vm.opcode_stream ∧
    wrp_err_t.WRP_ERR_UNKNOWN ≠ wrp_err_t.WRP_ERR_INVALID_OPCODE :=
  ⟨rfl, rfl, rfl, rfl, rfl, rfl, rfl, rfl, rfl, rfl, by decide⟩

/-! ## Reinterpretation (C16) -/

/-- C16: on a stack whose top cell is tagged f32 with payload `p`,
`exec_i32_reinterpret_f32_op` succeeds and leaves the payload `p` tagged i32, and
`exec_f32_reinterpret_i32_op` run on that state restores the starting state exactly;
the same holds for f64 with `exec_i64_reinterpret_f64_op` and
`exec_f64_reinterpret_i64_op`. The payload `p` is any number, so any bit pattern. -/
theorem reinterpret_round_trip (vm : wrp_vm_t) (p : Nat) (rest : List wrp_oprd_t)
    (hcap : rest.length + 1 ≤ vm.oprd_stk_max) :
    (exec_i32_reinterpret_f32_op { vm with oprd_stk := ⟨p, F32⟩ :: rest }
        = (Except.ok (), { vm with oprd_stk := ⟨p, I32⟩ :: rest }) ∧
      exec_f32_reinterpret_i32_op { vm with oprd_stk := ⟨p, I32⟩ :: rest }
        = (Except.ok (), { vm with oprd_stk := ⟨p, F32⟩ :: rest }) ∧
      (exec_i32_reinterpret_f32_op >>= fun _ => exec_f32_reinterpret_i32_op)
          { vm with oprd_stk := ⟨p, F32⟩ :: rest }
        = (Except.ok (), { vm with oprd_stk := ⟨p, F32⟩ :: rest })) ∧
    (exec_i64_reinterpret_f64_op { vm with oprd_stk := ⟨p, F64⟩ :: rest }
        = (Except.ok (), { vm with oprd_stk := ⟨p, I64⟩ :: rest }) ∧
      exec_f64_reinterpret_i64_op { vm with oprd_stk := ⟨p, I64⟩ :: rest }
        = (Except.ok (), { vm with oprd_stk := ⟨p, F64⟩ :: rest }) ∧
      (exec_i64_reinterpret_f64_op >>= fun _ => exec_f64_reinterpret_i64_op)
          { vm with oprd_stk := ⟨p, F64⟩ :: rest }
        = (Except.ok (), { vm with oprd_stk := ⟨p, F64⟩ :: rest })) := by
  have hlen : rest.length < vm.oprd_stk_max := by omega
  have a1 : exec_i32_reinterpret_f32_op { vm with oprd_stk := ⟨p, F32⟩ :: rest }
      = (Except.ok (), { vm with oprd_stk := ⟨p, I32⟩ :: rest }) := by
    unfold exec_i32_reinterpret_f32_op
    rw [bind_run_ok _ _ _ _ _ (pop_op_run vm ⟨p, F32⟩ rest)]
    exact push_op_run vm rest p I32 hlen
  have a2 : exec_f32_reinterpret_i32_op { vm with oprd_stk := ⟨p, I32⟩ :: rest }
      = (Except.ok (), { vm with oprd_stk := ⟨p, F32⟩ :: rest }) := by
    unfold exec_f32_reinterpret_i32_op
    rw [bind_run_ok _ _ _ _ _ (pop_op_run vm ⟨p, I32⟩ rest)]
    exact push_op_run vm rest p F32 hlen
  have b1 : exec_i64_reinterpret_f64_op { vm with oprd_stk := ⟨p, F64⟩ :: rest }
      = (Except.ok (), { vm with oprd_stk := ⟨p, I64⟩ :: rest }) := by
    unfold exec_i64_reinterpret_f64_op
    rw [bind_run_ok _ _ _ _ _ (pop_op_run vm ⟨p, F64⟩ rest)]
    exact push_op_run vm rest p I64 hlen
  have b2 : exec_f64_reinterpret_i64_op { vm with oprd_stk := ⟨p, I64⟩ :: rest }
      = (Except.ok (), { vm with oprd_stk := ⟨p, F64⟩ :: rest }) := by
    unfold exec_f64_reinterpret_i64_op
    rw [bind_run_ok _ _ _ _ _ (pop_op_run vm ⟨p, I64⟩ rest)]
    exact push_op_run vm rest p F64 hlen
  refine ⟨⟨a1, a2, ?_⟩, ⟨b1, b2, ?_⟩⟩
  · rw [bind_run_ok _ _ _ _ _ a1]
    exact a2
  · rw [bind_run_ok _ _ _ _ _ b1]
    exact b2

/-- The round trip of reinterpretation at the payload `0xFFF8000000000001`, a NaN
pattern with a payload bit, on an empty rest of the stack. -/
theorem reinterpret_round_trip_witness :
    ([] : List wrp_oprd_t).length + 1 ≤ vm_example.oprd_stk_max ∧
    ((exec_i32_reinterpret_f32_op { vm_example with oprd_stk := ⟨18444492273895866369, F32⟩ :: [] }
        = (Except.ok (), { vm_example with oprd_stk := ⟨18444492273895866369, I32⟩ :: [] }) ∧
      exec_f32_reinterpret_i32_op { vm_example with oprd_stk := ⟨18444492273895866369, I32⟩ :: [] }
        = (Except.ok (), { vm_example with oprd_stk := ⟨18444492273895866369, F32⟩ :: [] }) ∧
      (exec_i32_reinterpret_f32_op >>= fun _ => exec_f32_reinterpret_i32_op)
          { vm_example with oprd_stk := ⟨18444492273895866369, F32⟩ :: [] }
        = (Except.ok (), { vm_example with oprd_stk := ⟨18444492273895866369, F32⟩ :: [] })) ∧
    (exec_i64_reinterpret_f64_op { vm_example with oprd_stk := ⟨18444492273895866369, F64⟩ :: [] }
        = (Except.ok (), { vm_example with oprd_stk := ⟨18444492273895866369, I64⟩ :: [] }) ∧
      exec_f64_reinterpret_i64_op { vm_example with oprd_stk := ⟨18444492273895866369, I64⟩ :: [] }
        = (Except.ok (), { vm_example with oprd_stk := ⟨18444492273895866369, F64⟩ :: [] }) ∧
      (exec_i64_reinterpret_f64_op >>= fun _ => exec_f64_reinterpret_i64_op)
          { vm_example with oprd_stk := ⟨18444492273895866369, F64⟩ :: [] }
        = (Except.ok (), { vm_example with oprd_stk := ⟨18444492273895866369, F64⟩ :: [] }))) :=
  ⟨by decide, reinterpret_round_trip vm_example 18444492273895866369 [] (by decide)⟩

/-! ## Round trips of the host encoding (C17) -/

/-- C17: decoding an encoded `int32_t` or `int64_t` gives the value back, encoding
a decoded 64-bit payload gives the payload back, decoding an encoded 32-bit or
64-bit float pattern gives the same bits, and `wrp_encode_i32` and
`wrp_encode_f32` return a payload below 2^32. -/
theorem encode_decode_round_trip :
    (∀ x : Int, -2147483648 ≤ x → x < 2147483648 → wrp_decode_i32 (wrp_encode_i32 x) = x) ∧
    (∀ x : Int, -9223372036854775808 ≤ x → x < 9223372036854775808 →
      wrp_decode_i64 (wrp_encode_i64 x) = x) ∧
    (∀ v : Nat, v < 18446744073709551616 → wrp_encode_i64 (wrp_decode_i64 v) = v) ∧
    (∀ x : Nat, x < 4294967296 → wrp_decode_f32 (wrp_encode_f32 x) = x) ∧
    (∀ x : Nat, x < 18446744073709551616 → wrp_decode_f64 (wrp_encode_f64 x) = x) ∧
    (∀ x : Int, wrp_encode_i32 x < 4294967296) ∧
    (∀ x : Nat, wrp_encode_f32 x < 4294967296) := by
  refine ⟨?_, ?_, ?_, ?_, ?_, ?_, ?_⟩
  · intro x hlo hhi
    exact wrp_decode_encode_i32 x hlo hhi
  · intro x hlo hhi
    exact wrp_decode_encode_i64 x hlo hhi
  · intro v hv
    rw [wrp_encode_i64_eq, to_u64_decode_i64]
    exact Nat.mod_eq_of_lt hv
  · intro x hx
    unfold wrp_decode_f32 wrp_encode_f32
    rw [copy_bytes_four, copy_bytes_four, Nat.mod_mod]
    exact Nat.mod_eq_of_lt hx
  · intro x hx
    unfold wrp_decode_f64 wrp_encode_f64
    rw [copy_bytes_eight, copy_bytes_eight, Nat.mod_mod]
    exact Nat.mod_eq_of_lt hx
  · intro x
    rw [wrp_encode_i32_eq]
    exact to_u32_lt x
  · intro x
    unfold wrp_encode_f32
    rw [copy_bytes_four]
    exact Nat.mod_lt _ (by norm_num)

/-- The round trips of the host encoding at `-1`, `INT64_MIN`, the payload
`2^64 - 1`, the float pattern `0x7FC00001` and the double pattern
`0xFFF8000000000001`. -/
theorem encode_decode_round_trip_witness :
    wrp_decode_i32 (wrp_encode_i32 (-1)) = -1 ∧
    wrp_decode_i64 (wrp_encode_i64 (-9223372036854775808)) = -9223372036854775808 ∧
    wrp_encode_i64 (wrp_decode_i64 18446744073709551615) = 18446744073709551615 ∧
    wrp_decode_f32 (wrp_encode_f32 2143289345) = 2143289345 ∧
    wrp_decode_f64 (wrp_encode_f64 18444492273895866369) = 18444492273895866369 ∧
    wrp_encode_i32 (-1) < 4294967296 ∧
    wrp_encode_f32 2143289345 < 4294967296 :=
  ⟨encode_decode_round_trip.1 (-1) (by decide) (by decide),
    encode_decode_round_trip.2.1 (-9223372036854775808) (by decide) (by decide),
    encode_decode_round_trip.2.2.1 18446744073709551615 (by decide),
    encode_decode_round_trip.2.2.2.1 2143289345 (by decide),
    encode_decode_round_trip.2.2.2.2.1 18444492273895866369 (by decide),
    encode_decode_round_trip.2.2.2.2.2.1 (-1),
    encode_decode_round_trip.2.2.2.2.2.2 2143289345⟩
/-! ## Zero extension of a sign-extended load (C15) -/

/-- C15: at a memory whose byte at address 0 is `0x80`, `exec_i32_load_8_s_op`
leaves the i32 cell with payload `0xFFFFFFFFFFFFFF80` on the stack, and
`exec_i64_extend_u_i32_op` run on that state leaves the same payload tagged i64,
which is not the payload `0xFFFFFF80` of the value read as an unsigned 32-bit
number: the upper 32 bits of the result are ones. The same happens after
`exec_i32_load_16_s_op` of the halfword `0x8000`. -/
theorem exec_i64_extend_u_i32_op_at_failing_input :
    exec_i32_load_8_s_op vm_sign_example
      = (Except.ok (), { vm_sign_example with
          oprd_stk := [⟨18446744073709551488, I32⟩],
          opcode_stream := { bytes := [0, 0], sz := 2, pos := 2 } }) ∧
    (exec_i32_load_8_s_op >>= fun _ => exec_i64_extend_u_i32_op) vm_sign_example
      = (Except.ok (), { vm_sign_example with
          oprd_stk := [⟨18446744073709551488, I64⟩],
          opcode_stream := { bytes := [0, 0], sz := 2, pos := 2 } }) ∧
    (exec_i32_load_16_s_op >>= fun _ => exec_i64_extend_u_i32_op)
        { vm_sign_example with oprd_stk := [⟨2, I32⟩] }
      = (Except.ok (), { vm_sign_example with
          oprd_stk := [⟨18446744073709518848, I64⟩],
          opcode_stream := { bytes := [0, 0], sz := 2, pos := 2 } }) ∧
    to_u32 (wrp_decode_i32 18446744073709551488) = 4294967168 ∧
    18446744073709551488 / 4294967296 = 4294967295 ∧
    (18446744073709551488 : Nat) ≠ 4294967168 :=
  ⟨rfl, rfl, rfl, by decide, by decide, by decide⟩
/-! ## Shifts (C12) -/

/-- The examples of the shifts: `i32.shl(1, 32) = 1`, `i32.shl(1, 33) = 2`,
`i32.shr_s(0x80000000, 32) = 0x80000000`, `i32.shr_s(0x80000000, 31) = -1`,
`i32.shr_u(0x80000000, -1) = 1` and `i64.shl(1, 64) = 1`. -/
theorem exec_shift_op_scenario :
    exec_i32_shl_op (masked_shl 32) { vm_example with oprd_stk := [⟨32, I32⟩, ⟨1, I32⟩] }
      = (Except.ok (), { vm_example with oprd_stk := [⟨1, I32⟩] }) ∧
    exec_i32_shl_op (masked_shl 32) { vm_example with oprd_stk := [⟨33, I32⟩, ⟨1, I32⟩] }
      = (Except.ok (), { vm_example with oprd_stk := [⟨2, I32⟩] }) ∧
    exec_i32_shr_s_op (masked_shr 32)
        { vm_example with oprd_stk := [⟨32, I32⟩, ⟨2147483648, I32⟩] }
      = (Except.ok (), { vm_example with oprd_stk := [⟨2147483648, I32⟩] }) ∧
    exec_i32_shr_s_op (masked_shr 32)
        { vm_example with oprd_stk := [⟨31, I32⟩, ⟨2147483648, I32⟩] }
      = (Except.ok (), { vm_example with oprd_stk := [⟨4294967295, I32⟩] }) ∧
    exec_i32_shr_u_op (masked_shr 32)
        { vm_example with oprd_stk := [⟨4294967295, I32⟩, ⟨2147483648, I32⟩] }
      = (Except.ok (), { vm_example with oprd_stk := [⟨1, I32⟩] }) ∧
    exec_i64_shl_op (masked_shl 64) { vm_example with oprd_stk := [⟨64, I64⟩, ⟨1, I64⟩] }
      = (Except.ok (), { vm_example with oprd_stk := [⟨1, I64⟩] }) :=
  ⟨rfl, rfl, rfl, rfl, rfl, rfl⟩

/-! ## Facts about rotations -/

theorem testBit_high32 (x j : Nat) (hx : x < 4294967296) (hj : 32 ≤ j) : x.testBit j = false := by
  apply Nat.testBit_lt_two_pow
  calc x < 2 ^ 32 := by norm_num; exact hx
    _ ≤ 2 ^ j := Nat.pow_le_pow_right (by norm_num) hj

theorem neg_count_and32 (k : Nat) (hk : k < 32) :
    ((4294967296 - k) % 4294967296) &&& 31 = (32 - k) % 32 := by
  have h := Nat.and_pow_two_sub_one_eq_mod ((4294967296 - k) % 4294967296) 5
  have e : (2 ^ 5 - 1 : Nat) = 31 := by norm_num
  rw [e] at h
  rw [h]
  omega

theorem rotl32_testBit (x k i : Nat) (hx : x < 4294967296) (hk : k < 32) (hi : i < 32) :
    (rotl32 x k).testBit i = x.testBit ((i + 32 - k) % 32) := by
  have hM : (4294967296 : Nat) = 2 ^ 32 := by norm_num
  unfold rotl32
  rw [neg_count_and32 k hk, Nat.testBit_or, hM, Nat.testBit_mod_two_pow,
    Nat.testBit_shiftLeft, Nat.testBit_shiftRight, decide_eq_true hi, Bool.true_and]
  by_cases hki : k ≤ i
  · rw [decide_eq_true hki, Bool.true_and]
    have e1 : (i + 32 - k) % 32 = i - k := by omega
    rw [e1]
    by_cases hk0 : k = 0
    · subst hk0
      have e2 : (32 - 0) % 32 + i = i - 0 := by omega
      rw [e2, Bool.or_self]
    · rw [testBit_high32 x ((32 - k) % 32 + i) hx (by omega), Bool.or_false]
  · have hd : decide (i ≥ k) = false := decide_eq_false hki
    rw [hd, Bool.false_and, Bool.false_or]
    have e1 : (32 - k) % 32 + i = (i + 32 - k) % 32 := by omega
    rw [e1]

theorem rotr32_testBit (x k i : Nat) (hx : x < 4294967296) (hk : k < 32) (hi : i < 32) :
    (rotr32 x k).testBit i = x.testBit ((i + k) % 32) := by
  have hM : (4294967296 : Nat) = 2 ^ 32 := by norm_num
  unfold rotr32
  rw [neg_count_and32 k hk, Nat.testBit_or, hM, Nat.testBit_mod_two_pow,
    Nat.testBit_shiftLeft, Nat.testBit_shiftRight, decide_eq_true hi, Bool.true_and]
  by_cases hki : i + k < 32
  · have e1 : (i + k) % 32 = k + i := by omega
    rw [e1]
    by_cases hk0 : k = 0
    · subst hk0
      have hd : decide (i ≥ (32 - 0) % 32) = true := decide_eq_true (by omega)
      have e2 : i - (32 - 0) % 32 = 0 + i := by omega
      rw [hd, Bool.true_and, e2, Bool.or_self]
    · have hd : decide (i ≥ (32 - k) % 32) = false := decide_eq_false (by omega)
      rw [hd, Bool.false_and, Bool.or_false]
  · have hd : decide (i ≥ (32 - k) % 32) = true := decide_eq_true (by omega)
    have e1 : i - (32 - k) % 32 = (i + k) % 32 := by omega
    rw [hd, Bool.true_and, e1, testBit_high32 x _ hx (by omega), Bool.false_or]

theorem rotl32_lt (x k : Nat) (hx : x < 4294967296) (hk : k < 32) : rotl32 x k < 4294967296 := by
  have hM : (4294967296 : Nat) = 2 ^ 32 := by norm_num
  rw [hM]
  apply Nat.lt_pow_two_of_testBit
  intro i hi
  unfold rotl32
  rw [neg_count_and32 k hk, Nat.testBit_or, hM, Nat.testBit_mod_two_pow,
    Nat.testBit_shiftRight, testBit_high32 x _ hx (by omega), Bool.or_false]
  have hd : decide (i < 32) = false := decide_eq_false (by omega)
  rw [hd, Bool.false_and]

theorem rotr32_lt (x k : Nat) (hx : x < 4294967296) (hk : k < 32) : rotr32 x k < 4294967296 := by
  have hM : (4294967296 : Nat) = 2 ^ 32 := by norm_num
  rw [hM]
  apply Nat.lt_pow_two_of_testBit
  intro i hi
  unfold rotr32
  rw [neg_count_and32 k hk, Nat.testBit_or, hM, Nat.testBit_mod_two_pow,
    Nat.testBit_shiftRight, testBit_high32 x _ hx (by omega), Bool.false_or]
  have hd : decide (i < 32) = false := decide_eq_false (by omega)
  rw [hd, Bool.false_and]

theorem rotr32_rotl32 (x k : Nat) (hx : x < 4294967296) (hk : k < 32) :
    rotr32 (rotl32 x k) k = x := by
  apply Nat.eq_of_testBit_eq
  intro i
  by_cases hi : i < 32
  · rw [rotr32_testBit _ k i (rotl32_lt x k hx hk) hk hi,
      rotl32_testBit x k _ hx hk (Nat.mod_lt _ (by norm_num))]
    have e : ((i + k) % 32 + 32 - k) % 32 = i := by omega
    rw [e]
  · rw [testBit_high32 _ i (rotr32_lt _ k (rotl32_lt x k hx hk) hk) (by omega),
      testBit_high32 x i hx (by omega)]

theorem rotl32_zero (x : Nat) (hx : x < 4294967296) : rotl32 x 0 = x := by
  apply Nat.eq_of_testBit_eq
  intro i
  by_cases hi : i < 32
  · rw [rotl32_testBit x 0 i hx (by norm_num) hi]
    have e : (i + 32 - 0) % 32 = i := by omega
    rw [e]
  · rw [testBit_high32 _ i (rotl32_lt x 0 hx (by norm_num)) (by omega),
      testBit_high32 x i hx (by omega)]

theorem rotr32_zero (x : Nat) (hx : x < 4294967296) : rotr32 x 0 = x := by
  apply Nat.eq_of_testBit_eq
  intro i
  by_cases hi : i < 32
  · rw [rotr32_testBit x 0 i hx (by norm_num) hi]
    have e : (i + 0) % 32 = i := by omega
    rw [e]
  · rw [testBit_high32 _ i (rotr32_lt x 0 hx (by norm_num)) (by omega),
      testBit_high32 x i hx (by omega)]

theorem testBit_high64 (x j : Nat) (hx : x < 18446744073709551616) (hj : 64 ≤ j) : x.testBit j = false := by
  apply Nat.testBit_lt_two_pow
  calc x < 2 ^ 64 := by norm_num; exact hx
    _ ≤ 2 ^ j := Nat.pow_le_pow_right (by norm_num) hj

theorem neg_count_and64 (k : Nat) (hk : k < 64) :
    ((18446744073709551616 - k) % 18446744073709551616) &&& 63 = (64 - k) % 64 := by
  have h := Nat.and_pow_two_sub_one_eq_mod ((18446744073709551616 - k) % 18446744073709551616) 6
  have e : (2 ^ 6 - 1 : Nat) = 63 := by norm_num
  rw [e] at h
  rw [h]
  omega

theorem rotl64_testBit (x k i : Nat) (hx : x < 18446744073709551616) (hk : k < 64) (hi : i < 64) :
    (rotl64 x k).testBit i = x.testBit ((i + 64 - k) % 64) := by
  have hM : (18446744073709551616 : Nat) = 2 ^ 64 := by norm_num
  unfold rotl64
  rw [neg_count_and64 k hk, Nat.testBit_or, hM, Nat.testBit_mod_two_pow,
    Nat.testBit_shiftLeft, Nat.testBit_shiftRight, decide_eq_true hi, Bool.true_and]
  by_cases hki : k ≤ i
  · rw [decide_eq_true hki, Bool.true_and]
    have e1 : (i + 64 - k) % 64 = i - k := by omega
    rw [e1]
    by_cases hk0 : k = 0
    · subst hk0
      have e2 : (64 - 0) % 64 + i = i - 0 := by omega
      rw [e2, Bool.or_self]
    · rw [testBit_high64 x ((64 - k) % 64 + i) hx (by omega), Bool.or_false]
  · have hd : decide (i ≥ k) = false := decide_eq_false hki
    rw [hd, Bool.false_and, Bool.false_or]
    have e1 : (64 - k) % 64 + i = (i + 64 - k) % 64 := by omega
    rw [e1]

theorem rotr64_testBit (x k i : Nat) (hx : x < 18446744073709551616) (hk : k < 64) (hi : i < 64) :
    (rotr64 x k).testBit i = x.testBit ((i + k) % 64) := by
  have hM : (18446744073709551616 : Nat) = 2 ^ 64 := by norm_num
  unfold rotr64
  rw [neg_count_and64 k hk, Nat.testBit_or, hM, Nat.testBit_mod_two_pow,
    Nat.testBit_shiftLeft, Nat.testBit_shiftRight, decide_eq_true hi, Bool.true_and]
  by_cases hki : i + k < 64
  · have e1 : (i + k) % 64 = k + i := by omega
    rw [e1]
    by_cases hk0 : k = 0
    · subst hk0
      have hd : decide (i ≥ (64 - 0) % 64) = true := decide_eq_true (by omega)
      have e2 : i - (64 - 0) % 64 = 0 + i := by omega
      rw [hd, Bool.true_and, e2, Bool.or_self]
    · have hd : decide (i ≥ (64 - k) % 64) = false := decide_eq_false (by omega)
      rw [hd, Bool.false_and, Bool.or_false]
  · have hd : decide (i ≥ (64 - k) % 64) = true := decide_eq_true (by omega)
    have e1 : i - (64 - k) % 64 = (i + k) % 64 := by omega
    rw [hd, Bool.true_and, e1, testBit_high64 x _ hx (by omega), Bool.false_or]

theorem rotl64_lt (x k : Nat) (hx : x < 18446744073709551616) (hk : k < 64) : rotl64 x k < 18446744073709551616 := by
  have hM : (18446744073709551616 : Nat) = 2 ^ 64 := by norm_num
  rw [hM]
  apply Nat.lt_pow_two_of_testBit
  intro i hi
  unfold rotl64
  rw [neg_count_and64 k hk, Nat.testBit_or, hM, Nat.testBit_mod_two_pow,
    Nat.testBit_shiftRight, testBit_high64 x _ hx (by omega), Bool.or_false]
  have hd : decide (i < 64) = false := decide_eq_false (by omega)
  rw [hd, Bool.false_and]

theorem rotr64_lt (x k : Nat) (hx : x < 18446744073709551616) (hk : k < 64) : rotr64 x k < 18446744073709551616 := by
  have hM : (18446744073709551616 : Nat) = 2 ^ 64 := by norm_num
  rw [hM]
  apply Nat.lt_pow_two_of_testBit
  intro i hi
  unfold rotr64
  rw [neg_count_and64 k hk, Nat.testBit_or, hM, Nat.testBit_mod_two_pow,
    Nat.testBit_shiftRight, testBit_high64 x _ hx (by omega), Bool.false_or]
  have hd : decide (i < 64) = false := decide_eq_false (by omega)
  rw [hd, Bool.false_and]

theorem rotr64_rotl64 (x k : Nat) (hx : x < 18446744073709551616) (hk : k < 64) :
    rotr64 (rotl64 x k) k = x := by
  apply Nat.eq_of_testBit_eq
  intro i
  by_cases hi : i < 64
  · rw [rotr64_testBit _ k i (rotl64_lt x k hx hk) hk hi,
      rotl64_testBit x k _ hx hk (Nat.mod_lt _ (by norm_num))]
    have e : ((i + k) % 64 + 64 - k) % 64 = i := by omega
    rw [e]
  · rw [testBit_high64 _ i (rotr64_lt _ k (rotl64_lt x k hx hk) hk) (by omega),
      testBit_high64 x i hx (by omega)]

theorem rotl64_zero (x : Nat) (hx : x < 18446744073709551616) : rotl64 x 0 = x := by
  apply Nat.eq_of_testBit_eq
  intro i
  by_cases hi : i < 64
  · rw [rotl64_testBit x 0 i hx (by norm_num) hi]
    have e : (i + 64 - 0) % 64 = i := by omega
    rw [e]
  · rw [testBit_high64 _ i (rotl64_lt x 0 hx (by norm_num)) (by omega),
      testBit_high64 x i hx (by omega)]

theorem rotr64_zero (x : Nat) (hx : x < 18446744073709551616) : rotr64 x 0 = x := by
  apply Nat.eq_of_testBit_eq
  intro i
  by_cases hi : i < 64
  · rw [rotr64_testBit x 0 i hx (by norm_num) hi]
    have e : (i + 0) % 64 = i := by omega
    rw [e]
  · rw [testBit_high64 _ i (rotr64_lt x 0 hx (by norm_num)) (by omega),
      testBit_high64 x i hx (by omega)]

/-! ## Closed forms of the rotation handlers -/

theorem exec_i32_rotl_op_run (vm : wrp_vm_t) (px py : Nat) (tx ty : Int)
    (rest : List wrp_oprd_t) (hlen : rest.length < vm.oprd_stk_max) :
    exec_i32_rotl_op { vm with oprd_stk := ⟨py, ty⟩ :: ⟨px, tx⟩ :: rest }
      = (Except.ok (),
          { vm with oprd_stk := ⟨rotl32 (px % 4294967296) (py % 32), I32⟩ :: rest }) := by
  have hk : py % 4294967296 % 32 = py % 32 := Nat.mod_mod_of_dvd py (by norm_num)
  have hlt : rotl32 (px % 4294967296) (py % 32) < 4294967296 :=
    rotl32_lt _ _ (Nat.mod_lt _ (by norm_num)) (Nat.mod_lt _ (by norm_num))
  unfold exec_i32_rotl_op
  rw [bind_run_ok _ _ _ _ _ (pop_i32_run vm py ty (⟨px, tx⟩ :: rest)),
    bind_run_ok _ _ _ _ _ (pop_i32_run vm px tx rest)]
  rw [push_i32_run vm rest _ hlen, to_u32_decode_i32, to_u32_decode_i32, hk,
    to_u32_to_i32_cast _ hlt]

theorem exec_i32_rotr_op_run (vm : wrp_vm_t) (px py : Nat) (tx ty : Int)
    (rest : List wrp_oprd_t) (hlen : rest.length < vm.oprd_stk_max) :
    exec_i32_rotr_op { vm with oprd_stk := ⟨py, ty⟩ :: ⟨px, tx⟩ :: rest }
      = (Except.ok (),
          { vm with oprd_stk := ⟨rotr32 (px % 4294967296) (py % 32), I32⟩ :: rest }) := by
  have hk : py % 4294967296 % 32 = py % 32 := Nat.mod_mod_of_dvd py (by norm_num)
  have hlt : rotr32 (px % 4294967296) (py % 32) < 4294967296 :=
    rotr32_lt _ _ (Nat.mod_lt _ (by norm_num)) (Nat.mod_lt _ (by norm_num))
  unfold exec_i32_rotr_op
  rw [bind_run_ok _ _ _ _ _ (pop_i32_run vm py ty (⟨px, tx⟩ :: rest)),
    bind_run_ok _ _ _ _ _ (pop_i32_run vm px tx rest)]
  rw [push_i32_run vm rest _ hlen, to_u32_decode_i32, to_u32_decode_i32, hk,
    to_u32_to_i32_cast _ hlt]

theorem exec_i64_rotl_op_run (vm : wrp_vm_t) (px py : Nat) (tx ty : Int)
    (rest : List wrp_oprd_t) (hlen : rest.length < vm.oprd_stk_max) :
    exec_i64_rotl_op { vm with oprd_stk := ⟨py, ty⟩ :: ⟨px, tx⟩ :: rest }
      = (Except.ok (),
          { vm with oprd_stk := ⟨rotl64 (px % 18446744073709551616) (py % 64), I64⟩ :: rest }) := by
  have hk : py % 18446744073709551616 % 64 = py % 64 := Nat.mod_mod_of_dvd py (by norm_num)
  have hlt : rotl64 (px % 18446744073709551616) (py % 64) < 18446744073709551616 :=
    rotl64_lt _ _ (Nat.mod_lt _ (by norm_num)) (Nat.mod_lt _ (by norm_num))
  unfold exec_i64_rotl_op
  rw [bind_run_ok _ _ _ _ _ (pop_i64_run vm py ty (⟨px, tx⟩ :: rest)),
    bind_run_ok _ _ _ _ _ (pop_i64_run vm px tx rest)]
  rw [push_i64_run vm rest _ hlen, to_u64_decode_i64, to_u64_decode_i64, hk,
    to_u64_to_i64_cast _ hlt]

theorem exec_i64_rotr_op_run (vm : wrp_vm_t) (px py : Nat) (tx ty : Int)
    (rest : List wrp_oprd_t) (hlen : rest.length < vm.oprd_stk_max) :
    exec_i64_rotr_op { vm with oprd_stk := ⟨py, ty⟩ :: ⟨px, tx⟩ :: rest }
      = (Except.ok (),
          { vm with oprd_stk := ⟨rotr64 (px % 18446744073709551616) (py % 64), I64⟩ :: rest }) := by
  have hk : py % 18446744073709551616 % 64 = py % 64 := Nat.mod_mod_of_dvd py (by norm_num)
  have hlt : rotr64 (px % 18446744073709551616) (py % 64) < 18446744073709551616 :=
    rotr64_lt _ _ (Nat.mod_lt _ (by norm_num)) (Nat.mod_lt _ (by norm_num))
  unfold exec_i64_rotr_op
  rw [bind_run_ok _ _ _ _ _ (pop_i64_run vm py ty (⟨px, tx⟩ :: rest)),
    bind_run_ok _ _ _ _ _ (pop_i64_run vm px tx rest)]
  rw [push_i64_run vm rest _ hlen, to_u64_decode_i64, to_u64_decode_i64, hk,
    to_u64_to_i64_cast _ hlt]

/-! ## Rotations (C13) -/

/-- C13: on a stack holding `x` (pushed first) and the count `y` (top),
`exec_i32_rotl_op` pushes the i32 whose bit `i` is bit `i - (y mod 32)` of `x`,
counted modulo 32, and `exec_i32_rotr_op` the i32 whose bit `i` is bit
`i + (y mod 32)` of `x`, counted modulo 32; a count that is a multiple of 32
gives `x` back, and `exec_i32_rotr_op` run with the same count on the result of
`exec_i32_rotl_op` gives `x` back. The i64 handlers do the same modulo 64. -/
theorem exec_rot_op_contract (vm : wrp_vm_t) (px py : Nat) (rest : List wrp_oprd_t)
    (hcap : rest.length + 2 ≤ vm.oprd_stk_max) :
    (∃ r : Nat,
      exec_i32_rotl_op { vm with oprd_stk := ⟨py, I32⟩ :: ⟨px, I32⟩ :: rest }
        = (Except.ok (), { vm with oprd_stk := ⟨r, I32⟩ :: rest }) ∧
      r < 4294967296 ∧
      (∀ i : Nat, i < 32 →
        r.testBit i = (px % 4294967296).testBit ((i + 32 - py % 32) % 32)) ∧
      (py % 32 = 0 → r = px % 4294967296) ∧
      exec_i32_rotr_op { vm with oprd_stk := ⟨py, I32⟩ :: ⟨r, I32⟩ :: rest }
        = (Except.ok (), { vm with oprd_stk := ⟨px % 4294967296, I32⟩ :: rest })) ∧
    (∃ r : Nat,
      exec_i32_rotr_op { vm with oprd_stk := ⟨py, I32⟩ :: ⟨px, I32⟩ :: rest }
        = (Except.ok (), { vm with oprd_stk := ⟨r, I32⟩ :: rest }) ∧
      r < 4294967296 ∧
      (∀ i : Nat, i < 32 →
        r.testBit i = (px % 4294967296).testBit ((i + py % 32) % 32)) ∧
      (py % 32 = 0 → r = px % 4294967296)) ∧
    (∃ r : Nat,
      exec_i64_rotl_op { vm with oprd_stk := ⟨py, I64⟩ :: ⟨px, I64⟩ :: rest }
        = (Except.ok (), { vm with oprd_stk := ⟨r, I64⟩ :: rest }) ∧
      r < 18446744073709551616 ∧
      (∀ i : Nat, i < 64 →
        r.testBit i = (px % 18446744073709551616).testBit ((i + 64 - py % 64) % 64)) ∧
      (py % 64 = 0 → r = px % 18446744073709551616) ∧
      exec_i64_rotr_op { vm with oprd_stk := ⟨py, I64⟩ :: ⟨r, I64⟩ :: rest }
        = (Except.ok (), { vm with oprd_stk := ⟨px % 18446744073709551616, I64⟩ :: rest })) ∧
    (∃ r : Nat,
      exec_i64_rotr_op { vm with oprd_stk := ⟨py, I64⟩ :: ⟨px, I64⟩ :: rest }
        = (Except.ok (), { vm with oprd_stk := ⟨r, I64⟩ :: rest }) ∧
      r < 18446744073709551616 ∧
      (∀ i : Nat, i < 64 →
        r.testBit i = (px % 18446744073709551616).testBit ((i + py % 64) % 64)) ∧
      (py % 64 = 0 → r = px % 18446744073709551616)) := by
  have hlen : rest.length < vm.oprd_stk_max := by omega
  refine ⟨?_, ?_, ?_, ?_⟩
  · have hx : px % 4294967296 < 4294967296 := Nat.mod_lt _ (by norm_num)
    have hk : py % 32 < 32 := Nat.mod_lt _ (by norm_num)
    refine ⟨rotl32 (px % 4294967296) (py % 32),
      exec_i32_rotl_op_run vm px py I32 I32 rest hlen, rotl32_lt _ _ hx hk, ?_, ?_, ?_⟩
    · intro i hi
      exact rotl32_testBit _ _ i hx hk hi
    · intro h0
      rw [h0]
      exact rotl32_zero _ hx
    · rw [exec_i32_rotr_op_run vm _ py I32 I32 rest hlen,
        Nat.mod_eq_of_lt (rotl32_lt _ _ hx hk), rotr32_rotl32 _ _ hx hk]
  · have hx : px % 4294967296 < 4294967296 := Nat.mod_lt _ (by norm_num)
    have hk : py % 32 < 32 := Nat.mod_lt _ (by norm_num)
    refine ⟨rotr32 (px % 4294967296) (py % 32),
      exec_i32_rotr_op_run vm px py I32 I32 rest hlen, rotr32_lt _ _ hx hk, ?_, ?_⟩
    · intro i hi
      exact rotr32_testBit _ _ i hx hk hi
    · intro h0
      rw [h0]
      exact rotr32_zero _ hx
  · have hx : px % 18446744073709551616 < 18446744073709551616 := Nat.mod_lt _ (by norm_num)
    have hk : py % 64 < 64 := Nat.mod_lt _ (by norm_num)
    refine ⟨rotl64 (px % 18446744073709551616) (py % 64),
      exec_i64_rotl_op_run vm px py I64 I64 rest hlen, rotl64_lt _ _ hx hk, ?_, ?_, ?_⟩
    · intro i hi
      exact rotl64_testBit _ _ i hx hk hi
    · intro h0
      rw [h0]
      exact rotl64_zero _ hx
    · rw [exec_i64_rotr_op_run vm _ py I64 I64 rest hlen,
        Nat.mod_eq_of_lt (rotl64_lt _ _ hx hk), rotr64_rotl64 _ _ hx hk]
  · have hx : px % 18446744073709551616 < 18446744073709551616 := Nat.mod_lt _ (by norm_num)
    have hk : py % 64 < 64 := Nat.mod_lt _ (by norm_num)
    refine ⟨rotr64 (px % 18446744073709551616) (py % 64),
      exec_i64_rotr_op_run vm px py I64 I64 rest hlen, rotr64_lt _ _ hx hk, ?_, ?_⟩
    · intro i hi
      exact rotr64_testBit _ _ i hx hk hi
    · intro h0
      rw [h0]
      exact rotr64_zero _ hx


/-- The contract of the rotations at the value `0x80000001` and the count `33` on
an empty rest of the stack. -/
theorem exec_rot_op_contract_witness :
    ([] : List wrp_oprd_t).length + 2 ≤ vm_example.oprd_stk_max ∧
    ((∃ r : Nat,
      exec_i32_rotl_op { vm_example with oprd_stk := ⟨33, I32⟩ :: ⟨2147483649, I32⟩ :: [] }
        = (Except.ok (), { vm_example with oprd_stk := ⟨r, I32⟩ :: [] }) ∧
      r < 4294967296 ∧
      (∀ i : Nat, i < 32 →
        r.testBit i = (2147483649 % 4294967296).testBit ((i + 32 - 33 % 32) % 32)) ∧
      (33 % 32 = 0 → r = 2147483649 % 4294967296) ∧
      exec_i32_rotr_op { vm_example with oprd_stk := ⟨33, I32⟩ :: ⟨r, I32⟩ :: [] }
        = (Except.ok (), { vm_example with oprd_stk := ⟨2147483649 % 4294967296, I32⟩ :: [] })) ∧
    (∃ r : Nat,
      exec_i32_rotr_op { vm_example with oprd_stk := ⟨33, I32⟩ :: ⟨2147483649, I32⟩ :: [] }
        = (Except.ok (), { vm_example with oprd_stk := ⟨r, I32⟩ :: [] }) ∧
      r < 4294967296 ∧
      (∀ i : Nat, i < 32 →
        r.testBit i = (2147483649 % 4294967296).testBit ((i + 33 % 32) % 32)) ∧
      (33 % 32 = 0 → r = 2147483649 % 4294967296)) ∧
    (∃ r : Nat,
      exec_i64_rotl_op { vm_example with oprd_stk := ⟨33, I64⟩ :: ⟨2147483649, I64⟩ :: [] }
        = (Except.ok (), { vm_example with oprd_stk := ⟨r, I64⟩ :: [] }) ∧
      r < 18446744073709551616 ∧
      (∀ i : Nat, i < 64 →
        r.testBit i = (2147483649 % 18446744073709551616).testBit ((i + 64 - 33 % 64) % 64)) ∧
      (33 % 64 = 0 → r = 2147483649 % 18446744073709551616) ∧
      exec_i64_rotr_op { vm_example with oprd_stk := ⟨33, I64⟩ :: ⟨r, I64⟩ :: [] }
        = (Except.ok (), { vm_example with oprd_stk := ⟨2147483649 % 18446744073709551616, I64⟩ :: [] })) ∧
    (∃ r : Nat,
      exec_i64_rotr_op { vm_example with oprd_stk := ⟨33, I64⟩ :: ⟨2147483649, I64⟩ :: [] }
        = (Except.ok (), { vm_example with oprd_stk := ⟨r, I64⟩ :: [] }) ∧
      r < 18446744073709551616 ∧
      (∀ i : Nat, i < 64 →
        r.testBit i = (2147483649 % 18446744073709551616).testBit ((i + 33 % 64) % 64)) ∧
      (33 % 64 = 0 → r = 2147483649 % 18446744073709551616))) :=
  ⟨by decide, exec_rot_op_contract vm_example 2147483649 33 [] (by decide)⟩

/-- Rotating `0x80000001` left by 33, so by one place, gives `0x00000003`, and right
by 33 gives `0xC0000000`; the count 32 gives the value back. -/
theorem exec_i32_rot_op_scenario :
    exec_i32_rotl_op { vm_example with oprd_stk := [⟨33, I32⟩, ⟨2147483649, I32⟩] }
      = (Except.ok (), { vm_example with oprd_stk := [⟨3, I32⟩] }) ∧
    exec_i32_rotr_op { vm_example with oprd_stk := [⟨33, I32⟩, ⟨2147483649, I32⟩] }
      = (Except.ok (), { vm_example with oprd_stk := [⟨3221225472, I32⟩] }) ∧
    exec_i32_rotl_op { vm_example with oprd_stk := [⟨32, I32⟩, ⟨2147483649, I32⟩] }
      = (Except.ok (), { vm_example with oprd_stk := [⟨2147483649, I32⟩] }) :=
  ⟨rfl, rfl, rfl⟩
/-! ## Facts about the counting loops -/

theorem ctz_loop_spec (k : Nat) : ∀ x n : Nat, x ≠ 0 → x ≤ k →
    ∃ c : Nat, ctz_loop x n = n + c ∧ 2 ^ c ∣ x ∧ ¬ 2 ^ (c + 1) ∣ x := by
  induction k with
  | zero =>
    intro x n h0 hk
    omega
  | succ k ih =>
    intro x n h0 hk
    rw [ctz_loop]
    by_cases hc : x % 2 = 0
    · rw [if_pos ⟨h0, by rw [Nat.and_one_is_mod]; exact hc⟩]
      have e : x >>> 1 = x / 2 := by
        rw [Nat.shiftRight_eq_div_pow]
      rw [e]
      obtain ⟨c, h1, h2, h3⟩ := ih (x / 2) (n + 1) (by omega) (by omega)
      have ex : x = 2 * (x / 2) := by omega
      refine ⟨c + 1, ?_, ?_, ?_⟩
      · rw [h1]
        omega
      · rw [ex, Nat.pow_succ, Nat.mul_comm (2 ^ c) 2]
        exact Nat.mul_dvd_mul_left 2 h2
      · intro h
        apply h3
        rw [ex, Nat.pow_succ, Nat.mul_comm (2 ^ (c + 1)) 2] at h
        exact (Nat.mul_dvd_mul_iff_left (by norm_num)).mp h
    · rw [if_neg (fun h => hc (by rw [← Nat.and_one_is_mod]; exact h.2))]
      refine ⟨0, rfl, Nat.one_dvd _, ?_⟩
      intro h
      have h2 : 2 ∣ x := by simpa using h
      omega

theorem countP_range_succ (p : Nat → Bool) (w : Nat) :
    (List.range (w + 1)).countP p
      = (if p 0 then 1 else 0) + (List.range w).countP (fun i => p (i + 1)) := by
  rw [List.range_succ_eq_map, List.countP_cons, List.countP_map, Nat.add_comm]
  rfl

theorem popcnt_loop_spec (w : Nat) : ∀ x n : Nat, x < 2 ^ w →
    popcnt_loop x n = n + (List.range w).countP (fun i => x.testBit i) := by
  induction w with
  | zero =>
    intro x n hx
    have h0 : x = 0 := by
      rw [Nat.pow_zero] at hx
      omega
    subst h0
    rw [popcnt_loop, if_neg (by decide)]
    rfl
  | succ w ih =>
    intro x n hx
    rw [popcnt_loop, countP_range_succ]
    have e : x >>> 1 = x / 2 := by
      rw [Nat.shiftRight_eq_div_pow]
    have hx2 : x / 2 < 2 ^ w := by
      rw [Nat.pow_succ] at hx
      omega
    have hs : (fun i => x.testBit (i + 1)) = (fun i => (x / 2).testBit i) := by
      funext i
      exact Nat.testBit_succ x i
    rw [hs]
    by_cases h0 : x = 0
    · subst h0
      rw [if_neg (by decide)]
      have hz : (List.range w).countP (fun i => (0 / 2).testBit i) = 0 := by
        rw [List.countP_eq_zero]
        intro i _
        simp
      rw [hz]
      simp
    · rw [if_pos h0, e, ih (x / 2) _ hx2, Nat.and_one_is_mod, Nat.testBit_zero]
      by_cases h1 : x % 2 = 1
      · rw [if_pos (by omega), decide_eq_true h1]
        simp
        omega
      · have hd : decide (x % 2 = 1) = false := decide_eq_false h1
        rw [if_neg (by omega), hd]
        simp

theorem countP_range_le (p : Nat → Bool) (w : Nat) : (List.range w).countP p ≤ w := by
  have h := List.countP_le_length p (l := List.range w)
  rw [List.length_range] at h
  exact h

theorem and_top32 (x : Nat) (hx : x < 4294967296) :
    x &&& 2147483648 = 0 ↔ x < 2147483648 := by
  have h2 := Nat.and_two_pow x 31
  have e : (2 ^ 31 : Nat) = 2147483648 := by norm_num
  rw [e, Nat.testBit_to_div_mod, e] at h2
  rw [h2]
  by_cases hc : x < 2147483648
  · have hd : decide (x / 2147483648 % 2 = 1) = false := decide_eq_false (by omega)
    rw [hd]
    exact ⟨fun _ => hc, fun _ => rfl⟩
  · have hd : decide (x / 2147483648 % 2 = 1) = true := decide_eq_true (by omega)
    rw [hd]
    constructor
    · intro h
      exact absurd h (by decide)
    · intro h
      exact absurd h hc

theorem clz32_loop_spec (k : Nat) : ∀ x n : Nat, x ≠ 0 → x < 4294967296 →
    4294967296 - x ≤ k →
    ∃ c : Nat, clz32_loop x n = n + c ∧ 2147483648 ≤ x * 2 ^ c ∧ x * 2 ^ c < 4294967296 := by
  induction k with
  | zero =>
    intro x n _ hx hk
    omega
  | succ k ih =>
    intro x n h0 hx hk
    rw [clz32_loop]
    by_cases hc : x < 2147483648
    · rw [if_pos ⟨h0, (and_top32 x hx).mpr hc⟩]
      have e : x <<< 1 % 4294967296 = 2 * x := by
        rw [Nat.shiftLeft_eq]
        omega
      rw [e]
      obtain ⟨c, h1, h2, h3⟩ := ih (2 * x) (n + 1) (by omega) (by omega) (by omega)
      refine ⟨c + 1, ?_, ?_, ?_⟩
      · rw [h1]
        omega
      · have e2 : x * 2 ^ (c + 1) = 2 * x * 2 ^ c := by ring
        rw [e2]
        exact h2
      · have e2 : x * 2 ^ (c + 1) = 2 * x * 2 ^ c := by ring
        rw [e2]
        exact h3
    · rw [if_neg (fun h => hc ((and_top32 x hx).mp h.2))]
      exact ⟨0, rfl, by omega, by omega⟩

theorem leading_zeros32 (x c : Nat) (h0 : x ≠ 0) (h2 : 2147483648 ≤ x * 2 ^ c)
    (h3 : x * 2 ^ c < 4294967296) :
    c < 32 ∧ 2 ^ (31 - c) ≤ x ∧ x < 2 ^ (32 - c) := by
  have e31 : (2147483648 : Nat) = 2 ^ 31 := by norm_num
  have e32 : (4294967296 : Nat) = 2 ^ 32 := by norm_num
  have hpos : 0 < 2 ^ c := Nat.pow_pos (by norm_num)
  have hc : c < 32 := by
    have h4 : 2 ^ c < 2 ^ 32 := by
      calc 2 ^ c = 1 * 2 ^ c := (Nat.one_mul _).symm
        _ ≤ x * 2 ^ c := Nat.mul_le_mul_right _ (by omega)
        _ < 2 ^ 32 := by rw [← e32]; exact h3
    exact (Nat.pow_lt_pow_iff_right (by norm_num)).mp h4
  refine ⟨hc, ?_, ?_⟩
  · have h5 : 2 ^ (31 - c) * 2 ^ c ≤ x * 2 ^ c := by
      rw [← Nat.pow_add, Nat.sub_add_cancel (by omega), ← e31]
      exact h2
    exact Nat.le_of_mul_le_mul_right h5 hpos
  · have h5 : x * 2 ^ c < 2 ^ (32 - c) * 2 ^ c := by
      rw [← Nat.pow_add, Nat.sub_add_cancel (by omega), ← e32]
      exact h3
    exact Nat.lt_of_mul_lt_mul_right h5

theorem and_top64 (x : Nat) (hx : x < 18446744073709551616) :
    x &&& 9223372036854775808 = 0 ↔ x < 9223372036854775808 := by
  have h2 := Nat.and_two_pow x 63
  have e : (2 ^ 63 : Nat) = 9223372036854775808 := by norm_num
  rw [e, Nat.testBit_to_div_mod, e] at h2
  rw [h2]
  by_cases hc : x < 9223372036854775808
  · have hd : decide (x / 9223372036854775808 % 2 = 1) = false := decide_eq_false (by omega)
    rw [hd]
    exact ⟨fun _ => hc, fun _ => rfl⟩
  · have hd : decide (x / 9223372036854775808 % 2 = 1) = true := decide_eq_true (by omega)
    rw [hd]
    constructor
    · intro h
      exact absurd h (by decide)
    · intro h
      exact absurd h hc

theorem clz64_loop_spec (k : Nat) : ∀ x n : Nat, x ≠ 0 → x < 18446744073709551616 →
    18446744073709551616 - x ≤ k →
    ∃ c : Nat, clz64_loop x n = n + c ∧ 9223372036854775808 ≤ x * 2 ^ c ∧ x * 2 ^ c < 18446744073709551616 := by
  induction k with
  | zero =>
    intro x n _ hx hk
    omega
  | succ k ih =>
    intro x n h0 hx hk
    rw [clz64_loop]
    by_cases hc : x < 9223372036854775808
    · rw [if_pos ⟨h0, (and_top64 x hx).mpr hc⟩]
      have e : x <<< 1 % 18446744073709551616 = 2 * x := by
        rw [Nat.shiftLeft_eq]
        omega
      rw [e]
      obtain ⟨c, h1, h2, h3⟩ := ih (2 * x) (n + 1) (by omega) (by omega) (by omega)
      refine ⟨c + 1, ?_, ?_, ?_⟩
      · rw [h1]
        omega
      · have e2 : x * 2 ^ (c + 1) = 2 * x * 2 ^ c := by ring
        rw [e2]
        exact h2
      · have e2 : x * 2 ^ (c + 1) = 2 * x * 2 ^ c := by ring
        rw [e2]
        exact h3
    · rw [if_neg (fun h => hc ((and_top64 x hx).mp h.2))]
      exact ⟨0, rfl, by omega, by omega⟩

theorem leading_zeros64 (x c : Nat) (h0 : x ≠ 0) (h2 : 9223372036854775808 ≤ x * 2 ^ c)
    (h3 : x * 2 ^ c < 18446744073709551616) :
    c < 64 ∧ 2 ^ (63 - c) ≤ x ∧ x < 2 ^ (64 - c) := by
  have e31 : (9223372036854775808 : Nat) = 2 ^ 63 := by norm_num
  have e32 : (18446744073709551616 : Nat) = 2 ^ 64 := by norm_num
  have hpos : 0 < 2 ^ c := Nat.pow_pos (by norm_num)
  have hc : c < 64 := by
    have h4 : 2 ^ c < 2 ^ 64 := by
      calc 2 ^ c = 1 * 2 ^ c := (Nat.one_mul _).symm
        _ ≤ x * 2 ^ c := Nat.mul_le_mul_right _ (by omega)
        _ < 2 ^ 64 := by rw [← e32]; exact h3
    exact (Nat.pow_lt_pow_iff_right (by norm_num)).mp h4
  refine ⟨hc, ?_, ?_⟩
  · have h5 : 2 ^ (63 - c) * 2 ^ c ≤ x * 2 ^ c := by
      rw [← Nat.pow_add, Nat.sub_add_cancel (by omega), ← e31]
      exact h2
    exact Nat.le_of_mul_le_mul_right h5 hpos
  · have h5 : x * 2 ^ c < 2 ^ (64 - c) * 2 ^ c := by
      rw [← Nat.pow_add, Nat.sub_add_cancel (by omega), ← e32]
      exact h3
    exact Nat.lt_of_mul_lt_mul_right h5

/-! ## Closed forms of the counting handlers -/

theorem exec_i32_clz_op_run (vm : wrp_vm_t) (px : Nat) (tx : Int) (rest : List wrp_oprd_t) :
    exec_i32_clz_op { vm with oprd_stk := ⟨px, tx⟩ :: rest }
      = wrp_stk_exec_push_i32
          (if px % 4294967296 ≠ 0 then to_i32 (clz32_loop (px % 4294967296) 0 : Nat) else 32)
          { vm with oprd_stk := rest } := by
  unfold exec_i32_clz_op
  rw [bind_run_ok _ _ _ _ _ (pop_i32_run vm px tx rest), to_u32_decode_i32]

theorem exec_i32_ctz_op_run (vm : wrp_vm_t) (px : Nat) (tx : Int) (rest : List wrp_oprd_t) :
    exec_i32_ctz_op { vm with oprd_stk := ⟨px, tx⟩ :: rest }
      = wrp_stk_exec_push_i32
          (to_i32 ((if px % 4294967296 ≠ 0 then ctz_loop (px % 4294967296) 0 % 4294967296 else 32 : Nat) : Int))
          { vm with oprd_stk := rest } := by
  unfold exec_i32_ctz_op
  rw [bind_run_ok _ _ _ _ _ (pop_i32_run vm px tx rest), to_u32_decode_i32]

theorem exec_i32_popcnt_op_run (vm : wrp_vm_t) (px : Nat) (tx : Int)
    (rest : List wrp_oprd_t) :
    exec_i32_popcnt_op { vm with oprd_stk := ⟨px, tx⟩ :: rest }
      = wrp_stk_exec_push_i32
          (to_i32 ((popcnt_loop (px % 4294967296) 0 % 4294967296 : Nat) : Int))
          { vm with oprd_stk := rest } := by
  unfold exec_i32_popcnt_op
  rw [bind_run_ok _ _ _ _ _ (pop_i32_run vm px tx rest), to_u32_decode_i32]

theorem trailing_zeros_lt32 (x c : Nat) (h0 : x ≠ 0) (hx : x < 4294967296) (hd : 2 ^ c ∣ x) :
    c < 32 := by
  have e : (4294967296 : Nat) = 2 ^ 32 := by norm_num
  have h1 : 2 ^ c ≤ x := Nat.le_of_dvd (by omega) hd
  have h2 : 2 ^ c < 2 ^ 32 := by
    rw [← e]
    omega
  exact (Nat.pow_lt_pow_iff_right (by norm_num)).mp h2

theorem exec_i64_clz_op_run (vm : wrp_vm_t) (px : Nat) (tx : Int) (rest : List wrp_oprd_t) :
    exec_i64_clz_op { vm with oprd_stk := ⟨px, tx⟩ :: rest }
      = wrp_stk_exec_push_i64
          (if px % 18446744073709551616 ≠ 0 then to_i64 (clz64_loop (px % 18446744073709551616) 0 : Nat) else 64)
          { vm with oprd_stk := rest } := by
  unfold exec_i64_clz_op
  rw [bind_run_ok _ _ _ _ _ (pop_i64_run vm px tx rest), to_u64_decode_i64]

theorem exec_i64_ctz_op_run (vm : wrp_vm_t) (px : Nat) (tx : Int) (rest : List wrp_oprd_t) :
    exec_i64_ctz_op { vm with oprd_stk := ⟨px, tx⟩ :: rest }
      = wrp_stk_exec_push_i64
          (to_i64 ((if px % 18446744073709551616 ≠ 0 then ctz_loop (px % 18446744073709551616) 0 % 18446744073709551616 else 64 : Nat) : Int))
          { vm with oprd_stk := rest } := by
  unfold exec_i64_ctz_op
  rw [bind_run_ok _ _ _ _ _ (pop_i64_run vm px tx rest), to_u64_decode_i64]

theorem exec_i64_popcnt_op_run (vm : wrp_vm_t) (px : Nat) (tx : Int)
    (rest : List wrp_oprd_t) :
    exec_i64_popcnt_op { vm with oprd_stk := ⟨px, tx⟩ :: rest }
      = wrp_stk_exec_push_i64
          (to_i64 ((popcnt_loop (px % 18446744073709551616) 0 % 18446744073709551616 : Nat) : Int))
          { vm with oprd_stk := rest } := by
  unfold exec_i64_popcnt_op
  rw [bind_run_ok _ _ _ _ _ (pop_i64_run vm px tx rest), to_u64_decode_i64]

theorem trailing_zeros_lt64 (x c : Nat) (h0 : x ≠ 0) (hx : x < 18446744073709551616) (hd : 2 ^ c ∣ x) :
    c < 64 := by
  have e : (18446744073709551616 : Nat) = 2 ^ 64 := by norm_num
  have h1 : 2 ^ c ≤ x := Nat.le_of_dvd (by omega) hd
  have h2 : 2 ^ c < 2 ^ 64 := by
    rw [← e]
    omega
  exact (Nat.pow_lt_pow_iff_right (by norm_num)).mp h2

/-! ## Counting bits (C14) -/

/-- C14: on a stack whose top cell holds `x`, `exec_i32_clz_op` pushes the i32 `c`
with `c = 32` when `x = 0` and otherwise `2 ^ (31 - c) ≤ x < 2 ^ (32 - c)`, so the
number of leading zero bits; `exec_i32_ctz_op` pushes the i32 `c` with `c = 32` when
`x = 0` and otherwise `2 ^ c` the largest power of two that divides `x`, so the
number of trailing zero bits; `exec_i32_popcnt_op` pushes the number of positions
below 32 at which `x` has a one bit. The i64 handlers push the same counts over
64 bits as an i64. The loops are total functions, so each handler returns. -/
theorem exec_clz_ctz_popcnt_op_contract (vm : wrp_vm_t) (px : Nat) (rest : List wrp_oprd_t)
    (hcap : rest.length + 1 ≤ vm.oprd_stk_max) :
    (∃ c : Nat,
      exec_i32_clz_op { vm with oprd_stk := ⟨px, I32⟩ :: rest }
        = (Except.ok (), { vm with oprd_stk := ⟨c, I32⟩ :: rest }) ∧
      (px % 4294967296 = 0 → c = 32) ∧
      (px % 4294967296 ≠ 0 →
        c < 32 ∧ 2 ^ (31 - c) ≤ px % 4294967296 ∧ px % 4294967296 < 2 ^ (32 - c))) ∧
    (∃ c : Nat,
      exec_i32_ctz_op { vm with oprd_stk := ⟨px, I32⟩ :: rest }
        = (Except.ok (), { vm with oprd_stk := ⟨c, I32⟩ :: rest }) ∧
      (px % 4294967296 = 0 → c = 32) ∧
      (px % 4294967296 ≠ 0 →
        c < 32 ∧ 2 ^ c ∣ px % 4294967296 ∧ ¬ 2 ^ (c + 1) ∣ px % 4294967296)) ∧
    exec_i32_popcnt_op { vm with oprd_stk := ⟨px, I32⟩ :: rest }
      = (Except.ok (), { vm with oprd_stk :=
          ⟨(List.range 32).countP (fun i => (px % 4294967296).testBit i), I32⟩ :: rest }) ∧
    (∃ c : Nat,
      exec_i64_clz_op { vm with oprd_stk := ⟨px, I64⟩ :: rest }
        = (Except.ok (), { vm with oprd_stk := ⟨c, I64⟩ :: rest }) ∧
      (px % 18446744073709551616 = 0 → c = 64) ∧
      (px % 18446744073709551616 ≠ 0 →
        c < 64 ∧ 2 ^ (63 - c) ≤ px % 18446744073709551616 ∧ px % 18446744073709551616 < 2 ^ (64 - c))) ∧
    (∃ c : Nat,
      exec_i64_ctz_op { vm with oprd_stk := ⟨px, I64⟩ :: rest }
        = (Except.ok (), { vm with oprd_stk := ⟨c, I64⟩ :: rest }) ∧
      (px % 18446744073709551616 = 0 → c = 64) ∧
      (px % 18446744073709551616 ≠ 0 →
        c < 64 ∧ 2 ^ c ∣ px % 18446744073709551616 ∧ ¬ 2 ^ (c + 1) ∣ px % 18446744073709551616)) ∧
    exec_i64_popcnt_op { vm with oprd_stk := ⟨px, I64⟩ :: rest }
      = (Except.ok (), { vm with oprd_stk :=
          ⟨(List.range 64).countP (fun i => (px % 18446744073709551616).testBit i), I64⟩ :: rest }) := by
  have hlen : rest.length < vm.oprd_stk_max := by omega
  refine ⟨?_, ?_, ?_, ?_, ?_, ?_⟩
  · have hx : px % 4294967296 < 4294967296 := Nat.mod_lt _ (by norm_num)
    by_cases h0 : px % 4294967296 = 0
    · refine ⟨32, ?_, fun _ => rfl, fun h => absurd h0 h⟩
      rw [exec_i32_clz_op_run, if_neg (fun h => h h0), push_i32_run vm rest _ hlen]
      rfl
    · obtain ⟨c, h1, h2, h3⟩ := clz32_loop_spec _ (px % 4294967296) 0 h0 hx (Nat.le_refl _)
      have hc := leading_zeros32 _ c h0 h2 h3
      refine ⟨c, ?_, fun h => absurd h h0, fun _ => hc⟩
      rw [exec_i32_clz_op_run, if_pos h0, push_i32_run vm rest _ hlen, h1, Nat.zero_add,
        to_u32_to_i32_cast c (by omega)]
  · have hx : px % 4294967296 < 4294967296 := Nat.mod_lt _ (by norm_num)
    by_cases h0 : px % 4294967296 = 0
    · refine ⟨32, ?_, fun _ => rfl, fun h => absurd h0 h⟩
      rw [exec_i32_ctz_op_run, if_neg (fun h => h h0), push_i32_run vm rest _ hlen]
      rfl
    · obtain ⟨c, h1, h2, h3⟩ := ctz_loop_spec _ (px % 4294967296) 0 h0 (Nat.le_refl _)
      have hc := trailing_zeros_lt32 _ c h0 hx h2
      refine ⟨c, ?_, fun h => absurd h h0, fun _ => ⟨hc, h2, h3⟩⟩
      rw [exec_i32_ctz_op_run, if_pos h0, push_i32_run vm rest _ hlen, h1, Nat.zero_add,
        Nat.mod_eq_of_lt (by omega), to_u32_to_i32_cast c (by omega)]
  · have hx : px % 4294967296 < 2 ^ 32 := by
      have e : (2 ^ 32 : Nat) = 4294967296 := by norm_num
      rw [e]
      exact Nat.mod_lt _ (by norm_num)
    have hle := countP_range_le (fun i => (px % 4294967296).testBit i) 32
    rw [exec_i32_popcnt_op_run, push_i32_run vm rest _ hlen,
      popcnt_loop_spec 32 _ 0 hx, Nat.zero_add, Nat.mod_eq_of_lt (by omega),
      to_u32_to_i32_cast _ (by omega)]
  · have hx : px % 18446744073709551616 < 18446744073709551616 := Nat.mod_lt _ (by norm_num)
    by_cases h0 : px % 18446744073709551616 = 0
    · refine ⟨64, ?_, fun _ => rfl, fun h => absurd h0 h⟩
      rw [exec_i64_clz_op_run, if_neg (fun h => h h0), push_i64_run vm rest _ hlen]
      rfl
    · obtain ⟨c, h1, h2, h3⟩ := clz64_loop_spec _ (px % 18446744073709551616) 0 h0 hx (Nat.le_refl _)
      have hc := leading_zeros64 _ c h0 h2 h3
      refine ⟨c, ?_, fun h => absurd h h0, fun _ => hc⟩
      rw [exec_i64_clz_op_run, if_pos h0, push_i64_run vm rest _ hlen, h1, Nat.zero_add,
        to_u64_to_i64_cast c (by omega)]
  · have hx : px % 18446744073709551616 < 18446744073709551616 := Nat.mod_lt _ (by norm_num)
    by_cases h0 : px % 18446744073709551616 = 0
    · refine ⟨64, ?_, fun _ => rfl, fun h => absurd h0 h⟩
      rw [exec_i64_ctz_op_run, if_neg (fun h => h h0), push_i64_run vm rest _ hlen]
      rfl
    · obtain ⟨c, h1, h2, h3⟩ := ctz_loop_spec _ (px % 18446744073709551616) 0 h0 (Nat.le_refl _)
      have hc := trailing_zeros_lt64 _ c h0 hx h2
      refine ⟨c, ?_, fun h => absurd h h0, fun _ => ⟨hc, h2, h3⟩⟩
      rw [exec_i64_ctz_op_run, if_pos h0, push_i64_run vm rest _ hlen, h1, Nat.zero_add,
        Nat.mod_eq_of_lt (by omega), to_u64_to_i64_cast c (by omega)]
  · have hx : px % 18446744073709551616 < 2 ^ 64 := by
      have e : (2 ^ 64 : Nat) = 18446744073709551616 := by norm_num
      rw [e]
      exact Nat.mod_lt _ (by norm_num)
    have hle := countP_range_le (fun i => (px % 18446744073709551616).testBit i) 64
    rw [exec_i64_popcnt_op_run, push_i64_run vm rest _ hlen,
      popcnt_loop_spec 64 _ 0 hx, Nat.zero_add, Nat.mod_eq_of_lt (by omega),
      to_u64_to_i64_cast _ (by omega)]


/-- The contract of the counting handlers at the value `40` on an empty rest of the
stack. -/
theorem exec_clz_ctz_popcnt_op_contract_witness :
    ([] : List wrp_oprd_t).length + 1 ≤ vm_example.oprd_stk_max ∧
    ((∃ c : Nat,
      exec_i32_clz_op { vm_example with oprd_stk := ⟨40, I32⟩ :: [] }
        = (Except.ok (), { vm_example with oprd_stk := ⟨c, I32⟩ :: [] }) ∧
      (40 % 4294967296 = 0 → c = 32) ∧
      (40 % 4294967296 ≠ 0 →
        c < 32 ∧ 2 ^ (31 - c) ≤ 40 % 4294967296 ∧ 40 % 4294967296 < 2 ^ (32 - c))) ∧
    (∃ c : Nat,
      exec_i32_ctz_op { vm_example with oprd_stk := ⟨40, I32⟩ :: [] }
        = (Except.ok (), { vm_example with oprd_stk := ⟨c, I32⟩ :: [] }) ∧
      (40 % 4294967296 = 0 → c = 32) ∧
      (40 % 4294967296 ≠ 0 →
        c < 32 ∧ 2 ^ c ∣ 40 % 4294967296 ∧ ¬ 2 ^ (c + 1) ∣ 40 % 4294967296)) ∧
    exec_i32_popcnt_op { vm_example with oprd_stk := ⟨40, I32⟩ :: [] }
      = (Except.ok (), { vm_example with oprd_stk :=
          ⟨(List.range 32).countP (fun i => (40 % 4294967296).testBit i), I32⟩ :: [] }) ∧
    (∃ c : Nat,
      exec_i64_clz_op { vm_example with oprd_stk := ⟨40, I64⟩ :: [] }
        = (Except.ok (), { vm_example with oprd_stk := ⟨c, I64⟩ :: [] }) ∧
      (40 % 18446744073709551616 = 0 → c = 64) ∧
      (40 % 18446744073709551616 ≠ 0 →
        c < 64 ∧ 2 ^ (63 - c) ≤ 40 % 18446744073709551616 ∧ 40 % 18446744073709551616 < 2 ^ (64 - c))) ∧
    (∃ c : Nat,
      exec_i64_ctz_op { vm_example with oprd_stk := ⟨40, I64⟩ :: [] }
        = (Except.ok (), { vm_example with oprd_stk := ⟨c, I64⟩ :: [] }) ∧
      (40 % 18446744073709551616 = 0 → c = 64) ∧
      (40 % 18446744073709551616 ≠ 0 →
        c < 64 ∧ 2 ^ c ∣ 40 % 18446744073709551616 ∧ ¬ 2 ^ (c + 1) ∣ 40 % 18446744073709551616)) ∧
    exec_i64_popcnt_op { vm_example with oprd_stk := ⟨40, I64⟩ :: [] }
      = (Except.ok (), { vm_example with oprd_stk :=
          ⟨(List.range 64).countP (fun i => (40 % 18446744073709551616).testBit i), I64⟩ :: [] })) :=
  ⟨by decide, exec_clz_ctz_popcnt_op_contract vm_example 40 [] (by decide)⟩
/-- The counting handlers at concrete values: `clz 0x40000000 = 1`, `clz 0 = 32`,
`ctz 8 = 3`, `ctz 0 = 32` and `popcnt 11 = 3`. -/
theorem exec_i32_count_op_scenario :
    exec_i32_clz_op { vm_example with oprd_stk := [⟨1073741824, I32⟩] }
      = (Except.ok (), { vm_example with oprd_stk := [⟨1, I32⟩] }) ∧
    exec_i32_clz_op { vm_example with oprd_stk := [⟨0, I32⟩] }
      = (Except.ok (), { vm_example with oprd_stk := [⟨32, I32⟩] }) ∧
    exec_i32_ctz_op { vm_example with oprd_stk := [⟨8, I32⟩] }
      = (Except.ok (), { vm_example with oprd_stk := [⟨3, I32⟩] }) ∧
    exec_i32_ctz_op { vm_example with oprd_stk := [⟨0, I32⟩] }
      = (Except.ok (), { vm_example with oprd_stk := [⟨32, I32⟩] }) ∧
    exec_i32_popcnt_op { vm_example with oprd_stk := [⟨11, I32⟩] }
      = (Except.ok (), { vm_example with oprd_stk := [⟨3, I32⟩] }) := by
  have h1 : clz32_loop 1073741824 0 = 1 := by
    rw [clz32_loop, if_pos (by decide), clz32_loop, if_neg (by decide)]
  have h2 : ctz_loop 8 0 = 3 := by
    rw [ctz_loop, if_pos (by decide), ctz_loop, if_pos (by decide), ctz_loop,
      if_pos (by decide), ctz_loop, if_neg (by decide)]
  have h3 : popcnt_loop 11 0 = 3 := by
    rw [popcnt_loop, if_pos (by decide), popcnt_loop, if_pos (by decide), popcnt_loop,
      if_pos (by decide), popcnt_loop, if_pos (by decide), popcnt_loop, if_neg (by decide)]
    rfl
  have e1 : 1073741824 % 4294967296 = 1073741824 := rfl
  have e2 : 8 % 4294967296 = 8 := rfl
  have e3 : 11 % 4294967296 = 11 := rfl
  refine ⟨?_, rfl, ?_, rfl, ?_⟩
  · rw [exec_i32_clz_op_run, e1, if_pos (by decide), h1]
    rfl
  · rw [exec_i32_ctz_op_run, e2, if_pos (by decide), h2]
    rfl
  · rw [exec_i32_popcnt_op_run, e3, h3]
    rfl

/-! ## Facts about the branch table -/

theorem read_branch_table_length (n : Nat) : ∀ (vm vm1 : wrp_vm_t) (t : List Nat),
    read_branch_table n vm = (Except.ok t, vm1) → t.length = n := by
  induction n with
  | zero =>
    intro vm vm1 t h
    have h2 : (Except.ok ([] : List Nat), vm) = (Except.ok t, vm1) := h
    injection h2 with h3 _
    injection h3 with h4
    rw [← h4]
    rfl
  | succ n ih =>
    intro vm vm1 t h
    unfold read_branch_table at h
    rw [bind_run] at h
    cases hr : read_stream wrp_read_varui32 vm with
    | mk r vm2 =>
      rw [hr] at h
      cases r with
      | error e => cases h
      | ok v =>
        dsimp only at h
        rw [bind_run] at h
        cases hr2 : read_branch_table n vm2 with
        | mk r2 vm3 =>
          rw [hr2] at h
          cases r2 with
          | error e => cases h
          | ok vs =>
            dsimp only at h
            have h2 : (Except.ok (v :: vs), vm3) = (Except.ok t, vm1) := h
            injection h2 with h3 _
            injection h3 with h4
            rw [← h4, List.length_cons, ih vm2 vm3 vs hr2]

theorem index_guard (i : Int) (n : Nat) (hlo : -2147483648 ≤ i) (hhi : i < 2147483648) :
    (i ≥ 0 ∧ to_u32 i < n) ↔ (0 ≤ i ∧ i < (n : Int)) := by
  unfold to_u32
  omega

theorem index_value (i : Int) (h0 : 0 ≤ i) (hhi : i < 2147483648) : to_u32 i = i.toNat := by
  unfold to_u32
  omega

/-! ## Branch table (C18) -/

/-- C18: when the stream holds the count `n`, not above `MAX_BRANCH_TABLE_SIZE`, the
`n` target depths `t` and the default depth `d`, and the top of the stack is the
i32 index `i`, `exec_br_table_op` pops the index, leaves the cursor after the
default depth and makes the call `wrp_stk_exec_pop_block(vm, t[i], true)` when
`0 ≤ i < n`, and the call `wrp_stk_exec_pop_block(vm, d, true)` for every other
`i`; a depth below 2^31 is passed unchanged. -/
theorem exec_br_table_op_contract (MAX_BRANCH_TABLE_SIZE : Nat)
    (wrp_stk_exec_pop_block : Int → Bool → Exec Unit) (vm : wrp_vm_t) (pi : Nat)
    (rest : List wrp_oprd_t) (n d : Nat) (t : List Nat) (s1 s2 s3 : wrp_buf_t)
    (hn : wrp_read_varui32 vm.opcode_stream = Except.ok (n, s1))
    (hmax : n ≤ MAX_BRANCH_TABLE_SIZE)
    (ht : read_branch_table n { vm with oprd_stk := ⟨pi, I32⟩ :: rest, opcode_stream := s1 }
        = (Except.ok t, { vm with oprd_stk := ⟨pi, I32⟩ :: rest, opcode_stream := s2 }))
    (hd : wrp_read_varui32 s2 = Except.ok (d, s3)) :
    (0 ≤ wrp_decode_i32 pi ∧ wrp_decode_i32 pi < (n : Int) →
      exec_br_table_op MAX_BRANCH_TABLE_SIZE wrp_stk_exec_pop_block
          { vm with oprd_stk := ⟨pi, I32⟩ :: rest }
        = wrp_stk_exec_pop_block (to_i32 (t.getD (wrp_decode_i32 pi).toNat 0 : Nat)) true
            { vm with oprd_stk := rest, opcode_stream := s3 }) ∧
    (¬ (0 ≤ wrp_decode_i32 pi ∧ wrp_decode_i32 pi < (n : Int)) →
      exec_br_table_op MAX_BRANCH_TABLE_SIZE wrp_stk_exec_pop_block
          { vm with oprd_stk := ⟨pi, I32⟩ :: rest }
        = wrp_stk_exec_pop_block (to_i32 (d : Nat)) true
            { vm with oprd_stk := rest, opcode_stream := s3 }) ∧
    t.length = n ∧
    (∀ k : Nat, k < 2147483648 → to_i32 (k : Nat) = (k : Int)) := by
  have hrun : exec_br_table_op MAX_BRANCH_TABLE_SIZE wrp_stk_exec_pop_block
      { vm with oprd_stk := ⟨pi, I32⟩ :: rest }
      = wrp_stk_exec_pop_block
          (if wrp_decode_i32 pi ≥ 0 ∧ to_u32 (wrp_decode_i32 pi) < n then
            to_i32 (t.getD (to_u32 (wrp_decode_i32 pi)) 0 : Nat)
          else to_i32 (d : Nat)) true
          { vm with oprd_stk := rest, opcode_stream := s3 } := by
    unfold exec_br_table_op
    rw [bind_run_ok _ _ _ _ _
        (read_stream_run wrp_read_varui32 vm vm.memory (⟨pi, I32⟩ :: rest) vm.opcode_stream
          s1 n hn),
      if_neg (Nat.not_lt.mpr hmax),
      bind_run_ok _ _ _ _ _ ht,
      bind_run_ok _ _ _ _ _
        (read_stream_run wrp_read_varui32 vm vm.memory (⟨pi, I32⟩ :: rest) s2 s3 d hd),
      bind_run_ok _ _ _ _ _ (pop_i32_run_fields vm vm.memory pi I32 rest s3)]
  have hr := wrp_decode_i32_range pi
  have hg := index_guard (wrp_decode_i32 pi) n hr.1 hr.2
  refine ⟨?_, ?_, read_branch_table_length n _ _ t ht, ?_⟩
  · intro h
    rw [hrun, if_pos (hg.mpr h), index_value _ h.1 hr.2]
  · intro h
    rw [hrun, if_neg (fun h2 => h (hg.mp h2))]
  · intro k hk
    exact to_i32_of_range _ (by omega) (by omega)

/-- The contract of the branch table at the table `[5, 7]` with default `9` and the
index `1`, with a helper that records the depth it receives on the stack. -/
theorem exec_br_table_op_contract_witness :
    wrp_read_varui32 vm_br_table_example.opcode_stream = Except.ok (2, { bytes := [2, 5, 7, 9], sz := 4, pos := 1 }) ∧
    2 ≤ 16 ∧
    read_branch_table 2 { vm_br_table_example with oprd_stk := ⟨1, I32⟩ :: [], opcode_stream := { bytes := [2, 5, 7, 9], sz := 4, pos := 1 } }
        = (Except.ok [5, 7], { vm_br_table_example with oprd_stk := ⟨1, I32⟩ :: [], opcode_stream := { bytes := [2, 5, 7, 9], sz := 4, pos := 3 } }) ∧
    wrp_read_varui32 { bytes := [2, 5, 7, 9], sz := 4, pos := 3 } = Except.ok (9, { bytes := [2, 5, 7, 9], sz := 4, pos := 4 }) ∧
    ((0 ≤ wrp_decode_i32 1 ∧ wrp_decode_i32 1 < (2 : Int) →
      exec_br_table_op 16 (fun depth _ => wrp_stk_exec_push_i32 depth)
          { vm_br_table_example with oprd_stk := ⟨1, I32⟩ :: [] }
        = (fun depth _ => wrp_stk_exec_push_i32 depth) (to_i32 ([5, 7].getD (wrp_decode_i32 1).toNat 0 : Nat)) true
            { vm_br_table_example with oprd_stk := [], opcode_stream := { bytes := [2, 5, 7, 9], sz := 4, pos := 4 } }) ∧
    (¬ (0 ≤ wrp_decode_i32 1 ∧ wrp_decode_i32 1 < (2 : Int)) →
      exec_br_table_op 16 (fun depth _ => wrp_stk_exec_push_i32 depth)
          { vm_br_table_example with oprd_stk := ⟨1, I32⟩ :: [] }
        = (fun depth _ => wrp_stk_exec_push_i32 depth) (to_i32 (9 : Nat)) true
            { vm_br_table_example with oprd_stk := [], opcode_stream := { bytes := [2, 5, 7, 9], sz := 4, pos := 4 } }) ∧
    [5, 7].length = 2 ∧
    (∀ k : Nat, k < 2147483648 → to_i32 (k : Nat) = (k : Int))) :=
  ⟨rfl, by decide, rfl, rfl,
    exec_br_table_op_contract 16 (fun depth _ => wrp_stk_exec_push_i32 depth)
      vm_br_table_example 1 [] 2 9 [5, 7]
      { bytes := [2, 5, 7, 9], sz := 4, pos := 1 } { bytes := [2, 5, 7, 9], sz := 4, pos := 3 }
      { bytes := [2, 5, 7, 9], sz := 4, pos := 4 } rfl (by decide) rfl rfl⟩

/-- The branch table `[5, 7]` with default `9`, with a helper that records the depth
it receives on the stack: the index `1` selects `7`, the index `2` and the index
`-1` select the default `9`. -/
theorem exec_br_table_op_scenario :
    exec_br_table_op 16 (fun depth _ => wrp_stk_exec_push_i32 depth)
        { vm_br_table_example with oprd_stk := [⟨1, I32⟩] }
      = (Except.ok (), { vm_br_table_example with
          oprd_stk := [⟨7, I32⟩],
          opcode_stream := { bytes := [2, 5, 7, 9], sz := 4, pos := 4 } }) ∧
    exec_br_table_op 16 (fun depth _ => wrp_stk_exec_push_i32 depth)
        { vm_br_table_example with oprd_stk := [⟨2, I32⟩] }
      = (Except.ok (), { vm_br_table_example with
          oprd_stk := [⟨9, I32⟩],
          opcode_stream := { bytes := [2, 5, 7, 9], sz := 4, pos := 4 } }) ∧
    exec_br_table_op 16 (fun depth _ => wrp_stk_exec_push_i32 depth)
        { vm_br_table_example with oprd_stk := [⟨4294967295, I32⟩] }
      = (Except.ok (), { vm_br_table_example with
          oprd_stk := [⟨9, I32⟩],
          opcode_stream := { bytes := [2, 5, 7, 9], sz := 4, pos := 4 } }) :=
  ⟨rfl, rfl, rfl⟩
/-! ## Facts about the dispatch tables -/

set_option maxRecDepth 100000 in
theorem exec_jump_table_size : jump_table_size exec_jump_table = 192 := by decide

set_option maxRecDepth 100000 in
theorem check_jump_table_size : jump_table_size check_jump_table = 192 := by decide

set_option maxRecDepth 100000 in
theorem exec_jump_table_total :
    ∀ i : Nat, i < 192 → (jump_table_entry exec_jump_table i).isSome = true := by decide

set_option maxRecDepth 100000 in
theorem check_jump_table_total :
    ∀ i : Nat, i < 192 → (jump_table_entry check_jump_table i).isSome = true := by decide

set_option maxRecDepth 100000 in
theorem exec_jump_table_reserved :
    ∀ i : Nat, i < 192 →
      ((6 ≤ i ∧ i ≤ 10) ∨ (18 ≤ i ∧ i ≤ 25) ∨ (28 ≤ i ∧ i ≤ 31) ∨ (37 ≤ i ∧ i ≤ 39)) →
      jump_table_entry exec_jump_table i = some exec_fn.exec_invalid_op := by decide

set_option maxRecDepth 100000 in
theorem check_jump_table_reserved :
    ∀ i : Nat, i < 192 →
      ((6 ≤ i ∧ i ≤ 10) ∨ (18 ≤ i ∧ i ≤ 25) ∨ (28 ≤ i ∧ i ≤ 31) ∨ (37 ≤ i ∧ i ≤ 39)) →
      jump_table_entry check_jump_table i = some check_fn.check_invalid_op := by decide

theorem exec_jump_table_call (i : Nat) (h : i < 192) :
    jump_table_call exec_jump_table i = jump_table_entry exec_jump_table i := by
  unfold jump_table_call
  rw [exec_jump_table_size, if_pos h]

theorem check_jump_table_call (i : Nat) (h : i < 192) :
    jump_table_call check_jump_table i = jump_table_entry check_jump_table i := by
  unfold jump_table_call
  rw [check_jump_table_size, if_pos h]

theorem wrp_exec_func_body_run (handler : exec_fn → Exec Unit) (vm : wrp_vm_t)
    (hpos : vm.opcode_stream.pos < vm.opcode_stream.sz) :
    wrp_exec_func_body handler vm =
      if vm.opcode_stream.bytes.getD vm.opcode_stream.pos 0 % 256 ≥ NUM_OPCODES then
        some (Except.error wrp_err_t.WRP_ERR_INVALID_OPCODE,
          { vm with opcode_stream :=
            { vm.opcode_stream with pos := vm.opcode_stream.pos + 1 } })
      else
        match jump_table_call exec_jump_table
            (vm.opcode_stream.bytes.getD vm.opcode_stream.pos 0 % 256) with
        | none => none
        | some f =>
          some ((handler f { vm with opcode_stream :=
                { vm.opcode_stream with pos := vm.opcode_stream.pos + 1 } }).1,
            { (handler f { vm with opcode_stream :=
                { vm.opcode_stream with pos := vm.opcode_stream.pos + 1 } }).2 with
              err := err_code (handler f { vm with opcode_stream :=
                { vm.opcode_stream with pos := vm.opcode_stream.pos + 1 } }).1 }) := by
  unfold wrp_exec_func_body
  rw [if_neg (Nat.not_le.mpr hpos)]

theorem wrp_type_check_mdle_body_run {μ : Type}
    (handler : check_fn → wrp_vm_t × μ → Except wrp_err_t Unit × (wrp_vm_t × μ))
    (vm : wrp_vm_t) (m : μ) :
    wrp_type_check_mdle_body handler (vm, m) =
      if vm.opcode_stream.bytes.getD vm.opcode_stream.pos 0 % 256 ≥ NUM_OPCODES then
        some (Except.error wrp_err_t.WRP_ERR_INVALID_OPCODE,
          ({ vm with opcode_stream :=
            { vm.opcode_stream with pos := vm.opcode_stream.pos + 1 } }, m))
      else
        match jump_table_call check_jump_table
            (vm.opcode_stream.bytes.getD vm.opcode_stream.pos 0 % 256) with
        | none => none
        | some f =>
          some (handler f ({ vm with opcode_stream :=
            { vm.opcode_stream with pos := vm.opcode_stream.pos + 1 } }, m)) := by
  unfold wrp_type_check_mdle_body
  dsimp only

/-! ## Dispatch of invalid opcodes (C20) -/

/-- C20: when the opcode byte `b` at the cursor is at least `0xC0` or one of the
reserved slots `0x06-0x0A`, `0x12-0x19`, `0x1C-0x1F`, `0x25-0x27`, the loop body of
`wrp_exec_func` and the loop body of `wrp_type_check_mdle` return invalid-opcode;
for every byte both bodies have defined behaviour; every index below
`NUM_OPCODES` of `exec_jump_table` and of `check_jump_table` is inside the table
and holds a function, and both tables have `NUM_OPCODES` elements. -/
theorem dispatch_invalid_opcode (ub : Int → Int → Int) (MAX_BRANCH_TABLE_SIZE : Nat)
    (wrp_stk_exec_pop_block : Int → Bool → Exec Unit) (others : exec_fn → Exec Unit)
    (μ : Type) (check_others : check_fn → wrp_vm_t × μ → Except wrp_err_t Unit × (wrp_vm_t × μ))
    (vm : wrp_vm_t) (m : μ) (b : Nat)
    (hpos : vm.opcode_stream.pos < vm.opcode_stream.sz)
    (hb : vm.opcode_stream.bytes.getD vm.opcode_stream.pos 0 % 256 = b) :
    (NUM_OPCODES ≤ b ∨ (6 ≤ b ∧ b ≤ 10) ∨ (18 ≤ b ∧ b ≤ 25) ∨ (28 ≤ b ∧ b ≤ 31) ∨ (37 ≤ b ∧ b ≤ 39) →
      (∃ vm1 : wrp_vm_t,
        wrp_exec_func_body
            (exec_handler ub MAX_BRANCH_TABLE_SIZE wrp_stk_exec_pop_block others) vm
          = some (Except.error wrp_err_t.WRP_ERR_INVALID_OPCODE, vm1)) ∧
      (∃ s1 : wrp_vm_t × μ,
        wrp_type_check_mdle_body (check_handler check_others) (vm, m)
          = some (Except.error wrp_err_t.WRP_ERR_INVALID_OPCODE, s1))) ∧
    (wrp_exec_func_body
        (exec_handler ub MAX_BRANCH_TABLE_SIZE wrp_stk_exec_pop_block others) vm).isSome
      = true ∧
    (wrp_type_check_mdle_body (check_handler check_others) (vm, m)).isSome = true ∧
    (∀ i : Nat, i < NUM_OPCODES →
      jump_table_call exec_jump_table i ≠ none ∧ jump_table_call check_jump_table i ≠ none) ∧
    jump_table_size exec_jump_table = NUM_OPCODES ∧
    jump_table_size check_jump_table = NUM_OPCODES := by
  have hN : NUM_OPCODES = 192 := rfl
  have hb256 : b < 256 := by
    rw [← hb]
    exact Nat.mod_lt _ (by norm_num)
  have hexec := wrp_exec_func_body_run
    (exec_handler ub MAX_BRANCH_TABLE_SIZE wrp_stk_exec_pop_block others) vm hpos
  have hcheck := wrp_type_check_mdle_body_run (check_handler check_others) vm m
  rw [hb] at hexec hcheck
  refine ⟨?_, ?_, ?_, ?_, ?_, ?_⟩
  · intro h
    by_cases hge : b ≥ NUM_OPCODES
    · rw [hexec, hcheck, if_pos hge, if_pos hge]
      exact ⟨⟨_, rfl⟩, ⟨_, rfl⟩⟩
    · have hlt : b < 192 := by omega
      have hres : (6 ≤ b ∧ b ≤ 10) ∨ (18 ≤ b ∧ b ≤ 25) ∨ (28 ≤ b ∧ b ≤ 31) ∨ (37 ≤ b ∧ b ≤ 39) := by omega
      rw [hexec, hcheck, if_neg hge, if_neg hge, exec_jump_table_call b hlt,
        check_jump_table_call b hlt, exec_jump_table_reserved b hlt hres,
        check_jump_table_reserved b hlt hres]
      exact ⟨⟨_, rfl⟩, ⟨_, rfl⟩⟩
  · rw [hexec]
    by_cases hge : b ≥ NUM_OPCODES
    · rw [if_pos hge]
      rfl
    · have hlt : b < 192 := by omega
      have ht := exec_jump_table_total b hlt
      rw [if_neg hge, exec_jump_table_call b hlt]
      cases he : jump_table_entry exec_jump_table b with
      | none =>
        rw [he] at ht
        cases ht
      | some f => rfl
  · rw [hcheck]
    by_cases hge : b ≥ NUM_OPCODES
    · rw [if_pos hge]
      rfl
    · have hlt : b < 192 := by omega
      have ht := check_jump_table_total b hlt
      rw [if_neg hge, check_jump_table_call b hlt]
      cases he : jump_table_entry check_jump_table b with
      | none =>
        rw [he] at ht
        cases ht
      | some f => rfl
  · intro i hi
    have hlt : i < 192 := by omega
    have h1 := exec_jump_table_total i hlt
    have h2 := check_jump_table_total i hlt
    rw [exec_jump_table_call i hlt, check_jump_table_call i hlt]
    constructor
    · intro h
      rw [h] at h1
      cases h1
    · intro h
      rw [h] at h2
      cases h2
  · exact exec_jump_table_size
  · exact check_jump_table_size

/-- The dispatch of the reserved opcode byte `0x06`, with handlers of the remaining
opcodes that do nothing. -/
theorem dispatch_invalid_opcode_witness :
    vm_reserved_example.opcode_stream.pos < vm_reserved_example.opcode_stream.sz ∧
    vm_reserved_example.opcode_stream.bytes.getD vm_reserved_example.opcode_stream.pos 0 % 256 = 6 ∧
    ((NUM_OPCODES ≤ 6 ∨ (6 ≤ 6 ∧ 6 ≤ 10) ∨ (18 ≤ 6 ∧ 6 ≤ 25) ∨ (28 ≤ 6 ∧ 6 ≤ 31) ∨ (37 ≤ 6 ∧ 6 ≤ 39) →
      (∃ vm1 : wrp_vm_t,
        wrp_exec_func_body
            (exec_handler (fun _ _ => 0) 16 (fun _ _ => pure ()) (fun _ => pure ())) vm_reserved_example
          = some (Except.error wrp_err_t.WRP_ERR_INVALID_OPCODE, vm1)) ∧
      (∃ s1 : wrp_vm_t × Unit,
        wrp_type_check_mdle_body (check_handler (fun _ s => (Except.ok (), s))) (vm_reserved_example, ())
          = some (Except.error wrp_err_t.WRP_ERR_INVALID_OPCODE, s1))) ∧
    (wrp_exec_func_body
        (exec_handler (fun _ _ => 0) 16 (fun _ _ => pure ()) (fun _ => pure ())) vm_reserved_example).isSome
      = true ∧
    (wrp_type_check_mdle_body (check_handler (fun _ s => (Except.ok (), s))) (vm_reserved_example, ())).isSome = true ∧
    (∀ i : Nat, i < NUM_OPCODES →
      jump_table_call exec_jump_table i ≠ none ∧ jump_table_call check_jump_table i ≠ none) ∧
    jump_table_size exec_jump_table = NUM_OPCODES ∧
    jump_table_size check_jump_table = NUM_OPCODES) :=
  ⟨by decide, rfl,
    dispatch_invalid_opcode (fun _ _ => 0) 16 (fun _ _ => pure ()) (fun _ => pure ()) Unit
      (fun _ s => (Except.ok (), s)) vm_reserved_example () 6 (by decide) rfl⟩
/-! ## Attaching and detaching a module (C21) -/

/-- C21: for every container and every module record `m`, `wrp_attach_mdle` returns
true exactly when no module is attached; it then installs `m` and leaves the
operand, control and call stacks empty, and when a module is attached it returns
false and leaves the container as it was. `wrp_detach_mdle` returns true exactly
when a module is attached, and leaves none attached. A second attach after a
successful one fails and keeps the first module, and a detach after a successful
attach succeeds and leaves no module attached. -/
theorem wrp_attach_detach_mdle_contract (vm : wrp_vm_t) (m m2 : wrp_wasm_mdle_t) :
    ((wrp_attach_mdle vm (some m)).1 = true ↔ vm.mdle = none) ∧
    (vm.mdle = none →
      (wrp_attach_mdle vm (some m)).2.mdle = some m ∧
      (wrp_attach_mdle vm (some m)).2.oprd_stk = [] ∧
      (wrp_attach_mdle vm (some m)).2.ctrl_stk = [] ∧
      (wrp_attach_mdle vm (some m)).2.call_stk = []) ∧
    (vm.mdle ≠ none → wrp_attach_mdle vm (some m) = (false, vm)) ∧
    ((wrp_detach_mdle vm).1 = true ↔ vm.mdle ≠ none) ∧
    (wrp_detach_mdle vm).2.mdle = none ∧
    (vm.mdle = none → wrp_detach_mdle vm = (false, vm)) ∧
    (vm.mdle = none →
      wrp_attach_mdle (wrp_attach_mdle vm (some m)).2 (some m2)
        = (false, (wrp_attach_mdle vm (some m)).2)) ∧
    (vm.mdle = none →
      (wrp_detach_mdle (wrp_attach_mdle vm (some m)).2).1 = true ∧
      (wrp_detach_mdle (wrp_attach_mdle vm (some m)).2).2.mdle = none) := by
  by_cases h : vm.mdle = none
  · have ha : wrp_attach_mdle vm (some m) = (true, wrp_reset_vm { vm with mdle := some m }) := by
      unfold wrp_attach_mdle
      rw [if_neg (fun hn => hn h)]
    have hd : wrp_detach_mdle vm = (false, vm) := by
      unfold wrp_detach_mdle
      rw [if_pos h]
    rw [ha, hd]
    refine ⟨⟨fun _ => h, fun _ => rfl⟩, fun _ => ⟨rfl, rfl, rfl, rfl⟩, fun hn => absurd h hn,
      ⟨fun hf => Bool.noConfusion hf, fun hn => absurd h hn⟩, h, fun _ => rfl, fun _ => rfl,
      fun _ => ⟨rfl, rfl⟩⟩
  · have ha : wrp_attach_mdle vm (some m) = (false, vm) := by
      unfold wrp_attach_mdle
      rw [if_pos h]
    have hd : wrp_detach_mdle vm = (true, { vm with mdle := none }) := by
      unfold wrp_detach_mdle
      rw [if_neg h]
    rw [ha, hd]
    refine ⟨⟨fun hf => Bool.noConfusion hf, fun hn => absurd hn h⟩, fun hn => absurd hn h,
      fun _ => rfl, ⟨fun _ => h, fun _ => rfl⟩, rfl, fun hn => absurd hn h,
      fun hn => absurd hn h, fun hn => absurd hn h⟩

/-- The contract of attach and detach on the container `vm_example`, which has no
module attached, and on the same container with a module attached. -/
theorem wrp_attach_detach_mdle_contract_witness :
    (wrp_attach_mdle vm_example (some mdle_locals_example)).1 = true ∧
    ((wrp_attach_mdle vm_example (some mdle_locals_example)).2.mdle
        = some mdle_locals_example ∧
      (wrp_attach_mdle vm_example (some mdle_locals_example)).2.oprd_stk = [] ∧
      (wrp_attach_mdle vm_example (some mdle_locals_example)).2.ctrl_stk = [] ∧
      (wrp_attach_mdle vm_example (some mdle_locals_example)).2.call_stk = []) ∧
    wrp_attach_mdle { vm_example with mdle := some mdle_global_example }
        (some mdle_locals_example)
      = (false, { vm_example with mdle := some mdle_global_example }) ∧
    (wrp_detach_mdle { vm_example with mdle := some mdle_global_example }).1 = true ∧
    wrp_detach_mdle vm_example = (false, vm_example) ∧
    wrp_attach_mdle (wrp_attach_mdle vm_example (some mdle_locals_example)).2
        (some mdle_global_example)
      = (false, (wrp_attach_mdle vm_example (some mdle_locals_example)).2) ∧
    ((wrp_detach_mdle (wrp_attach_mdle vm_example (some mdle_locals_example)).2).1 = true ∧
      (wrp_detach_mdle (wrp_attach_mdle vm_example (some mdle_locals_example)).2).2.mdle
        = none) :=
  ⟨(wrp_attach_detach_mdle_contract vm_example mdle_locals_example mdle_global_example).1.mpr
      rfl,
    (wrp_attach_detach_mdle_contract vm_example mdle_locals_example mdle_global_example).2.1
      rfl,
    (wrp_attach_detach_mdle_contract { vm_example with mdle := some mdle_global_example }
      mdle_locals_example mdle_global_example).2.2.1 (by decide),
    (wrp_attach_detach_mdle_contract { vm_example with mdle := some mdle_global_example }
      mdle_locals_example mdle_global_example).2.2.2.1.mpr (by decide),
    (wrp_attach_detach_mdle_contract vm_example mdle_locals_example
      mdle_global_example).2.2.2.2.2.1 rfl,
    (wrp_attach_detach_mdle_contract vm_example mdle_locals_example
      mdle_global_example).2.2.2.2.2.2.1 rfl,
    (wrp_attach_detach_mdle_contract vm_example mdle_locals_example
      mdle_global_example).2.2.2.2.2.2.2 rfl⟩

/-! ## The last error after a failed call (C22) -/

/-- C22: on a container with no module attached `wrp_call` returns false and leaves
the container as it was, so a last error that was `WRP_SUCCESS` before the call
is `WRP_SUCCESS` after it; the same happens with a module of one function
attached and the function index `1`. -/
theorem wrp_call_at_failing_input :
    (∀ (wrp_exec : Nat → Exec Unit) (vm : wrp_vm_t) (func_idx : Nat),
      wrp_call wrp_exec { vm with mdle := none } func_idx
        = (false, { vm with mdle := none })) ∧
    (∀ wrp_exec : Nat → Exec Unit, wrp_call wrp_exec vm_example 0 = (false, vm_example)) ∧
    vm_example.mdle = none ∧
    (∀ wrp_exec : Nat → Exec Unit,
      (wrp_call wrp_exec vm_example 0).2.err = wrp_err_t.WRP_SUCCESS) ∧
    (∀ wrp_exec : Nat → Exec Unit,
      wrp_call wrp_exec { vm_example with mdle := some mdle_locals_example } 1
        = (false, { vm_example with mdle := some mdle_locals_example })) ∧
    mdle_locals_example.num_funcs = 1 ∧
    (∀ wrp_exec : Nat → Exec Unit,
      (wrp_call wrp_exec { vm_example with mdle := some mdle_locals_example } 1).2.err
        = wrp_err_t.WRP_SUCCESS) :=
  ⟨fun _ _ _ => rfl, fun _ => rfl, rfl, fun _ => rfl, fun _ => rfl, rfl, fun _ => rfl⟩

/-! ## The last error after a failed instantiation (C23) -/

/-- C23: when `wrp_scan_mdle` succeeds and `wrp_check_meta` rejects the summary,
with `WRP_ERR_MDLE_INVALID_BYTES` or with `WRP_ERR_INVALID_RESERVED`,
`wrp_instantiate_mdle` on a container with no module attached returns null and
stores in the last error the enumerator of value `1`, the truth value of the
comparison with `WRP_SUCCESS`; whatever the values of the enumerators are, there
is an error code `e` with which `wrp_instantiate_mdle` returns null and leaves a
last error different from `e`. With the enumerator `WRP_ERR_UNKNOWN` at value `1`,
a summary rejected with `WRP_ERR_MDLE_INVALID_BYTES` leaves `WRP_ERR_UNKNOWN`. -/
theorem wrp_instantiate_mdle_at_failing_input :
    (∀ (err_of_int : Int → wrp_err_t)
        (wrp_mdle_sz : wrp_wasm_meta_t → Nat) (wrp_mdle_init : wrp_wasm_meta_t → wrp_wasm_mdle_t)
        (wrp_load_mdle :
          wrp_buf_t → wrp_wasm_mdle_t → wrp_err_t × wrp_buf_t × wrp_wasm_mdle_t)
        (wrp_type_check_mdle :
          wrp_vm_t → wrp_wasm_mdle_t → wrp_err_t × wrp_vm_t × wrp_wasm_mdle_t)
        (buf : wrp_buf_t),
      wrp_instantiate_mdle err_of_int (fun b s => (wrp_err_t.WRP_SUCCESS, b, s))
          (fun _ => wrp_err_t.WRP_ERR_MDLE_INVALID_BYTES) wrp_mdle_sz wrp_mdle_init
          wrp_load_mdle wrp_type_check_mdle vm_example buf
        = (none, { vm_example with err := err_of_int 1 }, buf) ∧
      wrp_instantiate_mdle err_of_int (fun b s => (wrp_err_t.WRP_SUCCESS, b, s))
          (fun _ => wrp_err_t.WRP_ERR_INVALID_RESERVED) wrp_mdle_sz wrp_mdle_init
          wrp_load_mdle wrp_type_check_mdle vm_example buf
        = (none, { vm_example with err := err_of_int 1 }, buf)) ∧
    (∀ (err_of_int : Int → wrp_err_t)
        (wrp_mdle_sz : wrp_wasm_meta_t → Nat) (wrp_mdle_init : wrp_wasm_meta_t → wrp_wasm_mdle_t)
        (wrp_load_mdle :
          wrp_buf_t → wrp_wasm_mdle_t → wrp_err_t × wrp_buf_t × wrp_wasm_mdle_t)
        (wrp_type_check_mdle :
          wrp_vm_t → wrp_wasm_mdle_t → wrp_err_t × wrp_vm_t × wrp_wasm_mdle_t)
        (buf : wrp_buf_t),
      ∃ e : wrp_err_t, e ≠ wrp_err_t.WRP_SUCCESS ∧
        (wrp_instantiate_mdle err_of_int (fun b s => (wrp_err_t.WRP_SUCCESS, b, s))
          (fun _ => e) wrp_mdle_sz wrp_mdle_init wrp_load_mdle wrp_type_check_mdle
          vm_example buf).1 = none ∧
        (wrp_instantiate_mdle err_of_int (fun b s => (wrp_err_t.WRP_SUCCESS, b, s))
          (fun _ => e) wrp_mdle_sz wrp_mdle_init wrp_load_mdle wrp_type_check_mdle
          vm_example buf).2.1.err ≠ e) ∧
    (wrp_instantiate_mdle (fun v => if v = 1 then wrp_err_t.WRP_ERR_UNKNOWN
          else wrp_err_t.WRP_SUCCESS)
        (fun b s => (wrp_err_t.WRP_SUCCESS, b, s))
        (fun _ => wrp_err_t.WRP_ERR_MDLE_INVALID_BYTES) (fun _ => 64) (fun _ => {})
        (fun b m => (wrp_err_t.WRP_SUCCESS, b, m)) (fun vm m => (wrp_err_t.WRP_SUCCESS, vm, m))
        vm_example vm_example.opcode_stream)
      = (none, { vm_example with err := wrp_err_t.WRP_ERR_UNKNOWN },
          vm_example.opcode_stream) := by
  have hrun : ∀ (err_of_int : Int → wrp_err_t) (e : wrp_err_t)
      (wrp_mdle_sz : wrp_wasm_meta_t → Nat) (wrp_mdle_init : wrp_wasm_meta_t → wrp_wasm_mdle_t)
      (wrp_load_mdle : wrp_buf_t → wrp_wasm_mdle_t → wrp_err_t × wrp_buf_t × wrp_wasm_mdle_t)
      (wrp_type_check_mdle :
        wrp_vm_t → wrp_wasm_mdle_t → wrp_err_t × wrp_vm_t × wrp_wasm_mdle_t)
      (buf : wrp_buf_t), e ≠ wrp_err_t.WRP_SUCCESS →
      wrp_instantiate_mdle err_of_int (fun b s => (wrp_err_t.WRP_SUCCESS, b, s))
          (fun _ => e) wrp_mdle_sz wrp_mdle_init wrp_load_mdle wrp_type_check_mdle
          vm_example buf
        = (none, { vm_example with err := err_of_int 1 }, buf) := by
    intro err_of_int e sz init load tc buf he
    unfold wrp_instantiate_mdle
    simp only [if_pos he]
    rfl
  refine ⟨?_, ?_, rfl⟩
  · intro err_of_int sz init load tc buf
    exact ⟨hrun err_of_int _ sz init load tc buf (by decide),
      hrun err_of_int _ sz init load tc buf (by decide)⟩
  · intro err_of_int sz init load tc buf
    by_cases h1 : err_of_int 1 = wrp_err_t.WRP_ERR_UNKNOWN
    · refine ⟨wrp_err_t.WRP_ERR_INVALID_OPCODE, by decide, ?_, ?_⟩
      · rw [hrun err_of_int _ sz init load tc buf (by decide)]
      · rw [hrun err_of_int _ sz init load tc buf (by decide)]
        show err_of_int 1 ≠ wrp_err_t.WRP_ERR_INVALID_OPCODE
        rw [h1]
        decide
    · refine ⟨wrp_err_t.WRP_ERR_UNKNOWN, by decide, ?_, ?_⟩
      · rw [hrun err_of_int _ sz init load tc buf (by decide)]
      · rw [hrun err_of_int _ sz init load tc buf (by decide)]
        exact h1
/-! ## Facts about the validator table -/

set_option maxRecDepth 100000 in
theorem check_jump_table_load_entries :
    (List.range 14).all (fun k =>
      decide (jump_table_call check_jump_table (0x28 + k) = some check_fn.check_load))
      = true := by decide

set_option maxRecDepth 100000 in
theorem check_jump_table_store_entries :
    (List.range 9).all (fun k =>
      decide (jump_table_call check_jump_table (0x36 + k) = some check_fn.check_store))
      = true := by decide

set_option maxRecDepth 100000 in
theorem check_jump_table_i32_store :
    jump_table_call check_jump_table 0x36 = some check_fn.check_store := by decide

set_option maxRecDepth 100000 in
theorem check_jump_table_i32_load :
    jump_table_call check_jump_table 0x28 = some check_fn.check_load := by decide

set_option maxRecDepth 100000 in
theorem check_jump_table_reinterpret :
    jump_table_call check_jump_table OP_I32_REINTERPRET_F32
      = some check_fn.check_reinterpret_i32_f32 ∧
    jump_table_call check_jump_table OP_I64_REINTERPRET_F64
      = some check_fn.check_reinterpret_i64_f64 ∧
    jump_table_call check_jump_table OP_F32_REINTERPRET_I32
      = some check_fn.check_reinterpret_f32_i32 ∧
    jump_table_call check_jump_table OP_F64_REINTERPRET_I64
      = some check_fn.check_reinterpret_f64_i64 := by decide

theorem wrp_type_check_mdle_body_at {μ : Type}
    (handler : check_fn → wrp_vm_t × μ → Except wrp_err_t Unit × (wrp_vm_t × μ))
    (vm : wrp_vm_t) (m : μ) (b : Nat) (f : check_fn)
    (hb : vm.opcode_stream.bytes.getD vm.opcode_stream.pos 0 % 256 = b)
    (hlt : b < 192) (hf : jump_table_call check_jump_table b = some f) :
    wrp_type_check_mdle_body handler (vm, m)
      = some (handler f ({ vm with opcode_stream :=
          { vm.opcode_stream with pos := vm.opcode_stream.pos + 1 } }, m)) := by
  have hN : NUM_OPCODES = 192 := rfl
  rw [wrp_type_check_mdle_body_run, hb, if_neg (by omega), hf]

/-! ## Validation of loads and stores (C24) -/

/-- C24: `check_load` and `check_store` return the code unknown in every state and
change nothing; the entries `0x28-0x35` of `check_jump_table` are `check_load` and
the entries `0x36-0x3E` are `check_store`. So the loop body of
`wrp_type_check_mdle` at an `i32.store` with an `i32` value above an `i32` address
on the operand-type stack, and at an `i32.load` with an `i32` address on it,
returns unknown instead of accepting the opcode. -/
theorem check_load_store_at_failing_input :
    (∀ (out_mdle : wrp_wasm_mdle_t) (vm : wrp_vm_t),
      check_load out_mdle vm = (Except.error wrp_err_t.WRP_ERR_UNKNOWN, vm)) ∧
    (∀ (out_mdle : wrp_wasm_mdle_t) (vm : wrp_vm_t),
      check_store out_mdle vm = (Except.error wrp_err_t.WRP_ERR_UNKNOWN, vm)) ∧
    (List.range 14).all (fun k =>
      decide (jump_table_call check_jump_table (0x28 + k) = some check_fn.check_load)) = true ∧
    (List.range 9).all (fun k =>
      decide (jump_table_call check_jump_table (0x36 + k) = some check_fn.check_store)) = true ∧
    (∀ (MAX_BRANCH_TABLE_SIZE : Nat) (wrp_stk_check_block_sig : Nat → Bool → Exec Unit)
        (wrp_stk_check_unreachable : Exec Unit)
        (others : check_fn → wrp_vm_t × wrp_wasm_mdle_t →
          Except wrp_err_t Unit × (wrp_vm_t × wrp_wasm_mdle_t)),
      wrp_type_check_mdle_body
          (check_handler_mdle MAX_BRANCH_TABLE_SIZE wrp_stk_check_block_sig
            wrp_stk_check_unreachable others)
          ({ vm_check_example with
              oprd_stk := [⟨0, I32⟩, ⟨0, I32⟩],
              opcode_stream := { bytes := [0x36, 2, 0, 0x28, 2, 0, 0x0B], sz := 7, pos := 0 } },
            mdle_locals_example)
        = some (Except.error wrp_err_t.WRP_ERR_UNKNOWN,
            ({ vm_check_example with
              oprd_stk := [⟨0, I32⟩, ⟨0, I32⟩],
              opcode_stream := { bytes := [0x36, 2, 0, 0x28, 2, 0, 0x0B], sz := 7, pos := 1 } },
            mdle_locals_example))) ∧
    (∀ (MAX_BRANCH_TABLE_SIZE : Nat) (wrp_stk_check_block_sig : Nat → Bool → Exec Unit)
        (wrp_stk_check_unreachable : Exec Unit)
        (others : check_fn → wrp_vm_t × wrp_wasm_mdle_t →
          Except wrp_err_t Unit × (wrp_vm_t × wrp_wasm_mdle_t)),
      wrp_type_check_mdle_body
          (check_handler_mdle MAX_BRANCH_TABLE_SIZE wrp_stk_check_block_sig
            wrp_stk_check_unreachable others)
          ({ vm_check_example with
              oprd_stk := [⟨0, I32⟩],
              opcode_stream := { bytes := [0x36, 2, 0, 0x28, 2, 0, 0x0B], sz := 7, pos := 3 } },
            mdle_locals_example)
        = some (Except.error wrp_err_t.WRP_ERR_UNKNOWN,
            ({ vm_check_example with
              oprd_stk := [⟨0, I32⟩],
              opcode_stream := { bytes := [0x36, 2, 0, 0x28, 2, 0, 0x0B], sz := 7, pos := 4 } },
            mdle_locals_example))) := by
  refine ⟨fun _ _ => rfl, fun _ _ => rfl, check_jump_table_load_entries,
    check_jump_table_store_entries, ?_, ?_⟩
  · intro mx bs ur others
    exact wrp_type_check_mdle_body_at _ _ _ 0x36 check_fn.check_store rfl (by decide)
      check_jump_table_i32_store
  · intro mx bs ur others
    exact wrp_type_check_mdle_body_at _ _ _ 0x28 check_fn.check_load rfl (by decide)
      check_jump_table_i32_load
/-! ## Validation of local accesses (C25) -/

/-- C25: in a function with the two declared locals `i32`, `i64` and no parameter,
`check_get_local` at the index `1` pushes `i32`, the type of local `0`, where local
`1` is declared `i64`; `check_set_local` at the index `1` accepts an `i32` and
rejects an `i64`, and `check_tee_local` at the index `1` replaces an `i32` by an
`i32`. The three handlers read `local_types[local_type_offset]` whatever the
index is. The index `2`, the total count, is rejected with invalid-local-idx. -/
theorem check_local_at_failing_input :
    mdle_locals_example.local_types.getD 1 0 = I64 ∧
    I32 ≠ I64 ∧
    check_get_local mdle_locals_example
        { vm_check_example with opcode_stream := { bytes := [1], sz := 1, pos := 0 } }
      = (Except.ok (), { vm_check_example with
          oprd_stk := [⟨0, I32⟩],
          opcode_stream := { bytes := [1], sz := 1, pos := 1 } }) ∧
    check_set_local mdle_locals_example
        { vm_check_example with
          oprd_stk := [⟨0, I32⟩],
          opcode_stream := { bytes := [1], sz := 1, pos := 0 } }
      = (Except.ok (), { vm_check_example with
          oprd_stk := [],
          opcode_stream := { bytes := [1], sz := 1, pos := 1 } }) ∧
    (check_set_local mdle_locals_example
        { vm_check_example with
          oprd_stk := [⟨0, I64⟩],
          opcode_stream := { bytes := [1], sz := 1, pos := 0 } }).1
      = Except.error wrp_err_t.WRP_ERR_STK_TYPE_MISMATCH ∧
    check_tee_local mdle_locals_example
        { vm_check_example with
          oprd_stk := [⟨0, I32⟩],
          opcode_stream := { bytes := [1], sz := 1, pos := 0 } }
      = (Except.ok (), { vm_check_example with
          oprd_stk := [⟨0, I32⟩],
          opcode_stream := { bytes := [1], sz := 1, pos := 1 } }) ∧
    (check_get_local mdle_locals_example
        { vm_check_example with opcode_stream := { bytes := [2], sz := 1, pos := 0 } }).1
      = Except.error wrp_err_t.WRP_ERR_INVALID_LOCAL_IDX :=
  ⟨rfl, by decide, rfl, rfl, rfl, rfl, rfl⟩

/-! ## Validation of global accesses (C26) -/

/-- C26: on a module whose global `0` is declared `i32` and immutable,
`check_set_global` at the index `0` with an `i32` on the operand-type stack succeeds
and pops it; its result is the same for every declared mutability. The index `1`,
the global count, is rejected with invalid-global-idx by `check_set_global` and
`check_get_global`, and `check_get_global` at the index `0` pushes `i32`. -/
theorem check_set_global_at_failing_input :
    mdle_global_example.global_mutability.getD 0 0 = GLOBAL_IMMUTABLE ∧
    check_set_global mdle_global_example
        { vm_check_example with
          oprd_stk := [⟨0, I32⟩],
          opcode_stream := { bytes := [0], sz := 1, pos := 0 } }
      = (Except.ok (), { vm_check_example with
          oprd_stk := [],
          opcode_stream := { bytes := [0], sz := 1, pos := 1 } }) ∧
    (∀ (mutability : List Nat) (vm : wrp_vm_t),
      check_set_global { mdle_global_example with global_mutability := mutability } vm
        = check_set_global mdle_global_example vm) ∧
    (check_set_global mdle_global_example
        { vm_check_example with
          oprd_stk := [⟨0, I32⟩],
          opcode_stream := { bytes := [1], sz := 1, pos := 0 } }).1
      = Except.error wrp_err_t.WRP_ERR_INVALID_GLOBAL_IDX ∧
    check_get_global mdle_global_example
        { vm_check_example with opcode_stream := { bytes := [0], sz := 1, pos := 0 } }
      = (Except.ok (), { vm_check_example with
          oprd_stk := [⟨0, I32⟩],
          opcode_stream := { bytes := [0], sz := 1, pos := 1 } }) ∧
    (check_get_global mdle_global_example
        { vm_check_example with opcode_stream := { bytes := [1], sz := 1, pos := 0 } }).1
      = Except.error wrp_err_t.WRP_ERR_INVALID_GLOBAL_IDX :=
  ⟨rfl, rfl, fun _ _ => rfl, rfl, rfl, rfl⟩

/-! ## Validation of `select` (C27) -/

/-- C27: on an operand-type stack `i32, T, T` above one more entry, `check_select`
succeeds and removes the three entries without pushing `T`, for `T` any of the
four value types: the stack is three entries lower than before, not two. -/
theorem check_select_at_failing_input :
    (∀ out_mdle : wrp_wasm_mdle_t,
      check_select out_mdle
          { vm_check_example with oprd_stk := [⟨0, I32⟩, ⟨0, I32⟩, ⟨0, I32⟩, ⟨0, F64⟩] }
        = (Except.ok (), { vm_check_example with oprd_stk := [⟨0, F64⟩] })) ∧
    (∀ out_mdle : wrp_wasm_mdle_t,
      check_select out_mdle
          { vm_check_example with oprd_stk := [⟨0, I32⟩, ⟨0, I64⟩, ⟨0, I64⟩, ⟨0, F64⟩] }
        = (Except.ok (), { vm_check_example with oprd_stk := [⟨0, F64⟩] })) ∧
    (∀ out_mdle : wrp_wasm_mdle_t,
      check_select out_mdle
          { vm_check_example with oprd_stk := [⟨0, I32⟩, ⟨0, F32⟩, ⟨0, F32⟩, ⟨0, F64⟩] }
        = (Except.ok (), { vm_check_example with oprd_stk := [⟨0, F64⟩] })) ∧
    (∀ out_mdle : wrp_wasm_mdle_t,
      check_select out_mdle
          { vm_check_example with oprd_stk := [⟨0, I32⟩, ⟨0, F64⟩, ⟨0, F64⟩, ⟨0, F64⟩] }
        = (Except.ok (), { vm_check_example with oprd_stk := [⟨0, F64⟩] })) ∧
    (∀ out_mdle : wrp_wasm_mdle_t,
      (check_select out_mdle
          { vm_check_example with oprd_stk := [⟨0, I32⟩, ⟨0, I64⟩, ⟨0, I64⟩, ⟨0, F64⟩]
            }).2.oprd_stk.length + 3
        = ([⟨0, I32⟩, ⟨0, I64⟩, ⟨0, I64⟩, ⟨0, F64⟩] : List wrp_oprd_t).length) :=
  ⟨fun _ => rfl, fun _ => rfl, fun _ => rfl, fun _ => rfl, fun _ => rfl⟩

/-! ## Validation of `br_if` (C28) -/

/-- C28: with the function frame alone on the control stack, so at height `1`,
`check_br_if` accepts `br_if 5`, whose depth is not within the control stack; and
with a block of result `i32` on top of the control stack it accepts `br_if 0` when
the condition is the only operand, so when nothing is left for the result of the
target frame. The handler reads the depth and pops the condition, no more. -/
theorem check_br_if_at_failing_input :
    vm_check_example.ctrl_stk.length = 1 ∧
    (∀ out_mdle : wrp_wasm_mdle_t,
      check_br_if out_mdle
          { vm_check_example with
            oprd_stk := [⟨0, I32⟩],
            opcode_stream := { bytes := [5], sz := 1, pos := 0 } }
        = (Except.ok (), { vm_check_example with
            oprd_stk := [],
            opcode_stream := { bytes := [5], sz := 1, pos := 1 } })) ∧
    (vm_br_check_example.ctrl_stk.getD 0 ⟨0, 0, 0, false, 0⟩).signature = I32 ∧
    (∀ out_mdle : wrp_wasm_mdle_t,
      check_br_if out_mdle
          { vm_br_check_example with
            opcode_stream := { bytes := [0], sz := 1, pos := 0 } }
        = (Except.ok (), { vm_br_check_example with
            oprd_stk := [],
            opcode_stream := { bytes := [0], sz := 1, pos := 1 } })) :=
  ⟨rfl, fun _ => rfl, rfl, fun _ => rfl⟩

/-! ## Validation of `br_table` (C29) -/

/-- C29: on a control stack of three frames whose signatures are, from the top,
`i32`, none, none, `check_br_table` returns invalid-branch-table for the table
`[1]` with default `2`, although both depths are within the control stack and the
frames at depth `1` and depth `2` have the same signature; and for the table `[0]`
with default `1`, whose frames at depth `0` and depth `1` have different
signatures, it passes its own tests and goes on to
`wrp_stk_check_block_sig(vm, 1, true)`. The handler indexes the control stack
from the bottom, `vm->ctrl_stk[depth]`. -/
theorem check_br_table_at_failing_input :
    vm_br_check_example.ctrl_stk.length = 3 ∧
    (vm_br_check_example.ctrl_stk.getD 0 ⟨0, 0, 0, false, 0⟩).signature = I32 ∧
    (vm_br_check_example.ctrl_stk.getD 1 ⟨0, 0, 0, false, 0⟩).signature = VOID ∧
    (vm_br_check_example.ctrl_stk.getD 2 ⟨0, 0, 0, false, 0⟩).signature = VOID ∧
    I32 ≠ VOID ∧
    (∀ (wrp_stk_check_block_sig : Nat → Bool → Exec Unit)
        (wrp_stk_check_unreachable : Exec Unit) (out_mdle : wrp_wasm_mdle_t),
      check_br_table 16 wrp_stk_check_block_sig wrp_stk_check_unreachable out_mdle
          { vm_br_check_example with
            opcode_stream := { bytes := [1, 1, 2], sz := 3, pos := 0 } }
        = (Except.error wrp_err_t.WRP_ERR_INVALID_BRANCH_TABLE,
            { vm_br_check_example with
              oprd_stk := [],
              opcode_stream := { bytes := [1, 1, 2], sz := 3, pos := 3 } })) ∧
    (∀ (wrp_stk_check_block_sig : Nat → Bool → Exec Unit)
        (wrp_stk_check_unreachable : Exec Unit) (out_mdle : wrp_wasm_mdle_t),
      check_br_table 16 wrp_stk_check_block_sig wrp_stk_check_unreachable out_mdle
          { vm_br_check_example with
            opcode_stream := { bytes := [1, 0, 1], sz := 3, pos := 0 } }
        = (wrp_stk_check_block_sig 1 true >>= fun _ => wrp_stk_check_unreachable)
            { vm_br_check_example with
              oprd_stk := [],
              opcode_stream := { bytes := [1, 0, 1], sz := 3, pos := 3 } }) ∧
    check_br_table 16 (fun _ _ => pure ()) (pure ()) mdle_locals_example
        { vm_br_check_example with
          opcode_stream := { bytes := [1, 0, 1], sz := 3, pos := 0 } }
      = (Except.ok (), { vm_br_check_example with
          oprd_stk := [],
          opcode_stream := { bytes := [1, 0, 1], sz := 3, pos := 3 } }) ∧
    (∀ (wrp_stk_check_block_sig : Nat → Bool → Exec Unit)
        (wrp_stk_check_unreachable : Exec Unit) (out_mdle : wrp_wasm_mdle_t),
      (check_br_table 1 wrp_stk_check_block_sig wrp_stk_check_unreachable out_mdle
          { vm_br_check_example with
            opcode_stream := { bytes := [2, 0, 0, 0], sz := 4, pos := 0 } }).1
        = Except.error wrp_err_t.WRP_ERR_MDLE_BRANCH_TABLE_OVERFLOW) :=
  ⟨rfl, rfl, rfl, rfl, by decide, fun _ _ _ => rfl, fun _ _ _ => rfl, rfl, fun _ _ _ => rfl⟩

/-! ## Validation of the reinterpretations (C30) -/

/-- C30: the entry of `check_jump_table` for `f32.reinterpret_i32` is
`check_reinterpret_f32_i32`, which replaces an `f32` on the operand-type stack by an
`i32` and rejects an `i32`; the entry for `f64.reinterpret_i64` is
`check_reinterpret_f64_i64`, which replaces an `f64` by an `i64` and rejects an
`i64`. Both pop the target type and push the source type of the opcode. The
handlers of `i32.reinterpret_f32` and `i64.reinterpret_f64` pop `f32`, `f64` and
push `i32`, `i64`. -/
theorem check_reinterpret_at_failing_input :
    jump_table_call check_jump_table OP_F32_REINTERPRET_I32
      = some check_fn.check_reinterpret_f32_i32 ∧
    jump_table_call check_jump_table OP_F64_REINTERPRET_I64
      = some check_fn.check_reinterpret_f64_i64 ∧
    (∀ out_mdle : wrp_wasm_mdle_t,
      check_reinterpret_f32_i32 out_mdle { vm_check_example with oprd_stk := [⟨0, F32⟩] }
        = (Except.ok (), { vm_check_example with oprd_stk := [⟨0, I32⟩] })) ∧
    (∀ out_mdle : wrp_wasm_mdle_t,
      check_reinterpret_f32_i32 out_mdle { vm_check_example with oprd_stk := [⟨0, I32⟩] }
        = (Except.error wrp_err_t.WRP_ERR_STK_TYPE_MISMATCH,
            { vm_check_example with oprd_stk := [⟨0, I32⟩] })) ∧
    (∀ out_mdle : wrp_wasm_mdle_t,
      check_reinterpret_f64_i64 out_mdle { vm_check_example with oprd_stk := [⟨0, F64⟩] }
        = (Except.ok (), { vm_check_example with oprd_stk := [⟨0, I64⟩] })) ∧
    (∀ out_mdle : wrp_wasm_mdle_t,
      check_reinterpret_f64_i64 out_mdle { vm_check_example with oprd_stk := [⟨0, I64⟩] }
        = (Except.error wrp_err_t.WRP_ERR_STK_TYPE_MISMATCH,
            { vm_check_example with oprd_stk := [⟨0, I64⟩] })) ∧
    (∀ out_mdle : wrp_wasm_mdle_t,
      check_reinterpret_i32_f32 out_mdle { vm_check_example with oprd_stk := [⟨0, F32⟩] }
        = (Except.ok (), { vm_check_example with oprd_stk := [⟨0, I32⟩] })) ∧
    (∀ out_mdle : wrp_wasm_mdle_t,
      check_reinterpret_i64_f64 out_mdle { vm_check_example with oprd_stk := [⟨0, F64⟩] }
        = (Except.ok (), { vm_check_example with oprd_stk := [⟨0, I64⟩] })) :=
  ⟨check_jump_table_reinterpret.2.2.1, check_jump_table_reinterpret.2.2.2,
    fun _ => rfl, fun _ => rfl, fun _ => rfl, fun _ => rfl, fun _ => rfl, fun _ => rfl⟩
/-! ## NaN operands of the floating-point minimum and maximum (C33) -/

/-- The `float` handlers on the signalling NaN `0x7F800001` and the number `1.0`, in
both orders: the result is the NaN with the bit `0x00400000` set. -/
theorem exec_f32_min_max_op_nan :
    (exec_f32_min_op (vm_f32_example 0x7F800001 0x3F800000)).2.oprd_stk = [⟨0x7FC00001, F32⟩] ∧
    (exec_f32_max_op (vm_f32_example 0x7F800001 0x3F800000)).2.oprd_stk = [⟨0x7FC00001, F32⟩] ∧
    (exec_f32_min_op (vm_f32_example 0x3F800000 0x7F800001)).2.oprd_stk = [⟨0x7FC00001, F32⟩] ∧
    (exec_f32_max_op (vm_f32_example 0x3F800000 0x7F800001)).2.oprd_stk = [⟨0x7FC00001, F32⟩] :=
  ⟨rfl, rfl, rfl, rfl⟩

/-- C33 (failing input): on the `double` operands `x = 0x7FF0000000000001`, a NaN,
and `y = 0x3FF0000000000000`, the number `1.0`, `exec_f64_min_op` and
`exec_f64_max_op` succeed and push `x OR 0x400000 = 0x7FF0000000400001`, which
is not `x OR 0x0008000000000000 = 0x7FF8000000000001`: bit 51, the quiet bit of
a `double`, stays clear. With the operands exchanged the result is again the NaN
with bit 22 set. -/
theorem exec_f64_min_max_op_at_failing_input :
    isnan_f64 0x7FF0000000000001 = true ∧ isnan_f64 0x3FF0000000000000 = false ∧
    (0x7FF0000000000001 ||| 0x0008000000000000 : Nat) = 0x7FF8000000000001 ∧
    (exec_f64_min_op (vm_f64_example 0x7FF0000000000001 0x3FF0000000000000)).1 = Except.ok () ∧
    (exec_f64_min_op (vm_f64_example 0x7FF0000000000001 0x3FF0000000000000)).2.oprd_stk
      = [⟨0x7FF0000000400001, F64⟩] ∧
    (exec_f64_max_op (vm_f64_example 0x7FF0000000000001 0x3FF0000000000000)).1 = Except.ok () ∧
    (exec_f64_max_op (vm_f64_example 0x7FF0000000000001 0x3FF0000000000000)).2.oprd_stk
      = [⟨0x7FF0000000400001, F64⟩] ∧
    (exec_f64_min_op (vm_f64_example 0x3FF0000000000000 0x7FF0000000000001)).2.oprd_stk
      = [⟨0x7FF0000000400001, F64⟩] ∧
    (exec_f64_max_op (vm_f64_example 0x3FF0000000000000 0x7FF0000000000001)).2.oprd_stk
      = [⟨0x7FF0000000400001, F64⟩] ∧
    (0x7FF0000000400001 : Nat) ≠ 0x7FF8000000000001 ∧
    (0x7FF0000000400001 : Nat) / 2 ^ 51 % 2 = 0 :=
  ⟨rfl, rfl, by decide, rfl, rfl, rfl, rfl, rfl, rfl, by decide, by decide⟩

/-! ## Signed zeros of the floating-point minimum and maximum (C34) -/

/-- C34 (failing input): on the zeros `+0` and `-0` in either order,
`exec_f32_min_op` and `exec_f64_min_op` succeed and push `+0` (sign bit clear),
and `exec_f32_max_op` and `exec_f64_max_op` push `-0` (sign bit set). -/
theorem exec_min_max_op_at_failing_input :
    (exec_f32_min_op (vm_f32_example 0x00000000 0x80000000)).1 = Except.ok () ∧
    (exec_f32_min_op (vm_f32_example 0x00000000 0x80000000)).2.oprd_stk = [⟨0x00000000, F32⟩] ∧
    (exec_f32_min_op (vm_f32_example 0x80000000 0x00000000)).2.oprd_stk = [⟨0x00000000, F32⟩] ∧
    (exec_f32_max_op (vm_f32_example 0x00000000 0x80000000)).1 = Except.ok () ∧
    (exec_f32_max_op (vm_f32_example 0x00000000 0x80000000)).2.oprd_stk = [⟨0x80000000, F32⟩] ∧
    (exec_f32_max_op (vm_f32_example 0x80000000 0x00000000)).2.oprd_stk = [⟨0x80000000, F32⟩] ∧
    (exec_f64_min_op (vm_f64_example 0x0000000000000000 0x8000000000000000)).1 = Except.ok () ∧
    (exec_f64_min_op (vm_f64_example 0x0000000000000000 0x8000000000000000)).2.oprd_stk
      = [⟨0x0000000000000000, F64⟩] ∧
    (exec_f64_min_op (vm_f64_example 0x8000000000000000 0x0000000000000000)).2.oprd_stk
      = [⟨0x0000000000000000, F64⟩] ∧
    (exec_f64_max_op (vm_f64_example 0x0000000000000000 0x8000000000000000)).1 = Except.ok () ∧
    (exec_f64_max_op (vm_f64_example 0x0000000000000000 0x8000000000000000)).2.oprd_stk
      = [⟨0x8000000000000000, F64⟩] ∧
    (exec_f64_max_op (vm_f64_example 0x8000000000000000 0x0000000000000000)).2.oprd_stk
      = [⟨0x8000000000000000, F64⟩] ∧
    signbit_f32 0x00000000 = false ∧ signbit_f32 0x80000000 = true ∧
    signbit_f64 0x0000000000000000 = false ∧ signbit_f64 0x8000000000000000 = true :=
  ⟨rfl, rfl, rfl, rfl, rfl, rfl, rfl, rfl, rfl, rfl, rfl, rfl, rfl, rfl, rfl, rfl⟩
/-! ## The read of the last byte of a code body (C40) -/

/-- C40 (failing input): for a module whose only function has an empty code body
(size 0) the `while` loop of `wrp_type_check_mdle` ends at once with the cursor
at `0`, `wrp_end_of_buf` holds, and the next statement reads `bytes[pos - 1]` at
the index `SIZE_MAX = 18446744073709551615`, which is not below the size `0` of
the body: the function has no result in the model, whatever the handlers and
the fuel, instead of returning an error. -/
theorem wrp_type_check_mdle_at_failing_input :
    (∀ handler fuel,
      (check_code_loop handler (fuel + 1)
        ({ vm_check_example with opcode_stream := { bytes := [], sz := 0, pos := 0 } },
          mdle_body_example [])).map (fun r => (r.1, r.2.1.opcode_stream)) =
        some (wrp_err_t.WRP_SUCCESS, { bytes := [], sz := 0, pos := 0 })) ∧
    wrp_end_of_buf { bytes := [], sz := 0, pos := 0 } = true ∧
    size_pred 0 = 18446744073709551615 ∧
    ¬ size_pred 0 < 0 ∧
    (∀ handler fuel,
      check_func handler (fuel + 1) 0 (vm_example, mdle_body_example []) = none) ∧
    (∀ handler fuel,
      wrp_type_check_mdle handler (fuel + 1) vm_example (mdle_body_example []) = none) :=
  ⟨fun _ _ => rfl, rfl, rfl, by decide, fun _ _ => rfl, fun _ _ => rfl⟩

/-! ## The terminating `end` of a function (C32) -/

set_option maxRecDepth 100000 in
/-- The validator on bodies of one function without parameters and results: the lone
`end` is accepted, a body that ends with `nop` is rejected with
`WRP_ERR_MDLE_INVALID_END_OPCODE`, and after the accepted body the function
frame is still on the control stack. -/
theorem wrp_type_check_mdle_end_examples (MAX_BRANCH_TABLE_SIZE : Nat) :
    (wrp_type_check_mdle (check_jump_table_handler MAX_BRANCH_TABLE_SIZE) 3 vm_example
      (mdle_body_example [0x0B])).map (fun r => (r.1, r.2.1.ctrl_stk)) =
      some (wrp_err_t.WRP_SUCCESS, [⟨BLOCK_FUNC, VOID, -1, false, 0⟩]) ∧
    (wrp_type_check_mdle (check_jump_table_handler MAX_BRANCH_TABLE_SIZE) 3 vm_example
      (mdle_body_example [0x0B, 0x01])).map (fun r => r.1) =
      some wrp_err_t.WRP_ERR_MDLE_INVALID_END_OPCODE :=
  ⟨rfl, rfl⟩

set_option maxRecDepth 100000 in
theorem wrp_type_check_mdle_block_example (MAX_BRANCH_TABLE_SIZE : Nat) :
    (wrp_type_check_mdle (check_jump_table_handler MAX_BRANCH_TABLE_SIZE) 3 vm_example
      mdle_block_example).map
      (fun r => (r.1, r.2.1.ctrl_stk, r.2.2.block_addresses, r.2.2.block_labels)) =
      some (wrp_err_t.WRP_SUCCESS, [⟨BLOCK_FUNC, VOID, -1, false, 0⟩], [0], [2]) :=
  rfl

/-- C32 (failing input): the code body `0x02 0x40 0x0B` (`block`, `void`, `end`) of
a function without parameters and results is accepted: `wrp_type_check_mdle`
returns `WRP_SUCCESS`, having recorded the address `0` and the label `2` for the
block. The one `end` closes the block, the function frame is never closed and is
still on the control stack when the body has been processed. -/
theorem wrp_type_check_mdle_open_frame_at_failing_input (MAX_BRANCH_TABLE_SIZE : Nat) :
    mdle_block_example.code_bodies = [[0x02, 0x40, 0x0B]] ∧
    (wrp_type_check_mdle (check_jump_table_handler MAX_BRANCH_TABLE_SIZE) 3 vm_example
      mdle_block_example).map
      (fun r => (r.1, r.2.1.ctrl_stk, r.2.2.block_addresses, r.2.2.block_labels)) =
      some (wrp_err_t.WRP_SUCCESS, [⟨BLOCK_FUNC, VOID, -1, false, 0⟩], [0], [2]) :=
  ⟨rfl, wrp_type_check_mdle_block_example MAX_BRANCH_TABLE_SIZE⟩

/-! ## The label of a loop frame (C35) -/

/-- C35 (failing input): for a `loop` opcode at byte offset `0` with the signature
byte `void` at offset `1`, `exec_loop_op` hands the address `1`, the offset of
the signature byte, to `wrp_stk_exec_push_block`, and the validator handler
`check_loop` records the address `0` for the same frame; for a `loop` opcode at
offset `2` the two addresses are `3` and `2`. -/
theorem exec_loop_op_at_failing_input
    (wrp_stk_exec_push_block : Nat → Nat → Int → Exec Unit) :
    exec_loop_op wrp_stk_exec_push_block vm_loop_example =
      wrp_stk_exec_push_block 1 BLOCK_LOOP VOID
        { vm_loop_example with opcode_stream := { vm_loop_example.opcode_stream with pos := 2 } } ∧
    ((check_loop mdle_block_example vm_loop_example).1,
      (check_loop mdle_block_example vm_loop_example).2.ctrl_stk.map
        (fun frame => (frame.type, frame.address))) =
      (Except.ok (), [(BLOCK_LOOP, 0), (BLOCK_FUNC, 0)]) ∧
    exec_loop_op wrp_stk_exec_push_block vm_loop_later_example =
      wrp_stk_exec_push_block 3 BLOCK_LOOP VOID
        { vm_loop_later_example with
          opcode_stream := { vm_loop_later_example.opcode_stream with pos := 4 } } ∧
    ((check_loop mdle_block_example vm_loop_later_example).2.ctrl_stk.map
        (fun frame => (frame.type, frame.address))) = [(BLOCK_LOOP, 2), (BLOCK_FUNC, 0)] :=
  ⟨rfl, rfl, rfl, rfl⟩
/-! ## Running the readers and the stack operations from a state -/

theorem read_stream_run_of {α : Type} (r : wrp_buf_t → Except wrp_err_t (α × wrp_buf_t))
    (vm : wrp_vm_t) (a : α) (buf : wrp_buf_t) (h : r vm.opcode_stream = Except.ok (a, buf)) :
    read_stream r vm = (Except.ok a, { vm with opcode_stream := buf }) := by
  unfold read_stream
  simp only [h]

theorem pop_op_run_of (vm : wrp_vm_t) (c : wrp_oprd_t) (rest : List wrp_oprd_t)
    (h : vm.oprd_stk = c :: rest) :
    wrp_stk_exec_pop_op vm = (Except.ok c, { vm with oprd_stk := rest }) := by
  unfold wrp_stk_exec_pop_op
  simp only [h]

theorem pop_i32_run_of (vm : wrp_vm_t) (c : wrp_oprd_t) (rest : List wrp_oprd_t)
    (h : vm.oprd_stk = c :: rest) :
    wrp_stk_exec_pop_i32 vm = (Except.ok (wrp_decode_i32 c.value), { vm with oprd_stk := rest }) := by
  unfold wrp_stk_exec_pop_i32
  rw [bind_run_ok _ _ _ _ _ (pop_op_run_of vm c rest h)]
  rfl

theorem size_succ_eq (x : Nat) (h : x + 1 < 18446744073709551616) : size_succ x = x + 1 :=
  Nat.mod_eq_of_lt h

theorem size_pred_succ (x : Nat) (h : x + 1 < 18446744073709551616) : size_pred (x + 1) = x := by
  unfold size_pred
  omega

/-! ## The handler of `if` (C36) -/

theorem exec_if_op_run (wrp_is_valid_block_signature : Int → Bool)
    (wrp_get_if_idx : wrp_wasm_mdle_t → Nat → Nat → Except wrp_err_t Nat)
    (wrp_stk_exec_push_block : Nat → Nat → Int → Exec Unit)
    (vm : wrp_vm_t) (signature : Int) (buf : wrp_buf_t) (if_idx : Nat)
    (cell : wrp_oprd_t) (rest : List wrp_oprd_t) (c : Int) (L E : Nat)
    (hread : wrp_read_vari7 vm.opcode_stream = Except.ok (signature, buf))
    (hvalid : wrp_is_valid_block_signature signature = true)
    (hidx : wrp_get_if_idx (attached_mdle vm) (current_func_idx vm)
      (size_pred vm.opcode_stream.pos) = Except.ok if_idx)
    (hstk : vm.oprd_stk = cell :: rest)
    (hc : wrp_decode_i32 cell.value = c)
    (hL : ((attached_mdle vm).funcs.getD (current_func_idx vm) {}).if_labels.getD if_idx 0 = L)
    (hE : ((attached_mdle vm).funcs.getD (current_func_idx vm) {}).else_addrs.getD if_idx 0 = E) :
    exec_if_op wrp_is_valid_block_signature wrp_get_if_idx wrp_stk_exec_push_block vm =
      ((do
        if c ≠ 0 ∨ E ≠ 0 then
          wrp_stk_exec_push_block L BLOCK_IF signature
        if c = 0 ∧ E = 0 then
          Exec.modify fun vm1 =>
            { vm1 with opcode_stream := { vm1.opcode_stream with pos := size_succ L } }
        if c = 0 ∧ E ≠ 0 then
          Exec.modify fun vm1 =>
            { vm1 with opcode_stream := { vm1.opcode_stream with pos := size_succ E } }
        : Exec Unit) { vm with opcode_stream := buf, oprd_stk := rest }) := by
  subst hc hL hE
  unfold exec_if_op
  rw [bind_run_ok _ _ _ _ _ (get_run vm)]
  dsimp only
  rw [bind_run_ok _ _ _ _ _ (read_stream_run_of _ vm _ _ hread)]
  rw [ite_run, if_neg (by rw [hvalid]; exact fun h => h rfl)]
  simp only [hidx]
  rw [bind_run_ok _ _ _ _ _ (pop_i32_run_of { vm with opcode_stream := buf } cell rest hstk)]

/-- C36: `exec_if_op` on a container whose cursor stands before a valid signature
byte, whose `if` has the index `if_idx`, the end label `L` and the else address
`E`, and whose operand stack has the cell of the condition `c` on top. When
`c = 0` and `E = 0` the handler succeeds, the cursor is `L + 1` (as a `size_t`)
and nothing but the cursor and the popped cell changes, so the control stack is
as before. When `c = 0` and `E ≠ 0` and the push of the frame succeeds, the
cursor is set to `E + 1`. When `c ≠ 0` the result is that of
`wrp_stk_exec_push_block` with the label `L`, the kind `BLOCK_IF` and the
signature, run with the cursor at the first byte after the signature. -/
theorem exec_if_op_contract (wrp_is_valid_block_signature : Int → Bool)
    (wrp_get_if_idx : wrp_wasm_mdle_t → Nat → Nat → Except wrp_err_t Nat)
    (wrp_stk_exec_push_block : Nat → Nat → Int → Exec Unit)
    (vm : wrp_vm_t) (signature : Int) (buf : wrp_buf_t) (if_idx : Nat)
    (cell : wrp_oprd_t) (rest : List wrp_oprd_t) (c : Int) (L E : Nat)
    (hread : wrp_read_vari7 vm.opcode_stream = Except.ok (signature, buf))
    (hvalid : wrp_is_valid_block_signature signature = true)
    (hidx : wrp_get_if_idx (attached_mdle vm) (current_func_idx vm)
      (size_pred vm.opcode_stream.pos) = Except.ok if_idx)
    (hstk : vm.oprd_stk = cell :: rest)
    (hc : wrp_decode_i32 cell.value = c)
    (hL : ((attached_mdle vm).funcs.getD (current_func_idx vm) {}).if_labels.getD if_idx 0 = L)
    (hE : ((attached_mdle vm).funcs.getD (current_func_idx vm) {}).else_addrs.getD if_idx 0 = E) :
    (c = 0 → E = 0 →
      exec_if_op wrp_is_valid_block_signature wrp_get_if_idx wrp_stk_exec_push_block vm =
        (Except.ok (),
          { vm with opcode_stream := { buf with pos := size_succ L }, oprd_stk := rest })) ∧
    (c = 0 → E ≠ 0 → ∀ vm2,
      wrp_stk_exec_push_block L BLOCK_IF signature
          { vm with opcode_stream := buf, oprd_stk := rest } = (Except.ok (), vm2) →
      exec_if_op wrp_is_valid_block_signature wrp_get_if_idx wrp_stk_exec_push_block vm =
        (Except.ok (),
          { vm2 with opcode_stream := { vm2.opcode_stream with pos := size_succ E } })) ∧
    (c ≠ 0 →
      exec_if_op wrp_is_valid_block_signature wrp_get_if_idx wrp_stk_exec_push_block vm =
        wrp_stk_exec_push_block L BLOCK_IF signature
          { vm with opcode_stream := buf, oprd_stk := rest }) ∧
    (L + 1 < 18446744073709551616 → size_succ L = L + 1) ∧
    (E + 1 < 18446744073709551616 → size_succ E = E + 1) := by
  refine ⟨?_, ?_, ?_, size_succ_eq L, size_succ_eq E⟩
  · intro h0 hE0
    rw [exec_if_op_run _ _ _ vm signature buf if_idx cell rest c L E hread hvalid hidx hstk hc hL hE]
    subst h0 hE0
    rfl
  · intro h0 hE0 vm2 hpush
    rw [exec_if_op_run _ _ _ vm signature buf if_idx cell rest c L E hread hvalid hidx hstk hc hL hE]
    dsimp only
    rw [ite_run, if_pos (Or.inr hE0), bind_run_ok _ _ _ _ _ hpush,
      ite_run, if_neg (fun h => hE0 h.2), bind_run_ok _ _ _ _ () (pure_run _ _),
      ite_run, if_pos ⟨h0, hE0⟩]
    rfl
  · intro hc0
    rw [exec_if_op_run _ _ _ vm signature buf if_idx cell rest c L E hread hvalid hidx hstk hc hL hE]
    dsimp only
    rw [ite_run, if_pos (Or.inl hc0)]
    rcases hp : wrp_stk_exec_push_block L BLOCK_IF signature
        { vm with opcode_stream := buf, oprd_stk := rest } with ⟨r, vm2⟩
    cases r with
    | error e =>
      rw [bind_run_error _ _ _ _ _ hp]
    | ok u =>
      rw [bind_run_ok _ _ _ _ _ hp,
        ite_run, if_neg (fun h => hc0 h.1), bind_run_ok _ _ _ _ () (pure_run _ _),
        ite_run, if_neg (fun h => hc0 h.1)]
      rfl

/-- Witness of `exec_if_op_contract`: the `if` of `vm_if_example` without an else,
with the end label `7`, run with the condition `0`: the cursor is `8`. -/
theorem exec_if_op_contract_witness :
    exec_if_op (fun _ => true) (fun _ _ _ => Except.ok 0) (fun _ _ _ => pure ())
        (vm_if_example 0 0) =
      (Except.ok (),
        { vm_if_example 0 0 with
          opcode_stream :=
            { bytes := [0x04, 0x40, 0x01, 0x05, 0x01, 0x01, 0x01, 0x0B, 0x0B], sz := 9, pos := 8 },
          oprd_stk := [] }) :=
  (exec_if_op_contract (fun _ => true) (fun _ _ _ => Except.ok 0) (fun _ _ _ => pure ())
    (vm_if_example 0 0) VOID
    { bytes := [0x04, 0x40, 0x01, 0x05, 0x01, 0x01, 0x01, 0x0B, 0x0B], sz := 9, pos := 2 }
    0 ⟨0, I32⟩ [] 0 7 0 rfl rfl rfl rfl rfl rfl rfl).1 rfl rfl
/-! ## The error codes of the validator's stack operations -/

theorem wrp_stk_check_pop_op_cases (t : Int) (vm : wrp_vm_t) :
    (∃ e, wrp_stk_check_pop_op t vm = (Except.error e, vm) ∧
      (e = wrp_err_t.WRP_ERR_INVALID_STK_OPERATION ∨ e = wrp_err_t.WRP_ERR_STK_TYPE_MISMATCH)) ∨
    (∃ a vm1, wrp_stk_check_pop_op t vm = (Except.ok a, vm1)) := by
  unfold wrp_stk_check_pop_op
  dsimp only
  repeat' split
  all_goals first
    | exact Or.inl ⟨_, rfl, Or.inl rfl⟩
    | exact Or.inl ⟨_, rfl, Or.inr rfl⟩
    | exact Or.inr ⟨_, _, rfl⟩

theorem wrp_stk_check_func_sig_cases (vm : wrp_vm_t) :
    (∃ e, wrp_stk_check_func_sig vm = (Except.error e, vm) ∧
      (e = wrp_err_t.WRP_ERR_INVALID_STK_OPERATION ∨ e = wrp_err_t.WRP_ERR_STK_TYPE_MISMATCH)) ∨
    wrp_stk_check_func_sig vm = (Except.ok (), vm) := by
  unfold wrp_stk_check_func_sig
  dsimp only
  split
  · rcases wrp_stk_check_pop_op_cases
      ((attached_mdle vm).result_types.getD
        ((attached_mdle vm).result_type_offsets.getD
          ((attached_mdle vm).func_type_idxs.getD (current_func_idx vm) 0) 0) 0) vm
      with ⟨e, he, hc⟩ | ⟨a, vm1, hok⟩
    · rw [he]
      exact Or.inl ⟨e, rfl, hc⟩
    · rw [hok]
      exact Or.inr rfl
  · exact Or.inr rfl

theorem wrp_stk_check_block_sig_cases (depth : Nat) (branch : Bool) (vm : wrp_vm_t) :
    (∃ e, wrp_stk_check_block_sig depth branch vm = (Except.error e, vm) ∧
      (e = wrp_err_t.WRP_ERR_INVALID_STK_OPERATION ∨ e = wrp_err_t.WRP_ERR_STK_TYPE_MISMATCH)) ∨
    wrp_stk_check_block_sig depth branch vm = (Except.ok (), vm) := by
  unfold wrp_stk_check_block_sig
  dsimp only
  split
  · exact Or.inl ⟨_, rfl, Or.inl rfl⟩
  · rename_i frame hf
    generalize (if branch = true ∧ frame.type = BLOCK_LOOP then VOID else frame.signature) =
      signature
    by_cases hv : signature = I32 ∨ signature = I64 ∨ signature = F32 ∨ signature = F64
    · rw [if_pos hv]
      rcases wrp_stk_check_pop_op_cases signature vm with ⟨e, he, hc⟩ | ⟨a, vm1, hok⟩
      · rw [he]
        exact Or.inl ⟨e, rfl, hc⟩
      · rw [hok]
        dsimp only
        split
        · exact Or.inl ⟨_, rfl, Or.inr rfl⟩
        · exact Or.inr rfl
    · rw [if_neg hv]
      split
      · exact Or.inl ⟨_, rfl, Or.inr rfl⟩
      · exact Or.inr rfl

theorem wrp_stk_check_pop_block_cases (vm : wrp_vm_t) :
    wrp_stk_check_pop_block vm = (Except.error wrp_err_t.WRP_ERR_INVALID_STK_OPERATION, vm) ∨
    (∃ vm1, wrp_stk_check_pop_block vm = (Except.ok (), vm1)) := by
  unfold wrp_stk_check_pop_block
  split
  · exact Or.inl rfl
  · exact Or.inr ⟨_, rfl⟩

theorem wrp_get_if_idx_error (mdle : wrp_wasm_mdle_t) (func_idx if_address : Nat) (e : wrp_err_t)
    (h : wrp_get_if_idx mdle func_idx if_address = Except.error e) :
    e = wrp_err_t.WRP_ERR_UNKNOWN := by
  unfold wrp_get_if_idx at h
  split at h
  · cases h
  · exact (Except.error.inj h).symm

theorem wrp_get_block_idx_error (mdle : wrp_wasm_mdle_t) (func_idx block_address : Nat)
    (e : wrp_err_t) (h : wrp_get_block_idx mdle func_idx block_address = Except.error e) :
    e = wrp_err_t.WRP_ERR_UNKNOWN := by
  unfold wrp_get_block_idx at h
  split at h
  · cases h
  · exact (Except.error.inj h).symm

/-! ## The handlers of `end` and `else` (C31) -/

theorem check_end_block_other (vm : wrp_vm_t) (out_mdle : wrp_wasm_mdle_t)
    (h : (ctrl_stk_top vm).type ≠ BLOCK) :
    check_end_block vm out_mdle = (Except.ok (), out_mdle) := by
  unfold check_end_block
  rw [if_neg h]

theorem check_end_if_other (vm : wrp_vm_t) (out_mdle : wrp_wasm_mdle_t)
    (h : (ctrl_stk_top vm).type ≠ BLOCK_IF) :
    check_end_if vm out_mdle = (Except.ok (), out_mdle) := by
  unfold check_end_if
  rw [if_neg h]

theorem check_end_block_cases (vm : wrp_vm_t) (out_mdle : wrp_wasm_mdle_t) :
    check_end_block vm out_mdle = (Except.error wrp_err_t.WRP_ERR_UNKNOWN, out_mdle) ∨
    (∃ mdle1, check_end_block vm out_mdle = (Except.ok (), mdle1) ∧
      mdle1.if_addresses = out_mdle.if_addresses ∧ mdle1.if_offsets = out_mdle.if_offsets ∧
      mdle1.if_counts = out_mdle.if_counts ∧ mdle1.else_addresses = out_mdle.else_addresses) := by
  unfold check_end_block
  split
  · rcases hg : wrp_get_block_idx out_mdle (current_func_idx vm) (ctrl_stk_top vm).address with
      e | block_idx
    · rw [wrp_get_block_idx_error _ _ _ e hg]
      exact Or.inl rfl
    · exact Or.inr ⟨_, rfl, rfl, rfl, rfl, rfl⟩
  · exact Or.inr ⟨_, rfl, rfl, rfl, rfl, rfl⟩

theorem wrp_get_if_idx_congr (mdle1 mdle2 : wrp_wasm_mdle_t) (func_idx if_address : Nat)
    (h1 : mdle1.if_addresses = mdle2.if_addresses) (h2 : mdle1.if_offsets = mdle2.if_offsets)
    (h3 : mdle1.if_counts = mdle2.if_counts) :
    wrp_get_if_idx mdle1 func_idx if_address = wrp_get_if_idx mdle2 func_idx if_address := by
  unfold wrp_get_if_idx
  rw [h1, h2, h3]

theorem check_end_tail_error (vm : wrp_vm_t) (e : wrp_err_t)
    (h : ((do
      wrp_stk_check_block_sig 0 false
      wrp_stk_check_pop_block : Exec Unit) vm).1 = Except.error e) :
    e = wrp_err_t.WRP_ERR_INVALID_STK_OPERATION ∨ e = wrp_err_t.WRP_ERR_STK_TYPE_MISMATCH := by
  rcases wrp_stk_check_block_sig_cases 0 false vm with ⟨e1, he, hc⟩ | hok
  · rw [bind_run_error _ _ _ _ _ he] at h
    rw [← Except.error.inj h]
    exact hc
  · rw [bind_run_ok _ _ _ _ _ hok] at h
    rcases wrp_stk_check_pop_block_cases vm with hp | ⟨vm1, hp⟩
    · rw [hp] at h
      exact Or.inl (Except.error.inj h).symm
    · rw [hp] at h
      cases h

/-- C31: `check_end` on a control stack whose top frame is an `if` frame with a
recorded index `if_idx`: when the else address of that index is `0` and the
signature of the frame is not `VOID` the handler returns
`WRP_ERR_VALUEFUL_IF_WITH_NO_ELSE`. Conversely `check_end` returns that code
only then: the top frame is an `if` frame, its signature is not `VOID`, and its
else address is `0`. And `check_else` returns `WRP_ERR_MDLE_IF_ELSE_MISMATCH`,
leaving the state as it was, whenever the control stack is empty or its top
frame is not an `if` frame. -/
theorem check_end_else_contract (s : wrp_vm_t × wrp_wasm_mdle_t) :
    (∀ if_idx, (ctrl_stk_top s.1).type = BLOCK_IF →
      wrp_get_if_idx s.2 (current_func_idx s.1) (ctrl_stk_top s.1).address = Except.ok if_idx →
      s.2.else_addresses.getD if_idx 0 = 0 → (ctrl_stk_top s.1).signature ≠ VOID →
      (check_end s).1 = Except.error wrp_err_t.WRP_ERR_VALUEFUL_IF_WITH_NO_ELSE) ∧
    ((check_end s).1 = Except.error wrp_err_t.WRP_ERR_VALUEFUL_IF_WITH_NO_ELSE →
      (ctrl_stk_top s.1).type = BLOCK_IF ∧ (ctrl_stk_top s.1).signature ≠ VOID ∧
      ∃ if_idx,
        wrp_get_if_idx s.2 (current_func_idx s.1) (ctrl_stk_top s.1).address = Except.ok if_idx ∧
        s.2.else_addresses.getD if_idx 0 = 0) ∧
    (s.1.ctrl_stk = [] ∨ (ctrl_stk_top s.1).type ≠ IF_TYPE →
      check_else s = (Except.error wrp_err_t.WRP_ERR_MDLE_IF_ELSE_MISMATCH, s)) := by
  refine ⟨?_, ?_, ?_⟩
  · intro if_idx hty hidx helse hsig
    have hF : (ctrl_stk_top s.1).type ≠ BLOCK_FUNC := by rw [hty]; decide
    have hB : (ctrl_stk_top s.1).type ≠ BLOCK := by rw [hty]; decide
    unfold check_end
    rw [if_neg hF, check_end_block_other _ _ hB]
    dsimp only
    unfold check_end_if
    rw [if_pos hty]
    simp only [hidx]
    rw [if_pos ⟨helse, hsig⟩]
  · intro h
    unfold check_end at h
    by_cases hF : (ctrl_stk_top s.1).type = BLOCK_FUNC
    · rw [if_pos hF] at h
      dsimp only at h
      rcases wrp_stk_check_func_sig_cases s.1 with ⟨e, he, hc⟩ | hok
      · rw [he] at h
        have he1 : e = wrp_err_t.WRP_ERR_VALUEFUL_IF_WITH_NO_ELSE := Except.error.inj h
        subst he1
        rcases hc with hc | hc <;> cases hc
      · rw [hok] at h
        cases h
    · rw [if_neg hF] at h
      rcases check_end_block_cases s.1 s.2 with hb | ⟨mdle1, hb, ha, ho, hn, hl⟩
      · rw [hb] at h
        cases h
      · rw [hb] at h
        dsimp only at h
        by_cases hI : (ctrl_stk_top s.1).type = BLOCK_IF
        · refine ⟨hI, ?_⟩
          unfold check_end_if at h
          rw [if_pos hI, wrp_get_if_idx_congr mdle1 s.2 _ _ ha ho hn] at h
          rcases hg : wrp_get_if_idx s.2 (current_func_idx s.1) (ctrl_stk_top s.1).address with
            e | if_idx
          · rw [hg] at h
            dsimp only at h
            rw [wrp_get_if_idx_error _ _ _ e hg] at h
            cases h
          · rw [hg] at h
            dsimp only at h
            rw [hl] at h
            by_cases hc : s.2.else_addresses.getD if_idx 0 = 0 ∧ (ctrl_stk_top s.1).signature ≠ VOID
            · exact ⟨hc.2, if_idx, rfl, hc.1⟩
            · rw [if_neg hc] at h
              dsimp only at h
              rcases check_end_tail_error s.1 _ h with hc1 | hc1 <;> cases hc1
        · rw [check_end_if_other _ _ hI] at h
          dsimp only at h
          rcases check_end_tail_error s.1 _ h with hc1 | hc1 <;> cases hc1
  · intro h
    unfold check_else
    rw [if_pos]
    rcases h with h | h
    · left
      unfold ctrl_stk_head
      rw [h]
      rfl
    · exact Or.inr h

/-- Witness of `check_end_else_contract`: an `if` frame with the signature `I32` and
no recorded else is refused at its `end`, the same frame with the signature
`VOID` is closed, and `else` is refused when the top frame is the function
frame. -/
theorem check_end_else_contract_witness :
    (check_end (vm_if_check_example I32, mdle_if_example 0)).1 =
      Except.error wrp_err_t.WRP_ERR_VALUEFUL_IF_WITH_NO_ELSE ∧
    (check_end (vm_if_check_example VOID, mdle_if_example 0)).1 = Except.ok () ∧
    check_else (vm_check_example, mdle_if_example 0) =
      (Except.error wrp_err_t.WRP_ERR_MDLE_IF_ELSE_MISMATCH, (vm_check_example, mdle_if_example 0)) :=
  ⟨(check_end_else_contract (vm_if_check_example I32, mdle_if_example 0)).1 0 rfl rfl rfl
      (by decide),
    rfl,
    (check_end_else_contract (vm_check_example, mdle_if_example 0)).2.2
      (Or.inr (by decide))⟩
/-! ## The module pointer after an instantiation (C39) -/

theorem wrp_type_check_mdle_success
    (handler : check_fn → wrp_vm_t × wrp_wasm_mdle_t →
      Except wrp_err_t Unit × (wrp_vm_t × wrp_wasm_mdle_t))
    (fuel : Nat) (vm : wrp_vm_t) (out_mdle : wrp_wasm_mdle_t)
    (r : wrp_err_t × wrp_vm_t × wrp_wasm_mdle_t)
    (h : wrp_type_check_mdle handler fuel vm out_mdle = some r)
    (hs : r.1 = wrp_err_t.WRP_SUCCESS) : r.2.1.mdle = none := by
  unfold wrp_type_check_mdle at h
  split at h
  · cases h
  · cases h
    rfl
  · rename_i e s hne heq
    cases h
    exact absurd hs hne

theorem wrp_type_check_mdle_stage_success (MAX_BRANCH_TABLE_SIZE fuel : Nat) (vm : wrp_vm_t)
    (out_mdle : wrp_wasm_mdle_t)
    (hs : (wrp_type_check_mdle_stage MAX_BRANCH_TABLE_SIZE fuel vm out_mdle).1
      = wrp_err_t.WRP_SUCCESS) :
    (wrp_type_check_mdle_stage MAX_BRANCH_TABLE_SIZE fuel vm out_mdle).2.1.mdle = none := by
  unfold wrp_type_check_mdle_stage at hs ⊢
  rcases h : wrp_type_check_mdle (check_jump_table_handler MAX_BRANCH_TABLE_SIZE) fuel vm
      out_mdle with _ | r
  · rw [h] at hs
    cases hs
  · rw [h] at hs
    exact wrp_type_check_mdle_success _ fuel vm out_mdle r h hs

/-- C39: `wrp_instantiate_mdle` with a type checker that, like
`wrp_type_check_mdle`, leaves the module pointer of the container null when it
returns `WRP_SUCCESS`. If no module is attached before the call, none is
attached after it, whether a module or null is returned, and `wrp_attach_mdle`
of the returned pointer succeeds and attaches it. If a module is attached before
the call, the call returns null and leaves the container, with its module and
its last error, and the buffer as they were. -/
theorem wrp_instantiate_mdle_contract (err_of_int : Int → wrp_err_t)
    (wrp_scan_mdle : wrp_buf_t → wrp_wasm_meta_t → wrp_err_t × wrp_buf_t × wrp_wasm_meta_t)
    (wrp_check_meta : wrp_wasm_meta_t → wrp_err_t)
    (wrp_mdle_sz : wrp_wasm_meta_t → Nat)
    (wrp_mdle_init : wrp_wasm_meta_t → wrp_wasm_mdle_t)
    (wrp_load_mdle : wrp_buf_t → wrp_wasm_mdle_t → wrp_err_t × wrp_buf_t × wrp_wasm_mdle_t)
    (wrp_type_check_mdle :
      wrp_vm_t → wrp_wasm_mdle_t → wrp_err_t × wrp_vm_t × wrp_wasm_mdle_t)
    (vm : wrp_vm_t) (buf : wrp_buf_t)
    (htc : ∀ vm1 out_mdle, (wrp_type_check_mdle vm1 out_mdle).1 = wrp_err_t.WRP_SUCCESS →
      (wrp_type_check_mdle vm1 out_mdle).2.1.mdle = none) :
    (vm.mdle = none →
      (wrp_instantiate_mdle err_of_int wrp_scan_mdle wrp_check_meta wrp_mdle_sz wrp_mdle_init
        wrp_load_mdle wrp_type_check_mdle vm buf).2.1.mdle = none ∧
      (wrp_attach_mdle
        (wrp_instantiate_mdle err_of_int wrp_scan_mdle wrp_check_meta wrp_mdle_sz wrp_mdle_init
          wrp_load_mdle wrp_type_check_mdle vm buf).2.1
        (wrp_instantiate_mdle err_of_int wrp_scan_mdle wrp_check_meta wrp_mdle_sz wrp_mdle_init
          wrp_load_mdle wrp_type_check_mdle vm buf).1).1 = true ∧
      (wrp_attach_mdle
        (wrp_instantiate_mdle err_of_int wrp_scan_mdle wrp_check_meta wrp_mdle_sz wrp_mdle_init
          wrp_load_mdle wrp_type_check_mdle vm buf).2.1
        (wrp_instantiate_mdle err_of_int wrp_scan_mdle wrp_check_meta wrp_mdle_sz wrp_mdle_init
          wrp_load_mdle wrp_type_check_mdle vm buf).1).2.mdle =
        (wrp_instantiate_mdle err_of_int wrp_scan_mdle wrp_check_meta wrp_mdle_sz wrp_mdle_init
          wrp_load_mdle wrp_type_check_mdle vm buf).1) ∧
    (vm.mdle ≠ none →
      wrp_instantiate_mdle err_of_int wrp_scan_mdle wrp_check_meta wrp_mdle_sz wrp_mdle_init
        wrp_load_mdle wrp_type_check_mdle vm buf = (none, vm, buf)) := by
  have hattach : ∀ (vm1 : wrp_vm_t) (p : Option wrp_wasm_mdle_t), vm1.mdle = none →
      (wrp_attach_mdle vm1 p).1 = true ∧ (wrp_attach_mdle vm1 p).2.mdle = p := by
    intro vm1 p h1
    unfold wrp_attach_mdle
    rw [if_neg (fun h2 => h2 h1)]
    exact ⟨rfl, rfl⟩
  constructor
  · intro hnone
    have hm : (wrp_instantiate_mdle err_of_int wrp_scan_mdle wrp_check_meta wrp_mdle_sz
        wrp_mdle_init wrp_load_mdle wrp_type_check_mdle vm buf).2.1.mdle = none := by
      unfold wrp_instantiate_mdle
      rw [if_neg (fun h2 => h2 hnone)]
      dsimp only
      repeat' split
      all_goals first
        | exact hnone
        | rfl
        | exact htc _ _ (not_not.mp (by assumption))
    exact ⟨hm, hattach _ _ hm⟩
  · intro hsome
    unfold wrp_instantiate_mdle
    rw [if_pos hsome]

/-- Witness of `wrp_instantiate_mdle_contract`: the stages succeed on a container
without a module, the loader gives the module whose one function has the body
`end`, and the type checker is `wrp_type_check_mdle` with the handlers of
`check_jump_table`; the module is returned and the container has no module
attached. -/
theorem wrp_instantiate_mdle_contract_witness :
    (wrp_instantiate_mdle (fun v => if v = 1 then wrp_err_t.WRP_ERR_UNKNOWN
          else wrp_err_t.WRP_SUCCESS)
        (fun b s => (wrp_err_t.WRP_SUCCESS, b, s)) (fun _ => wrp_err_t.WRP_SUCCESS)
        (fun _ => 64) (fun _ => mdle_body_example [0x0B])
        (fun b m => (wrp_err_t.WRP_SUCCESS, b, m)) (wrp_type_check_mdle_stage 16 3)
        vm_grow_example vm_grow_example.opcode_stream).2.1.mdle = none :=
  ((wrp_instantiate_mdle_contract (fun v => if v = 1 then wrp_err_t.WRP_ERR_UNKNOWN
          else wrp_err_t.WRP_SUCCESS)
        (fun b s => (wrp_err_t.WRP_SUCCESS, b, s)) (fun _ => wrp_err_t.WRP_SUCCESS)
        (fun _ => 64) (fun _ => mdle_body_example [0x0B])
        (fun b m => (wrp_err_t.WRP_SUCCESS, b, m)) (wrp_type_check_mdle_stage 16 3)
        vm_grow_example vm_grow_example.opcode_stream
        (wrp_type_check_mdle_stage_success 16 3)).1 rfl).1

set_option maxRecDepth 100000 in
/-- The instantiation of the witness returns the module and stores `WRP_SUCCESS`. -/
theorem wrp_instantiate_mdle_example :
    ((wrp_instantiate_mdle (fun v => if v = 1 then wrp_err_t.WRP_ERR_UNKNOWN
          else wrp_err_t.WRP_SUCCESS)
        (fun b s => (wrp_err_t.WRP_SUCCESS, b, s)) (fun _ => wrp_err_t.WRP_SUCCESS)
        (fun _ => 64) (fun _ => mdle_body_example [0x0B])
        (fun b m => (wrp_err_t.WRP_SUCCESS, b, m)) (wrp_type_check_mdle_stage 16 3)
        vm_grow_example vm_grow_example.opcode_stream).1.isSome,
     (wrp_instantiate_mdle (fun v => if v = 1 then wrp_err_t.WRP_ERR_UNKNOWN
          else wrp_err_t.WRP_SUCCESS)
        (fun b s => (wrp_err_t.WRP_SUCCESS, b, s)) (fun _ => wrp_err_t.WRP_SUCCESS)
        (fun _ => 64) (fun _ => mdle_body_example [0x0B])
        (fun b m => (wrp_err_t.WRP_SUCCESS, b, m)) (wrp_type_check_mdle_stage 16 3)
        vm_grow_example vm_grow_example.opcode_stream).2.1.err) =
      (true, wrp_err_t.WRP_SUCCESS) :=
  rfl
/-! ## Facts about lists and the offset assignments -/

theorem getD_set_eq (l : List Nat) (i a : Nat) (h : i < l.length) :
    (l.set i a).getD i 0 = a := by
  rw [List.getD_eq_getElem?_getD, List.getElem?_set_self h]
  rfl

theorem getD_set_ne (l : List Nat) (i j a : Nat) (h : i ≠ j) :
    (l.set i a).getD j 0 = l.getD j 0 := by
  rw [List.getD_eq_getElem?_getD, List.getD_eq_getElem?_getD, List.getElem?_set_ne h]

theorem set_offsets_block_eq (i : Nat) (m : wrp_wasm_mdle_t) (h : i < m.block_offsets.length) :
    (set_offsets i m).block_offsets.getD i 0 =
      (m.block_offsets.getD (i - 1) 0 + m.block_counts.getD (i - 1) 0) % 4294967296 := by
  unfold set_offsets
  dsimp only
  rw [getD_set_eq _ _ _ (by rw [List.length_set]; exact h), getD_set_eq _ _ _ h]

theorem set_offsets_block_ne (i j : Nat) (m : wrp_wasm_mdle_t) (h : i ≠ j) :
    (set_offsets i m).block_offsets.getD j 0 = m.block_offsets.getD j 0 := by
  unfold set_offsets
  dsimp only
  rw [getD_set_ne _ _ _ _ h, getD_set_ne _ _ _ _ h]

theorem set_offsets_if_eq (i : Nat) (m : wrp_wasm_mdle_t) (h : i < m.if_offsets.length) :
    (set_offsets i m).if_offsets.getD i 0 =
      (m.if_offsets.getD (i - 1) 0 + m.if_counts.getD (i - 1) 0) % 4294967296 := by
  unfold set_offsets
  dsimp only
  rw [getD_set_eq _ _ _ (by rw [List.length_set]; exact h), getD_set_eq _ _ _ h]

theorem set_offsets_if_ne (i j : Nat) (m : wrp_wasm_mdle_t) (h : i ≠ j) :
    (set_offsets i m).if_offsets.getD j 0 = m.if_offsets.getD j 0 := by
  unfold set_offsets
  dsimp only
  rw [getD_set_ne _ _ _ _ h, getD_set_ne _ _ _ _ h]

theorem set_offsets_rest (i : Nat) (m : wrp_wasm_mdle_t) :
    (set_offsets i m).num_funcs = m.num_funcs ∧
    (set_offsets i m).block_counts = m.block_counts ∧
    (set_offsets i m).if_counts = m.if_counts ∧
    (set_offsets i m).block_offsets.length = m.block_offsets.length ∧
    (set_offsets i m).if_offsets.length = m.if_offsets.length := by
  unfold set_offsets
  dsimp only
  refine ⟨rfl, rfl, rfl, ?_, ?_⟩
  · rw [List.length_set, List.length_set]
  · rw [List.length_set, List.length_set]

/-! ## Steps that keep the call stack -/

theorem keeps_call_stk_pure {α : Type} (a : α) : keeps_call_stk (pure a : Exec α) :=
  fun _ => rfl

theorem keeps_call_stk_fail {α : Type} (e : wrp_err_t) : keeps_call_stk (Exec.fail e : Exec α) :=
  fun _ => rfl

theorem keeps_call_stk_get : keeps_call_stk Exec.get := fun _ => rfl

theorem keeps_call_stk_bind {α β : Type} (m : Exec α) (f : α → Exec β)
    (hm : keeps_call_stk m) (hf : ∀ a, keeps_call_stk (f a)) : keeps_call_stk (m >>= f) := by
  intro vm
  rcases h : m vm with ⟨r, vm1⟩
  have h1 := hm vm
  rw [h] at h1
  cases r with
  | error e =>
    rw [bind_run_error _ _ _ _ _ h]
    exact h1
  | ok a =>
    rw [bind_run_ok _ _ _ _ _ h, hf a vm1]
    exact h1

theorem keeps_call_stk_ite {α : Type} (c : Prop) [Decidable c] (a b : Exec α)
    (ha : keeps_call_stk a) (hb : keeps_call_stk b) : keeps_call_stk (if c then a else b) := by
  split
  · exact ha
  · exact hb

theorem keeps_call_stk_read_stream {α : Type}
    (r : wrp_buf_t → Except wrp_err_t (α × wrp_buf_t)) : keeps_call_stk (read_stream r) := by
  intro vm
  unfold read_stream
  split <;> rfl

theorem keeps_call_stk_check_pop_op (t : Int) : keeps_call_stk (wrp_stk_check_pop_op t) := by
  intro vm
  unfold wrp_stk_check_pop_op
  dsimp only
  repeat' split
  all_goals rfl

theorem keeps_call_stk_check_push_op (t : Int) : keeps_call_stk (wrp_stk_check_push_op t) := by
  intro vm
  unfold wrp_stk_check_push_op
  split <;> rfl

theorem keeps_call_stk_block_sig (depth : Nat) (branch : Bool) :
    keeps_call_stk (wrp_stk_check_block_sig depth branch) := by
  intro vm
  rcases wrp_stk_check_block_sig_cases depth branch vm with ⟨e, he, _⟩ | hok
  · rw [he]
  · rw [hok]

theorem keeps_call_stk_func_sig : keeps_call_stk wrp_stk_check_func_sig := by
  intro vm
  rcases wrp_stk_check_func_sig_cases vm with ⟨e, he, _⟩ | hok
  · rw [he]
  · rw [hok]

theorem keeps_call_stk_unreachable : keeps_call_stk wrp_stk_check_unreachable := by
  intro vm
  unfold wrp_stk_check_unreachable
  split <;> rfl

theorem keeps_call_stk_push_block (address type : Nat) (signature : Int) :
    keeps_call_stk (wrp_stk_check_push_block address type signature) := by
  intro vm
  unfold wrp_stk_check_push_block
  split <;> rfl

theorem keeps_call_stk_pop_block : keeps_call_stk wrp_stk_check_pop_block := by
  intro vm
  unfold wrp_stk_check_pop_block
  split <;> rfl

theorem keeps_call_stk_read_branch_table (n : Nat) : keeps_call_stk (read_branch_table n) := by
  induction n with
  | zero => exact keeps_call_stk_pure _
  | succ k ih =>
    unfold read_branch_table
    exact keeps_call_stk_bind _ _ (keeps_call_stk_read_stream _) fun _ =>
      keeps_call_stk_bind _ _ ih fun _ => keeps_call_stk_pure _

theorem keeps_call_stk_check_call_params (out_mdle : wrp_wasm_mdle_t) (offset count : Nat)
    (l : List Nat) : keeps_call_stk (check_call_params out_mdle offset count l) := by
  induction l with
  | nil => exact keeps_call_stk_pure _
  | cons i rest ih =>
    unfold check_call_params
    exact keeps_call_stk_bind _ _ (keeps_call_stk_check_pop_op _) fun _ => ih

/-! ## The validator handlers keep the call stack -/

theorem check_br_table_keeps_call_stk (MAX_BRANCH_TABLE_SIZE : Nat) (out_mdle : wrp_wasm_mdle_t) :
    keeps_call_stk
      (check_br_table MAX_BRANCH_TABLE_SIZE wrp_stk_check_block_sig wrp_stk_check_unreachable
        out_mdle) := by
  unfold check_br_table
  refine keeps_call_stk_bind _ _ (keeps_call_stk_check_pop_op _) fun _ => ?_
  refine keeps_call_stk_bind _ _ (keeps_call_stk_read_stream _) fun target_count => ?_
  refine keeps_call_stk_ite _ _ _ (keeps_call_stk_fail _) ?_
  refine keeps_call_stk_bind _ _ (keeps_call_stk_read_branch_table _) fun branch_table => ?_
  refine keeps_call_stk_bind _ _ (keeps_call_stk_read_stream _) fun default_target => ?_
  refine keeps_call_stk_bind _ _ keeps_call_stk_get fun vm => ?_
  refine keeps_call_stk_ite _ _ _ (keeps_call_stk_fail _) ?_
  split
  · exact keeps_call_stk_fail _
  · exact keeps_call_stk_bind _ _ (keeps_call_stk_block_sig _ _) fun _ =>
      keeps_call_stk_unreachable

theorem check_unreachable_keeps_call_stk (out_mdle : wrp_wasm_mdle_t) :
    keeps_call_stk (check_unreachable out_mdle) :=
  keeps_call_stk_unreachable

theorem check_noop_keeps_call_stk (out_mdle : wrp_wasm_mdle_t) :
    keeps_call_stk (check_noop out_mdle) :=
  keeps_call_stk_pure _

theorem check_loop_keeps_call_stk (out_mdle : wrp_wasm_mdle_t) :
    keeps_call_stk (check_loop out_mdle) := by
  unfold check_loop
  repeat' first
    | apply keeps_call_stk_bind
    | exact keeps_call_stk_get
    | exact keeps_call_stk_read_stream _
    | exact keeps_call_stk_push_block _ _ _
    | intro _

theorem check_br_keeps_call_stk (out_mdle : wrp_wasm_mdle_t) :
    keeps_call_stk (check_br wrp_stk_check_block_sig wrp_stk_check_unreachable out_mdle) := by
  unfold check_br
  repeat' first
    | apply keeps_call_stk_bind
    | exact keeps_call_stk_read_stream _
    | exact keeps_call_stk_block_sig _ _
    | exact keeps_call_stk_unreachable
    | intro _

theorem check_br_if_keeps_call_stk (out_mdle : wrp_wasm_mdle_t) :
    keeps_call_stk (check_br_if out_mdle) := by
  unfold check_br_if
  repeat' first
    | apply keeps_call_stk_bind
    | exact keeps_call_stk_pure _
    | exact keeps_call_stk_read_stream _
    | exact keeps_call_stk_check_pop_op _
    | intro _

theorem check_return_keeps_call_stk (out_mdle : wrp_wasm_mdle_t) :
    keeps_call_stk (check_return out_mdle) := by
  unfold check_return
  repeat' first
    | apply keeps_call_stk_bind
    | exact keeps_call_stk_func_sig
    | exact keeps_call_stk_unreachable
    | intro _

theorem check_call_keeps_call_stk (out_mdle : wrp_wasm_mdle_t) :
    keeps_call_stk (check_call out_mdle) := by
  unfold check_call
  repeat' first
    | apply keeps_call_stk_ite
    | apply keeps_call_stk_bind
    | exact keeps_call_stk_pure _
    | exact keeps_call_stk_fail _
    | exact keeps_call_stk_read_stream _
    | exact keeps_call_stk_check_push_op _
    | exact keeps_call_stk_check_call_params _ _ _ _
    | intro _

theorem check_call_indirect_keeps_call_stk (out_mdle : wrp_wasm_mdle_t) :
    keeps_call_stk (check_call_indirect out_mdle) :=
  keeps_call_stk_fail _

theorem check_drop_keeps_call_stk (out_mdle : wrp_wasm_mdle_t) :
    keeps_call_stk (check_drop out_mdle) := by
  unfold check_drop
  repeat' first
    | apply keeps_call_stk_bind
    | exact keeps_call_stk_pure _
    | exact keeps_call_stk_check_pop_op _
    | intro _

theorem check_select_keeps_call_stk (out_mdle : wrp_wasm_mdle_t) :
    keeps_call_stk (check_select out_mdle) := by
  unfold check_select
  repeat' first
    | apply keeps_call_stk_bind
    | exact keeps_call_stk_pure _
    | exact keeps_call_stk_check_pop_op _
    | intro _

theorem check_get_local_keeps_call_stk (out_mdle : wrp_wasm_mdle_t) :
    keeps_call_stk (check_get_local out_mdle) := by
  unfold check_get_local
  repeat' first
    | apply keeps_call_stk_ite
    | apply keeps_call_stk_bind
    | exact keeps_call_stk_fail _
    | exact keeps_call_stk_get
    | exact keeps_call_stk_read_stream _
    | exact keeps_call_stk_check_push_op _
    | intro _

theorem check_set_local_keeps_call_stk (out_mdle : wrp_wasm_mdle_t) :
    keeps_call_stk (check_set_local out_mdle) := by
  unfold check_set_local
  repeat' first
    | apply keeps_call_stk_ite
    | apply keeps_call_stk_bind
    | exact keeps_call_stk_pure _
    | exact keeps_call_stk_fail _
    | exact keeps_call_stk_get
    | exact keeps_call_stk_read_stream _
    | exact keeps_call_stk_check_pop_op _
    | intro _

theorem check_tee_local_keeps_call_stk (out_mdle : wrp_wasm_mdle_t) :
    keeps_call_stk (check_tee_local out_mdle) := by
  unfold check_tee_local
  repeat' first
    | apply keeps_call_stk_ite
    | apply keeps_call_stk_bind
    | exact keeps_call_stk_fail _
    | exact keeps_call_stk_get
    | exact keeps_call_stk_read_stream _
    | exact keeps_call_stk_check_pop_op _
    | exact keeps_call_stk_check_push_op _
    | intro _

theorem check_get_global_keeps_call_stk (out_mdle : wrp_wasm_mdle_t) :
    keeps_call_stk (check_get_global out_mdle) := by
  unfold check_get_global
  repeat' first
    | apply keeps_call_stk_ite
    | apply keeps_call_stk_bind
    | exact keeps_call_stk_fail _
    | exact keeps_call_stk_read_stream _
    | exact keeps_call_stk_check_push_op _
    | intro _

theorem check_set_global_keeps_call_stk (out_mdle : wrp_wasm_mdle_t) :
    keeps_call_stk (check_set_global out_mdle) := by
  unfold check_set_global
  repeat' first
    | apply keeps_call_stk_ite
    | apply keeps_call_stk_bind
    | exact keeps_call_stk_pure _
    | exact keeps_call_stk_fail _
    | exact keeps_call_stk_read_stream _
    | exact keeps_call_stk_check_pop_op _
    | intro _

theorem check_load_keeps_call_stk (out_mdle : wrp_wasm_mdle_t) :
    keeps_call_stk (check_load out_mdle) :=
  keeps_call_stk_fail _

theorem check_store_keeps_call_stk (out_mdle : wrp_wasm_mdle_t) :
    keeps_call_stk (check_store out_mdle) :=
  keeps_call_stk_fail _

theorem check_current_memory_keeps_call_stk (out_mdle : wrp_wasm_mdle_t) :
    keeps_call_stk (check_current_memory out_mdle) := by
  unfold check_current_memory
  repeat' first
    | apply keeps_call_stk_ite
    | apply keeps_call_stk_bind
    | exact keeps_call_stk_fail _
    | exact keeps_call_stk_read_stream _
    | exact keeps_call_stk_check_push_op _
    | intro _

theorem check_grow_memory_keeps_call_stk (out_mdle : wrp_wasm_mdle_t) :
    keeps_call_stk (check_grow_memory out_mdle) := by
  unfold check_grow_memory
  repeat' first
    | apply keeps_call_stk_ite
    | apply keeps_call_stk_bind
    | exact keeps_call_stk_fail _
    | exact keeps_call_stk_read_stream _
    | exact keeps_call_stk_check_pop_op _
    | exact keeps_call_stk_check_push_op _
    | intro _

theorem check_i32_const_keeps_call_stk (out_mdle : wrp_wasm_mdle_t) :
    keeps_call_stk (check_i32_const out_mdle) := by
  unfold check_i32_const
  repeat' first
    | apply keeps_call_stk_bind
    | exact keeps_call_stk_read_stream _
    | exact keeps_call_stk_check_push_op _
    | intro _

theorem check_i64_const_keeps_call_stk (out_mdle : wrp_wasm_mdle_t) :
    keeps_call_stk (check_i64_const out_mdle) := by
  unfold check_i64_const
  repeat' first
    | apply keeps_call_stk_bind
    | exact keeps_call_stk_read_stream _
    | exact keeps_call_stk_check_push_op _
    | intro _

theorem check_f32_const_keeps_call_stk (out_mdle : wrp_wasm_mdle_t) :
    keeps_call_stk (check_f32_const out_mdle) := by
  unfold check_f32_const
  repeat' first
    | apply keeps_call_stk_bind
    | exact keeps_call_stk_read_stream _
    | exact keeps_call_stk_check_push_op _
    | intro _

theorem check_f64_const_keeps_call_stk (out_mdle : wrp_wasm_mdle_t) :
    keeps_call_stk (check_f64_const out_mdle) := by
  unfold check_f64_const
  repeat' first
    | apply keeps_call_stk_bind
    | exact keeps_call_stk_read_stream _
    | exact keeps_call_stk_check_push_op _
    | intro _

theorem check_i32_cmp_unary_keeps_call_stk (out_mdle : wrp_wasm_mdle_t) :
    keeps_call_stk (check_i32_cmp_unary out_mdle) := by
  unfold check_i32_cmp_unary
  repeat' first
    | apply keeps_call_stk_bind
    | exact keeps_call_stk_check_pop_op _
    | exact keeps_call_stk_check_push_op _
    | intro _

theorem check_i32_cmp_binary_keeps_call_stk (out_mdle : wrp_wasm_mdle_t) :
    keeps_call_stk (check_i32_cmp_binary out_mdle) := by
  unfold check_i32_cmp_binary
  repeat' first
    | apply keeps_call_stk_bind
    | exact keeps_call_stk_check_pop_op _
    | exact keeps_call_stk_check_push_op _
    | intro _

theorem check_i64_cmp_unary_keeps_call_stk (out_mdle : wrp_wasm_mdle_t) :
    keeps_call_stk (check_i64_cmp_unary out_mdle) := by
  unfold check_i64_cmp_unary
  repeat' first
    | apply keeps_call_stk_bind
    | exact keeps_call_stk_check_pop_op _
    | exact keeps_call_stk_check_push_op _
    | intro _

theorem check_i64_cmp_binary_keeps_call_stk (out_mdle : wrp_wasm_mdle_t) :
    keeps_call_stk (check_i64_cmp_binary out_mdle) := by
  unfold check_i64_cmp_binary
  repeat' first
    | apply keeps_call_stk_bind
    | exact keeps_call_stk_check_pop_op _
    | exact keeps_call_stk_check_push_op _
    | intro _

theorem check_f32_cmp_keeps_call_stk (out_mdle : wrp_wasm_mdle_t) :
    keeps_call_stk (check_f32_cmp out_mdle) := by
  unfold check_f32_cmp
  repeat' first
    | apply keeps_call_stk_bind
    | exact keeps_call_stk_check_pop_op _
    | exact keeps_call_stk_check_push_op _
    | intro _

theorem check_f64_cmp_keeps_call_stk (out_mdle : wrp_wasm_mdle_t) :
    keeps_call_stk (check_f64_cmp out_mdle) := by
  unfold check_f64_cmp
  repeat' first
    | apply keeps_call_stk_bind
    | exact keeps_call_stk_check_pop_op _
    | exact keeps_call_stk_check_push_op _
    | intro _

theorem check_i32_unary_keeps_call_stk (out_mdle : wrp_wasm_mdle_t) :
    keeps_call_stk (check_i32_unary out_mdle) := by
  unfold check_i32_unary
  repeat' first
    | apply keeps_call_stk_bind
    | exact keeps_call_stk_check_pop_op _
    | exact keeps_call_stk_check_push_op _
    | intro _

theorem check_i32_binary_keeps_call_stk (out_mdle : wrp_wasm_mdle_t) :
    keeps_call_stk (check_i32_binary out_mdle) := by
  unfold check_i32_binary
  repeat' first
    | apply keeps_call_stk_bind
    | exact keeps_call_stk_check_pop_op _
    | exact keeps_call_stk_check_push_op _
    | intro _

theorem check_i64_unary_keeps_call_stk (out_mdle : wrp_wasm_mdle_t) :
    keeps_call_stk (check_i64_unary out_mdle) := by
  unfold check_i64_unary
  repeat' first
    | apply keeps_call_stk_bind
    | exact keeps_call_stk_check_pop_op _
    | exact keeps_call_stk_check_push_op _
    | intro _

theorem check_i64_binary_keeps_call_stk (out_mdle : wrp_wasm_mdle_t) :
    keeps_call_stk (check_i64_binary out_mdle) := by
  unfold check_i64_binary
  repeat' first
    | apply keeps_call_stk_bind
    | exact keeps_call_stk_check_pop_op _
    | exact keeps_call_stk_check_push_op _
    | intro _

theorem check_f32_unary_keeps_call_stk (out_mdle : wrp_wasm_mdle_t) :
    keeps_call_stk (check_f32_unary out_mdle) := by
  unfold check_f32_unary
  repeat' first
    | apply keeps_call_stk_bind
    | exact keeps_call_stk_check_pop_op _
    | exact keeps_call_stk_check_push_op _
    | intro _

theorem check_f32_binary_keeps_call_stk (out_mdle : wrp_wasm_mdle_t) :
    keeps_call_stk (check_f32_binary out_mdle) := by
  unfold check_f32_binary
  repeat' first
    | apply keeps_call_stk_bind
    | exact keeps_call_stk_check_pop_op _
    | exact keeps_call_stk_check_push_op _
    | intro _

theorem check_f64_unary_keeps_call_stk (out_mdle : wrp_wasm_mdle_t) :
    keeps_call_stk (check_f64_unary out_mdle) := by
  unfold check_f64_unary
  repeat' first
    | apply keeps_call_stk_bind
    | exact keeps_call_stk_check_pop_op _
    | exact keeps_call_stk_check_push_op _
    | intro _

theorem check_f64_binary_keeps_call_stk (out_mdle : wrp_wasm_mdle_t) :
    keeps_call_stk (check_f64_binary out_mdle) := by
  unfold check_f64_binary
  repeat' first
    | apply keeps_call_stk_bind
    | exact keeps_call_stk_check_pop_op _
    | exact keeps_call_stk_check_push_op _
    | intro _

theorem check_convert_i32_i64_keeps_call_stk (out_mdle : wrp_wasm_mdle_t) :
    keeps_call_stk (check_convert_i32_i64 out_mdle) := by
  unfold check_convert_i32_i64
  repeat' first
    | apply keeps_call_stk_bind
    | exact keeps_call_stk_check_pop_op _
    | exact keeps_call_stk_check_push_op _
    | intro _

theorem check_convert_i32_f32_keeps_call_stk (out_mdle : wrp_wasm_mdle_t) :
    keeps_call_stk (check_convert_i32_f32 out_mdle) := by
  unfold check_convert_i32_f32
  repeat' first
    | apply keeps_call_stk_bind
    | exact keeps_call_stk_check_pop_op _
    | exact keeps_call_stk_check_push_op _
    | intro _

theorem check_convert_i32_f64_keeps_call_stk (out_mdle : wrp_wasm_mdle_t) :
    keeps_call_stk (check_convert_i32_f64 out_mdle) := by
  unfold check_convert_i32_f64
  repeat' first
    | apply keeps_call_stk_bind
    | exact keeps_call_stk_check_pop_op _
    | exact keeps_call_stk_check_push_op _
    | intro _

theorem check_convert_i64_i32_keeps_call_stk (out_mdle : wrp_wasm_mdle_t) :
    keeps_call_stk (check_convert_i64_i32 out_mdle) := by
  unfold check_convert_i64_i32
  repeat' first
    | apply keeps_call_stk_bind
    | exact keeps_call_stk_check_pop_op _
    | exact keeps_call_stk_check_push_op _
    | intro _

theorem check_convert_i64_f32_keeps_call_stk (out_mdle : wrp_wasm_mdle_t) :
    keeps_call_stk (check_convert_i64_f32 out_mdle) := by
  unfold check_convert_i64_f32
  repeat' first
    | apply keeps_call_stk_bind
    | exact keeps_call_stk_check_pop_op _
    | exact keeps_call_stk_check_push_op _
    | intro _

theorem check_convert_i64_f64_keeps_call_stk (out_mdle : wrp_wasm_mdle_t) :
    keeps_call_stk (check_convert_i64_f64 out_mdle) := by
  unfold check_convert_i64_f64
  repeat' first
    | apply keeps_call_stk_bind
    | exact keeps_call_stk_check_pop_op _
    | exact keeps_call_stk_check_push_op _
    | intro _

theorem check_convert_f32_i32_keeps_call_stk (out_mdle : wrp_wasm_mdle_t) :
    keeps_call_stk (check_convert_f32_i32 out_mdle) := by
  unfold check_convert_f32_i32
  repeat' first
    | apply keeps_call_stk_bind
    | exact keeps_call_stk_check_pop_op _
    | exact keeps_call_stk_check_push_op _
    | intro _

theorem check_convert_f32_i64_keeps_call_stk (out_mdle : wrp_wasm_mdle_t) :
    keeps_call_stk (check_convert_f32_i64 out_mdle) := by
  unfold check_convert_f32_i64
  repeat' first
    | apply keeps_call_stk_bind
    | exact keeps_call_stk_check_pop_op _
    | exact keeps_call_stk_check_push_op _
    | intro _

theorem check_convert_f32_f64_keeps_call_stk (out_mdle : wrp_wasm_mdle_t) :
    keeps_call_stk (check_convert_f32_f64 out_mdle) := by
  unfold check_convert_f32_f64
  repeat' first
    | apply keeps_call_stk_bind
    | exact keeps_call_stk_check_pop_op _
    | exact keeps_call_stk_check_push_op _
    | intro _

theorem check_convert_f64_i32_keeps_call_stk (out_mdle : wrp_wasm_mdle_t) :
    keeps_call_stk (check_convert_f64_i32 out_mdle) := by
  unfold check_convert_f64_i32
  repeat' first
    | apply keeps_call_stk_bind
    | exact keeps_call_stk_check_pop_op _
    | exact keeps_call_stk_check_push_op _
    | intro _

theorem check_convert_f64_i64_keeps_call_stk (out_mdle : wrp_wasm_mdle_t) :
    keeps_call_stk (check_convert_f64_i64 out_mdle) := by
  unfold check_convert_f64_i64
  repeat' first
    | apply keeps_call_stk_bind
    | exact keeps_call_stk_check_pop_op _
    | exact keeps_call_stk_check_push_op _
    | intro _

theorem check_convert_f64_f32_keeps_call_stk (out_mdle : wrp_wasm_mdle_t) :
    keeps_call_stk (check_convert_f64_f32 out_mdle) := by
  unfold check_convert_f64_f32
  repeat' first
    | apply keeps_call_stk_bind
    | exact keeps_call_stk_check_pop_op _
    | exact keeps_call_stk_check_push_op _
    | intro _

theorem check_reinterpret_i32_f32_keeps_call_stk (out_mdle : wrp_wasm_mdle_t) :
    keeps_call_stk (check_reinterpret_i32_f32 out_mdle) := by
  unfold check_reinterpret_i32_f32
  repeat' first
    | apply keeps_call_stk_bind
    | exact keeps_call_stk_check_pop_op _
    | exact keeps_call_stk_check_push_op _
    | intro _

theorem check_reinterpret_i64_f64_keeps_call_stk (out_mdle : wrp_wasm_mdle_t) :
    keeps_call_stk (check_reinterpret_i64_f64 out_mdle) := by
  unfold check_reinterpret_i64_f64
  repeat' first
    | apply keeps_call_stk_bind
    | exact keeps_call_stk_check_pop_op _
    | exact keeps_call_stk_check_push_op _
    | intro _

theorem check_reinterpret_f32_i32_keeps_call_stk (out_mdle : wrp_wasm_mdle_t) :
    keeps_call_stk (check_reinterpret_f32_i32 out_mdle) := by
  unfold check_reinterpret_f32_i32
  repeat' first
    | apply keeps_call_stk_bind
    | exact keeps_call_stk_check_pop_op _
    | exact keeps_call_stk_check_push_op _
    | intro _

theorem check_reinterpret_f64_i64_keeps_call_stk (out_mdle : wrp_wasm_mdle_t) :
    keeps_call_stk (check_reinterpret_f64_i64 out_mdle) := by
  unfold check_reinterpret_f64_i64
  repeat' first
    | apply keeps_call_stk_bind
    | exact keeps_call_stk_check_pop_op _
    | exact keeps_call_stk_check_push_op _
    | intro _

/-! ## The frame of the validator handlers -/

theorem current_func_idx_congr (vm vm1 : wrp_vm_t) (h : vm1.call_stk = vm.call_stk) :
    current_func_idx vm1 = current_func_idx vm := by
  unfold current_func_idx
  rw [h]

theorem jump_tables_frame_refl (s : wrp_vm_t × wrp_wasm_mdle_t) : jump_tables_frame s s :=
  ⟨rfl, rfl, rfl, fun _ _ => ⟨rfl, rfl⟩, rfl⟩

theorem jump_tables_frame_trans (s s1 s2 : wrp_vm_t × wrp_wasm_mdle_t)
    (h1 : jump_tables_frame s s1) (h2 : jump_tables_frame s1 s2) : jump_tables_frame s s2 := by
  obtain ⟨a1, b1, c1, d1, e1⟩ := h1
  obtain ⟨a2, b2, c2, d2, e2⟩ := h2
  refine ⟨a2.trans a1, b2.trans b1, c2.trans c1, ?_, e2.trans e1⟩
  intro j hj
  have hj1 : j ≠ current_func_idx s1.1 := by rw [e1]; exact hj
  exact ⟨(d2 j hj1).1.trans (d1 j hj).1, (d2 j hj1).2.trans (d1 j hj).2⟩

theorem on_mdle_frame (handler : wrp_wasm_mdle_t → Exec Unit)
    (hk : ∀ out_mdle, keeps_call_stk (handler out_mdle)) (s : wrp_vm_t × wrp_wasm_mdle_t) :
    jump_tables_frame s (on_mdle handler s).2 :=
  ⟨rfl, rfl, rfl, fun _ _ => ⟨rfl, rfl⟩, current_func_idx_congr _ _ (hk s.2 s.1)⟩

theorem check_block_frame (s : wrp_vm_t × wrp_wasm_mdle_t) :
    jump_tables_frame s (check_block s).2 := by
  refine ⟨rfl, rfl, rfl, fun j hj => ⟨?_, rfl⟩, ?_⟩
  · exact getD_set_ne _ _ _ _ (Ne.symm hj)
  · exact current_func_idx_congr _ _
      (keeps_call_stk_bind _ _ (keeps_call_stk_read_stream _)
        (fun _ => keeps_call_stk_push_block _ _ _) s.1)

theorem check_if_frame (s : wrp_vm_t × wrp_wasm_mdle_t) :
    jump_tables_frame s (check_if s).2 := by
  refine ⟨rfl, rfl, rfl, fun j hj => ⟨rfl, ?_⟩, ?_⟩
  · exact getD_set_ne _ _ _ _ (Ne.symm hj)
  · exact current_func_idx_congr _ _
      (keeps_call_stk_bind _ _ (keeps_call_stk_read_stream _)
        (fun _ => keeps_call_stk_bind _ _ (keeps_call_stk_check_pop_op _)
          (fun _ => keeps_call_stk_push_block _ _ _)) s.1)

theorem check_else_reset_call_stk (vm : wrp_vm_t) :
    (check_else_reset vm).call_stk = vm.call_stk := by
  unfold check_else_reset
  split <;> rfl

theorem check_else_frame (s : wrp_vm_t × wrp_wasm_mdle_t) :
    jump_tables_frame s (check_else s).2 := by
  unfold check_else
  by_cases hc : ctrl_stk_head s.1 = -1 ∨ (ctrl_stk_top s.1).type ≠ IF_TYPE
  · rw [if_pos hc]
    exact jump_tables_frame_refl s
  · rw [if_neg hc]
    dsimp only
    rcases wrp_get_if_idx s.2 (current_func_idx s.1) (ctrl_stk_top s.1).address with e | if_idx
    · exact jump_tables_frame_refl s
    · dsimp only
      rcases wrp_stk_check_block_sig_cases 0 false s.1 with ⟨e, he, _⟩ | hok
      · rw [he]
        exact ⟨rfl, rfl, rfl, fun _ _ => ⟨rfl, rfl⟩, rfl⟩
      · rw [hok]
        exact ⟨rfl, rfl, rfl, fun _ _ => ⟨rfl, rfl⟩,
          current_func_idx_congr _ _ (check_else_reset_call_stk s.1)⟩

theorem check_end_block_tables (vm : wrp_vm_t) (out_mdle : wrp_wasm_mdle_t) :
    (check_end_block vm out_mdle).2.num_funcs = out_mdle.num_funcs ∧
    (check_end_block vm out_mdle).2.block_offsets = out_mdle.block_offsets ∧
    (check_end_block vm out_mdle).2.if_offsets = out_mdle.if_offsets ∧
    (check_end_block vm out_mdle).2.block_counts = out_mdle.block_counts ∧
    (check_end_block vm out_mdle).2.if_counts = out_mdle.if_counts := by
  unfold check_end_block
  repeat' split
  all_goals exact ⟨rfl, rfl, rfl, rfl, rfl⟩

theorem check_end_if_tables (vm : wrp_vm_t) (out_mdle : wrp_wasm_mdle_t) :
    (check_end_if vm out_mdle).2.num_funcs = out_mdle.num_funcs ∧
    (check_end_if vm out_mdle).2.block_offsets = out_mdle.block_offsets ∧
    (check_end_if vm out_mdle).2.if_offsets = out_mdle.if_offsets ∧
    (check_end_if vm out_mdle).2.block_counts = out_mdle.block_counts ∧
    (check_end_if vm out_mdle).2.if_counts = out_mdle.if_counts := by
  unfold check_end_if
  repeat' split
  all_goals exact ⟨rfl, rfl, rfl, rfl, rfl⟩

theorem check_end_frame (s : wrp_vm_t × wrp_wasm_mdle_t) :
    jump_tables_frame s (check_end s).2 := by
  unfold check_end
  split
  · exact ⟨rfl, rfl, rfl, fun _ _ => ⟨rfl, rfl⟩,
      current_func_idx_congr _ _ (keeps_call_stk_func_sig s.1)⟩
  · have hb := check_end_block_tables s.1 s.2
    rcases h1 : check_end_block s.1 s.2 with ⟨r1, mdle1⟩
    rw [h1] at hb
    have hi := check_end_if_tables s.1 mdle1
    rcases h2 : check_end_if s.1 mdle1 with ⟨r2, mdle2⟩
    rw [h2] at hi
    have hm1 : jump_tables_frame s (s.1, mdle1) :=
      ⟨hb.1, hb.2.1, hb.2.2.1, fun _ _ => ⟨by rw [hb.2.2.2.1], by rw [hb.2.2.2.2]⟩, rfl⟩
    have hm2 : ∀ vm1, vm1.call_stk = s.1.call_stk → jump_tables_frame s (vm1, mdle2) :=
      fun vm1 hc =>
        ⟨hi.1.trans hb.1, hi.2.1.trans hb.2.1, hi.2.2.1.trans hb.2.2.1,
          fun _ _ => ⟨by rw [hi.2.2.2.1, hb.2.2.2.1], by rw [hi.2.2.2.2, hb.2.2.2.2]⟩,
          current_func_idx_congr _ _ hc⟩
    cases r1 with
    | error e => exact hm1
    | ok u =>
      dsimp only
      rw [h2]
      cases r2 with
      | error e => exact hm2 s.1 rfl
      | ok u2 =>
        exact hm2 _
          (keeps_call_stk_bind _ _ (keeps_call_stk_block_sig _ _)
            (fun _ => keeps_call_stk_pop_block) s.1)

theorem check_jump_table_handler_frame (MAX_BRANCH_TABLE_SIZE : Nat) (f : check_fn)
    (s : wrp_vm_t × wrp_wasm_mdle_t) :
    jump_tables_frame s (check_jump_table_handler MAX_BRANCH_TABLE_SIZE f s).2 := by
  cases f with
  | check_unreachable => exact on_mdle_frame _ check_unreachable_keeps_call_stk s
  | check_noop => exact on_mdle_frame _ check_noop_keeps_call_stk s
  | check_block => exact check_block_frame s
  | check_loop => exact on_mdle_frame _ check_loop_keeps_call_stk s
  | check_if => exact check_if_frame s
  | check_else => exact check_else_frame s
  | check_invalid_op => exact jump_tables_frame_refl s
  | check_end => exact check_end_frame s
  | check_br => exact on_mdle_frame _ check_br_keeps_call_stk s
  | check_br_if => exact on_mdle_frame _ check_br_if_keeps_call_stk s
  | check_br_table =>
    exact on_mdle_frame _ (check_br_table_keeps_call_stk MAX_BRANCH_TABLE_SIZE) s
  | check_return => exact on_mdle_frame _ check_return_keeps_call_stk s
  | check_call => exact on_mdle_frame _ check_call_keeps_call_stk s
  | check_call_indirect => exact on_mdle_frame _ check_call_indirect_keeps_call_stk s
  | check_drop => exact on_mdle_frame _ check_drop_keeps_call_stk s
  | check_select => exact on_mdle_frame _ check_select_keeps_call_stk s
  | check_get_local => exact on_mdle_frame _ check_get_local_keeps_call_stk s
  | check_set_local => exact on_mdle_frame _ check_set_local_keeps_call_stk s
  | check_tee_local => exact on_mdle_frame _ check_tee_local_keeps_call_stk s
  | check_get_global => exact on_mdle_frame _ check_get_global_keeps_call_stk s
  | check_set_global => exact on_mdle_frame _ check_set_global_keeps_call_stk s
  | check_load => exact on_mdle_frame _ check_load_keeps_call_stk s
  | check_store => exact on_mdle_frame _ check_store_keeps_call_stk s
  | check_current_memory => exact on_mdle_frame _ check_current_memory_keeps_call_stk s
  | check_grow_memory => exact on_mdle_frame _ check_grow_memory_keeps_call_stk s
  | check_i32_const => exact on_mdle_frame _ check_i32_const_keeps_call_stk s
  | check_i64_const => exact on_mdle_frame _ check_i64_const_keeps_call_stk s
  | check_f32_const => exact on_mdle_frame _ check_f32_const_keeps_call_stk s
  | check_f64_const => exact on_mdle_frame _ check_f64_const_keeps_call_stk s
  | check_i32_cmp_unary => exact on_mdle_frame _ check_i32_cmp_unary_keeps_call_stk s
  | check_i32_cmp_binary => exact on_mdle_frame _ check_i32_cmp_binary_keeps_call_stk s
  | check_i64_cmp_unary => exact on_mdle_frame _ check_i64_cmp_unary_keeps_call_stk s
  | check_i64_cmp_binary => exact on_mdle_frame _ check_i64_cmp_binary_keeps_call_stk s
  | check_f32_cmp => exact on_mdle_frame _ check_f32_cmp_keeps_call_stk s
  | check_f64_cmp => exact on_mdle_frame _ check_f64_cmp_keeps_call_stk s
  | check_i32_unary => exact on_mdle_frame _ check_i32_unary_keeps_call_stk s
  | check_i32_binary => exact on_mdle_frame _ check_i32_binary_keeps_call_stk s
  | check_i64_unary => exact on_mdle_frame _ check_i64_unary_keeps_call_stk s
  | check_i64_binary => exact on_mdle_frame _ check_i64_binary_keeps_call_stk s
  | check_f32_unary => exact on_mdle_frame _ check_f32_unary_keeps_call_stk s
  | check_f32_binary => exact on_mdle_frame _ check_f32_binary_keeps_call_stk s
  | check_f64_unary => exact on_mdle_frame _ check_f64_unary_keeps_call_stk s
  | check_f64_binary => exact on_mdle_frame _ check_f64_binary_keeps_call_stk s
  | check_convert_i32_i64 => exact on_mdle_frame _ check_convert_i32_i64_keeps_call_stk s
  | check_convert_i32_f32 => exact on_mdle_frame _ check_convert_i32_f32_keeps_call_stk s
  | check_convert_i32_f64 => exact on_mdle_frame _ check_convert_i32_f64_keeps_call_stk s
  | check_convert_i64_i32 => exact on_mdle_frame _ check_convert_i64_i32_keeps_call_stk s
  | check_convert_i64_f32 => exact on_mdle_frame _ check_convert_i64_f32_keeps_call_stk s
  | check_convert_i64_f64 => exact on_mdle_frame _ check_convert_i64_f64_keeps_call_stk s
  | check_convert_f32_i32 => exact on_mdle_frame _ check_convert_f32_i32_keeps_call_stk s
  | check_convert_f32_i64 => exact on_mdle_frame _ check_convert_f32_i64_keeps_call_stk s
  | check_convert_f32_f64 => exact on_mdle_frame _ check_convert_f32_f64_keeps_call_stk s
  | check_convert_f64_i32 => exact on_mdle_frame _ check_convert_f64_i32_keeps_call_stk s
  | check_convert_f64_i64 => exact on_mdle_frame _ check_convert_f64_i64_keeps_call_stk s
  | check_convert_f64_f32 => exact on_mdle_frame _ check_convert_f64_f32_keeps_call_stk s
  | check_reinterpret_i32_f32 => exact on_mdle_frame _ check_reinterpret_i32_f32_keeps_call_stk s
  | check_reinterpret_i64_f64 => exact on_mdle_frame _ check_reinterpret_i64_f64_keeps_call_stk s
  | check_reinterpret_f32_i32 => exact on_mdle_frame _ check_reinterpret_f32_i32_keeps_call_stk s
  | check_reinterpret_f64_i64 => exact on_mdle_frame _ check_reinterpret_f64_i64_keeps_call_stk s

/-! ## The offset tables after validation (C37) -/

theorem wrp_type_check_mdle_body_frame
    (handler : check_fn → wrp_vm_t × wrp_wasm_mdle_t →
      Except wrp_err_t Unit × (wrp_vm_t × wrp_wasm_mdle_t))
    (hf : ∀ f s, jump_tables_frame s (handler f s).2)
    (s r : _) (h : wrp_type_check_mdle_body handler s = some r) : jump_tables_frame s r.2 := by
  obtain ⟨vm, m⟩ := s
  rw [wrp_type_check_mdle_body_run] at h
  have h1 : jump_tables_frame (vm, m)
      ({ vm with opcode_stream := { vm.opcode_stream with pos := vm.opcode_stream.pos + 1 } }, m) :=
    ⟨rfl, rfl, rfl, fun _ _ => ⟨rfl, rfl⟩, rfl⟩
  split at h
  · cases h
    exact h1
  · split at h
    · cases h
    · cases h
      exact jump_tables_frame_trans _ _ _ h1 (hf _ _)

theorem check_code_loop_frame
    (handler : check_fn → wrp_vm_t × wrp_wasm_mdle_t →
      Except wrp_err_t Unit × (wrp_vm_t × wrp_wasm_mdle_t))
    (hf : ∀ f s, jump_tables_frame s (handler f s).2) (fuel : Nat) :
    ∀ s r, check_code_loop handler fuel s = some r → jump_tables_frame s r.2 := by
  induction fuel with
  | zero =>
    intro s r h
    unfold check_code_loop at h
    cases h
  | succ k ih =>
    intro s r h
    unfold check_code_loop at h
    split at h
    · rcases hb : wrp_type_check_mdle_body handler s with _ | ⟨r1, s1⟩
      · rw [hb] at h
        cases h
      · have hfr := wrp_type_check_mdle_body_frame handler hf s _ hb
        rw [hb] at h
        split at h
        · cases h
        · rename_i h2
          cases h2
          exact jump_tables_frame_trans _ _ _ hfr (ih _ _ h)
        · rename_i h2
          cases h2
          exact jump_tables_frame_trans _ _ _ hfr (ih _ _ h)
        · rename_i h2
          cases h2
          cases h
          exact hfr
    · cases h
      exact jump_tables_frame_refl s

theorem check_code_end_state (s : wrp_vm_t × wrp_wasm_mdle_t)
    (r : wrp_err_t × (wrp_vm_t × wrp_wasm_mdle_t)) (h : check_code_end s = some r) :
    r.2 = s := by
  unfold check_code_end at h
  repeat' split at h
  all_goals first
    | cases h; rfl
    | cases h

theorem check_func_init_pushes (i : Nat) (vm : wrp_vm_t) :
    (∃ vm1, (do
        wrp_stk_check_push_call i
        wrp_stk_check_push_block 0 BLOCK_FUNC VOID : Exec Unit) vm = (Except.ok (), vm1) ∧
      current_func_idx vm1 = i) ∨
    (∃ vm1, (do
        wrp_stk_check_push_call i
        wrp_stk_check_push_block 0 BLOCK_FUNC VOID : Exec Unit) vm =
      (Except.error wrp_err_t.WRP_ERR_INVALID_STK_OPERATION, vm1)) := by
  by_cases hc : vm.call_stk_max ≤ vm.call_stk.length
  · have h1 : wrp_stk_check_push_call i vm =
        (Except.error wrp_err_t.WRP_ERR_INVALID_STK_OPERATION, vm) := by
      unfold wrp_stk_check_push_call
      rw [if_pos hc]
    rw [bind_run_error _ _ _ _ _ h1]
    exact Or.inr ⟨_, rfl⟩
  · have h1 : wrp_stk_check_push_call i vm =
        (Except.ok (),
          { vm with call_stk := ⟨i, (vm.oprd_stk.length : Int) - 1⟩ :: vm.call_stk }) := by
      unfold wrp_stk_check_push_call
      rw [if_neg hc]
    rw [bind_run_ok _ _ _ _ _ h1]
    unfold wrp_stk_check_push_block
    split
    · exact Or.inr ⟨_, rfl⟩
    · exact Or.inl ⟨_, rfl, rfl⟩

theorem check_func_init_success (i : Nat) (s : wrp_vm_t × wrp_wasm_mdle_t)
    (h : (check_func_init i s).1 = wrp_err_t.WRP_SUCCESS) :
    (check_func_init i s).2.2 = (if i > 0 then set_offsets i s.2 else s.2) ∧
    current_func_idx (check_func_init i s).2.1 = i := by
  unfold check_func_init at h ⊢
  dsimp only at h ⊢
  rcases check_func_init_pushes i (wrp_reset_vm s.1) with ⟨vm1, hp, hcur⟩ | ⟨vm1, hp⟩
  · rw [hp]
    exact ⟨rfl, hcur⟩
  · rw [hp] at h
    cases h

theorem check_func_success
    (handler : check_fn → wrp_vm_t × wrp_wasm_mdle_t →
      Except wrp_err_t Unit × (wrp_vm_t × wrp_wasm_mdle_t))
    (hf : ∀ f s, jump_tables_frame s (handler f s).2) (fuel i : Nat)
    (s s1 : wrp_vm_t × wrp_wasm_mdle_t)
    (h : check_func handler fuel i s = some (wrp_err_t.WRP_SUCCESS, s1)) :
    s1.2.num_funcs = s.2.num_funcs ∧
    s1.2.block_offsets = (if i > 0 then set_offsets i s.2 else s.2).block_offsets ∧
    s1.2.if_offsets = (if i > 0 then set_offsets i s.2 else s.2).if_offsets ∧
    (∀ j, j ≠ i →
      s1.2.block_counts.getD j 0 = s.2.block_counts.getD j 0 ∧
      s1.2.if_counts.getD j 0 = s.2.if_counts.getD j 0) := by
  unfold check_func at h
  rcases hinit : check_func_init i s with ⟨e0, s0⟩
  have hi := check_func_init_success i s
  rw [hinit] at h hi
  have hm0 : (if i > 0 then set_offsets i s.2 else s.2).num_funcs = s.2.num_funcs ∧
      (if i > 0 then set_offsets i s.2 else s.2).block_counts = s.2.block_counts ∧
      (if i > 0 then set_offsets i s.2 else s.2).if_counts = s.2.if_counts := by
    split
    · exact ⟨(set_offsets_rest i s.2).1, (set_offsets_rest i s.2).2.1,
        (set_offsets_rest i s.2).2.2.1⟩
    · exact ⟨rfl, rfl, rfl⟩
  split at h
  · rename_i s0a heq
    cases heq
    obtain ⟨hmod, hcur⟩ := hi rfl
    dsimp only at hmod hcur
    rcases hl : check_code_loop handler fuel s0 with _ | ⟨e1, s2⟩
    · rw [hl] at h
      cases h
    · have hfr := check_code_loop_frame handler hf fuel s0 _ hl
      rw [hl] at h
      have hfinal : s1 = s2 := by
        split at h
        · cases h
        · rename_i e2 s3 heq2
          cases heq2
          exact check_code_end_state _ _ h
        · rename_i e2 s3 hne heq2
          cases heq2
          cases h
          exact absurd rfl hne
      subst hfinal
      obtain ⟨a, b, c, d, _⟩ := hfr
      dsimp only at a b c d
      rw [hmod] at a b c d
      refine ⟨a.trans hm0.1, b, c, ?_⟩
      intro j hj
      have hj1 : j ≠ current_func_idx s0.1 := by rw [hcur]; exact hj
      rw [(d j hj1).1, (d j hj1).2, hm0.2.1, hm0.2.2]
      exact ⟨rfl, rfl⟩
  · rename_i e s0a hne heq
    cases heq
    cases h
    exact absurd rfl hne

theorem check_funcs_prefix_sums
    (handler : check_fn → wrp_vm_t × wrp_wasm_mdle_t →
      Except wrp_err_t Unit × (wrp_vm_t × wrp_wasm_mdle_t))
    (hf : ∀ f s, jump_tables_frame s (handler f s).2) (fuel : Nat) :
    ∀ (n i : Nat) (s s1 : wrp_vm_t × wrp_wasm_mdle_t),
      check_funcs handler fuel n i s = some (wrp_err_t.WRP_SUCCESS, s1) →
      s.2.num_funcs ≤ s.2.block_offsets.length → s.2.num_funcs ≤ s.2.if_offsets.length →
      offsets_are_prefix_sums i s.2 →
      s1.2.num_funcs = s.2.num_funcs ∧ offsets_are_prefix_sums s.2.num_funcs s1.2 := by
  intro n
  induction n with
  | zero =>
    intro i s s1 h _ _ hp
    unfold check_funcs at h
    split at h
    · cases h
    · rename_i hlt
      cases h
      exact ⟨rfl, fun k hk => hp k (by omega)⟩
  | succ n ih =>
    intro i s s1 h hbl hil hp
    unfold check_funcs at h
    split at h
    · rename_i hlt
      rcases hfn : check_func handler fuel i s with _ | ⟨e1, s2⟩
      · rw [hfn] at h
        cases h
      · rw [hfn] at h
        split at h
        · cases h
        · rename_i e2 s3 heq
          cases heq
          obtain ⟨hn, hbo, hio, hcnt⟩ := check_func_success handler hf fuel i s s2 hfn
          have hlen : s2.2.block_offsets.length = s.2.block_offsets.length ∧
              s2.2.if_offsets.length = s.2.if_offsets.length := by
            rw [hbo, hio]
            split
            · exact ⟨(set_offsets_rest i s.2).2.2.2.1, (set_offsets_rest i s.2).2.2.2.2⟩
            · exact ⟨rfl, rfl⟩
          have hstep : offsets_are_prefix_sums (i + 1) s2.2 := by
            intro k hk
            have hki : k ≠ i := by omega
            rw [hbo, hio, (hcnt k hki).1, (hcnt k hki).2]
            by_cases h0 : i > 0
            · rw [if_pos h0]
              by_cases hk1 : k + 1 = i
              · have hk2 : k = i - 1 := by omega
                rw [set_offsets_block_ne i k s.2 (Ne.symm hki),
                  set_offsets_if_ne i k s.2 (Ne.symm hki), hk1,
                  set_offsets_block_eq i s.2 (by omega), set_offsets_if_eq i s.2 (by omega),
                  hk2]
                exact ⟨rfl, rfl⟩
              · rw [set_offsets_block_ne i k s.2 (Ne.symm hki),
                  set_offsets_if_ne i k s.2 (Ne.symm hki),
                  set_offsets_block_ne i (k + 1) s.2 (Ne.symm hk1),
                  set_offsets_if_ne i (k + 1) s.2 (Ne.symm hk1)]
                exact hp k (by omega)
            · omega
          have hres := ih (i + 1) s2 s1 h (by rw [hn, hlen.1]; exact hbl)
            (by rw [hn, hlen.2]; exact hil) hstep
          rw [hn] at hres
          exact hres
        · rename_i e2 s3 hne heq
          cases heq
          cases h
          exact absurd rfl hne
    · rename_i hlt
      cases h
      exact ⟨rfl, fun k hk => hp k (by omega)⟩

theorem wrp_type_check_mdle_prefix_sums
    (handler : check_fn → wrp_vm_t × wrp_wasm_mdle_t →
      Except wrp_err_t Unit × (wrp_vm_t × wrp_wasm_mdle_t))
    (hf : ∀ f s, jump_tables_frame s (handler f s).2) (fuel : Nat)
    (vm : wrp_vm_t) (out_mdle : wrp_wasm_mdle_t) (r : wrp_err_t × wrp_vm_t × wrp_wasm_mdle_t)
    (hbl : out_mdle.num_funcs ≤ out_mdle.block_offsets.length)
    (hil : out_mdle.num_funcs ≤ out_mdle.if_offsets.length)
    (h : wrp_type_check_mdle handler fuel vm out_mdle = some r)
    (hs : r.1 = wrp_err_t.WRP_SUCCESS) :
    offsets_are_prefix_sums out_mdle.num_funcs r.2.2 := by
  unfold wrp_type_check_mdle at h
  split at h
  · cases h
  · rename_i s heq
    cases h
    exact (check_funcs_prefix_sums handler hf fuel _ 0 _ s heq hbl hil
      (fun k hk => absurd hk (by omega))).2
  · rename_i e s hne heq
    cases h
    exact absurd hs hne

theorem offsets_monotone (n : Nat) (mdle : wrp_wasm_mdle_t)
    (hp : offsets_are_prefix_sums n mdle)
    (hb : ∀ k, k < n →
      mdle.block_offsets.getD k 0 + mdle.block_counts.getD k 0 < 4294967296 ∧
      mdle.if_offsets.getD k 0 + mdle.if_counts.getD k 0 < 4294967296) :
    ∀ d i, i + d + 1 < n →
      mdle.block_offsets.getD i 0 + mdle.block_counts.getD i 0 ≤
        mdle.block_offsets.getD (i + d + 1) 0 ∧
      mdle.if_offsets.getD i 0 + mdle.if_counts.getD i 0 ≤
        mdle.if_offsets.getD (i + d + 1) 0 := by
  intro d
  induction d with
  | zero =>
    intro i hi
    have h1 := hp i hi
    have h2 := hb i (by omega)
    rw [Nat.add_zero, h1.1, h1.2, Nat.mod_eq_of_lt h2.1, Nat.mod_eq_of_lt h2.2]
    exact ⟨le_refl _, le_refl _⟩
  | succ d ih =>
    intro i hi
    have h1 := hp (i + d + 1) (by omega)
    have h2 := hb (i + d + 1) (by omega)
    have h3 := ih i (by omega)
    rw [show i + (d + 1) + 1 = i + d + 1 + 1 from rfl, h1.1, h1.2, Nat.mod_eq_of_lt h2.1,
      Nat.mod_eq_of_lt h2.2]
    exact ⟨le_trans h3.1 (Nat.le_add_right _ _), le_trans h3.2 (Nat.le_add_right _ _)⟩
set_option maxRecDepth 100000 in
/-- The validator accepts `mdle_two_funcs_example` and leaves the offsets `0, 1` and
the counts `1, 1` for the blocks and `1, 0` for the ifs; the two blocks are
recorded in the slots `0` and `1`. -/
theorem wrp_type_check_mdle_two_funcs_example :
    wrp_type_check_mdle (check_jump_table_handler 16) 10 vm_example mdle_two_funcs_example =
      some (wrp_type_check_mdle_stage 16 10 vm_example mdle_two_funcs_example) ∧
    (wrp_type_check_mdle_stage 16 10 vm_example mdle_two_funcs_example).1 =
      wrp_err_t.WRP_SUCCESS ∧
    ((wrp_type_check_mdle_stage 16 10 vm_example mdle_two_funcs_example).2.2.block_offsets,
      (wrp_type_check_mdle_stage 16 10 vm_example mdle_two_funcs_example).2.2.block_counts,
      (wrp_type_check_mdle_stage 16 10 vm_example mdle_two_funcs_example).2.2.if_offsets,
      (wrp_type_check_mdle_stage 16 10 vm_example mdle_two_funcs_example).2.2.if_counts,
      (wrp_type_check_mdle_stage 16 10 vm_example mdle_two_funcs_example).2.2.block_addresses,
      (wrp_type_check_mdle_stage 16 10 vm_example mdle_two_funcs_example).2.2.block_labels,
      (wrp_type_check_mdle_stage 16 10 vm_example mdle_two_funcs_example).2.2.if_addresses,
      (wrp_type_check_mdle_stage 16 10 vm_example mdle_two_funcs_example).2.2.if_labels) =
      ([0, 1], [1, 1], [0, 1], [1, 0], [0, 0], [2, 2], [5, 0], [7, 0]) :=
  ⟨rfl, rfl, rfl⟩

/-! ## The counts of the processed `block` and `if` opcodes (C37) -/

theorem count_calls_nil (g : check_fn) : count_calls g [] = 0 := rfl

theorem count_calls_cons (g f : check_fn) (s : wrp_vm_t × wrp_wasm_mdle_t)
    (calls : List (check_fn × (wrp_vm_t × wrp_wasm_mdle_t))) :
    count_calls g ((f, s) :: calls) = (if f = g then 1 else 0) + count_calls g calls := by
  unfold count_calls
  rw [List.countP_cons]
  by_cases h : f = g
  · simp only [h, decide_True, if_true]
    omega
  · simp only [h, decide_False, if_false]
    simp

theorem count_calls_le_length (g : check_fn)
    (calls : List (check_fn × (wrp_vm_t × wrp_wasm_mdle_t))) :
    count_calls g calls ≤ calls.length :=
  List.countP_le_length _

theorem check_else_counts (s : wrp_vm_t × wrp_wasm_mdle_t) :
    (check_else s).2.2.block_counts = s.2.block_counts ∧
    (check_else s).2.2.if_counts = s.2.if_counts := by
  unfold check_else
  dsimp only
  repeat' split
  all_goals exact ⟨rfl, rfl⟩

theorem check_end_counts (s : wrp_vm_t × wrp_wasm_mdle_t) :
    (check_end s).2.2.block_counts = s.2.block_counts ∧
    (check_end s).2.2.if_counts = s.2.if_counts := by
  unfold check_end
  split
  · exact ⟨rfl, rfl⟩
  · have hb := check_end_block_tables s.1 s.2
    rcases h1 : check_end_block s.1 s.2 with ⟨r1, mdle1⟩
    rw [h1] at hb
    have hi := check_end_if_tables s.1 mdle1
    rcases h2 : check_end_if s.1 mdle1 with ⟨r2, mdle2⟩
    rw [h2] at hi
    cases r1 with
    | error e => exact ⟨hb.2.2.2.1, hb.2.2.2.2⟩
    | ok u =>
      dsimp only
      rw [h2]
      cases r2 with
      | error e => exact ⟨hi.2.2.2.1.trans hb.2.2.2.1, hi.2.2.2.2.trans hb.2.2.2.2⟩
      | ok u2 => exact ⟨hi.2.2.2.1.trans hb.2.2.2.1, hi.2.2.2.2.trans hb.2.2.2.2⟩

/-- The handlers other than `check_block` leave the counts of the blocks as they
are, and the handlers other than `check_if` those of the ifs. -/
theorem check_jump_table_handler_counts (MAX_BRANCH_TABLE_SIZE : Nat) (f : check_fn)
    (s : wrp_vm_t × wrp_wasm_mdle_t) :
    (f ≠ check_fn.check_block →
      (check_jump_table_handler MAX_BRANCH_TABLE_SIZE f s).2.2.block_counts = s.2.block_counts) ∧
    (f ≠ check_fn.check_if →
      (check_jump_table_handler MAX_BRANCH_TABLE_SIZE f s).2.2.if_counts = s.2.if_counts) := by
  cases f
  case check_block => exact ⟨fun h => absurd rfl h, fun _ => rfl⟩
  case check_if => exact ⟨fun _ => rfl, fun h => absurd rfl h⟩
  case check_else => exact ⟨fun _ => (check_else_counts s).1, fun _ => (check_else_counts s).2⟩
  case check_end => exact ⟨fun _ => (check_end_counts s).1, fun _ => (check_end_counts s).2⟩
  all_goals exact ⟨fun _ => rfl, fun _ => rfl⟩

set_option maxRecDepth 100000 in
/-- One turn of the `while` loop and of its trace, entered with the cursor before the
end of the code: a handler `f` is called on the state `s1` behind the fetch, and
either the loop goes on from the state `s2` that the handler leaves, or it ends
there with an error code; or no handler is called and the loop ends. -/
theorem check_code_step
    (handler : check_fn → wrp_vm_t × wrp_wasm_mdle_t →
      Except wrp_err_t Unit × (wrp_vm_t × wrp_wasm_mdle_t))
    (fuel : Nat) (vm : wrp_vm_t) (m : wrp_wasm_mdle_t)
    (hpos : vm.opcode_stream.pos < vm.opcode_stream.sz) :
    (∃ f s2,
      jump_table_call check_jump_table
        (vm.opcode_stream.bytes.getD vm.opcode_stream.pos 0 % 256) = some f ∧
      (handler f ({ vm with opcode_stream :=
        { vm.opcode_stream with pos := vm.opcode_stream.pos + 1 } }, m)).2 = s2 ∧
      ((check_code_loop handler (fuel + 1) (vm, m) = check_code_loop handler fuel s2 ∧
        check_code_calls handler (fuel + 1) (vm, m) =
          (f, ({ vm with opcode_stream :=
            { vm.opcode_stream with pos := vm.opcode_stream.pos + 1 } }, m)) ::
            check_code_calls handler fuel s2) ∨
       (∃ e, check_code_loop handler (fuel + 1) (vm, m) = some (e, s2) ∧
        check_code_calls handler (fuel + 1) (vm, m) =
          [(f, ({ vm with opcode_stream :=
            { vm.opcode_stream with pos := vm.opcode_stream.pos + 1 } }, m))]))) ∨
    (check_code_calls handler (fuel + 1) (vm, m) = [] ∧
      (check_code_loop handler (fuel + 1) (vm, m) = none ∨
        check_code_loop handler (fuel + 1) (vm, m) =
          some (wrp_err_t.WRP_ERR_INVALID_OPCODE,
            ({ vm with opcode_stream :=
              { vm.opcode_stream with pos := vm.opcode_stream.pos + 1 } }, m)))) := by
  rw [check_code_calls, check_code_loop]
  rw [if_pos hpos, if_pos hpos, wrp_type_check_mdle_body_run]
  dsimp only
  by_cases hop : vm.opcode_stream.bytes.getD vm.opcode_stream.pos 0 % 256 ≥ NUM_OPCODES
  · rw [if_pos hop, if_pos hop]
    exact Or.inr ⟨rfl, Or.inr rfl⟩
  · rw [if_neg hop, if_neg hop]
    rcases hj : jump_table_call check_jump_table
        (vm.opcode_stream.bytes.getD vm.opcode_stream.pos 0 % 256) with _ | f
    · exact Or.inr ⟨rfl, Or.inl rfl⟩
    · dsimp only
      rcases hh : handler f ({ vm with opcode_stream :=
          { vm.opcode_stream with pos := vm.opcode_stream.pos + 1 } }, m) with ⟨res, s2⟩
      refine Or.inl ⟨f, s2, rfl, by rw [hh], ?_⟩
      cases res with
      | ok u => exact Or.inl ⟨rfl, rfl⟩
      | error e =>
        by_cases he : e = wrp_err_t.WRP_SUCCESS
        · subst he
          exact Or.inl ⟨rfl, rfl⟩
        · refine Or.inr ⟨e, ?_, ?_⟩
          · split
            · rename_i h2
              cases h2
            · rename_i h2
              cases h2
            · rename_i h2
              cases h2
              exact absurd rfl he
            · rename_i h2
              cases h2
              rfl
          · split
            · rename_i h2
              cases h2
            · rename_i h2
              cases h2
              exact absurd rfl he
            · rfl

set_option maxRecDepth 100000 in
theorem check_code_at_end
    (handler : check_fn → wrp_vm_t × wrp_wasm_mdle_t →
      Except wrp_err_t Unit × (wrp_vm_t × wrp_wasm_mdle_t))
    (fuel : Nat) (s : wrp_vm_t × wrp_wasm_mdle_t)
    (hpos : ¬ s.1.opcode_stream.pos < s.1.opcode_stream.sz) :
    check_code_calls handler (fuel + 1) s = [] ∧
    check_code_loop handler (fuel + 1) s = some (wrp_err_t.WRP_SUCCESS, s) := by
  rw [check_code_calls, check_code_loop]
  rw [if_neg hpos, if_neg hpos]
  exact ⟨rfl, rfl⟩

set_option maxRecDepth 100000 in
theorem check_code_no_fuel
    (handler : check_fn → wrp_vm_t × wrp_wasm_mdle_t →
      Except wrp_err_t Unit × (wrp_vm_t × wrp_wasm_mdle_t))
    (s : wrp_vm_t × wrp_wasm_mdle_t) :
    check_code_calls handler 0 s = [] ∧ check_code_loop handler 0 s = none := by
  rw [check_code_calls, check_code_loop]
  exact ⟨rfl, rfl⟩

theorem add_mod_step (c d k : Nat) :
    ((c + d) % 4294967296 + k) % 4294967296 = (c + (d + k)) % 4294967296 := by
  omega

/-- The effect of one handler on the count of the current function. -/
theorem count_step
    (handler : check_fn → wrp_vm_t × wrp_wasm_mdle_t →
      Except wrp_err_t Unit × (wrp_vm_t × wrp_wasm_mdle_t))
    (cnt : wrp_wasm_mdle_t → List Nat) (g : check_fn)
    (hg : ∀ s, cnt (handler g s).2.2 =
      (cnt s.2).set (current_func_idx s.1)
        (((cnt s.2).getD (current_func_idx s.1) 0 + 1) % 4294967296))
    (hng : ∀ f s, f ≠ g → cnt (handler f s).2.2 = cnt s.2)
    (f : check_fn) (s : wrp_vm_t × wrp_wasm_mdle_t)
    (hlen : current_func_idx s.1 < (cnt s.2).length)
    (hlt : (cnt s.2).getD (current_func_idx s.1) 0 < 4294967296) :
    (cnt (handler f s).2.2).length = (cnt s.2).length ∧
    (cnt (handler f s).2.2).getD (current_func_idx s.1) 0 =
      ((cnt s.2).getD (current_func_idx s.1) 0 + (if f = g then 1 else 0)) % 4294967296 ∧
    (∀ j, j ≠ current_func_idx s.1 →
      (cnt (handler f s).2.2).getD j 0 = (cnt s.2).getD j 0) := by
  by_cases h : f = g
  · subst h
    rw [hg, if_pos rfl]
    exact ⟨List.length_set _ _ _, getD_set_eq _ _ _ hlen,
      fun j hj => getD_set_ne _ _ _ _ (Ne.symm hj)⟩
  · rw [hng f s h, if_neg h, Nat.add_zero, Nat.mod_eq_of_lt hlt]
    exact ⟨rfl, rfl, fun _ _ => rfl⟩

/-- The count of the current function along the `while` loop: at each call of the
trace the count is its value at entry plus the number of earlier calls of the
handler `g`, and behind the loop it is the value at entry plus the number of all
calls of `g`, in `uint32_t` arithmetic. The handlers are called for the function
that is current at entry and with the offset tables as they were. -/
theorem check_code_loop_counts
    (handler : check_fn → wrp_vm_t × wrp_wasm_mdle_t →
      Except wrp_err_t Unit × (wrp_vm_t × wrp_wasm_mdle_t))
    (cnt : wrp_wasm_mdle_t → List Nat) (g : check_fn)
    (hf : ∀ f s, jump_tables_frame s (handler f s).2)
    (hg : ∀ s, cnt (handler g s).2.2 =
      (cnt s.2).set (current_func_idx s.1)
        (((cnt s.2).getD (current_func_idx s.1) 0 + 1) % 4294967296))
    (hng : ∀ f s, f ≠ g → cnt (handler f s).2.2 = cnt s.2) (fuel : Nat) :
    ∀ (vm : wrp_vm_t) (m : wrp_wasm_mdle_t),
      current_func_idx vm < (cnt m).length →
      (cnt m).getD (current_func_idx vm) 0 < 4294967296 →
      (∀ p f sp, (check_code_calls handler fuel (vm, m))[p]? = some (f, sp) →
        current_func_idx sp.1 = current_func_idx vm ∧
        sp.2.block_offsets = m.block_offsets ∧ sp.2.if_offsets = m.if_offsets ∧
        (cnt sp.2).getD (current_func_idx vm) 0 =
          ((cnt m).getD (current_func_idx vm) 0 +
            count_calls g ((check_code_calls handler fuel (vm, m)).take p)) % 4294967296) ∧
      (∀ r, check_code_loop handler fuel (vm, m) = some r →
        (cnt r.2.2).getD (current_func_idx vm) 0 =
          ((cnt m).getD (current_func_idx vm) 0 +
            count_calls g (check_code_calls handler fuel (vm, m))) % 4294967296 ∧
        (cnt r.2.2).length = (cnt m).length ∧
        (∀ j, j ≠ current_func_idx vm → (cnt r.2.2).getD j 0 = (cnt m).getD j 0)) := by
  induction fuel with
  | zero =>
    intro vm m _ _
    rw [(check_code_no_fuel handler (vm, m)).1, (check_code_no_fuel handler (vm, m)).2]
    exact ⟨fun p f sp h => (by rw [List.getElem?_nil] at h; cases h), fun r h => (by cases h)⟩
  | succ k ih =>
    intro vm m hlen hlt
    have hzero : (cnt m).getD (current_func_idx vm) 0 =
        ((cnt m).getD (current_func_idx vm) 0 + count_calls g []) % 4294967296 := by
      rw [count_calls_nil, Nat.add_zero, Nat.mod_eq_of_lt hlt]
    by_cases hpos : vm.opcode_stream.pos < vm.opcode_stream.sz
    · rcases check_code_step handler k vm m hpos with
        ⟨f, ⟨vm2, m2⟩, _, hs2, ⟨hl, hc⟩ | ⟨e, hl, hc⟩⟩ | ⟨hc, hl⟩
      · have hfr := hf f ({ vm with opcode_stream :=
          { vm.opcode_stream with pos := vm.opcode_stream.pos + 1 } }, m)
        have hst : (cnt m2).length = (cnt m).length ∧
            (cnt m2).getD (current_func_idx vm) 0 =
              ((cnt m).getD (current_func_idx vm) 0 + (if f = g then 1 else 0)) % 4294967296 ∧
            (∀ j, j ≠ current_func_idx vm → (cnt m2).getD j 0 = (cnt m).getD j 0) := by
          have h0 := count_step handler cnt g hg hng f ({ vm with opcode_stream :=
            { vm.opcode_stream with pos := vm.opcode_stream.pos + 1 } }, m) hlen hlt
          rw [hs2] at h0
          exact h0
        rw [hs2] at hfr
        have hcur : current_func_idx vm2 = current_func_idx vm := hfr.2.2.2.2
        have hbo : m2.block_offsets = m.block_offsets := hfr.2.1
        have hio : m2.if_offsets = m.if_offsets := hfr.2.2.1
        have hih := ih vm2 m2 (by rw [hcur, hst.1]; exact hlen)
          (by rw [hcur, hst.2.1]; exact Nat.mod_lt _ (by norm_num))
        rw [hcur] at hih
        rw [hc, hl]
        refine ⟨fun p f1 sp hp => ?_, fun r hr => ?_⟩
        · cases p with
          | zero =>
            rw [List.getElem?_cons_zero] at hp
            cases hp
            exact ⟨rfl, rfl, rfl, hzero⟩
          | succ q =>
            rw [List.getElem?_cons_succ] at hp
            have h1 := hih.1 q f1 sp hp
            rw [List.take_succ_cons, count_calls_cons, ← add_mod_step, ← hst.2.1]
            exact ⟨h1.1, h1.2.1.trans hbo, h1.2.2.1.trans hio, h1.2.2.2⟩
        · have h2 := hih.2 r hr
          rw [count_calls_cons, ← add_mod_step, ← hst.2.1]
          exact ⟨h2.1, h2.2.1.trans hst.1, fun j hj => (h2.2.2 j hj).trans (hst.2.2 j hj)⟩
      · have hst : (cnt m2).length = (cnt m).length ∧
            (cnt m2).getD (current_func_idx vm) 0 =
              ((cnt m).getD (current_func_idx vm) 0 + (if f = g then 1 else 0)) % 4294967296 ∧
            (∀ j, j ≠ current_func_idx vm → (cnt m2).getD j 0 = (cnt m).getD j 0) := by
          have h0 := count_step handler cnt g hg hng f ({ vm with opcode_stream :=
            { vm.opcode_stream with pos := vm.opcode_stream.pos + 1 } }, m) hlen hlt
          rw [hs2] at h0
          exact h0
        rw [hc, hl]
        refine ⟨fun p f1 sp hp => ?_, fun r hr => ?_⟩
        · cases p with
          | zero =>
            rw [List.getElem?_cons_zero] at hp
            cases hp
            exact ⟨rfl, rfl, rfl, hzero⟩
          | succ q =>
            rw [List.getElem?_cons_succ, List.getElem?_nil] at hp
            cases hp
        · cases hr
          rw [count_calls_cons, count_calls_nil, Nat.add_zero]
          exact ⟨hst.2.1, hst.1, hst.2.2⟩
      · rw [hc]
        refine ⟨fun p f1 sp hp => (by rw [List.getElem?_nil] at hp; cases hp), fun r hr => ?_⟩
        rcases hl with hl | hl
        · rw [hl] at hr
          cases hr
        · rw [hl] at hr
          cases hr
          exact ⟨hzero, rfl, fun _ _ => rfl⟩
    · rw [(check_code_at_end handler k (vm, m) hpos).1,
        (check_code_at_end handler k (vm, m) hpos).2]
      refine ⟨fun p f1 sp hp => (by rw [List.getElem?_nil] at hp; cases hp), fun r hr => ?_⟩
      cases hr
      exact ⟨hzero, rfl, fun _ _ => rfl⟩

/-- The calls for a function are those of the `while` loop entered behind the
pushes of the two frames, with the record as the assignments to the offsets
leave it; there are none when a push fails. -/
theorem check_func_calls_view
    (handler : check_fn → wrp_vm_t × wrp_wasm_mdle_t →
      Except wrp_err_t Unit × (wrp_vm_t × wrp_wasm_mdle_t))
    (fuel i : Nat) (s : wrp_vm_t × wrp_wasm_mdle_t) :
    check_func_calls handler fuel i s = [] ∨
    ∃ vm0, check_func_init i s =
        (wrp_err_t.WRP_SUCCESS, (vm0, if i > 0 then set_offsets i s.2 else s.2)) ∧
      current_func_idx vm0 = i ∧
      check_func_calls handler fuel i s =
        check_code_calls handler fuel (vm0, if i > 0 then set_offsets i s.2 else s.2) := by
  unfold check_func_calls
  rcases hinit : check_func_init i s with ⟨e0, ⟨vm0, m0⟩⟩
  have hi := check_func_init_success i s
  rw [hinit] at hi
  split
  · rename_i s0 heq
    cases heq
    obtain ⟨hmod, hcur⟩ := hi rfl
    dsimp only at hmod hcur
    subst hmod
    exact Or.inr ⟨vm0, rfl, hcur, rfl⟩
  · exact Or.inl rfl

theorem check_func_view
    (handler : check_fn → wrp_vm_t × wrp_wasm_mdle_t →
      Except wrp_err_t Unit × (wrp_vm_t × wrp_wasm_mdle_t))
    (fuel i : Nat) (s s1 : wrp_vm_t × wrp_wasm_mdle_t)
    (h : check_func handler fuel i s = some (wrp_err_t.WRP_SUCCESS, s1)) :
    ∃ vm0, check_func_init i s =
        (wrp_err_t.WRP_SUCCESS, (vm0, if i > 0 then set_offsets i s.2 else s.2)) ∧
      current_func_idx vm0 = i ∧
      check_code_loop handler fuel (vm0, if i > 0 then set_offsets i s.2 else s.2) =
        some (wrp_err_t.WRP_SUCCESS, s1) := by
  unfold check_func at h
  rcases hinit : check_func_init i s with ⟨e0, ⟨vm0, m0⟩⟩
  have hi := check_func_init_success i s
  rw [hinit] at h hi
  split at h
  · rename_i s0 heq
    cases heq
    obtain ⟨hmod, hcur⟩ := hi rfl
    dsimp only at hmod hcur
    subst hmod
    refine ⟨vm0, rfl, hcur, ?_⟩
    rcases hl : check_code_loop handler fuel
        (vm0, if i > 0 then set_offsets i s.2 else s.2) with _ | ⟨e1, s2⟩
    · rw [hl] at h
      cases h
    · rw [hl] at h
      split at h
      · cases h
      · rename_i e2 s3 heq2
        cases heq2
        have hs := check_code_end_state _ _ h
        dsimp only at hs
        rw [hs]
      · rename_i e2 s3 hne heq2
        cases heq2
        cases h
        exact absurd rfl hne
  · rename_i e s0a hne heq
    cases heq
    cases h
    exact absurd rfl hne

/-- The counts of a function along its validation, for the blocks (`cnt` the counts
of the blocks, `g` the handler `check_block`) and for the ifs. -/
theorem check_func_counts
    (handler : check_fn → wrp_vm_t × wrp_wasm_mdle_t →
      Except wrp_err_t Unit × (wrp_vm_t × wrp_wasm_mdle_t))
    (cnt : wrp_wasm_mdle_t → List Nat) (g : check_fn)
    (hf : ∀ f s, jump_tables_frame s (handler f s).2)
    (hg : ∀ s, cnt (handler g s).2.2 =
      (cnt s.2).set (current_func_idx s.1)
        (((cnt s.2).getD (current_func_idx s.1) 0 + 1) % 4294967296))
    (hng : ∀ f s, f ≠ g → cnt (handler f s).2.2 = cnt s.2)
    (hset : ∀ i m, cnt (set_offsets i m) = cnt m)
    (fuel i : Nat) (s : wrp_vm_t × wrp_wasm_mdle_t)
    (hlen : i < (cnt s.2).length) (hlt : (cnt s.2).getD i 0 < 4294967296) :
    (∀ p f sp, (check_func_calls handler fuel i s)[p]? = some (f, sp) →
      current_func_idx sp.1 = i ∧
      sp.2.block_offsets = (if i > 0 then set_offsets i s.2 else s.2).block_offsets ∧
      sp.2.if_offsets = (if i > 0 then set_offsets i s.2 else s.2).if_offsets ∧
      (cnt sp.2).getD i 0 =
        ((cnt s.2).getD i 0 +
          count_calls g ((check_func_calls handler fuel i s).take p)) % 4294967296) ∧
    (∀ s1, check_func handler fuel i s = some (wrp_err_t.WRP_SUCCESS, s1) →
      (cnt s1.2).getD i 0 =
        ((cnt s.2).getD i 0 + count_calls g (check_func_calls handler fuel i s)) % 4294967296 ∧
      (cnt s1.2).length = (cnt s.2).length ∧
      (∀ j, j ≠ i → (cnt s1.2).getD j 0 = (cnt s.2).getD j 0)) := by
  have hm0 : cnt (if i > 0 then set_offsets i s.2 else s.2) = cnt s.2 := by
    split
    · exact hset i s.2
    · rfl
  refine ⟨fun p f sp hp => ?_, fun s1 h => ?_⟩
  · rcases check_func_calls_view handler fuel i s with hnil | ⟨vm0, _, hcur, hcalls⟩
    · rw [hnil, List.getElem?_nil] at hp
      cases hp
    · rw [hcalls] at hp ⊢
      have hl := (check_code_loop_counts handler cnt g hf hg hng fuel vm0
        (if i > 0 then set_offsets i s.2 else s.2) (by rw [hcur, hm0]; exact hlen)
        (by rw [hcur, hm0]; exact hlt)).1 p f sp hp
      rw [hcur, hm0] at hl
      exact hl
  · obtain ⟨vm0, hinit, hcur, hloop⟩ := check_func_view handler fuel i s s1 h
    have hcalls : check_func_calls handler fuel i s =
        check_code_calls handler fuel (vm0, if i > 0 then set_offsets i s.2 else s.2) := by
      unfold check_func_calls
      rw [hinit]
    rw [hcalls]
    have hl := (check_code_loop_counts handler cnt g hf hg hng fuel vm0
      (if i > 0 then set_offsets i s.2 else s.2) (by rw [hcur, hm0]; exact hlen)
      (by rw [hcur, hm0]; exact hlt)).2 _ hloop
    rw [hcur, hm0] at hl
    exact hl

/-- The counts along the `for` loop of `wrp_type_check_mdle`, run from the function
`i0` on: the functions below `i0` keep their counts and offsets; for a function
`t` from `i0` on, the count behind the loop is the count at entry plus the
number of calls of `g` made for `t`, each call for `t` is made with `t` as the
current function, with the offsets that `t` has behind the loop, and with the
count at entry plus the number of earlier calls of `g` for `t`. -/
theorem check_funcs_counts
    (handler : check_fn → wrp_vm_t × wrp_wasm_mdle_t →
      Except wrp_err_t Unit × (wrp_vm_t × wrp_wasm_mdle_t))
    (cnt : wrp_wasm_mdle_t → List Nat) (g : check_fn)
    (hf : ∀ f s, jump_tables_frame s (handler f s).2)
    (hg : ∀ s, cnt (handler g s).2.2 =
      (cnt s.2).set (current_func_idx s.1)
        (((cnt s.2).getD (current_func_idx s.1) 0 + 1) % 4294967296))
    (hng : ∀ f s, f ≠ g → cnt (handler f s).2.2 = cnt s.2)
    (hset : ∀ i m, cnt (set_offsets i m) = cnt m) (fuel : Nat) :
    ∀ (n i0 : Nat) (s s1 : wrp_vm_t × wrp_wasm_mdle_t),
      check_funcs handler fuel n i0 s = some (wrp_err_t.WRP_SUCCESS, s1) →
      s.2.num_funcs ≤ (cnt s.2).length →
      (∀ j, (cnt s.2).getD j 0 < 4294967296) →
      (∀ t, t < i0 →
        (cnt s1.2).getD t 0 = (cnt s.2).getD t 0 ∧
        s1.2.block_offsets.getD t 0 = s.2.block_offsets.getD t 0 ∧
        s1.2.if_offsets.getD t 0 = s.2.if_offsets.getD t 0) ∧
      (∀ t, i0 ≤ t → t < s.2.num_funcs →
        (cnt s1.2).getD t 0 =
          ((cnt s.2).getD t 0 +
            count_calls g (check_funcs_calls handler fuel n i0 s t)) % 4294967296 ∧
        ∀ p f sp, (check_funcs_calls handler fuel n i0 s t)[p]? = some (f, sp) →
          current_func_idx sp.1 = t ∧
          sp.2.block_offsets.getD t 0 = s1.2.block_offsets.getD t 0 ∧
          sp.2.if_offsets.getD t 0 = s1.2.if_offsets.getD t 0 ∧
          (cnt sp.2).getD t 0 =
            ((cnt s.2).getD t 0 +
              count_calls g ((check_funcs_calls handler fuel n i0 s t).take p)) %
                4294967296) := by
  intro n
  induction n with
  | zero =>
    intro i0 s s1 h _ _
    unfold check_funcs at h
    split at h
    · cases h
    · rename_i hlt
      cases h
      exact ⟨fun _ _ => ⟨rfl, rfl, rfl⟩, fun t h1 h2 => absurd (lt_of_le_of_lt h1 h2) hlt⟩
  | succ n ih =>
    intro i0 s s1 h hlen hbound
    unfold check_funcs at h
    split at h
    · rename_i hlt
      rcases hfn : check_func handler fuel i0 s with _ | ⟨e1, s2⟩
      · rw [hfn] at h
        cases h
      · rw [hfn] at h
        split at h
        · cases h
        · rename_i e2 s3 heq
          cases heq
          obtain ⟨hn, hbo, hio, _⟩ := check_func_success handler hf fuel i0 s s2 hfn
          have hfc := check_func_counts handler cnt g hf hg hng hset fuel i0 s
            (lt_of_lt_of_le hlt hlen) (hbound i0)
          obtain ⟨hc2, hl2, hother⟩ := hfc.2 s2 hfn
          have hbound2 : ∀ j, (cnt s2.2).getD j 0 < 4294967296 := by
            intro j
            by_cases hj : j = i0
            · rw [hj, hc2]
              exact Nat.mod_lt _ (by norm_num)
            · rw [hother j hj]
              exact hbound j
          have hres := ih (i0 + 1) s2 s1 h (by rw [hn, hl2]; exact hlen) hbound2
          have hbo2 : ∀ t, t ≠ i0 →
              s2.2.block_offsets.getD t 0 = s.2.block_offsets.getD t 0 ∧
              s2.2.if_offsets.getD t 0 = s.2.if_offsets.getD t 0 := by
            intro t ht
            rw [hbo, hio]
            split
            · exact ⟨set_offsets_block_ne i0 t s.2 (Ne.symm ht),
                set_offsets_if_ne i0 t s.2 (Ne.symm ht)⟩
            · exact ⟨rfl, rfl⟩
          refine ⟨fun t ht => ?_, fun t ht1 ht2 => ?_⟩
          · have h1 := hres.1 t (by omega)
            have hne : t ≠ i0 := by omega
            exact ⟨h1.1.trans (hother t hne), h1.2.1.trans (hbo2 t hne).1,
              h1.2.2.trans (hbo2 t hne).2⟩
          · by_cases hti : i0 = t
            · subst hti
              have hcalls : check_funcs_calls handler fuel (n + 1) i0 s i0 =
                  check_func_calls handler fuel i0 s := by
                rw [check_funcs_calls, if_pos hlt, if_pos rfl]
              rw [hcalls]
              have h1 := hres.1 i0 (by omega)
              refine ⟨h1.1.trans hc2, fun p f sp hp => ?_⟩
              have h2 := hfc.1 p f sp hp
              refine ⟨h2.1, ?_, ?_, h2.2.2.2⟩
              · rw [h2.2.1, ← hbo]
                exact h1.2.1.symm
              · rw [h2.2.2.1, ← hio]
                exact h1.2.2.symm
            · have hcalls : check_funcs_calls handler fuel (n + 1) i0 s t =
                  check_funcs_calls handler fuel n (i0 + 1) s2 t := by
                rw [check_funcs_calls, if_pos hlt, if_neg hti, hfn]
              rw [hcalls]
              have h1 := hres.2 t (by omega) (by rw [hn]; exact ht2)
              rw [hother t (Ne.symm hti)] at h1
              exact h1
        · rename_i e2 s3 hne heq
          cases heq
          cases h
          exact absurd rfl hne
    · rename_i hlt
      cases h
      exact ⟨fun _ _ => ⟨rfl, rfl, rfl⟩, fun t h1 h2 => absurd (lt_of_le_of_lt h1 h2) hlt⟩

theorem check_code_calls_length
    (handler : check_fn → wrp_vm_t × wrp_wasm_mdle_t →
      Except wrp_err_t Unit × (wrp_vm_t × wrp_wasm_mdle_t)) (fuel : Nat) :
    ∀ s, (check_code_calls handler fuel s).length ≤ fuel := by
  induction fuel with
  | zero =>
    intro s
    rw [(check_code_no_fuel handler s).1]
    exact Nat.le_refl 0
  | succ k ih =>
    intro s
    obtain ⟨vm, m⟩ := s
    by_cases hpos : vm.opcode_stream.pos < vm.opcode_stream.sz
    · rcases check_code_step handler k vm m hpos with
        ⟨f, s2, _, _, ⟨_, hc⟩ | ⟨e, _, hc⟩⟩ | ⟨hc, _⟩
      · rw [hc, List.length_cons]
        exact Nat.succ_le_succ (ih s2)
      · rw [hc]
        exact Nat.succ_le_succ (Nat.zero_le k)
      · rw [hc]
        exact Nat.zero_le _
    · rw [(check_code_at_end handler k (vm, m) hpos).1]
      exact Nat.zero_le _

theorem check_func_calls_length
    (handler : check_fn → wrp_vm_t × wrp_wasm_mdle_t →
      Except wrp_err_t Unit × (wrp_vm_t × wrp_wasm_mdle_t)) (fuel i : Nat)
    (s : wrp_vm_t × wrp_wasm_mdle_t) :
    (check_func_calls handler fuel i s).length ≤ fuel := by
  rcases check_func_calls_view handler fuel i s with hnil | ⟨vm0, _, _, hcalls⟩
  · rw [hnil]
    exact Nat.zero_le _
  · rw [hcalls]
    exact check_code_calls_length handler fuel _

theorem check_funcs_calls_length
    (handler : check_fn → wrp_vm_t × wrp_wasm_mdle_t →
      Except wrp_err_t Unit × (wrp_vm_t × wrp_wasm_mdle_t)) (fuel : Nat) :
    ∀ (n i : Nat) (s : wrp_vm_t × wrp_wasm_mdle_t) (t : Nat),
      (check_funcs_calls handler fuel n i s t).length ≤ fuel := by
  intro n
  induction n with
  | zero =>
    intro i s t
    rw [check_funcs_calls]
    exact Nat.zero_le _
  | succ n ih =>
    intro i s t
    rw [check_funcs_calls]
    split
    · split
      · exact check_func_calls_length handler fuel i s
      · split
        · exact ih _ _ _
        · exact Nat.zero_le _
    · exact Nat.zero_le _

theorem count_calls_lt (g : check_fn) (fuel : Nat) (hfuel : fuel < 4294967296)
    (calls : List (check_fn × (wrp_vm_t × wrp_wasm_mdle_t))) (h : calls.length ≤ fuel) :
    (0 + count_calls g calls) % 4294967296 = count_calls g calls := by
  rw [Nat.zero_add]
  exact Nat.mod_eq_of_lt
    (lt_of_le_of_lt (le_trans (count_calls_le_length g calls) h) hfuel)

/-- The counts after `wrp_type_check_mdle`, for the blocks (`cnt` the counts of the
blocks, `g` the handler `check_block`) and for the ifs. -/
theorem wrp_type_check_mdle_counts
    (handler : check_fn → wrp_vm_t × wrp_wasm_mdle_t →
      Except wrp_err_t Unit × (wrp_vm_t × wrp_wasm_mdle_t))
    (cnt : wrp_wasm_mdle_t → List Nat) (g : check_fn)
    (hf : ∀ f s, jump_tables_frame s (handler f s).2)
    (hg : ∀ s, cnt (handler g s).2.2 =
      (cnt s.2).set (current_func_idx s.1)
        (((cnt s.2).getD (current_func_idx s.1) 0 + 1) % 4294967296))
    (hng : ∀ f s, f ≠ g → cnt (handler f s).2.2 = cnt s.2)
    (hset : ∀ i m, cnt (set_offsets i m) = cnt m) (fuel : Nat)
    (vm : wrp_vm_t) (out_mdle : wrp_wasm_mdle_t) (r : wrp_err_t × wrp_vm_t × wrp_wasm_mdle_t)
    (hlen : out_mdle.num_funcs ≤ (cnt out_mdle).length)
    (hbound : ∀ j, (cnt out_mdle).getD j 0 < 4294967296)
    (h : wrp_type_check_mdle handler fuel vm out_mdle = some r)
    (hs : r.1 = wrp_err_t.WRP_SUCCESS) :
    ∀ t, t < out_mdle.num_funcs →
      (cnt r.2.2).getD t 0 =
        ((cnt out_mdle).getD t 0 +
          count_calls g (wrp_type_check_mdle_calls handler fuel vm out_mdle t)) % 4294967296 ∧
      ∀ p f sp, (wrp_type_check_mdle_calls handler fuel vm out_mdle t)[p]? = some (f, sp) →
        current_func_idx sp.1 = t ∧
        sp.2.block_offsets.getD t 0 = r.2.2.block_offsets.getD t 0 ∧
        sp.2.if_offsets.getD t 0 = r.2.2.if_offsets.getD t 0 ∧
        (cnt sp.2).getD t 0 =
          ((cnt out_mdle).getD t 0 +
            count_calls g ((wrp_type_check_mdle_calls handler fuel vm out_mdle t).take p)) %
              4294967296 := by
  unfold wrp_type_check_mdle at h
  unfold wrp_type_check_mdle_calls
  split at h
  · cases h
  · rename_i s heq
    cases h
    intro t ht
    exact (check_funcs_counts handler cnt g hf hg hng hset fuel _ 0 _ s heq hlen hbound).2 t
      (Nat.zero_le t) ht
  · rename_i e s hne heq
    cases h
    exact absurd hs hne

/-- Each call of the trace is the call through `check_jump_table` at the opcode byte
that stands before the cursor of the state the handler is called on. -/
theorem check_code_calls_opcode
    (handler : check_fn → wrp_vm_t × wrp_wasm_mdle_t →
      Except wrp_err_t Unit × (wrp_vm_t × wrp_wasm_mdle_t)) (fuel : Nat) :
    ∀ (s : wrp_vm_t × wrp_wasm_mdle_t) (p : Nat) (f : check_fn)
      (sp : wrp_vm_t × wrp_wasm_mdle_t),
      (check_code_calls handler fuel s)[p]? = some (f, sp) →
      jump_table_call check_jump_table
        (sp.1.opcode_stream.bytes.getD (sp.1.opcode_stream.pos - 1) 0 % 256) = some f := by
  induction fuel with
  | zero =>
    intro s p f sp hp
    rw [(check_code_no_fuel handler s).1, List.getElem?_nil] at hp
    cases hp
  | succ k ih =>
    intro s p f sp hp
    obtain ⟨vm, m⟩ := s
    by_cases hpos : vm.opcode_stream.pos < vm.opcode_stream.sz
    · rcases check_code_step handler k vm m hpos with
        ⟨f1, s2, hj, _, ⟨_, hc⟩ | ⟨e, _, hc⟩⟩ | ⟨hc, _⟩
      · rw [hc] at hp
        cases p with
        | zero =>
          rw [List.getElem?_cons_zero] at hp
          cases hp
          exact hj
        | succ q =>
          rw [List.getElem?_cons_succ] at hp
          exact ih s2 q f sp hp
      · rw [hc] at hp
        cases p with
        | zero =>
          rw [List.getElem?_cons_zero] at hp
          cases hp
          exact hj
        | succ q =>
          rw [List.getElem?_cons_succ, List.getElem?_nil] at hp
          cases hp
      · rw [hc, List.getElem?_nil] at hp
        cases hp
    · rw [(check_code_at_end handler k (vm, m) hpos).1, List.getElem?_nil] at hp
      cases hp

theorem check_funcs_calls_opcode
    (handler : check_fn → wrp_vm_t × wrp_wasm_mdle_t →
      Except wrp_err_t Unit × (wrp_vm_t × wrp_wasm_mdle_t)) (fuel : Nat) :
    ∀ (n i : Nat) (s : wrp_vm_t × wrp_wasm_mdle_t) (t p : Nat) (f : check_fn)
      (sp : wrp_vm_t × wrp_wasm_mdle_t),
      (check_funcs_calls handler fuel n i s t)[p]? = some (f, sp) →
      jump_table_call check_jump_table
        (sp.1.opcode_stream.bytes.getD (sp.1.opcode_stream.pos - 1) 0 % 256) = some f := by
  intro n
  induction n with
  | zero =>
    intro i s t p f sp hp
    rw [check_funcs_calls, List.getElem?_nil] at hp
    cases hp
  | succ n ih =>
    intro i s t p f sp hp
    rw [check_funcs_calls] at hp
    split at hp
    · split at hp
      · rcases check_func_calls_view handler fuel i s with hnil | ⟨vm0, _, _, hcalls⟩
        · rw [hnil, List.getElem?_nil] at hp
          cases hp
        · rw [hcalls] at hp
          exact check_code_calls_opcode handler fuel _ p f sp hp
      · split at hp
        · exact ih _ _ _ _ _ _ hp
        · rw [List.getElem?_nil] at hp
          cases hp
    · rw [List.getElem?_nil] at hp
      cases hp

set_option maxRecDepth 100000 in
theorem check_jump_table_block_if_entries :
    ∀ i : Nat, i < 192 →
      (jump_table_entry check_jump_table i = some check_fn.check_block ↔ i = OP_BLOCK) ∧
      (jump_table_entry check_jump_table i = some check_fn.check_if ↔ i = OP_IF) := by
  decide

/-- The table calls `check_block` for the opcode `block` only and `check_if` for the
opcode `if` only. -/
theorem check_jump_table_block_if (b : Nat) :
    (jump_table_call check_jump_table b = some check_fn.check_block ↔ b = OP_BLOCK) ∧
    (jump_table_call check_jump_table b = some check_fn.check_if ↔ b = OP_IF) := by
  by_cases h : b < 192
  · rw [check_jump_table_call b h]
    exact check_jump_table_block_if_entries b h
  · unfold jump_table_call
    rw [check_jump_table_size, if_neg h]
    refine ⟨⟨fun h1 => (by cases h1), fun h1 => ?_⟩, ⟨fun h1 => (by cases h1), fun h1 => ?_⟩⟩
    · rw [h1] at h
      exact absurd (by decide) h
    · rw [h1] at h
      exact absurd (by decide) h

set_option maxRecDepth 100000 in
/-- The calls of `check_block` and of `check_if` while `mdle_two_funcs_example` is
validated: one block and one `if` in function `0`, one block and no `if` in
function `1`. -/
theorem wrp_type_check_mdle_calls_example :
    count_calls check_fn.check_block
        (wrp_type_check_mdle_calls (check_jump_table_handler 16) 10 vm_example
          mdle_two_funcs_example 0) = 1 ∧
    count_calls check_fn.check_if
        (wrp_type_check_mdle_calls (check_jump_table_handler 16) 10 vm_example
          mdle_two_funcs_example 0) = 1 ∧
    count_calls check_fn.check_block
        (wrp_type_check_mdle_calls (check_jump_table_handler 16) 10 vm_example
          mdle_two_funcs_example 1) = 1 ∧
    count_calls check_fn.check_if
        (wrp_type_check_mdle_calls (check_jump_table_handler 16) 10 vm_example
          mdle_two_funcs_example 1) = 0 :=
  ⟨by decide, by decide, by decide, by decide⟩

/-- C37: when `wrp_type_check_mdle` returns `WRP_SUCCESS` for a module record whose
offset and count tables have an entry for each function and hold `uint32_t`
values, then for every `i` with `i + 1 < num_funcs` the offsets of function
`i + 1` are the offsets of function `i` plus its counts in `uint32_t`
arithmetic, for the blocks and for the ifs, so they are the plain sums when
these are below `2^32`; if no sum wraps, the slots of a function `i` end at or
before the first slot of every later function `j`. `check_block` stores the
address of the opcode at the index `block_offsets[f] + block_counts[f]` of the
current function `f` and adds one to `block_counts[f]`, and `check_if` does so
with the tables of the ifs. For every function `i`, the count of the blocks
after validation is the count before it plus the number of calls of
`check_block` made while `i` was validated, and the count of the ifs is the
count before it plus the number of calls of `check_if`, in `uint32_t`
arithmetic; when the counts are zero before validation and the fuel is below
`2^32`, the counts are these numbers of calls. Each call made while `i` is
validated is made with `i` as the current function, with the offsets that `i`
has after validation, and with the counts before validation plus the numbers of
earlier calls of `check_block` and of `check_if` for `i`, so that the address
is stored at the offset of `i` plus the number of addresses already stored for
`i`; the handler called is the entry of `check_jump_table` for the opcode byte
before the cursor, and the table calls `check_block` for the opcode `block` only
and `check_if` for the opcode `if` only, so the calls counted are the `block`
and the `if` opcodes of the function. -/
theorem wrp_type_check_mdle_offsets_contract (MAX_BRANCH_TABLE_SIZE fuel : Nat)
    (vm : wrp_vm_t) (out_mdle : wrp_wasm_mdle_t) (r : wrp_err_t × wrp_vm_t × wrp_wasm_mdle_t)
    (hbl : out_mdle.num_funcs ≤ out_mdle.block_offsets.length)
    (hil : out_mdle.num_funcs ≤ out_mdle.if_offsets.length)
    (hbc : out_mdle.num_funcs ≤ out_mdle.block_counts.length)
    (hic : out_mdle.num_funcs ≤ out_mdle.if_counts.length)
    (hbu : ∀ j, out_mdle.block_counts.getD j 0 < 4294967296)
    (hiu : ∀ j, out_mdle.if_counts.getD j 0 < 4294967296)
    (h : wrp_type_check_mdle (check_jump_table_handler MAX_BRANCH_TABLE_SIZE) fuel vm out_mdle
      = some r)
    (hs : r.1 = wrp_err_t.WRP_SUCCESS) :
    (∀ i, i + 1 < out_mdle.num_funcs →
      r.2.2.block_offsets.getD (i + 1) 0 =
        (r.2.2.block_offsets.getD i 0 + r.2.2.block_counts.getD i 0) % 4294967296 ∧
      r.2.2.if_offsets.getD (i + 1) 0 =
        (r.2.2.if_offsets.getD i 0 + r.2.2.if_counts.getD i 0) % 4294967296) ∧
    (∀ i, i + 1 < out_mdle.num_funcs →
      (r.2.2.block_offsets.getD i 0 + r.2.2.block_counts.getD i 0 < 4294967296 →
        r.2.2.block_offsets.getD (i + 1) 0 =
          r.2.2.block_offsets.getD i 0 + r.2.2.block_counts.getD i 0) ∧
      (r.2.2.if_offsets.getD i 0 + r.2.2.if_counts.getD i 0 < 4294967296 →
        r.2.2.if_offsets.getD (i + 1) 0 =
          r.2.2.if_offsets.getD i 0 + r.2.2.if_counts.getD i 0)) ∧
    ((∀ k, k < out_mdle.num_funcs →
        r.2.2.block_offsets.getD k 0 + r.2.2.block_counts.getD k 0 < 4294967296 ∧
        r.2.2.if_offsets.getD k 0 + r.2.2.if_counts.getD k 0 < 4294967296) →
      ∀ i j, i < j → j < out_mdle.num_funcs →
        r.2.2.block_offsets.getD i 0 + r.2.2.block_counts.getD i 0 ≤
          r.2.2.block_offsets.getD j 0 ∧
        r.2.2.if_offsets.getD i 0 + r.2.2.if_counts.getD i 0 ≤ r.2.2.if_offsets.getD j 0) ∧
    (∀ s : wrp_vm_t × wrp_wasm_mdle_t,
      (check_block s).2.2.block_addresses =
        s.2.block_addresses.set
          ((s.2.block_offsets.getD (current_func_idx s.1) 0 +
            s.2.block_counts.getD (current_func_idx s.1) 0) % 4294967296)
          (size_pred s.1.opcode_stream.pos) ∧
      (check_block s).2.2.block_counts =
        s.2.block_counts.set (current_func_idx s.1)
          ((s.2.block_counts.getD (current_func_idx s.1) 0 + 1) % 4294967296) ∧
      (check_if s).2.2.if_addresses =
        s.2.if_addresses.set
          ((s.2.if_offsets.getD (current_func_idx s.1) 0 +
            s.2.if_counts.getD (current_func_idx s.1) 0) % 4294967296)
          (size_pred s.1.opcode_stream.pos) ∧
      (check_if s).2.2.if_counts =
        s.2.if_counts.set (current_func_idx s.1)
          ((s.2.if_counts.getD (current_func_idx s.1) 0 + 1) % 4294967296)) ∧
    (∀ i, i < out_mdle.num_funcs →
      r.2.2.block_counts.getD i 0 =
        (out_mdle.block_counts.getD i 0 +
          count_calls check_fn.check_block
            (wrp_type_check_mdle_calls (check_jump_table_handler MAX_BRANCH_TABLE_SIZE)
              fuel vm out_mdle i)) % 4294967296 ∧
      r.2.2.if_counts.getD i 0 =
        (out_mdle.if_counts.getD i 0 +
          count_calls check_fn.check_if
            (wrp_type_check_mdle_calls (check_jump_table_handler MAX_BRANCH_TABLE_SIZE)
              fuel vm out_mdle i)) % 4294967296) ∧
    (fuel < 4294967296 → ∀ i, i < out_mdle.num_funcs →
      (out_mdle.block_counts.getD i 0 = 0 →
        r.2.2.block_counts.getD i 0 =
          count_calls check_fn.check_block
            (wrp_type_check_mdle_calls (check_jump_table_handler MAX_BRANCH_TABLE_SIZE)
              fuel vm out_mdle i)) ∧
      (out_mdle.if_counts.getD i 0 = 0 →
        r.2.2.if_counts.getD i 0 =
          count_calls check_fn.check_if
            (wrp_type_check_mdle_calls (check_jump_table_handler MAX_BRANCH_TABLE_SIZE)
              fuel vm out_mdle i))) ∧
    (∀ i, i < out_mdle.num_funcs → ∀ p f sp,
      (wrp_type_check_mdle_calls (check_jump_table_handler MAX_BRANCH_TABLE_SIZE)
        fuel vm out_mdle i)[p]? = some (f, sp) →
      current_func_idx sp.1 = i ∧
      sp.2.block_offsets.getD i 0 = r.2.2.block_offsets.getD i 0 ∧
      sp.2.if_offsets.getD i 0 = r.2.2.if_offsets.getD i 0 ∧
      sp.2.block_counts.getD i 0 =
        (out_mdle.block_counts.getD i 0 +
          count_calls check_fn.check_block
            ((wrp_type_check_mdle_calls (check_jump_table_handler MAX_BRANCH_TABLE_SIZE)
              fuel vm out_mdle i).take p)) % 4294967296 ∧
      sp.2.if_counts.getD i 0 =
        (out_mdle.if_counts.getD i 0 +
          count_calls check_fn.check_if
            ((wrp_type_check_mdle_calls (check_jump_table_handler MAX_BRANCH_TABLE_SIZE)
              fuel vm out_mdle i).take p)) % 4294967296 ∧
      jump_table_call check_jump_table
        (sp.1.opcode_stream.bytes.getD (sp.1.opcode_stream.pos - 1) 0 % 256) = some f) ∧
    (∀ b : Nat,
      (jump_table_call check_jump_table b = some check_fn.check_block ↔ b = OP_BLOCK) ∧
      (jump_table_call check_jump_table b = some check_fn.check_if ↔ b = OP_IF)) := by
  have hp := wrp_type_check_mdle_prefix_sums _
    (check_jump_table_handler_frame MAX_BRANCH_TABLE_SIZE) fuel vm out_mdle r hbl hil h hs
  have hcb := wrp_type_check_mdle_counts (check_jump_table_handler MAX_BRANCH_TABLE_SIZE)
    wrp_wasm_mdle_t.block_counts check_fn.check_block
    (check_jump_table_handler_frame MAX_BRANCH_TABLE_SIZE) (fun _ => rfl)
    (fun f s hne => (check_jump_table_handler_counts MAX_BRANCH_TABLE_SIZE f s).1 hne)
    (fun i m => (set_offsets_rest i m).2.1) fuel vm out_mdle r hbc hbu h hs
  have hci := wrp_type_check_mdle_counts (check_jump_table_handler MAX_BRANCH_TABLE_SIZE)
    wrp_wasm_mdle_t.if_counts check_fn.check_if
    (check_jump_table_handler_frame MAX_BRANCH_TABLE_SIZE) (fun _ => rfl)
    (fun f s hne => (check_jump_table_handler_counts MAX_BRANCH_TABLE_SIZE f s).2 hne)
    (fun i m => (set_offsets_rest i m).2.2.1) fuel vm out_mdle r hic hiu h hs
  refine ⟨hp, ?_, ?_, fun s => ⟨rfl, rfl, rfl, rfl⟩, fun i hi => ⟨(hcb i hi).1, (hci i hi).1⟩,
    fun hfuel i hi => ⟨fun h0 => ?_, fun h0 => ?_⟩, fun i hi p f sp hsp => ?_,
    check_jump_table_block_if⟩
  · intro i hi
    refine ⟨fun hlt => ?_, fun hlt => ?_⟩
    · rw [(hp i hi).1, Nat.mod_eq_of_lt hlt]
    · rw [(hp i hi).2, Nat.mod_eq_of_lt hlt]
  · intro hb i j hij hj
    have hm := offsets_monotone out_mdle.num_funcs r.2.2 hp hb (j - i - 1) i (by omega)
    rw [show i + (j - i - 1) + 1 = j by omega] at hm
    exact hm
  · rw [(hcb i hi).1, h0]
    exact count_calls_lt _ fuel hfuel _ (check_funcs_calls_length _ fuel _ _ _ _)
  · rw [(hci i hi).1, h0]
    exact count_calls_lt _ fuel hfuel _ (check_funcs_calls_length _ fuel _ _ _ _)
  · have h1 := (hcb i hi).2 p f sp hsp
    have h2 := (hci i hi).2 p f sp hsp
    exact ⟨h1.1, h1.2.1, h1.2.2.1, h1.2.2.2, h2.2.2.2,
      check_funcs_calls_opcode _ fuel _ _ _ _ p f sp hsp⟩

/-- Witness of `wrp_type_check_mdle_offsets_contract`: after the validation of
`mdle_two_funcs_example` the offsets of function `1` are the sums of the offsets
and the counts of function `0`, and the count of the blocks of function `0` is
the number of calls of `check_block` made for it, which is `1`. -/
theorem wrp_type_check_mdle_offsets_contract_witness :
    ((wrp_type_check_mdle_stage 16 10 vm_example mdle_two_funcs_example).2.2.block_offsets.getD
        (0 + 1) 0 =
      ((wrp_type_check_mdle_stage 16 10 vm_example mdle_two_funcs_example).2.2.block_offsets.getD
          0 0 +
        (wrp_type_check_mdle_stage 16 10 vm_example mdle_two_funcs_example).2.2.block_counts.getD
          0 0) % 4294967296 ∧
    (wrp_type_check_mdle_stage 16 10 vm_example mdle_two_funcs_example).2.2.if_offsets.getD
        (0 + 1) 0 =
      ((wrp_type_check_mdle_stage 16 10 vm_example mdle_two_funcs_example).2.2.if_offsets.getD
          0 0 +
        (wrp_type_check_mdle_stage 16 10 vm_example mdle_two_funcs_example).2.2.if_counts.getD
          0 0) % 4294967296) ∧
    (wrp_type_check_mdle_stage 16 10 vm_example mdle_two_funcs_example).2.2.block_counts.getD
        0 0 = 1 :=
  have hc := wrp_type_check_mdle_offsets_contract 16 10 vm_example mdle_two_funcs_example
    (wrp_type_check_mdle_stage 16 10 vm_example mdle_two_funcs_example)
    (by decide) (by decide) (by decide) (by decide)
    (fun j => by rcases j with _ | _ | j <;> exact (by decide : (0 : Nat) < 4294967296))
    (fun j => by rcases j with _ | _ | j <;> exact (by decide : (0 : Nat) < 4294967296))
    wrp_type_check_mdle_two_funcs_example.1 wrp_type_check_mdle_two_funcs_example.2.1
  ⟨hc.1 0 (by decide),
    ((hc.2.2.2.2.2.1 (by decide) 0 (by decide)).1 rfl).trans
      wrp_type_check_mdle_calls_example.1⟩

/-! ## Steps that keep the opcode stream -/

theorem keeps_stream_fail {α : Type} (e : wrp_err_t) : keeps_stream (Exec.fail e : Exec α) :=
  fun _ => rfl

theorem reads_with_keeps_bind {α β : Type} (r : wrp_buf_t → Except wrp_err_t (α × wrp_buf_t))
    (m : Exec β) (k : β → Exec Unit) (hm : keeps_stream m) (hk : ∀ b, reads_with r (k b)) :
    reads_with r (m >>= k) := by
  intro vm hok
  rcases h : m vm with ⟨res, vm1⟩
  have h1 := hm vm
  rw [h] at h1
  cases res with
  | error e =>
    rw [bind_run_error _ _ _ _ _ h] at hok
    cases hok
  | ok b =>
    rw [bind_run_ok _ _ _ _ _ h] at hok ⊢
    rw [hk b vm1 hok]
    exact congrArg (stream_after r) h1

/-! ## The readers of the handlers with immediates -/

theorem exec_unreachable_op_keeps_stream : keeps_stream exec_unreachable_op :=
  keeps_stream_fail _

theorem exec_invalid_op_keeps_stream : keeps_stream exec_invalid_op :=
  keeps_stream_fail _

theorem exec_call_indirect_op_keeps_stream : keeps_stream exec_call_indirect_op :=
  keeps_stream_fail _

theorem exec_tee_local_op_keeps_stream : keeps_stream exec_tee_local_op :=
  keeps_stream_fail _

end Warp
